import Mathlib

/-!
# Text_analyser: frequency extraction, chi-squared classification, window driver

A shallow embedding of `freq_counter.h`, `buffer_analyser.h`, `chi_squared.h` and the
sliding-window loop of `text_analyser.c`.

Conventions of the embedding:

* A wide character (`wint_t`) is a natural number; a span `(buffer, length)` is the list of
  its `length` code points.
* `double` counters and scores are rational numbers: every counter only ever holds a value
  obtained from `0` by adding `1.0`, and the chi-squared arithmetic is read as exact
  arithmetic (rounding is outside the model). The two reported proportions are in addition
  evaluated in IEEE-754 binary64 arithmetic (`binary64`), since what is said of their sum
  depends on rounding.
* `uint32_t` arithmetic is arithmetic on naturals reduced modulo `2 ^ 32`.
* `size_t` indices are naturals; the input is an in-memory buffer, so `i + WINDOW_SIZE`
  stays far below `2 ^ 64`.
* The C library is a parameter (`Libc`): the locale's character classification and case
  mapping, and the outcome of every `malloc` request.
* A bucket chain (`next`-linked nodes) is the list of its nodes, head first; a table is a
  function from the bucket index to its chain.
-/

namespace TextAnalyser

/-! ## The C library -/

/-- The services of the C library used by the program. `malloc_ok n` tells whether the
`n`-th node allocation request (counted from `0`) returns a non-null pointer. The null wide
character is a control character in every locale, hence never alphabetic. -/
structure Libc where
  iswalpha : Nat → Bool
  iswspace : Nat → Bool
  towlower : Nat → Nat
  malloc_ok : Nat → Bool
  iswalpha_nul : iswalpha 0 = false

/-! ## freq_counter.h -/

/-- Constant `EPS` (`#define EPS 1e-6`). -/
def EPS : ℚ := 1 / 1000000

/-- Constant `TOTAL_BINS`: 26 base letters and 14 accented letters. -/
def TOTAL_BINS : Nat := 40

/-- Constant `HASH_TABLE_SIZE`: the number of buckets of each table. -/
def HASH_TABLE_SIZE : Nat := 1024

/-- The 14 accented lower-case letters of bins 26..39:
`â à ç ê é è ë ï î ô œ ü û ù`. -/
def ACCENTED_CHARS : List Nat :=
  [0xE2, 0xE0, 0xE7, 0xEA, 0xE9, 0xE8, 0xEB, 0xEF, 0xEE, 0xF4, 0x153, 0xFC, 0xFB, 0xF9]

/-- A `struct CharMapNode` without its `next` link. -/
structure CharMapNode where
  character : Nat
  count : ℚ

/-- The `struct CharMap`. -/
structure CharMap where
  table : Nat → List CharMapNode
  total_unique_chars : Int

/-- A `struct BigramNode` without its `next` link. -/
structure BigramNode where
  key : Nat
  count : ℚ

/-- The `struct BigramMap`. -/
structure BigramMap where
  table : Nat → List BigramNode
  total_unique_bigrams : Int
  total_bigrams : ℚ

/-- The `struct FrequencyData`. -/
structure FrequencyData where
  observed_freq : Nat → ℚ
  total_letters : ℚ
  total_words : ℚ
  all_char_map : CharMap
  bigram_map : BigramMap
  error_code : Int

/-- The all-zero `FrequencyData` produced by `memset(&data, 0, sizeof(FrequencyData))`. -/
def FrequencyData.zero : FrequencyData where
  observed_freq := fun _ => 0
  total_letters := 0
  total_words := 0
  all_char_map := { table := fun _ => [], total_unique_chars := 0 }
  bigram_map := { table := fun _ => [], total_unique_bigrams := 0, total_bigrams := 0 }
  error_code := 0

/-- The conversion `(uint32_t)x`. -/
def u32 (x : Nat) : Nat := x % 2 ^ 32

/-- Function `hash_key`: `key % HASH_TABLE_SIZE`. -/
def hash_key (key : Nat) : Nat := key % HASH_TABLE_SIZE

/-- The `for` loop of `map_letter_to_index` over `ACCENTED_CHARS[i..]`. -/
def accented_loop (lower : Nat) : List Nat → Nat → Int
  | [], _ => -1
  | c :: cs, i => if lower = c then 26 + (i : Int) else accented_loop lower cs (i + 1)

/-- Function `map_letter_to_index`: the bin `0..39` of a wide character, or `-1`. -/
def map_letter_to_index (E : Libc) (wc : Nat) : Int :=
  let lower := E.towlower wc
  if 0x61 ≤ lower ∧ lower ≤ 0x7A then ((lower - 0x61 : Nat) : Int)
  else accented_loop lower ACCENTED_CHARS 0

/-- Assignment `a[index] = v` on an array seen as a function of the index. -/
def store {α : Type} (a : Nat → α) (index : Nat) (v : α) : Nat → α :=
  fun j => if j = index then v else a j

/-- Function `process_letter_frequency`. -/
def process_letter_frequency (E : Libc) (wc : Nat) (data : FrequencyData) : FrequencyData :=
  if E.iswalpha wc then
    let index := map_letter_to_index E wc
    if index ≠ -1 then
      { data with
        observed_freq :=
          store data.observed_freq index.toNat (data.observed_freq index.toNat + 1)
        total_letters := data.total_letters + 1 }
    else data
  else data

/-- The search loop of `process_bigram_count` along one chain: the chain with the count of
the first node holding `key` incremented, or `none` when the loop runs off the end. -/
def bigram_chain_increment (key : Nat) : List BigramNode → Option (List BigramNode)
  | [] => none
  | n :: rest =>
    if n.key = key then some ({ n with count := n.count + 1 } :: rest)
    else (bigram_chain_increment key rest).map (fun r => n :: r)

/-- The key `((uint32_t)char1 << 16) | (uint32_t)char2`, in 32-bit unsigned arithmetic. -/
def bigram_key (char1 char2 : Nat) : Nat :=
  u32 (u32 char1 <<< 16) ||| u32 char2

/-- Function `process_bigram_count`; `heap` counts the allocation requests made so far. -/
def process_bigram_count (E : Libc) (wc_prev wc_curr : Nat) (data : FrequencyData)
    (heap : Nat) : FrequencyData × Nat :=
  if !E.iswalpha wc_prev || !E.iswalpha wc_curr then (data, heap)
  else
    let char1 := E.towlower wc_prev
    let char2 := E.towlower wc_curr
    let key := bigram_key char1 char2
    let index := hash_key key
    match bigram_chain_increment key (data.bigram_map.table index) with
    | some chain =>
      ({ data with
         bigram_map :=
           { data.bigram_map with
             table := store data.bigram_map.table index chain
             total_bigrams := data.bigram_map.total_bigrams + 1 } }, heap)
    | none =>
      if E.malloc_ok heap then
        ({ data with
           bigram_map :=
             { table := store data.bigram_map.table index
                 ({ key := key, count := 1 } :: data.bigram_map.table index)
               total_unique_bigrams := data.bigram_map.total_unique_bigrams + 1
               total_bigrams := data.bigram_map.total_bigrams + 1 } }, heap + 1)
      else (data, heap + 1)

/-- The search loop of `process_all_character_count` along one chain. -/
def char_chain_increment (c : Nat) : List CharMapNode → Option (List CharMapNode)
  | [] => none
  | n :: rest =>
    if n.character = c then some ({ n with count := n.count + 1 } :: rest)
    else (char_chain_increment c rest).map (fun r => n :: r)

/-- Function `process_all_character_count`; `heap` counts the allocation requests made so far. -/
def process_all_character_count (E : Libc) (wc : Nat) (data : FrequencyData)
    (heap : Nat) : FrequencyData × Nat :=
  let char_to_count := if E.iswalpha wc then E.towlower wc else wc
  let index := hash_key (u32 char_to_count)
  match char_chain_increment char_to_count (data.all_char_map.table index) with
  | some chain =>
    ({ data with
       all_char_map :=
         { data.all_char_map with table := store data.all_char_map.table index chain } },
     heap)
  | none =>
    if E.malloc_ok heap then
      ({ data with
         all_char_map :=
           { table := store data.all_char_map.table index
               ({ character := char_to_count, count := 1 } :: data.all_char_map.table index)
             total_unique_chars := data.all_char_map.total_unique_chars + 1 } }, heap + 1)
    else (data, heap + 1)

/-! ## buffer_analyser.h -/

/-- The local variables of `extract_frequencies_from_buffer` that live across iterations,
with the allocation-request counter. -/
structure ScanState where
  data : FrequencyData
  wc_prev : Nat
  in_word : Bool
  heap : Nat

/-- One iteration of the `for` loop of `extract_frequencies_from_buffer`, at index `i` on
the wide character `wc = buffer[i]`. -/
def scan_step (E : Libc) (i : Nat) (st : ScanState) (wc : Nat) : ScanState :=
  -- 1. word counting
  let is_word_char := E.iswalpha wc || wc == 0x27 || wc == 0x2D
  let d1 :=
    if is_word_char then
      if !st.in_word then { st.data with total_words := st.data.total_words + 1 }
      else st.data
    else st.data
  let in_word := is_word_char
  -- 2. letter histogram
  let d2 := if E.iswalpha wc then process_letter_frequency E wc d1 else d1
  -- 3. bigrams
  let r3 := if i > 0 then process_bigram_count E st.wc_prev wc d2 st.heap else (d2, st.heap)
  -- 4. all characters
  let r4 := if !E.iswspace wc then process_all_character_count E wc r3.1 r3.2 else r3
  { data := r4.1
    wc_prev := if E.iswalpha wc then wc else 0
    in_word := in_word
    heap := r4.2 }

/-- The `for` loop of `extract_frequencies_from_buffer` from index `i` on. -/
def scan_loop (E : Libc) : List Nat → Nat → ScanState → ScanState
  | [], _, st => st
  | wc :: rest, i, st => scan_loop E rest (i + 1) (scan_step E i st wc)

/-- Function `extract_frequencies_from_buffer(buffer, length)`, started with `heap` allocation
requests already made; returns the data and the new request count. -/
def extract_frequencies_from_buffer (E : Libc) (buffer : List Nat) (heap : Nat) :
    FrequencyData × Nat :=
  let st := scan_loop E buffer 0
    { data := FrequencyData.zero, wc_prev := 0, in_word := false, heap := heap }
  let data := if st.data.total_letters < 5 then { st.data with error_code := 1 } else st.data
  (data, st.heap)

/-! ## chi_squared.h -/

/-- Return value `LANG_ENG`. -/
def LANG_ENG : Int := 0

/-- Return value `LANG_FRE`. -/
def LANG_FRE : Int := 1

/-- Return value `LANG_ERROR`. -/
def LANG_ERROR : Int := -1

/-- Constant `TOP_BIGRAMS`: the number of reference bigrams per language. -/
def TOP_BIGRAMS : Nat := 20

/-- English reference percentages of the 40 bins. -/
def ENGLISH_FREQ : List ℚ :=
  [8.167, 1.492, 2.782, 4.253, 12.702, 2.228, 2.015, 6.094, 6.966, 0.153,
   0.772, 4.025, 2.406, 6.749, 7.507, 1.929, 0.095, 5.987, 6.327, 9.056,
   2.758, 0.978, 2.360, 0.150, 1.974, 0.074,
   EPS, EPS, EPS, EPS, EPS, EPS, EPS, EPS, EPS, EPS, EPS, EPS, EPS, EPS]

/-- French reference percentages of the 40 bins. -/
def FRENCH_FREQ : List ℚ :=
  [7.636, 0.901, 3.260, 3.669, 14.715, 1.066, 0.866, 0.737, 7.529, 0.545,
   0.049, 5.456, 2.804, 7.095, 5.378, 3.021, 1.362, 6.692, 8.140, 7.244,
   5.484, 1.087, 0.063, 0.417, 0.230, 0.121,
   0.057, 0.536, 0.854, 0.165, 1.955, 0.271, 0.125, 0.203, 0.053, 0.051,
   0.007, 0.063, 0.080, 0.060]

/-- The `BigramRef` record: a packed bigram key and its reference percentage. -/
structure BigramRef where
  key : Nat
  freq : ℚ

/-- The macro `MAKE_BIGRAM_KEY(c1, c2)`: `((uint32_t)L'c1' << 16) | (uint32_t)L'c2'`. -/
def MAKE_BIGRAM_KEY (c1 c2 : Char) : Nat :=
  u32 (u32 c1.toNat <<< 16) ||| u32 c2.toNat

/-- Top 20 English bigrams. -/
def ENGLISH_BIGRAM_FREQ : List BigramRef :=
  [⟨MAKE_BIGRAM_KEY 't' 'h', 3.49⟩, ⟨MAKE_BIGRAM_KEY 'h' 'e', 3.09⟩,
   ⟨MAKE_BIGRAM_KEY 'i' 'n', 2.43⟩, ⟨MAKE_BIGRAM_KEY 'e' 'r', 2.10⟩,
   ⟨MAKE_BIGRAM_KEY 'a' 'n', 2.01⟩, ⟨MAKE_BIGRAM_KEY 'r' 'e', 1.85⟩,
   ⟨MAKE_BIGRAM_KEY 'o' 'n', 1.71⟩, ⟨MAKE_BIGRAM_KEY 'a' 't', 1.49⟩,
   ⟨MAKE_BIGRAM_KEY 'n' 'd', 1.34⟩, ⟨MAKE_BIGRAM_KEY 't' 'i', 1.25⟩,
   ⟨MAKE_BIGRAM_KEY 'e' 's', 1.20⟩, ⟨MAKE_BIGRAM_KEY 'o' 'f', 1.18⟩,
   ⟨MAKE_BIGRAM_KEY 'e' 'n', 1.17⟩, ⟨MAKE_BIGRAM_KEY 'e' 'd', 1.16⟩,
   ⟨MAKE_BIGRAM_KEY 'i' 's', 1.13⟩, ⟨MAKE_BIGRAM_KEY 't' 'o', 1.09⟩,
   ⟨MAKE_BIGRAM_KEY 'o' 'u', 1.05⟩, ⟨MAKE_BIGRAM_KEY 'a' 'l', 1.04⟩,
   ⟨MAKE_BIGRAM_KEY 'c' 'e', 1.03⟩, ⟨MAKE_BIGRAM_KEY 's' 't', 1.01⟩]

/-- Top 20 French bigrams. -/
def FRENCH_BIGRAM_FREQ : List BigramRef :=
  [⟨MAKE_BIGRAM_KEY 'e' 's', 3.65⟩, ⟨MAKE_BIGRAM_KEY 'l' 'e', 2.62⟩,
   ⟨MAKE_BIGRAM_KEY 'd' 'e', 2.58⟩, ⟨MAKE_BIGRAM_KEY 'e' 'n', 2.37⟩,
   ⟨MAKE_BIGRAM_KEY 'l' 'a', 2.32⟩, ⟨MAKE_BIGRAM_KEY 'n' 't', 2.29⟩,
   ⟨MAKE_BIGRAM_KEY 'e' 'r', 2.13⟩, ⟨MAKE_BIGRAM_KEY 'o' 'n', 1.83⟩,
   ⟨MAKE_BIGRAM_KEY 'a' 'i', 1.79⟩, ⟨MAKE_BIGRAM_KEY 't' 'e', 1.77⟩,
   ⟨MAKE_BIGRAM_KEY 'q' 'u', 1.73⟩, ⟨MAKE_BIGRAM_KEY 'a' 's', 1.69⟩,
   ⟨MAKE_BIGRAM_KEY 'o' 'n', 1.57⟩, ⟨MAKE_BIGRAM_KEY 'e' 'l', 1.55⟩,
   ⟨MAKE_BIGRAM_KEY 'n' 's', 1.51⟩, ⟨MAKE_BIGRAM_KEY 'p' 'a', 1.48⟩,
   ⟨MAKE_BIGRAM_KEY 'r' 'e', 1.47⟩, ⟨MAKE_BIGRAM_KEY 'i' 'o', 1.45⟩,
   ⟨MAKE_BIGRAM_KEY 'e' 't', 1.44⟩, ⟨MAKE_BIGRAM_KEY 'v' 'o', 1.41⟩]

/-- The `while` loop of `calculate_bigram_chi` along one chain: the count of the first node
holding `ref_key`, or the initial `0.0` when the loop runs off the end. -/
def bigram_chain_lookup (ref_key : Nat) : List BigramNode → ℚ
  | [] => 0
  | n :: rest => if n.key = ref_key then n.count else bigram_chain_lookup ref_key rest

/-- One iteration of the `for` loop of `calculate_bigram_chi`. -/
def bigram_chi_step (map : BigramMap) (total_bigrams : ℚ) (chi : ℚ) (r : BigramRef) : ℚ :=
  let ref_key := r.key
  let ref_pct := r.freq
  let index := hash_key ref_key
  let observed_count := bigram_chain_lookup ref_key (map.table index)
  let expected_count := (ref_pct / 100) * total_bigrams
  let diff := observed_count - expected_count
  chi + (diff * diff) / (expected_count + EPS)

/-- Function `calculate_bigram_chi`. -/
def calculate_bigram_chi (map : BigramMap) (ref_freq : List BigramRef) : ℚ :=
  if map.total_bigrams < EPS then 99999
  else
    let chi := ref_freq.foldl (bigram_chi_step map map.total_bigrams) 0
    chi * (20 / 100)

/-- One iteration of the monograph loop shared by `perform_segment_test` and
`perform_final_analysis`; the accumulator is `(chi1_mono, chi2_mono)`. -/
def mono_step (data : FrequencyData) (total_letters_pct : ℚ) (chi : ℚ × ℚ) (i : Nat) :
    ℚ × ℚ :=
  let expected_eng := ENGLISH_FREQ.getD i 0 * total_letters_pct
  let expected_french := FRENCH_FREQ.getD i 0 * total_letters_pct
  let diff1 := data.observed_freq i - expected_eng
  let diff2 := data.observed_freq i - expected_french
  (chi.1 + (diff1 * diff1) / (expected_eng + EPS),
   chi.2 + (diff2 * diff2) / (expected_french + EPS))

/-- The monograph loop: `(chi1_mono, chi2_mono)` after the 40 bins. -/
def mono_loop (data : FrequencyData) : ℚ × ℚ :=
  (List.range TOTAL_BINS).foldl (mono_step data (data.total_letters / 100)) (0, 0)

/-- The combined English score `chi1_final` of `perform_segment_test`, the `double` sum read
as an exact rational sum; `chi1_final_binary64` is the rounded one. -/
def chi1_final (data : FrequencyData) : ℚ :=
  (mono_loop data).1 + calculate_bigram_chi data.bigram_map ENGLISH_BIGRAM_FREQ

/-- The combined French score `chi2_final` of `perform_segment_test`, the `double` sum read
as an exact rational sum; `chi2_final_binary64` is the rounded one. -/
def chi2_final (data : FrequencyData) : ℚ :=
  (mono_loop data).2 + calculate_bigram_chi data.bigram_map FRENCH_BIGRAM_FREQ

/-- Function `perform_segment_test`, its `double` arithmetic read as exact rational
arithmetic; `perform_segment_test_binary64` is the same function with every operation
rounded to binary64. -/
def perform_segment_test (data : FrequencyData) : Int :=
  if data.total_letters < 5 then LANG_ERROR
  else if chi1_final data < chi2_final data then LANG_ENG
  else LANG_FRE

/-! ## text_analyser.c: the sliding-window loop of `main` -/

/-- Constant `WINDOW_SIZE`. -/
def WINDOW_SIZE : Nat := 500

/-- Constant `OVERLAP_SIZE`. -/
def OVERLAP_SIZE : Nat := 400

/-- Constant `STEP_SIZE`: `WINDOW_SIZE - OVERLAP_SIZE`. -/
def STEP_SIZE : Nat := WINDOW_SIZE - OVERLAP_SIZE

/-- Constant `MIN_WINDOW_SIZE`. -/
def MIN_WINDOW_SIZE : Nat := 100

/-- What one processed window contributes to the output: the line
`Chars start-(start + window_size - 1): => ...` and the attribution it announces.
`lang_id` is `none` for a skipped window. -/
structure WindowReport where
  start : Nat
  window_size : Nat
  count_to_add : Nat
  error_code : Int
  lang_id : Option Int

/-- The variables of `main` that live across iterations of the window loop, the
allocation-request counter and the lines printed so far. -/
structure DriverState where
  eng_chars_from_segments : Nat
  fre_chars_from_segments : Nat
  heap : Nat
  log : List WindowReport

/-- The body of the `while (i < file_length)` loop of `main` at cursor `i`: `none` when the
body leaves the loop through one of its two `break`s, else the state after the body. -/
def window_body (E : Libc) (file_buffer : List Nat) (i : Nat) (st : DriverState) :
    Option DriverState :=
  let file_length := file_buffer.length
  let current_window_size :=
    if i + WINDOW_SIZE ≤ file_length then WINDOW_SIZE else file_length - i
  let count_to_add := if i + STEP_SIZE ≤ file_length then STEP_SIZE else file_length - i
  if current_window_size < MIN_WINDOW_SIZE then none
  else if count_to_add < 1 then none
  else
    let r := extract_frequencies_from_buffer E
      ((file_buffer.drop i).take current_window_size) st.heap
    let segment_data := r.1
    if segment_data.error_code = 0 then
      let lang_id := perform_segment_test segment_data
      let rep : WindowReport :=
        { start := i, window_size := current_window_size, count_to_add := count_to_add,
          error_code := segment_data.error_code, lang_id := some lang_id }
      if lang_id = LANG_ENG then
        some { st with
          eng_chars_from_segments := st.eng_chars_from_segments + count_to_add
          heap := r.2, log := st.log ++ [rep] }
      else if lang_id = LANG_FRE then
        some { st with
          fre_chars_from_segments := st.fre_chars_from_segments + count_to_add
          heap := r.2, log := st.log ++ [rep] }
      else some { st with heap := r.2, log := st.log ++ [rep] }
    else
      some { st with
        heap := r.2
        log := st.log ++
          [{ start := i, window_size := current_window_size,
             count_to_add := count_to_add, error_code := segment_data.error_code,
             lang_id := none }] }

/-- The `while (i < file_length)` loop of `main`, from cursor `i` on; the cursor advances
by `next_i = i + STEP_SIZE`. -/
def window_loop (E : Libc) (file_buffer : List Nat) (i : Nat) (st : DriverState) :
    DriverState :=
  if i < file_buffer.length then
    match window_body E file_buffer i st with
    | none => st
    | some st1 => window_loop E file_buffer (i + STEP_SIZE) st1
  else st
termination_by file_buffer.length - i
decreasing_by
  simp only [STEP_SIZE, WINDOW_SIZE, OVERLAP_SIZE]
  omega

/-! ## chi_squared.h: the final report -/

/-- The values `perform_final_analysis` computes and prints; `dominant` is the language
announced under `DOMINANT LANGUAGE OF TEXT`. -/
structure FinalReport where
  total_words : ℚ
  total_letters : ℚ
  chi1_mono : ℚ
  chi2_mono : ℚ
  chi1_bigram : ℚ
  chi2_bigram : ℚ
  chi1_final : ℚ
  chi2_final : ℚ
  eng_chars : Nat
  fre_chars : Nat
  prob_english : ℚ
  prob_french : ℚ
  dominant : Int

/-- Function `perform_final_analysis`, returning what it prints. -/
def perform_final_analysis (data : FrequencyData) (eng_chars fre_chars : Nat) :
    FinalReport :=
  let chi := mono_loop data
  let chi1_mono := chi.1
  let chi2_mono := chi.2
  let chi1_bigram := calculate_bigram_chi data.bigram_map ENGLISH_BIGRAM_FREQ
  let chi2_bigram := calculate_bigram_chi data.bigram_map FRENCH_BIGRAM_FREQ
  let chi1_final := chi1_mono + chi1_bigram
  let chi2_final := chi2_mono + chi2_bigram
  let total_seg_chars : ℚ := ((eng_chars + fre_chars : Nat) : ℚ)
  let prob_english :=
    if total_seg_chars > 0 then ((eng_chars : ℚ) / total_seg_chars) * 100 else 0
  let prob_french :=
    if total_seg_chars > 0 then ((fre_chars : ℚ) / total_seg_chars) * 100 else 0
  { total_words := data.total_words
    total_letters := data.total_letters
    chi1_mono := chi1_mono
    chi2_mono := chi2_mono
    chi1_bigram := chi1_bigram
    chi2_bigram := chi2_bigram
    chi1_final := chi1_final
    chi2_final := chi2_final
    eng_chars := eng_chars
    fre_chars := fre_chars
    prob_english := prob_english
    prob_french := prob_french
    dominant := if chi1_final < chi2_final then LANG_ENG else LANG_FRE }

/-! ## text_analyser.c: `main` -/

/-- Exit status `EXIT_SUCCESS`. -/
def EXIT_SUCCESS : Int := 0

/-- Exit status `EXIT_FAILURE`. -/
def EXIT_FAILURE : Int := 1

/-- What a run of `main` leaves behind: the exit status, the two tallies, the window lines
printed by the loop, the whole-document extraction and the final report (both absent when
the run stops before the analysis), and the allocation-request counter. -/
structure RunResult where
  exit_status : Int
  eng_chars_from_segments : Nat
  fre_chars_from_segments : Nat
  log : List WindowReport
  final_analysis_data : Option FrequencyData
  final_report : Option FinalReport
  heap : Nat

/-- Function `main` after `read_file_to_buffer`: `file` is the decoded buffer, `none` when
`read_file_to_buffer` returned `NULL` (unreadable or empty file, or failed conversion). -/
def main (E : Libc) (file : Option (List Nat)) (heap : Nat) : RunResult :=
  match file with
  | none =>
    { exit_status := EXIT_FAILURE, eng_chars_from_segments := 0,
      fre_chars_from_segments := 0, log := [], final_analysis_data := none,
      final_report := none, heap := heap }
  | some file_buffer =>
    if file_buffer.length < MIN_WINDOW_SIZE then
      { exit_status := EXIT_FAILURE, eng_chars_from_segments := 0,
        fre_chars_from_segments := 0, log := [], final_analysis_data := none,
        final_report := none, heap := heap }
    else
      let st := window_loop E file_buffer 0
        { eng_chars_from_segments := 0, fre_chars_from_segments := 0, heap := heap,
          log := [] }
      let r := extract_frequencies_from_buffer E file_buffer st.heap
      let final_analysis_data := r.1
      { exit_status := EXIT_SUCCESS
        eng_chars_from_segments := st.eng_chars_from_segments
        fre_chars_from_segments := st.fre_chars_from_segments
        log := st.log
        final_analysis_data := some final_analysis_data
        final_report := some (perform_final_analysis final_analysis_data
          st.eng_chars_from_segments st.fre_chars_from_segments)
        heap := r.2 }

/-! ## Concrete C libraries and specification-side counts -/

/-- The `"C"` locale with an allocator that never fails: the alphabetic characters are the
52 ASCII letters, the white-space characters are space and `\t \n \v \f \r`. -/
def asciiLibc : Libc where
  iswalpha := fun c => (0x41 ≤ c && c ≤ 0x5A) || (0x61 ≤ c && c ≤ 0x7A)
  iswspace := fun c => c == 0x20 || (0x09 ≤ c && c ≤ 0x0D)
  towlower := fun c => if 0x41 ≤ c && c ≤ 0x5A then c + 0x20 else c
  malloc_ok := fun _ => true
  iswalpha_nul := by decide

/-- The `"C"` locale with an allocator that has run out of memory. -/
def noMemLibc : Libc :=
  { asciiLibc with malloc_ok := fun _ => false }

/-- A fragment of a Unicode locale with an allocator that never fails: besides the ASCII
letters it knows the Cyrillic letters U+0410..U+044F and the Deseret letters
U+10400..U+1044F, upper case mapping to lower case by adding 0x20 and 0x28. -/
def unicodeLibc : Libc where
  iswalpha := fun c => (0x41 ≤ c && c ≤ 0x5A) || (0x61 ≤ c && c ≤ 0x7A) ||
    (0x410 ≤ c && c ≤ 0x44F) || (0x10400 ≤ c && c ≤ 0x1044F)
  iswspace := fun c => c == 0x20 || (0x09 ≤ c && c ≤ 0x0D)
  towlower := fun c =>
    if (0x41 ≤ c && c ≤ 0x5A) || (0x410 ≤ c && c ≤ 0x42F) then c + 0x20
    else if 0x10400 ≤ c && c ≤ 0x10427 then c + 0x28
    else c
  malloc_ok := fun _ => true
  iswalpha_nul := by decide

/-- Every allocation request succeeds. -/
def AllocOk (E : Libc) : Prop := ∀ n, E.malloc_ok n = true

/-- Number of positions `i` with `0 < i < length` such that `span[i-1]` and `span[i]` are
both alphabetic. -/
def adjacent_alpha_pairs (E : Libc) (span : List Nat) : Nat :=
  ((List.range span.length).filter (fun i =>
    decide (0 < i) && E.iswalpha (span.getD (i - 1) 0) && E.iswalpha (span.getD i 0))).length

/-- Sum of the 40 entries of `observed_freq`. -/
def histogram_sum (data : FrequencyData) : ℚ :=
  ∑ i in Finset.range TOTAL_BINS, data.observed_freq i

/-- A word character: alphabetic, apostrophe or hyphen. -/
def is_word_char (E : Libc) (wc : Nat) : Bool :=
  E.iswalpha wc || wc == 0x27 || wc == 0x2D

/-- Number of positions holding a word character whose predecessor is absent or is not a
word character. -/
def word_starts (E : Libc) (span : List Nat) : Nat :=
  ((List.range span.length).filter (fun i =>
    is_word_char E (span.getD i 0) &&
      (decide (i = 0) || !is_word_char E (span.getD (i - 1) 0)))).length

/-- Transition counter along a span: `q` classifies a code point, `t prev cur` tells whether
a position counts given the classes of its predecessor and of itself, `p` is the class
assumed before the first position. -/
def trans_count (q : Nat → Bool) (t : Bool → Bool → Bool) (p : Bool) : List Nat → Nat
  | [] => 0
  | c :: cs => (if t p (q c) then 1 else 0) + trans_count q t (q c) cs

/-- The state in which the scan of `extract_frequencies_from_buffer` starts. -/
def scan_init (heap : Nat) : ScanState :=
  { data := FrequencyData.zero, wc_prev := 0, in_word := false, heap := heap }

/-- Pair counter along a span: `t prev cur` tells whether a position counts given its
predecessor and itself; `p` stands for the predecessor of the first position. -/
def pair_count (t : Nat → Nat → Bool) (p : Nat) : List Nat → Nat
  | [] => 0
  | c :: cs => (if t p c then 1 else 0) + pair_count t c cs

/-- The count the bigram map holds for `key`: that of the node found under `key` in the
bucket of `key`, or 0 if there is none. -/
def bigram_count (m : BigramMap) (key : Nat) : ℚ :=
  bigram_chain_lookup key (m.table (hash_key key))

/-- The test of `process_bigram_count` for touching the map at all. -/
def both_alpha (E : Libc) (p c : Nat) : Bool :=
  E.iswalpha p && E.iswalpha c

/-- Both code points are alphabetic and their case-folded pair packs to `key`. -/
def packs_to (E : Libc) (key : Nat) (p c : Nat) : Bool :=
  E.iswalpha p && E.iswalpha c && (bigram_key (E.towlower p) (E.towlower c) == key)

/-- Number of positions where a code point folding to `a` is immediately followed by a code
point folding to `b`, both alphabetic. -/
def folded_pair_positions (E : Libc) (a b : Nat) (span : List Nat) : Nat :=
  ((List.range span.length).filter (fun i =>
    decide (0 < i) && E.iswalpha (span.getD (i - 1) 0) && E.iswalpha (span.getD i 0) &&
      (E.towlower (span.getD (i - 1) 0) == a) && (E.towlower (span.getD i 0) == b))).length

/-- Lookup along one chain of the character map: the count of the first node holding `c`,
or 0 if there is none. -/
def char_chain_lookup (c : Nat) : List CharMapNode → ℚ
  | [] => 0
  | n :: rest => if n.character = c then n.count else char_chain_lookup c rest

/-- The count stored for `c` in the character map: that of the node holding `c` in the
bucket of `c`, or 0 if there is no entry. -/
def char_count (m : CharMap) (c : Nat) : ℚ :=
  char_chain_lookup c (m.table (hash_key (u32 c)))

/-- The key under which `process_all_character_count` counts `wc`: lower-cased if
alphabetic, unchanged otherwise. -/
def char_to_count (E : Libc) (wc : Nat) : Nat :=
  if E.iswalpha wc then E.towlower wc else wc

/-- Number of non-whitespace positions of the span whose code point, lower-cased if
alphabetic and unchanged otherwise, equals `k`. -/
def char_positions (E : Libc) (k : Nat) (span : List Nat) : Nat :=
  span.countP (fun wc => !E.iswspace wc && (char_to_count E wc == k))

/-- The monograph sum of the specification for one reference table: over the 40 bins,
`(observed - expected)^2 / (expected + 1e-6)` with
`expected = reference_percentage * total_letters / 100`. -/
def spec_mono_sum (ref : List ℚ) (data : FrequencyData) : ℚ :=
  ∑ i in Finset.range 40,
    (data.observed_freq i - ref.getD i 0 * data.total_letters / 100) ^ 2 /
      (ref.getD i 0 * data.total_letters / 100 + 1 / 1000000)

/-- The bigram sum of the specification for one reference table: over its reference bigrams,
`(observed - expected)^2 / (expected + 1e-6)` with
`expected = reference_percentage * total_bigrams / 100`, the observed count being the one
held by the map for the reference key. -/
def spec_bigram_sum (refs : List BigramRef) (data : FrequencyData) : ℚ :=
  (refs.map (fun r =>
    (bigram_count data.bigram_map r.key - r.freq * data.bigram_map.total_bigrams / 100) ^ 2 /
      (r.freq * data.bigram_map.total_bigrams / 100 + 1 / 1000000))).sum

/-- The combined score without the sentinel: monograph sum plus 0.20 times the bigram
sum. -/
def spec_combined_unguarded (ref : List ℚ) (refs : List BigramRef) (data : FrequencyData) : ℚ :=
  spec_mono_sum ref data + (20 / 100) * spec_bigram_sum refs data

/-- The bigram score with the sentinel: 99999 when `total_bigrams < 1e-6`, else 0.20 times
the bigram sum. -/
def spec_bigram_score (refs : List BigramRef) (data : FrequencyData) : ℚ :=
  if data.bigram_map.total_bigrams < 1 / 1000000 then 99999
  else (20 / 100) * spec_bigram_sum refs data

/-- The combined score with the sentinel. -/
def spec_combined (ref : List ℚ) (refs : List BigramRef) (data : FrequencyData) : ℚ :=
  spec_mono_sum ref data + spec_bigram_score refs data

/-- The test of `process_letter_frequency` for counting `wc`: alphabetic and mapped to a
bin. -/
def counted_letter (E : Libc) (wc : Nat) : Bool :=
  E.iswalpha wc && decide (map_letter_to_index E wc ≠ -1)

/-- The span `"a b c d e"`: five letters, no two of them adjacent. -/
def span_abcde : List Nat := [0x61, 0x20, 0x62, 0x20, 0x63, 0x20, 0x64, 0x20, 0x65]

/-- The geometry of a processed window: start, window length, attribution length. -/
def WindowReport.geometry (r : WindowReport) : Nat × Nat × Nat :=
  (r.start, r.window_size, r.count_to_add)

/-- The state in which `main` enters the window loop. -/
def driver_init (heap : Nat) : DriverState :=
  { eng_chars_from_segments := 0, fre_chars_from_segments := 0, heap := heap, log := [] }

/-- The states of the window loop of `main` on `file_buffer`: `DriverReach E buf heap i st`
says that the loop reaches its test with cursor `i` and variables `st`. -/
inductive DriverReach (E : Libc) (file_buffer : List Nat) (heap : Nat) :
    Nat → DriverState → Prop
  | entry : DriverReach E file_buffer heap 0 (driver_init heap)
  | iterate {i : Nat} {st st1 : DriverState} :
      DriverReach E file_buffer heap i st → i < file_buffer.length →
      window_body E file_buffer i st = some st1 →
      DriverReach E file_buffer heap (i + STEP_SIZE) st1

/-- The test of `process_letter_frequency` for incrementing bin `k` on `wc`. -/
def bin_hit (E : Libc) (k : Nat) (wc : Nat) : Bool :=
  E.iswalpha wc && (map_letter_to_index E wc == (k : Int))

/-- The letter of bin `k`, as `print_letter_histogram` lists it: `'a' + k` below 26, else
`ACCENTED_CHARS[k - 26]`. -/
def bin_letter (k : Nat) : Nat :=
  if k < 26 then 0x61 + k else ACCENTED_CHARS.getD (k - 26) 0

/-- The `"C"` locale with an arbitrary allocator. -/
def asciiLibcWith (malloc_ok : Nat → Bool) : Libc :=
  { asciiLibc with malloc_ok := malloc_ok }

/-- The span `"the the the the the"`. -/
def span_the5 : List Nat :=
  [0x74, 0x68, 0x65, 0x20, 0x74, 0x68, 0x65, 0x20, 0x74, 0x68, 0x65, 0x20, 0x74, 0x68, 0x65,
   0x20, 0x74, 0x68, 0x65]

/-- The packed keys of the positions of a span at which `process_bigram_count` passes its
alphabetic test, in scan order; `p` stands for the predecessor of the first position. -/
def bigram_events (E : Libc) (p : Nat) : List Nat → List Nat
  | [] => []
  | c :: cs =>
    (if both_alpha E p c then [bigram_key (E.towlower p) (E.towlower c)] else []) ++
      bigram_events E c cs

/-! ## Binary64 rounding -/

/-- Rounding of a rational to the nearest integer, ties to the even one. -/
def round_half_even (y : ℚ) : ℤ :=
  if y - ⌊y⌋ < 1 / 2 then ⌊y⌋
  else if 1 / 2 < y - ⌊y⌋ then ⌊y⌋ + 1
  else if ⌊y⌋ % 2 = 0 then ⌊y⌋ else ⌊y⌋ + 1

/-- The exponent of the unit in the last place of a positive rational seen as a binary64
number with 53 significant bits. -/
def ulp_exponent (x : ℚ) : ℤ := Int.log 2 x - 52

/-- The IEEE-754 binary64 value nearest to a rational (round to nearest, ties to even), for
values in the normal range, where the exponent is not limited. -/
def binary64 (x : ℚ) : ℚ :=
  if x = 0 then 0
  else if 0 < x then (round_half_even (x / 2 ^ ulp_exponent x) : ℚ) * 2 ^ ulp_exponent x
  else -((round_half_even (-x / 2 ^ ulp_exponent (-x)) : ℚ) * 2 ^ ulp_exponent (-x))

/-- The expression `((double)eng_chars / total_seg_chars) * 100.0` of
`perform_final_analysis`, guarded by `total_seg_chars > 0.0`, evaluated in binary64
arithmetic: every conversion and every operation is rounded. -/
def prob_english_binary64 (eng_chars fre_chars : Nat) : ℚ :=
  let total_seg_chars := binary64 ((eng_chars + fre_chars : Nat) : ℚ)
  if total_seg_chars > 0 then
    binary64 (binary64 (binary64 (eng_chars : ℚ) / total_seg_chars) * 100)
  else 0

/-- The expression `((double)fre_chars / total_seg_chars) * 100.0`, evaluated in binary64
arithmetic. -/
def prob_french_binary64 (eng_chars fre_chars : Nat) : ℚ :=
  let total_seg_chars := binary64 ((eng_chars + fre_chars : Nat) : ℚ)
  if total_seg_chars > 0 then
    binary64 (binary64 (binary64 (fre_chars : ℚ) / total_seg_chars) * 100)
  else 0

/-- All nodes of the bigram map: the chains of buckets `0 .. HASH_TABLE_SIZE - 1`, in order. -/
def bigram_nodes (m : BigramMap) : List BigramNode :=
  (List.range HASH_TABLE_SIZE).flatMap m.table

/-- All nodes of the character map: the chains of buckets `0 .. HASH_TABLE_SIZE - 1`, in
order. -/
def char_nodes (m : CharMap) : List CharMapNode :=
  (List.range HASH_TABLE_SIZE).flatMap m.table

/-- Bucket-wise invariant of the bigram map: every node sits in the bucket of its key, the
keys of a chain are pairwise distinct, every count is at least 1, and the two totals are the
sums over the buckets of the chain lengths and of the chain counts. -/
def BigramInv (m : BigramMap) : Prop :=
  (∀ j, ∀ n ∈ m.table j, j = hash_key n.key) ∧
  (∀ j, ((m.table j).map BigramNode.key).Nodup) ∧
  (∀ j, ∀ n ∈ m.table j, 1 ≤ n.count) ∧
  m.total_unique_bigrams =
    (((List.range HASH_TABLE_SIZE).map (fun j => (m.table j).length)).sum : ℕ) ∧
  m.total_bigrams =
    ((List.range HASH_TABLE_SIZE).map (fun j => ((m.table j).map BigramNode.count).sum)).sum

/-- Bucket-wise invariant of the character map: every node sits in the bucket of its code
point, the code points of a chain are pairwise distinct, every count is at least 1, and
`total_unique_chars` is the sum over the buckets of the chain lengths. -/
def CharInv (m : CharMap) : Prop :=
  (∀ j, ∀ n ∈ m.table j, j = hash_key (u32 n.character)) ∧
  (∀ j, ((m.table j).map CharMapNode.character).Nodup) ∧
  (∀ j, ∀ n ∈ m.table j, 1 ≤ n.count) ∧
  m.total_unique_chars =
    (((List.range HASH_TABLE_SIZE).map (fun j => (m.table j).length)).sum : ℕ)

/-- The span ends with an alphabetic code point. -/
def ends_alpha (E : Libc) (s : List Nat) : Bool :=
  match s.getLast? with
  | some a => E.iswalpha a
  | none => false

/-- The span begins with an alphabetic code point. -/
def begins_alpha (E : Libc) (t : List Nat) : Bool :=
  match t.head? with
  | some b => E.iswalpha b
  | none => false

/-! ## chi_squared.h: `perform_segment_test` in binary64 arithmetic -/

/-- One iteration of the monograph loop of `perform_segment_test` in binary64 arithmetic:
the table entries and `EPS` are the doubles nearest to the written decimals, and every
multiplication, subtraction, addition and division is rounded; the accumulator is
`(chi1_mono, chi2_mono)`. -/
def mono_step_binary64 (data : FrequencyData) (total_letters_pct : ℚ) (chi : ℚ × ℚ) (i : Nat) :
    ℚ × ℚ :=
  let expected_eng := binary64 (binary64 (ENGLISH_FREQ.getD i 0) * total_letters_pct)
  let expected_french := binary64 (binary64 (FRENCH_FREQ.getD i 0) * total_letters_pct)
  let diff1 := binary64 (data.observed_freq i - expected_eng)
  let diff2 := binary64 (data.observed_freq i - expected_french)
  (binary64 (chi.1 + binary64 (binary64 (diff1 * diff1) / binary64 (expected_eng + binary64 EPS))),
   binary64 (chi.2 +
     binary64 (binary64 (diff2 * diff2) / binary64 (expected_french + binary64 EPS))))

/-- The monograph loop in binary64 arithmetic: `(chi1_mono, chi2_mono)` after the 40 bins,
with `total_letters_pct = data->total_letters / 100.0` rounded. -/
def mono_loop_binary64 (data : FrequencyData) : ℚ × ℚ :=
  (List.range TOTAL_BINS).foldl
    (mono_step_binary64 data (binary64 (data.total_letters / 100))) (0, 0)

/-- One iteration of the `for` loop of `calculate_bigram_chi` in binary64 arithmetic. -/
def bigram_chi_step_binary64 (map : BigramMap) (total_bigrams : ℚ) (chi : ℚ) (r : BigramRef) :
    ℚ :=
  let ref_key := r.key
  let ref_pct := binary64 r.freq
  let index := hash_key ref_key
  let observed_count := bigram_chain_lookup ref_key (map.table index)
  let expected_count := binary64 (binary64 (ref_pct / 100) * total_bigrams)
  let diff := binary64 (observed_count - expected_count)
  binary64 (chi + binary64 (binary64 (diff * diff) / binary64 (expected_count + binary64 EPS)))

/-- Function `calculate_bigram_chi` in binary64 arithmetic. -/
def calculate_bigram_chi_binary64 (map : BigramMap) (ref_freq : List BigramRef) : ℚ :=
  if map.total_bigrams < binary64 EPS then 99999
  else
    let chi := ref_freq.foldl (bigram_chi_step_binary64 map map.total_bigrams) 0
    binary64 (chi * binary64 (20 / 100))

/-- The combined English score `chi1_final = chi1_mono + chi1_bigram` of
`perform_segment_test` in binary64 arithmetic. -/
def chi1_final_binary64 (data : FrequencyData) : ℚ :=
  binary64 ((mono_loop_binary64 data).1 +
    calculate_bigram_chi_binary64 data.bigram_map ENGLISH_BIGRAM_FREQ)

/-- The combined French score `chi2_final = chi2_mono + chi2_bigram` of
`perform_segment_test` in binary64 arithmetic. -/
def chi2_final_binary64 (data : FrequencyData) : ℚ :=
  binary64 ((mono_loop_binary64 data).2 +
    calculate_bigram_chi_binary64 data.bigram_map FRENCH_BIGRAM_FREQ)

/-- Function `perform_segment_test` in binary64 arithmetic: the source's comparison of the
two `double` sums, each operation rounded to the nearest binary64 number. -/
def perform_segment_test_binary64 (data : FrequencyData) : Int :=
  if data.total_letters < 5 then LANG_ERROR
  else if chi1_final_binary64 data < chi2_final_binary64 data then LANG_ENG
  else LANG_FRE

/-! ## Specification-side scores in binary64 arithmetic, and the text `span_tie` -/

/-- The chi-squared term `(observed - expected)^2 / (expected + 1e-6)` as computed in double
arithmetic: the difference, its square, the denominator and the quotient are each rounded. -/
def chi_term_binary64 (observed expected : ℚ) : ℚ :=
  binary64 (binary64 (binary64 (observed - expected) * binary64 (observed - expected)) /
    binary64 (expected + binary64 (1 / 1000000)))

/-- The monograph sum of the specification for one reference table, as computed in double
arithmetic: the terms of the 40 bins, with
`expected = reference_percentage * (total_letters / 100)`, are added one by one to a
running sum that starts at 0. -/
def spec_mono_sum_binary64 (ref : List ℚ) (data : FrequencyData) : ℚ :=
  (List.range 40).foldl (fun chi i =>
    binary64 (chi + chi_term_binary64 (data.observed_freq i)
      (binary64 (binary64 (ref.getD i 0) * binary64 (data.total_letters / 100))))) 0

/-- The bigram score of the specification with the sentinel, as computed in double
arithmetic: 99999 when `total_bigrams < 1e-6`, else the running sum over the reference
bigrams, with `expected = (reference_percentage / 100) * total_bigrams`, times 0.20. -/
def spec_bigram_score_binary64 (refs : List BigramRef) (data : FrequencyData) : ℚ :=
  if data.bigram_map.total_bigrams < binary64 (1 / 1000000) then 99999
  else
    binary64 (refs.foldl (fun chi r =>
      binary64 (chi + chi_term_binary64 (bigram_count data.bigram_map r.key)
        (binary64 (binary64 (binary64 r.freq / 100) * data.bigram_map.total_bigrams)))) 0 *
      binary64 (20 / 100))

/-- The combined score of the specification with the sentinel, as computed in double
arithmetic: the rounded sum of the monograph sum and the bigram score. -/
def spec_combined_binary64 (ref : List ℚ) (refs : List BigramRef) (data : FrequencyData) : ℚ :=
  binary64 (spec_mono_sum_binary64 ref data + spec_bigram_score_binary64 refs data)

/-- A 100-character text of 40 single-letter words: each letter is followed by a blank, so
no two letters are adjacent. -/
def span_tie : List Nat :=
  [0x61, 0x20, 0x61, 0x20, 0x62, 0x20, 0x62, 0x20, 0x62, 0x20, 0x63, 0x20,
   0x64, 0x20, 0x65, 0x20, 0x66, 0x20, 0x66, 0x20, 0x67, 0x20, 0x69, 0x20,
   0x69, 0x20, 0x6A, 0x20, 0x6A, 0x20, 0x6A, 0x20, 0x6B, 0x20, 0x6C, 0x20,
   0x6C, 0x20, 0x6C, 0x20, 0x6E, 0x20, 0x6E, 0x20, 0x6E, 0x20, 0x6E, 0x20,
   0x6F, 0x20, 0x70, 0x20, 0x71, 0x20, 0x72, 0x20, 0x72, 0x20, 0x73, 0x20,
   0x73, 0x20, 0x74, 0x20, 0x76, 0x20, 0x77, 0x20, 0x77, 0x20, 0x78, 0x20,
   0x78, 0x20, 0x79, 0x20, 0x7A, 0x20, 0x7A, 0x20, 0x20, 0x20, 0x20, 0x20,
   0x20, 0x20, 0x20, 0x20, 0x20, 0x20, 0x20, 0x20, 0x20, 0x20, 0x20, 0x20,
   0x20, 0x20, 0x20, 0x20]

/-- The letter histogram of `span_tie`: the number of occurrences of the letter of each
bin. -/
def tie_hist : List Nat :=
  [2, 3, 1, 1, 1, 2, 1, 0, 2, 3, 1, 3, 0, 4, 1, 1, 1, 2, 2, 1,
   0, 1, 2, 2, 1, 2, 0, 0, 0, 0, 0, 0, 0, 0, 0, 0, 0, 0, 0, 0]

/-! ## Frame lemmas: which fields each operation touches -/

section Frame

variable (E : Libc)

theorem store_eq_update {α : Type} (a : Nat → α) (k : Nat) (v : α) :
    store a k v = Function.update a k v := by
  funext j
  by_cases h : j = k <;> simp [store, Function.update, h]

theorem letter_bigram_map (wc : Nat) (d : FrequencyData) :
    (process_letter_frequency E wc d).bigram_map = d.bigram_map := by
  unfold process_letter_frequency
  dsimp only
  split_ifs <;> rfl

theorem letter_all_char_map (wc : Nat) (d : FrequencyData) :
    (process_letter_frequency E wc d).all_char_map = d.all_char_map := by
  unfold process_letter_frequency
  dsimp only
  split_ifs <;> rfl

theorem letter_total_words (wc : Nat) (d : FrequencyData) :
    (process_letter_frequency E wc d).total_words = d.total_words := by
  unfold process_letter_frequency
  dsimp only
  split_ifs <;> rfl

theorem bigram_observed_freq (p c : Nat) (d : FrequencyData) (h : Nat) :
    (process_bigram_count E p c d h).1.observed_freq = d.observed_freq := by
  unfold process_bigram_count
  dsimp only
  split_ifs <;> try rfl
  all_goals (split <;> try rfl)

theorem bigram_total_letters (p c : Nat) (d : FrequencyData) (h : Nat) :
    (process_bigram_count E p c d h).1.total_letters = d.total_letters := by
  unfold process_bigram_count
  dsimp only
  split_ifs <;> try rfl
  all_goals (split <;> try rfl)

theorem bigram_total_words (p c : Nat) (d : FrequencyData) (h : Nat) :
    (process_bigram_count E p c d h).1.total_words = d.total_words := by
  unfold process_bigram_count
  dsimp only
  split_ifs <;> try rfl
  all_goals (split <;> try rfl)

theorem bigram_all_char_map (p c : Nat) (d : FrequencyData) (h : Nat) :
    (process_bigram_count E p c d h).1.all_char_map = d.all_char_map := by
  unfold process_bigram_count
  dsimp only
  split_ifs <;> try rfl
  all_goals (split <;> try rfl)

theorem allchar_observed_freq (wc : Nat) (d : FrequencyData) (h : Nat) :
    (process_all_character_count E wc d h).1.observed_freq = d.observed_freq := by
  unfold process_all_character_count
  dsimp only
  split <;> try rfl
  all_goals (split_ifs <;> rfl)

theorem allchar_total_letters (wc : Nat) (d : FrequencyData) (h : Nat) :
    (process_all_character_count E wc d h).1.total_letters = d.total_letters := by
  unfold process_all_character_count
  dsimp only
  split <;> try rfl
  all_goals (split_ifs <;> rfl)

theorem allchar_total_words (wc : Nat) (d : FrequencyData) (h : Nat) :
    (process_all_character_count E wc d h).1.total_words = d.total_words := by
  unfold process_all_character_count
  dsimp only
  split <;> try rfl
  all_goals (split_ifs <;> rfl)

theorem allchar_bigram_map (wc : Nat) (d : FrequencyData) (h : Nat) :
    (process_all_character_count E wc d h).1.bigram_map = d.bigram_map := by
  unfold process_all_character_count
  dsimp only
  split <;> try rfl
  all_goals (split_ifs <;> rfl)

end Frame

/-! ## The letter histogram, the word count and the error code -/

theorem accented_loop_range (lower : Nat) (l : List Nat) (i : Nat) :
    accented_loop lower l i = -1 ∨
      (26 + (i : Int) ≤ accented_loop lower l i ∧
        accented_loop lower l i < 26 + (i : Int) + l.length) := by
  induction l generalizing i with
  | nil => left; rfl
  | cons c cs ih =>
    unfold accented_loop
    split_ifs with h
    · right
      simp only [List.length_cons]
      push_cast
      omega
    · rcases ih (i + 1) with h1 | ⟨h1, h2⟩
      · left; exact h1
      · right
        simp only [List.length_cons]
        push_cast at h1 h2 ⊢
        omega

theorem map_letter_to_index_range (E : Libc) (wc : Nat) :
    map_letter_to_index E wc = -1 ∨
      (0 ≤ map_letter_to_index E wc ∧ map_letter_to_index E wc < 40) := by
  unfold map_letter_to_index
  dsimp only
  split_ifs with h
  · right
    omega
  · rcases accented_loop_range (E.towlower wc) ACCENTED_CHARS 0 with h1 | ⟨h1, h2⟩
    · left; exact h1
    · right
      simp only [ACCENTED_CHARS, List.length_cons, List.length_nil] at h1 h2 ⊢
      push_cast at h1 h2
      omega

theorem histogram_sum_store (d : FrequencyData) (k : Nat) (hk : k < TOTAL_BINS) :
    ∑ i in Finset.range TOTAL_BINS, store d.observed_freq k (d.observed_freq k + 1) i =
      histogram_sum d + 1 := by
  rw [store_eq_update, Finset.sum_update_of_mem (Finset.mem_range.mpr hk)]
  unfold histogram_sum
  rw [← Finset.sum_erase_add _ _ (Finset.mem_range.mpr hk), Finset.sdiff_singleton_eq_erase]
  ring

theorem letter_balance (E : Libc) (wc : Nat) (d : FrequencyData) :
    (process_letter_frequency E wc d).total_letters -
        histogram_sum (process_letter_frequency E wc d) =
      d.total_letters - histogram_sum d := by
  unfold process_letter_frequency
  dsimp only
  split_ifs with h1 h2
  · rcases map_letter_to_index_range E wc with h3 | ⟨h3, h4⟩
    · exact absurd h3 h2
    · have hk : (map_letter_to_index E wc).toNat < TOTAL_BINS := by
        unfold TOTAL_BINS; omega
      have := histogram_sum_store d _ hk
      simp only [histogram_sum] at this ⊢
      rw [this]; ring
  · rfl
  · rfl

/-- The letter fields after one iteration are those `process_letter_frequency` yields. -/
theorem scan_step_total_letters (E : Libc) (i : Nat) (st : ScanState) (wc : Nat) :
    (scan_step E i st wc).data.total_letters =
      (process_letter_frequency E wc st.data).total_letters := by
  unfold scan_step
  dsimp only
  split_ifs <;>
    simp only [allchar_total_letters, bigram_total_letters] <;>
    (unfold process_letter_frequency; dsimp only; split_ifs <;> rfl)

theorem scan_step_observed_freq (E : Libc) (i : Nat) (st : ScanState) (wc : Nat) :
    (scan_step E i st wc).data.observed_freq =
      (process_letter_frequency E wc st.data).observed_freq := by
  unfold scan_step
  dsimp only
  split_ifs <;>
    simp only [allchar_observed_freq, bigram_observed_freq] <;>
    (unfold process_letter_frequency; dsimp only; split_ifs <;> rfl)

theorem trans_count_eq_filter (q : Nat → Bool) (t : Bool → Bool → Bool) (p : Bool)
    (l : List Nat) :
    trans_count q t p l =
      ((List.range l.length).filter (fun i =>
        t (if i = 0 then p else q (l.getD (i - 1) 0)) (q (l.getD i 0)))).length := by
  induction l generalizing p with
  | nil => rfl
  | cons c cs ih =>
    rw [trans_count, ih (q c), List.length_cons, List.range_succ_eq_map, List.filter_cons,
      List.filter_map]
    have hcongr : List.filter ((fun i =>
          t (if i = 0 then p else q ((c :: cs).getD (i - 1) 0)) (q ((c :: cs).getD i 0))) ∘
          Nat.succ) (List.range cs.length) =
        List.filter (fun i =>
          t (if i = 0 then q c else q (cs.getD (i - 1) 0)) (q (cs.getD i 0)))
          (List.range cs.length) := by
      apply List.filter_congr
      intro j _
      cases j with
      | zero => simp
      | succ k => simp
    rw [hcongr]
    by_cases h : t p (q c) = true
    · simp [h, Nat.add_comm]
    · simp [h]

theorem scan_step_in_word (E : Libc) (i : Nat) (st : ScanState) (wc : Nat) :
    (scan_step E i st wc).in_word = is_word_char E wc := rfl

theorem scan_step_wc_prev (E : Libc) (i : Nat) (st : ScanState) (wc : Nat) :
    (scan_step E i st wc).wc_prev = if E.iswalpha wc then wc else 0 := rfl

theorem scan_step_total_words (E : Libc) (i : Nat) (st : ScanState) (wc : Nat) :
    (scan_step E i st wc).data.total_words =
      st.data.total_words + if is_word_char E wc && !st.in_word then 1 else 0 := by
  unfold scan_step is_word_char
  dsimp only
  split_ifs <;>
    simp only [allchar_total_words, bigram_total_words, letter_total_words] <;>
    simp_all

theorem scan_loop_total_words (E : Libc) (l : List Nat) (i : Nat) (st : ScanState) :
    (scan_loop E l i st).data.total_words =
      st.data.total_words +
        (trans_count (is_word_char E) (fun p c => c && !p) st.in_word l : ℕ) := by
  induction l generalizing i st with
  | nil => simp [scan_loop, trans_count]
  | cons c cs ih =>
    rw [scan_loop, ih, scan_step_total_words, scan_step_in_word, trans_count]
    push_cast
    split_ifs <;> ring

theorem extract_total_words (E : Libc) (span : List Nat) (heap : Nat) :
    (extract_frequencies_from_buffer E span heap).1.total_words =
      (scan_loop E span 0
        { data := FrequencyData.zero, wc_prev := 0, in_word := false, heap := heap }
        ).data.total_words := by
  unfold extract_frequencies_from_buffer
  dsimp only
  split_ifs <;> rfl

/-- C9: for every span, `total_words` equals the number of positions holding a word
character (alphabetic, apostrophe or hyphen) whose predecessor is absent or is not a word
character, that is, the number of maximal runs of word characters. -/
theorem C9_total_words_counts_word_starts (E : Libc) (span : List Nat) (heap : Nat) :
    (extract_frequencies_from_buffer E span heap).1.total_words =
      (word_starts E span : ℕ) := by
  rw [extract_total_words, scan_loop_total_words, trans_count_eq_filter]
  simp only [FrequencyData.zero, zero_add, word_starts]
  congr 2
  apply List.filter_congr
  intro j _
  cases j with
  | zero => simp
  | succ k => simp


theorem extract_total_letters (E : Libc) (span : List Nat) (heap : Nat) :
    (extract_frequencies_from_buffer E span heap).1.total_letters =
      (scan_loop E span 0 (scan_init heap)).data.total_letters := by
  unfold extract_frequencies_from_buffer scan_init
  dsimp only
  split_ifs <;> rfl

theorem extract_observed_freq (E : Libc) (span : List Nat) (heap : Nat) :
    (extract_frequencies_from_buffer E span heap).1.observed_freq =
      (scan_loop E span 0 (scan_init heap)).data.observed_freq := by
  unfold extract_frequencies_from_buffer scan_init
  dsimp only
  split_ifs <;> rfl

theorem extract_bigram_map (E : Libc) (span : List Nat) (heap : Nat) :
    (extract_frequencies_from_buffer E span heap).1.bigram_map =
      (scan_loop E span 0 (scan_init heap)).data.bigram_map := by
  unfold extract_frequencies_from_buffer scan_init
  dsimp only
  split_ifs <;> rfl

theorem extract_all_char_map (E : Libc) (span : List Nat) (heap : Nat) :
    (extract_frequencies_from_buffer E span heap).1.all_char_map =
      (scan_loop E span 0 (scan_init heap)).data.all_char_map := by
  unfold extract_frequencies_from_buffer scan_init
  dsimp only
  split_ifs <;> rfl

theorem scan_step_balance (E : Libc) (i : Nat) (st : ScanState) (wc : Nat) :
    (scan_step E i st wc).data.total_letters - histogram_sum (scan_step E i st wc).data =
      st.data.total_letters - histogram_sum st.data := by
  rw [← letter_balance E wc st.data, scan_step_total_letters]
  simp only [histogram_sum, scan_step_observed_freq]

theorem scan_loop_balance (E : Libc) (l : List Nat) (i : Nat) (st : ScanState) :
    (scan_loop E l i st).data.total_letters - histogram_sum (scan_loop E l i st).data =
      st.data.total_letters - histogram_sum st.data := by
  induction l generalizing i st with
  | nil => rfl
  | cons c cs ih => rw [scan_loop, ih, scan_step_balance]

/-- C3: for every span, the `total_letters` computed by
`extract_frequencies_from_buffer` equals the sum of the 40 entries of `observed_freq`. -/
theorem C3_total_letters_eq_histogram_sum (E : Libc) (span : List Nat) (heap : Nat) :
    (extract_frequencies_from_buffer E span heap).1.total_letters =
      histogram_sum (extract_frequencies_from_buffer E span heap).1 := by
  have h := scan_loop_balance E span 0 (scan_init heap)
  have h0 : (scan_init heap).data.total_letters - histogram_sum (scan_init heap).data = 0 := by
    simp [scan_init, FrequencyData.zero, histogram_sum]
  rw [h0] at h
  rw [extract_total_letters]
  simp only [histogram_sum, extract_observed_freq] at h ⊢
  linarith

theorem letter_error_code (E : Libc) (wc : Nat) (d : FrequencyData) :
    (process_letter_frequency E wc d).error_code = d.error_code := by
  unfold process_letter_frequency
  dsimp only
  split_ifs <;> rfl

theorem bigram_error_code (E : Libc) (p c : Nat) (d : FrequencyData) (h : Nat) :
    (process_bigram_count E p c d h).1.error_code = d.error_code := by
  unfold process_bigram_count
  dsimp only
  split_ifs <;> try rfl
  all_goals (split <;> try rfl)

theorem allchar_error_code (E : Libc) (wc : Nat) (d : FrequencyData) (h : Nat) :
    (process_all_character_count E wc d h).1.error_code = d.error_code := by
  unfold process_all_character_count
  dsimp only
  split <;> try rfl
  all_goals (split_ifs <;> rfl)

theorem scan_step_error_code (E : Libc) (i : Nat) (st : ScanState) (wc : Nat) :
    (scan_step E i st wc).data.error_code = st.data.error_code := by
  unfold scan_step
  dsimp only
  split_ifs <;>
    simp only [allchar_error_code, bigram_error_code, letter_error_code]

theorem scan_loop_error_code (E : Libc) (l : List Nat) (i : Nat) (st : ScanState) :
    (scan_loop E l i st).data.error_code = st.data.error_code := by
  induction l generalizing i st with
  | nil => rfl
  | cons c cs ih => rw [scan_loop, ih, scan_step_error_code]

theorem extract_error_code (E : Libc) (span : List Nat) (heap : Nat) :
    (extract_frequencies_from_buffer E span heap).1.error_code =
      if (extract_frequencies_from_buffer E span heap).1.total_letters < 5 then 1 else 0 := by
  have h0 := scan_loop_error_code E span 0 (scan_init heap)
  unfold extract_frequencies_from_buffer
  unfold scan_init at h0
  dsimp only at h0 ⊢
  split_ifs with h1
  · rfl
  · rw [h0]; rfl

/-- C5: for every span the extractor sets `error_code` to 1 exactly when
`total_letters < 5` and to 0 otherwise; `perform_segment_test` returns `LANG_ERROR` exactly
when `total_letters < 5` (for every `FrequencyData`) and otherwise `LANG_ENG` or `LANG_FRE`;
in particular a span with exactly 4 counted letters gets `error_code = 1` and the verdict
`LANG_ERROR`, whatever else it contains. -/
theorem C5_insufficient_data (E : Libc) (span : List Nat) (heap : Nat) :
    ((extract_frequencies_from_buffer E span heap).1.error_code = 1 ↔
        (extract_frequencies_from_buffer E span heap).1.total_letters < 5) ∧
    ((extract_frequencies_from_buffer E span heap).1.error_code = 0 ↔
        ¬ (extract_frequencies_from_buffer E span heap).1.total_letters < 5) ∧
    (∀ data : FrequencyData,
        (perform_segment_test data = LANG_ERROR ↔ data.total_letters < 5) ∧
        (¬ data.total_letters < 5 →
          perform_segment_test data = LANG_ENG ∨ perform_segment_test data = LANG_FRE)) ∧
    ((extract_frequencies_from_buffer E span heap).1.total_letters = 4 →
        (extract_frequencies_from_buffer E span heap).1.error_code = 1 ∧
        perform_segment_test (extract_frequencies_from_buffer E span heap).1 = LANG_ERROR) := by
  have hseg : ∀ data : FrequencyData,
      (perform_segment_test data = LANG_ERROR ↔ data.total_letters < 5) ∧
      (¬ data.total_letters < 5 →
        perform_segment_test data = LANG_ENG ∨ perform_segment_test data = LANG_FRE) := by
    intro data
    unfold perform_segment_test LANG_ERROR LANG_ENG LANG_FRE
    split_ifs with h1 h2 <;> simp [h1]
  have hec := extract_error_code E span heap
  refine ⟨?_, ?_, hseg, ?_⟩
  · rw [hec]; split_ifs with h <;> simp [h]
  · rw [hec]; split_ifs with h <;> simp [h]
  · intro h4
    have hlt : (extract_frequencies_from_buffer E span heap).1.total_letters < 5 := by
      rw [h4]; norm_num
    refine ⟨?_, (hseg _).1.mpr hlt⟩
    rw [hec, if_pos hlt]

/-! ## The bigram map -/

theorem pair_count_eq_filter (t : Nat → Nat → Bool) (p : Nat) (l : List Nat) :
    pair_count t p l =
      ((List.range l.length).filter (fun i =>
        t (if i = 0 then p else l.getD (i - 1) 0) (l.getD i 0))).length := by
  induction l generalizing p with
  | nil => rfl
  | cons c cs ih =>
    rw [pair_count, ih c, List.length_cons, List.range_succ_eq_map, List.filter_cons,
      List.filter_map]
    have hcongr : List.filter ((fun i =>
          t (if i = 0 then p else (c :: cs).getD (i - 1) 0) ((c :: cs).getD i 0)) ∘
          Nat.succ) (List.range cs.length) =
        List.filter (fun i =>
          t (if i = 0 then c else cs.getD (i - 1) 0) (cs.getD i 0))
          (List.range cs.length) := by
      apply List.filter_congr
      intro j _
      cases j with
      | zero => simp
      | succ k => simp
    rw [hcongr]
    by_cases h : t p c = true
    · simp [h, Nat.add_comm]
    · simp [h]

theorem pair_count_append (t : Nat → Nat → Bool) (p : Nat) (u w : List Nat) :
    pair_count t p (u ++ w) = pair_count t p u + pair_count t ((p :: u).getLast (by simp)) w := by
  induction u generalizing p with
  | nil => simp [pair_count]
  | cons c cs ih =>
    rw [List.cons_append, pair_count, pair_count, ih c, Nat.add_assoc]
    congr 2

theorem bigram_chain_increment_some (key : Nat) (chain chain1 : List BigramNode)
    (h : bigram_chain_increment key chain = some chain1) (k : Nat) :
    bigram_chain_lookup k chain1 =
      bigram_chain_lookup k chain + if key = k then 1 else 0 := by
  induction chain generalizing chain1 with
  | nil => simp [bigram_chain_increment] at h
  | cons n rest ih =>
    unfold bigram_chain_increment at h
    split_ifs at h with hn
    · cases h
      by_cases hk : key = k
      · subst hk
        simp [bigram_chain_lookup, hn]
      · have hnk : ¬ n.key = k := fun e => hk (hn ▸ e)
        simp [bigram_chain_lookup, hnk, hk]
    · cases hr : bigram_chain_increment key rest with
      | none => simp [hr] at h
      | some r =>
        simp only [hr, Option.map_some', Option.some.injEq] at h
        subst h
        have := ih r hr
        by_cases hnk : n.key = k
        · have hk : ¬ key = k := fun e => hn (hnk.trans e.symm)
          simp [bigram_chain_lookup, hnk, hk]
        · simp [bigram_chain_lookup, hnk, this]

theorem bigram_chain_increment_none (key : Nat) (chain : List BigramNode)
    (h : bigram_chain_increment key chain = none) :
    bigram_chain_lookup key chain = 0 := by
  induction chain with
  | nil => rfl
  | cons n rest ih =>
    unfold bigram_chain_increment at h
    split_ifs at h with hn
    cases hr : bigram_chain_increment key rest with
    | none => simp [bigram_chain_lookup, hn, ih hr]
    | some r => simp [hr] at h

theorem lookup_store_found (tbl : Nat → List BigramNode) (key : Nat)
    (chain : List BigramNode)
    (hi : bigram_chain_increment key (tbl (hash_key key)) = some chain) (k : Nat) :
    bigram_chain_lookup k (store tbl (hash_key key) chain (hash_key k)) =
      bigram_chain_lookup k (tbl (hash_key k)) + if key = k then 1 else 0 := by
  unfold store
  by_cases h1 : hash_key k = hash_key key
  · rw [if_pos h1, bigram_chain_increment_some key _ chain hi k, h1]
  · have hk : ¬ key = k := fun e => h1 (e ▸ rfl)
    rw [if_neg h1, if_neg hk, add_zero]

theorem lookup_store_inserted (tbl : Nat → List BigramNode) (key : Nat)
    (hi : bigram_chain_increment key (tbl (hash_key key)) = none) (k : Nat) :
    bigram_chain_lookup k
        (store tbl (hash_key key) ({ key := key, count := 1 } :: tbl (hash_key key))
          (hash_key k)) =
      bigram_chain_lookup k (tbl (hash_key k)) + if key = k then 1 else 0 := by
  unfold store
  by_cases h1 : hash_key k = hash_key key
  · rw [if_pos h1]
    by_cases hk : key = k
    · subst hk
      simp [bigram_chain_lookup, bigram_chain_increment_none key _ hi]
    · simp [bigram_chain_lookup, hk, h1]
  · have hk : ¬ key = k := fun e => h1 (e ▸ rfl)
    rw [if_neg h1, if_neg hk, add_zero]

/-- Effect of `process_bigram_count` on the total and on every per-key count, when
allocation succeeds. -/
theorem bigram_step (E : Libc) (hE : AllocOk E) (p c : Nat) (d : FrequencyData) (h : Nat) :
    (process_bigram_count E p c d h).1.bigram_map.total_bigrams =
        d.bigram_map.total_bigrams + (if both_alpha E p c then 1 else 0) ∧
    ∀ k, bigram_count (process_bigram_count E p c d h).1.bigram_map k =
        bigram_count d.bigram_map k + (if packs_to E k p c then 1 else 0) := by
  unfold process_bigram_count both_alpha packs_to
  dsimp only
  by_cases hp : E.iswalpha p = true <;> by_cases hc : E.iswalpha c = true
  · simp only [hp, hc, Bool.not_true, Bool.or_self, Bool.false_eq_true, if_false,
      Bool.and_self, if_true, Bool.true_and, beq_iff_eq]
    cases hi : bigram_chain_increment (bigram_key (E.towlower p) (E.towlower c))
        (d.bigram_map.table (hash_key (bigram_key (E.towlower p) (E.towlower c)))) with
    | some chain =>
      exact ⟨rfl, fun k => lookup_store_found _ _ chain hi k⟩
    | none =>
      simp only [hE h, if_true]
      exact ⟨trivial, fun k => lookup_store_inserted _ _ hi k⟩
  · simp [hp, hc]
  · simp [hp, hc]
  · simp [hp, hc]

theorem pair_count_congr_head (t : Nat → Nat → Bool) (p q : Nat) (h : ∀ c, t p c = t q c)
    (l : List Nat) : pair_count t p l = pair_count t q l := by
  cases l with
  | nil => rfl
  | cons c cs => rw [pair_count, pair_count, h c]

/-- The bigram map after one iteration: that of `process_bigram_count` on some data with the
bigram map of the state, or the unchanged map at index 0. -/
theorem scan_step_bigram_map (E : Libc) (i : Nat) (st : ScanState) (wc : Nat) :
    ∃ d2 : FrequencyData, d2.bigram_map = st.data.bigram_map ∧
      (scan_step E i st wc).data.bigram_map =
        if i > 0 then (process_bigram_count E st.wc_prev wc d2 st.heap).1.bigram_map
        else st.data.bigram_map := by
  refine ⟨if E.iswalpha wc then process_letter_frequency E wc
      (if (E.iswalpha wc || wc == 0x27 || wc == 0x2D) then
        if !st.in_word then { st.data with total_words := st.data.total_words + 1 }
        else st.data
      else st.data)
    else (if (E.iswalpha wc || wc == 0x27 || wc == 0x2D) then
        if !st.in_word then { st.data with total_words := st.data.total_words + 1 }
        else st.data
      else st.data), ?_, ?_⟩
  · split_ifs <;> simp only [letter_bigram_map]
  · unfold scan_step
    dsimp only
    by_cases hs : E.iswspace wc = true <;> by_cases hi : i > 0 <;>
      simp only [hs, hi, if_true, if_false, Bool.not_true, Bool.not_false, Bool.false_eq_true,
        allchar_bigram_map, not_false_eq_true, Bool.not_eq_true] <;>
      (split_ifs <;> simp only [letter_bigram_map])

theorem scan_step_bigram (E : Libc) (hE : AllocOk E) (i : Nat) (st : ScanState) (wc : Nat)
    (hinv : i = 0 → E.iswalpha st.wc_prev = false) :
    (scan_step E i st wc).data.bigram_map.total_bigrams =
        st.data.bigram_map.total_bigrams + (if both_alpha E st.wc_prev wc then 1 else 0) ∧
    ∀ k, bigram_count (scan_step E i st wc).data.bigram_map k =
        bigram_count st.data.bigram_map k + (if packs_to E k st.wc_prev wc then 1 else 0) := by
  obtain ⟨d2, hd2, hstep⟩ := scan_step_bigram_map E i st wc
  rw [hstep]
  by_cases hi : i > 0
  · rw [if_pos hi, ← hd2]
    exact bigram_step E hE st.wc_prev wc d2 st.heap
  · have h0 : E.iswalpha st.wc_prev = false := hinv (by omega)
    rw [if_neg hi]
    simp [both_alpha, packs_to, h0]

theorem scan_loop_bigram (E : Libc) (hE : AllocOk E) (l : List Nat) (i : Nat)
    (st : ScanState) (hinv : i = 0 → E.iswalpha st.wc_prev = false) :
    (scan_loop E l i st).data.bigram_map.total_bigrams =
        st.data.bigram_map.total_bigrams + (pair_count (both_alpha E) st.wc_prev l : ℕ) ∧
    ∀ k, bigram_count (scan_loop E l i st).data.bigram_map k =
        bigram_count st.data.bigram_map k + (pair_count (packs_to E k) st.wc_prev l : ℕ) := by
  induction l generalizing i st with
  | nil => simp [scan_loop, pair_count]
  | cons c cs ih =>
    have hnext : i + 1 = 0 → E.iswalpha (scan_step E i st c).wc_prev = false := by
      intro h; omega
    obtain ⟨h1, h2⟩ := ih (i + 1) (scan_step E i st c) hnext
    obtain ⟨s1, s2⟩ := scan_step_bigram E hE i st c hinv
    have hprev : ∀ t : Nat → Nat → Bool, (∀ x, t 0 x = false) →
        (∀ p x, E.iswalpha p = false → t p x = false) →
        pair_count t (scan_step E i st c).wc_prev cs = pair_count t c cs := by
      intro t _ ht
      apply pair_count_congr_head
      intro x
      rw [scan_step_wc_prev]
      by_cases hc : E.iswalpha c = true
      · rw [if_pos hc]
      · rw [if_neg hc, ht 0 x E.iswalpha_nul, ht c x (by simpa using hc)]
    refine ⟨?_, fun k => ?_⟩
    · rw [scan_loop, h1, s1, pair_count,
        hprev (both_alpha E) (by simp [both_alpha, E.iswalpha_nul])
          (by intro p x hp; simp [both_alpha, hp])]
      push_cast
      split_ifs <;> ring
    · rw [scan_loop, h2 k, s2 k, pair_count,
        hprev (packs_to E k) (by simp [packs_to, E.iswalpha_nul])
          (by intro p x hp; simp [packs_to, hp])]
      push_cast
      split_ifs <;> ring

/-- C2: for every span, if node allocation never fails, `bigram_map.total_bigrams` returned
by `extract_frequencies_from_buffer` equals the number of positions `i` with
`0 < i < length` such that `span[i-1]` and `span[i]` are both alphabetic. -/
theorem C2_total_bigrams_counts_adjacent_pairs (E : Libc) (hE : AllocOk E)
    (span : List Nat) (heap : Nat) :
    (extract_frequencies_from_buffer E span heap).1.bigram_map.total_bigrams =
      (adjacent_alpha_pairs E span : ℕ) := by
  rw [extract_bigram_map,
    (scan_loop_bigram E hE span 0 (scan_init heap) (fun _ => E.iswalpha_nul)).1,
    pair_count_eq_filter]
  simp only [scan_init, FrequencyData.zero, zero_add, adjacent_alpha_pairs]
  congr 2
  apply List.filter_congr
  intro j _
  cases j with
  | zero => simp [both_alpha, E.iswalpha_nul]
  | succ k => simp [both_alpha]

/-- Witness of C2 in the `"C"` locale on the span `"ab c"`. -/
theorem C2_witness :
    AllocOk asciiLibc ∧
    (extract_frequencies_from_buffer asciiLibc [0x61, 0x62, 0x20, 0x63] 0).1.bigram_map.total_bigrams
      = (adjacent_alpha_pairs asciiLibc [0x61, 0x62, 0x20, 0x63] : ℕ) :=
  ⟨fun _ => rfl,
   C2_total_bigrams_counts_adjacent_pairs asciiLibc (fun _ => rfl) [0x61, 0x62, 0x20, 0x63] 0⟩

theorem bigram_key_of_lt (x y : Nat) (hx : x < 65536) (hy : y < 65536) :
    bigram_key x y = 65536 * x + y := by
  unfold bigram_key u32
  rw [Nat.shiftLeft_eq, Nat.mod_eq_of_lt (by omega : x < 2 ^ 32),
    Nat.mod_eq_of_lt (by omega : y < 2 ^ 32), Nat.mod_eq_of_lt (by omega : x * 2 ^ 16 < 2 ^ 32),
    Nat.mul_comm x (2 ^ 16)]
  exact (Nat.mul_add_lt_is_or (by omega : y < 2 ^ 16) x).symm

theorem bigram_key_inj (x y a b : Nat) (hx : x < 65536) (hy : y < 65536) (ha : a < 65536)
    (hb : b < 65536) : bigram_key x y = bigram_key a b ↔ x = a ∧ y = b := by
  rw [bigram_key_of_lt x y hx hy, bigram_key_of_lt a b ha hb]
  omega

theorem extract_total_bigrams (E : Libc) (hE : AllocOk E) (span : List Nat) (heap : Nat) :
    (extract_frequencies_from_buffer E span heap).1.bigram_map.total_bigrams =
      (pair_count (both_alpha E) 0 span : ℕ) := by
  rw [extract_bigram_map,
    (scan_loop_bigram E hE span 0 (scan_init heap) (fun _ => E.iswalpha_nul)).1]
  simp [scan_init, FrequencyData.zero]

/-- C6 (amended): if node allocation never fails, then for all spans `u` and `v`, all
alphabetic code points `a` and `b` and every non-alphabetic code point `c`, the bigram total
of `u ++ [a, c, b] ++ v` is exactly one less than the bigram total of `u ++ [a, b] ++ v`. -/
theorem C6_break_reduces_bigram_total (E : Libc) (hE : AllocOk E) (u v : List Nat)
    (a b c : Nat) (ha : E.iswalpha a = true) (hb : E.iswalpha b = true)
    (hc : E.iswalpha c = false) (heap heap1 : Nat) :
    (extract_frequencies_from_buffer E (u ++ [a, c, b] ++ v) heap).1.bigram_map.total_bigrams =
      (extract_frequencies_from_buffer E (u ++ [a, b] ++ v) heap1).1.bigram_map.total_bigrams
        - 1 := by
  have happ := pair_count_append (both_alpha E) 0 u
  rw [extract_total_bigrams E hE, extract_total_bigrams E hE, List.append_assoc,
    List.append_assoc, happ, happ]
  simp only [List.cons_append, List.nil_append, pair_count, both_alpha, ha, hb, hc,
    Bool.and_true, Bool.and_false, Bool.true_and, Bool.false_eq_true, if_false, if_true,
    Bool.and_self]
  push_cast
  ring

/-- Witness of C6 in the `"C"` locale: `"xa b"` against `"xab"`. -/
theorem C6_witness :
    AllocOk asciiLibc ∧ asciiLibc.iswalpha 0x61 = true ∧ asciiLibc.iswalpha 0x62 = true ∧
    asciiLibc.iswalpha 0x20 = false ∧
    (extract_frequencies_from_buffer asciiLibc
        ([0x78] ++ [0x61, 0x20, 0x62] ++ []) 0).1.bigram_map.total_bigrams =
      (extract_frequencies_from_buffer asciiLibc
        ([0x78] ++ [0x61, 0x62] ++ []) 0).1.bigram_map.total_bigrams - 1 :=
  ⟨fun _ => rfl, rfl, rfl, rfl,
   C6_break_reduces_bigram_total asciiLibc (fun _ => rfl) [0x78] [] 0x61 0x62 0x20
     rfl rfl rfl 0 0⟩

/-- C6 as stated fails when allocation fails: with an exhausted allocator both `"aa"` and
`"a a"` yield a bigram total of 0, so the broken span is not one below the unbroken one. -/
theorem C6_counterexample :
    noMemLibc.iswalpha 0x61 = true ∧ noMemLibc.iswalpha 0x20 = false ∧
    (extract_frequencies_from_buffer noMemLibc
        ([] ++ [0x61, 0x20, 0x61] ++ []) 0).1.bigram_map.total_bigrams ≠
      (extract_frequencies_from_buffer noMemLibc
        ([] ++ [0x61, 0x61] ++ []) 0).1.bigram_map.total_bigrams - 1 := by
  refine ⟨rfl, rfl, ?_⟩
  norm_num [extract_frequencies_from_buffer, scan_loop, scan_step, process_bigram_count,
    process_letter_frequency, process_all_character_count, noMemLibc, asciiLibc,
    FrequencyData.zero, bigram_chain_increment, char_chain_increment, map_letter_to_index,
    store, hash_key, u32, HASH_TABLE_SIZE]

theorem getD_mem_of_lt (l : List Nat) (i : Nat) (h : i < l.length) : l.getD i 0 ∈ l := by
  rw [List.getD_eq_getElem l 0 h]
  exact List.getElem_mem h

/-- C7 (amended): if node allocation never fails and every alphabetic code point of the span
folds to a value below 65536, then for every pair `(a, b)` of code points below 65536 the
count held under the packed key of `(a, b)` equals the number of positions where a code
point folding to `a` is immediately followed by one folding to `b`, both alphabetic; and two
pairs below 65536 with the same packed key are the same pair. -/
theorem C7_bigram_count_per_pair (E : Libc) (hE : AllocOk E) (span : List Nat) (heap : Nat)
    (hspan : ∀ c ∈ span, E.iswalpha c = true → E.towlower c < 65536)
    (a b : Nat) (ha : a < 65536) (hb : b < 65536) :
    bigram_count (extract_frequencies_from_buffer E span heap).1.bigram_map (bigram_key a b) =
        (folded_pair_positions E a b span : ℕ) ∧
    ∀ a1 b1 : Nat, a1 < 65536 → b1 < 65536 →
      bigram_key a1 b1 = bigram_key a b → a1 = a ∧ b1 = b := by
  refine ⟨?_, fun a1 b1 ha1 hb1 h => (bigram_key_inj a1 b1 a b ha1 hb1 ha hb).mp h⟩
  rw [extract_bigram_map,
    (scan_loop_bigram E hE span 0 (scan_init heap) (fun _ => E.iswalpha_nul)).2,
    pair_count_eq_filter]
  have h0 : bigram_count (scan_init heap).data.bigram_map (bigram_key a b) = 0 := rfl
  rw [h0, zero_add]
  simp only [folded_pair_positions]
  congr 2
  apply List.filter_congr
  intro j hj
  have hjlt : j < span.length := List.mem_range.mp hj
  cases j with
  | zero => simp [packs_to, scan_init, E.iswalpha_nul]
  | succ k =>
    have hk1 := hspan _ (getD_mem_of_lt span k (by omega))
    have hk2 := hspan _ (getD_mem_of_lt span (k + 1) hjlt)
    simp only [packs_to, Nat.succ_ne_zero, if_false, Nat.add_sub_cancel, Nat.succ_pos,
      decide_True, Bool.true_and, Nat.add_eq_zero, one_ne_zero, and_false,
      List.getD_eq_getElem?_getD] at hk1 hk2 ⊢
    by_cases h1 : E.iswalpha (span[k]?.getD 0) = true
    · by_cases h2 : E.iswalpha (span[k + 1]?.getD 0) = true
      · simp only [h1, h2, Bool.true_and, Bool.and_self]
        rw [Bool.eq_iff_iff]
        simp only [beq_iff_eq, Bool.and_eq_true]
        exact bigram_key_inj _ _ a b (hk1 h1) (hk2 h2) ha hb
      · simp [h2]
    · simp [h1]

/-- Witness of C7 in the `"C"` locale: the pair `(t, h)` in `"the"`. -/
theorem C7_witness :
    AllocOk asciiLibc ∧
    (∀ c ∈ [0x74, 0x68, 0x65], asciiLibc.iswalpha c = true → asciiLibc.towlower c < 65536) ∧
    0x74 < 65536 ∧ 0x68 < 65536 ∧
    (bigram_count (extract_frequencies_from_buffer asciiLibc [0x74, 0x68, 0x65] 0).1.bigram_map
          (bigram_key 0x74 0x68) =
        (folded_pair_positions asciiLibc 0x74 0x68 [0x74, 0x68, 0x65] : ℕ) ∧
      ∀ a1 b1 : Nat, a1 < 65536 → b1 < 65536 →
        bigram_key a1 b1 = bigram_key 0x74 0x68 → a1 = 0x74 ∧ b1 = 0x68) :=
  ⟨fun _ => rfl, by decide, by decide, by decide,
   C7_bigram_count_per_pair asciiLibc (fun _ => rfl) [0x74, 0x68, 0x65] 0 (by decide)
     0x74 0x68 (by decide) (by decide)⟩

/-- C7 as stated fails in two ways. In a Unicode locale the pairs `(a, U+0448)` and
`(a, U+10448)` of lower-case letters pack to the same key, so after scanning `a U+10448` the
count held for `(a, U+0448)` is 1 although that pair never occurs. With an exhausted
allocator the count held for `(a, a)` after scanning `"aa"` is 0 although the pair occurs
once. -/
theorem C7_counterexample :
    (unicodeLibc.iswalpha 0x61 = true ∧ unicodeLibc.towlower 0x61 = 0x61 ∧
      unicodeLibc.iswalpha 0x448 = true ∧ unicodeLibc.towlower 0x448 = 0x448 ∧
      unicodeLibc.iswalpha 0x10448 = true ∧ unicodeLibc.towlower 0x10448 = 0x10448) ∧
    bigram_key 0x61 0x448 = bigram_key 0x61 0x10448 ∧
    bigram_count (extract_frequencies_from_buffer unicodeLibc [0x61, 0x10448] 0).1.bigram_map
        (bigram_key 0x61 0x448) ≠
      (folded_pair_positions unicodeLibc 0x61 0x448 [0x61, 0x10448] : ℕ) ∧
    bigram_count (extract_frequencies_from_buffer noMemLibc [0x61, 0x61] 0).1.bigram_map
        (bigram_key 0x61 0x61) ≠
      (folded_pair_positions noMemLibc 0x61 0x61 [0x61, 0x61] : ℕ) := by
  have hk1 : bigram_key 97 66632 = 6358088 := by decide
  have hk2 : bigram_key 97 1096 = 6358088 := by decide
  have hk3 : bigram_key 97 97 = 6357089 := by decide
  have hp1 : folded_pair_positions unicodeLibc 0x61 0x448 [0x61, 0x10448] = 0 := by decide
  have hp2 : folded_pair_positions noMemLibc 0x61 0x61 [0x61, 0x61] = 1 := by decide
  refine ⟨by decide, by decide, ?_, ?_⟩
  · rw [hp1]
    norm_num [extract_frequencies_from_buffer, scan_loop, scan_step, process_bigram_count,
      process_letter_frequency, process_all_character_count, unicodeLibc, FrequencyData.zero,
      bigram_chain_increment, char_chain_increment, map_letter_to_index, store, hash_key, u32,
      bigram_count, bigram_chain_lookup, accented_loop, ACCENTED_CHARS, HASH_TABLE_SIZE,
      hk1, hk2]
  · rw [hp2]
    norm_num [extract_frequencies_from_buffer, scan_loop, scan_step, process_bigram_count,
      process_letter_frequency, process_all_character_count, noMemLibc, asciiLibc,
      FrequencyData.zero, bigram_chain_increment, char_chain_increment, map_letter_to_index,
      store, hash_key, u32, bigram_count, bigram_chain_lookup, HASH_TABLE_SIZE, hk3]

/-! ## The character map -/

theorem char_chain_increment_some (key : Nat) (chain chain1 : List CharMapNode)
    (h : char_chain_increment key chain = some chain1) (k : Nat) :
    char_chain_lookup k chain1 = char_chain_lookup k chain + if key = k then 1 else 0 := by
  induction chain generalizing chain1 with
  | nil => simp [char_chain_increment] at h
  | cons n rest ih =>
    unfold char_chain_increment at h
    split_ifs at h with hn
    · cases h
      by_cases hk : key = k
      · subst hk
        simp [char_chain_lookup, hn]
      · have hnk : ¬ n.character = k := fun e => hk (hn ▸ e)
        simp [char_chain_lookup, hnk, hk]
    · cases hr : char_chain_increment key rest with
      | none => simp [hr] at h
      | some r =>
        simp only [hr, Option.map_some', Option.some.injEq] at h
        subst h
        have := ih r hr
        by_cases hnk : n.character = k
        · have hk : ¬ key = k := fun e => hn (hnk.trans e.symm)
          simp [char_chain_lookup, hnk, hk]
        · simp [char_chain_lookup, hnk, this]

theorem char_chain_increment_none (key : Nat) (chain : List CharMapNode)
    (h : char_chain_increment key chain = none) :
    char_chain_lookup key chain = 0 := by
  induction chain with
  | nil => rfl
  | cons n rest ih =>
    unfold char_chain_increment at h
    split_ifs at h with hn
    cases hr : char_chain_increment key rest with
    | none => simp [char_chain_lookup, hn, ih hr]
    | some r => simp [hr] at h

theorem char_store_found (tbl : Nat → List CharMapNode) (key : Nat)
    (chain : List CharMapNode)
    (hi : char_chain_increment key (tbl (hash_key (u32 key))) = some chain) (k : Nat) :
    char_chain_lookup k (store tbl (hash_key (u32 key)) chain (hash_key (u32 k))) =
      char_chain_lookup k (tbl (hash_key (u32 k))) + if key = k then 1 else 0 := by
  unfold store
  by_cases h1 : hash_key (u32 k) = hash_key (u32 key)
  · rw [if_pos h1, char_chain_increment_some key _ chain hi k, h1]
  · have hk : ¬ key = k := fun e => h1 (e ▸ rfl)
    rw [if_neg h1, if_neg hk, add_zero]

theorem char_store_inserted (tbl : Nat → List CharMapNode) (key : Nat)
    (hi : char_chain_increment key (tbl (hash_key (u32 key))) = none) (k : Nat) :
    char_chain_lookup k
        (store tbl (hash_key (u32 key))
          ({ character := key, count := 1 } :: tbl (hash_key (u32 key)))
          (hash_key (u32 k))) =
      char_chain_lookup k (tbl (hash_key (u32 k))) + if key = k then 1 else 0 := by
  unfold store
  by_cases h1 : hash_key (u32 k) = hash_key (u32 key)
  · rw [if_pos h1]
    by_cases hk : key = k
    · subst hk
      simp [char_chain_lookup, char_chain_increment_none key _ hi]
    · simp [char_chain_lookup, hk, h1]
  · have hk : ¬ key = k := fun e => h1 (e ▸ rfl)
    rw [if_neg h1, if_neg hk, add_zero]

/-- Effect of `process_all_character_count` on every per-character count, when allocation
succeeds. -/
theorem allchar_step (E : Libc) (hE : AllocOk E) (wc : Nat) (d : FrequencyData) (h : Nat)
    (k : Nat) :
    char_count (process_all_character_count E wc d h).1.all_char_map k =
      char_count d.all_char_map k + (if char_to_count E wc = k then 1 else 0) := by
  unfold process_all_character_count char_to_count
  dsimp only
  cases hi : char_chain_increment (if E.iswalpha wc = true then E.towlower wc else wc)
      (d.all_char_map.table
        (hash_key (u32 (if E.iswalpha wc = true then E.towlower wc else wc)))) with
  | some chain => exact char_store_found _ _ chain hi k
  | none =>
    simp only [hE h, if_true]
    exact char_store_inserted _ _ hi k

theorem scan_step_all_char_map (E : Libc) (i : Nat) (st : ScanState) (wc : Nat) :
    ∃ (d3 : FrequencyData) (h3 : Nat), d3.all_char_map = st.data.all_char_map ∧
      (scan_step E i st wc).data.all_char_map =
        if E.iswspace wc then st.data.all_char_map
        else (process_all_character_count E wc d3 h3).1.all_char_map := by
  by_cases hs : E.iswspace wc = true
  · refine ⟨st.data, st.heap, rfl, ?_⟩
    unfold scan_step
    dsimp only
    simp only [hs, Bool.not_true, Bool.false_eq_true, if_false, if_true]
    split_ifs <;> simp only [bigram_all_char_map, letter_all_char_map]
  · unfold scan_step
    dsimp only
    simp only [hs, Bool.not_false, if_true, if_false, Bool.not_eq_true, Bool.false_eq_true]
    refine ⟨_, _, ?_, rfl⟩
    split_ifs <;> simp only [bigram_all_char_map, letter_all_char_map]

theorem scan_loop_char_count (E : Libc) (hE : AllocOk E) (l : List Nat) (i : Nat)
    (st : ScanState) (k : Nat) :
    char_count (scan_loop E l i st).data.all_char_map k =
      char_count st.data.all_char_map k + (char_positions E k l : ℕ) := by
  induction l generalizing i st with
  | nil => simp [scan_loop, char_positions]
  | cons c cs ih =>
    obtain ⟨d3, h3, hd3, hstep⟩ := scan_step_all_char_map E i st c
    rw [scan_loop, ih, hstep]
    unfold char_positions
    rw [List.countP_cons]
    by_cases hs : E.iswspace c = true
    · simp [hs]
    · rw [if_neg hs, allchar_step E hE, hd3]
      simp only [Bool.not_eq_true] at hs
      simp only [hs, Bool.not_false, Bool.true_and, beq_iff_eq]
      push_cast
      split_ifs <;> ring

/-- C8: if node allocation never fails, then for every span and every code point `k` the
count stored for `k` in `all_char_map` (0 if there is no entry) equals the number of
non-whitespace positions of the span whose code point, lower-cased if alphabetic and
unchanged otherwise, equals `k`; this covers keys sharing a bucket, such as 97 and 1121. -/
theorem C8_all_char_map_counts (E : Libc) (hE : AllocOk E) (span : List Nat) (heap : Nat)
    (k : Nat) :
    char_count (extract_frequencies_from_buffer E span heap).1.all_char_map k =
        (char_positions E k span : ℕ) ∧
    hash_key (u32 97) = hash_key (u32 1121) := by
  refine ⟨?_, by decide⟩
  rw [extract_all_char_map, scan_loop_char_count E hE]
  simp [scan_init, FrequencyData.zero, char_count, char_chain_lookup]

/-- Witness of C8 in the `"C"` locale: the span of code points `97, 1121, 97`, whose two
keys share bucket 97. -/
theorem C8_witness :
    AllocOk asciiLibc ∧
    (char_count (extract_frequencies_from_buffer asciiLibc [97, 1121, 97] 0).1.all_char_map
        1121 = (char_positions asciiLibc 1121 [97, 1121, 97] : ℕ) ∧
      hash_key (u32 97) = hash_key (u32 1121)) :=
  ⟨fun _ => rfl, C8_all_char_map_counts asciiLibc (fun _ => rfl) [97, 1121, 97] 0 1121⟩

/-! ## The chi-squared decision -/

theorem foldl_add_eq_sum {α : Type} (f : α → ℚ) (l : List α) (a : ℚ) :
    l.foldl (fun acc r => acc + f r) a = a + (l.map f).sum := by
  induction l generalizing a with
  | nil => simp
  | cons x xs ih => simp [ih, add_assoc]

theorem calculate_bigram_chi_eq (refs : List BigramRef) (data : FrequencyData) :
    calculate_bigram_chi data.bigram_map refs = spec_bigram_score refs data := by
  unfold calculate_bigram_chi spec_bigram_score spec_bigram_sum EPS
  split_ifs with h
  · rfl
  · have hstep : bigram_chi_step data.bigram_map data.bigram_map.total_bigrams =
        fun acc r => acc +
          (bigram_count data.bigram_map r.key -
              r.freq * data.bigram_map.total_bigrams / 100) ^ 2 /
            (r.freq * data.bigram_map.total_bigrams / 100 + 1 / 1000000) := by
      funext acc r
      unfold bigram_chi_step bigram_count EPS
      ring
    rw [hstep, foldl_add_eq_sum]
    ring

theorem mono_foldl (data : FrequencyData) (n : Nat) :
    (List.range n).foldl (mono_step data (data.total_letters / 100)) (0, 0) =
      (∑ i in Finset.range n,
          (data.observed_freq i - ENGLISH_FREQ.getD i 0 * data.total_letters / 100) ^ 2 /
            (ENGLISH_FREQ.getD i 0 * data.total_letters / 100 + 1 / 1000000),
       ∑ i in Finset.range n,
          (data.observed_freq i - FRENCH_FREQ.getD i 0 * data.total_letters / 100) ^ 2 /
            (FRENCH_FREQ.getD i 0 * data.total_letters / 100 + 1 / 1000000)) := by
  induction n with
  | zero => simp
  | succ n ih =>
    rw [List.range_succ, List.foldl_append, ih, Finset.sum_range_succ, Finset.sum_range_succ]
    simp only [List.foldl_cons, List.foldl_nil, mono_step, EPS]
    refine Prod.ext ?_ ?_ <;> (dsimp only; ring)

theorem chi1_final_eq (data : FrequencyData) :
    chi1_final data = spec_combined ENGLISH_FREQ ENGLISH_BIGRAM_FREQ data := by
  unfold chi1_final spec_combined mono_loop TOTAL_BINS
  rw [mono_foldl, calculate_bigram_chi_eq]
  rfl

theorem chi2_final_eq (data : FrequencyData) :
    chi2_final data = spec_combined FRENCH_FREQ FRENCH_BIGRAM_FREQ data := by
  unfold chi2_final spec_combined mono_loop TOTAL_BINS
  rw [mono_foldl, calculate_bigram_chi_eq]
  rfl

theorem letter_total_letters (E : Libc) (wc : Nat) (d : FrequencyData) :
    (process_letter_frequency E wc d).total_letters =
      d.total_letters + if counted_letter E wc then 1 else 0 := by
  unfold process_letter_frequency counted_letter
  dsimp only
  split_ifs with h1 h2 h3 h3 <;> simp_all

theorem scan_loop_total_letters (E : Libc) (l : List Nat) (i : Nat) (st : ScanState) :
    (scan_loop E l i st).data.total_letters =
      st.data.total_letters + (l.countP (counted_letter E) : ℕ) := by
  induction l generalizing i st with
  | nil => simp [scan_loop]
  | cons c cs ih =>
    rw [scan_loop, ih, scan_step_total_letters, letter_total_letters, List.countP_cons]
    push_cast
    split_ifs <;> ring

theorem extract_total_letters_count (E : Libc) (span : List Nat) (heap : Nat) :
    (extract_frequencies_from_buffer E span heap).1.total_letters =
      (span.countP (counted_letter E) : ℕ) := by
  rw [extract_total_letters, scan_loop_total_letters]
  simp [scan_init, FrequencyData.zero]

theorem five_letters_extract :
    (extract_frequencies_from_buffer asciiLibc
        span_abcde 0).1.total_letters = 5 ∧
    (extract_frequencies_from_buffer asciiLibc
        span_abcde 0).1.bigram_map.total_bigrams
      = 0 ∧
    ∀ k, bigram_count (extract_frequencies_from_buffer asciiLibc
        span_abcde 0).1.bigram_map k = 0 := by
  have hE : AllocOk asciiLibc := fun _ => rfl
  refine ⟨?_, ?_, fun k => ?_⟩
  · rw [extract_total_letters_count]
    have : List.countP (counted_letter asciiLibc)
        span_abcde = 5 := by decide
    rw [this]; rfl
  · rw [extract_total_bigrams asciiLibc hE]
    have : pair_count (both_alpha asciiLibc) 0
        span_abcde = 0 := by decide
    rw [this]; rfl
  · rw [extract_bigram_map,
      (scan_loop_bigram asciiLibc hE _ 0 (scan_init 0) (fun _ => asciiLibc.iswalpha_nul)).2]
    have : pair_count (packs_to asciiLibc k) 0
        span_abcde = 0 := by
      simp [pair_count, packs_to, asciiLibc]
    simp only [scan_init]
    rw [this]
    simp [FrequencyData.zero, bigram_count, bigram_chain_lookup]

/-! ## The sliding-window loop -/

theorem window_body_none (E : Libc) (buf : List Nat) (i : Nat) (st : DriverState)
    (h : buf.length - i < 100) : window_body E buf i st = none := by
  unfold window_body
  simp only [WINDOW_SIZE, STEP_SIZE, OVERLAP_SIZE, MIN_WINDOW_SIZE]
  have h3 : (if i + 500 ≤ buf.length then 500 else buf.length - i) < 100 := by
    split_ifs <;> omega
  rw [if_pos h3]

theorem window_body_some (E : Libc) (buf : List Nat) (i : Nat) (st : DriverState)
    (h : 100 ≤ buf.length - i) :
    ∃ (st1 : DriverState) (rep : WindowReport),
      window_body E buf i st = some st1 ∧ st1.log = st.log ++ [rep] ∧
        rep.geometry = (i, min 500 (buf.length - i), 100) := by
  unfold window_body
  simp only [WINDOW_SIZE, STEP_SIZE, OVERLAP_SIZE, MIN_WINDOW_SIZE]
  have h2 : i + (500 - 400) ≤ buf.length := by omega
  have h3 : ¬ min 500 (buf.length - i) < 100 := by omega
  have h4 : (if i + 500 ≤ buf.length then 500 else buf.length - i) =
      min 500 (buf.length - i) := by
    split_ifs <;> omega
  rw [h4, if_neg h3, if_pos h2, if_neg (by norm_num)]
  split_ifs <;> exact ⟨_, _, rfl, rfl, rfl⟩

theorem window_loop_stop (E : Libc) (buf : List Nat) (i : Nat) (st : DriverState)
    (h : buf.length - i < 100) : window_loop E buf i st = st := by
  rw [window_loop, window_body_none E buf i st h]
  split_ifs <;> rfl

theorem window_loop_step (E : Libc) (buf : List Nat) (i : Nat) (st : DriverState)
    (h : 100 ≤ buf.length - i) :
    ∃ (st1 : DriverState) (rep : WindowReport),
      window_loop E buf i st = window_loop E buf (i + 100) st1 ∧
      st1.log = st.log ++ [rep] ∧
        rep.geometry = (i, min 500 (buf.length - i), 100) := by
  obtain ⟨st1, rep, hb, hlog, hgeo⟩ := window_body_some E buf i st h
  refine ⟨st1, rep, ?_, hlog, hgeo⟩
  rw [window_loop, hb, if_pos (by omega)]
  rfl

/-- The geometry of the windows processed from cursor `i` on. -/
theorem window_loop_geometry (E : Libc) (buf : List Nat) (n : Nat) :
    ∀ (i : Nat) (st : DriverState), buf.length - i ≤ n →
      (window_loop E buf i st).log.map WindowReport.geometry =
        st.log.map WindowReport.geometry ++
          (List.range ((buf.length - i) / 100)).map
            (fun k => (i + 100 * k, min 500 (buf.length - (i + 100 * k)), 100)) := by
  induction n with
  | zero =>
    intro i st h
    rw [window_loop_stop E buf i st (by omega)]
    have : (buf.length - i) / 100 = 0 := by omega
    simp [this]
  | succ n ih =>
    intro i st h
    by_cases hlt : buf.length - i < 100
    · rw [window_loop_stop E buf i st hlt]
      have : (buf.length - i) / 100 = 0 := by omega
      simp [this]
    · obtain ⟨st1, rep, hstep, hlog, hgeo⟩ := window_loop_step E buf i st (by omega)
      rw [hstep, ih (i + 100) st1 (by omega), hlog]
      have hq : (buf.length - i) / 100 = (buf.length - (i + 100)) / 100 + 1 := by omega
      rw [hq, List.range_succ_eq_map, List.map_cons, List.map_map, List.map_append,
        List.map_singleton, hgeo, List.append_assoc, List.singleton_append]
      simp only [Nat.mul_zero, Nat.add_zero]
      congr 2
      apply List.map_congr_left
      intro k _
      simp only [Function.comp, Nat.succ_eq_add_one]
      rw [show i + 100 + 100 * k = i + 100 * (k + 1) by ring]

theorem window_loop_geometry_init (E : Libc) (buf : List Nat) (heap : Nat) :
    (window_loop E buf 0 (driver_init heap)).log.map WindowReport.geometry =
      (List.range (buf.length / 100)).map
        (fun k => (100 * k, min 500 (buf.length - 100 * k), 100)) := by
  have h := window_loop_geometry E buf buf.length 0 (driver_init heap) (by omega)
  simpa [driver_init] using h

/-- C4: for every input of length `N` (in particular every `N >= 100`, the lengths `main`
lets through), the sum of the attribution lengths (`count_to_add`) over all windows the
driver loop processes equals `N - (N mod 100)`, and the unattributed tail `N mod 100` is
shorter than `MIN_WINDOW_SIZE`. -/
theorem C4_attribution_sum (E : Libc) (file_buffer : List Nat) (heap : Nat) :
    (((window_loop E file_buffer 0 (driver_init heap)).log.map
        (fun r => r.count_to_add)).sum =
      file_buffer.length - file_buffer.length % 100) ∧
    file_buffer.length % 100 < MIN_WINDOW_SIZE := by
  have hg := window_loop_geometry_init E file_buffer heap
  have hmap : (window_loop E file_buffer 0 (driver_init heap)).log.map
      (fun r => r.count_to_add) =
      ((window_loop E file_buffer 0 (driver_init heap)).log.map WindowReport.geometry).map
        (fun g => g.2.2) := by
    rw [List.map_map]; rfl
  refine ⟨?_, ?_⟩
  · rw [hmap, hg, List.map_map]
    have hconst : ((fun g : Nat × Nat × Nat => g.2.2) ∘
        fun k => (100 * k, min 500 (file_buffer.length - 100 * k), 100)) =
        fun _ => 100 := rfl
    rw [hconst, List.map_const', List.sum_replicate, List.length_range, smul_eq_mul]
    omega
  · unfold MIN_WINDOW_SIZE
    omega

/-- C10: for every input of length `N >= 100`, the window starts processed by the driver
loop are exactly `0, 100, ..., 100 * (N / 100 - 1)` (the multiples `100 * k` with
`k < N / 100`, the last one being `100 * (N / 100 - 1)`), each processed window has length
`min(500, N - start)`, which is at least 100, so no start whose window would be shorter
than `MIN_WINDOW_SIZE` is processed; for `N = 1000` the starts are exactly
`0, 100, ..., 900` and the window lengths `500` six times, then `400, 300, 200, 100`, so the
window at 900 has length 100. -/
theorem C10_window_starts (E : Libc) (file_buffer : List Nat) (heap : Nat)
    (hN : 100 ≤ file_buffer.length) :
    ((window_loop E file_buffer 0 (driver_init heap)).log.map (fun r => r.start) =
      (List.range (file_buffer.length / 100)).map (fun k => 100 * k)) ∧
    (((window_loop E file_buffer 0 (driver_init heap)).log.map (fun r => r.start)).getLast? =
      some (100 * (file_buffer.length / 100 - 1))) ∧
    (∀ r ∈ (window_loop E file_buffer 0 (driver_init heap)).log,
      r.window_size = min 500 (file_buffer.length - r.start) ∧ 100 ≤ r.window_size ∧
        ¬ file_buffer.length - r.start < MIN_WINDOW_SIZE) ∧
    (file_buffer.length = 1000 →
      (window_loop E file_buffer 0 (driver_init heap)).log.map
          (fun r => (r.start, r.window_size)) =
        [(0, 500), (100, 500), (200, 500), (300, 500), (400, 500), (500, 500), (600, 400),
         (700, 300), (800, 200), (900, 100)]) := by
  have hg := window_loop_geometry_init E file_buffer heap
  have hstarts : (window_loop E file_buffer 0 (driver_init heap)).log.map
      (fun r => r.start) =
      (List.range (file_buffer.length / 100)).map (fun k => 100 * k) := by
    have hmap : (window_loop E file_buffer 0 (driver_init heap)).log.map (fun r => r.start) =
        ((window_loop E file_buffer 0 (driver_init heap)).log.map WindowReport.geometry).map
          (fun g => g.1) := by
      rw [List.map_map]; rfl
    rw [hmap, hg, List.map_map]
    rfl
  refine ⟨hstarts, ?_, ?_, ?_⟩
  · obtain ⟨m, hm⟩ : ∃ m, file_buffer.length / 100 = m + 1 :=
      ⟨file_buffer.length / 100 - 1, by omega⟩
    rw [hstarts, hm, List.range_succ, List.map_append, List.map_singleton,
      List.getLast?_append, List.getLast?_singleton]
    simp
  · intro r hr
    have hmem : r.geometry ∈
        (window_loop E file_buffer 0 (driver_init heap)).log.map WindowReport.geometry :=
      List.mem_map_of_mem _ hr
    rw [hg, List.mem_map] at hmem
    obtain ⟨k, hk, hkeq⟩ := hmem
    rw [List.mem_range] at hk
    simp only [WindowReport.geometry, Prod.mk.injEq] at hkeq
    obtain ⟨h1, h2, -⟩ := hkeq
    rw [← h1, ← h2]
    have : 100 * k + 100 ≤ file_buffer.length := by
      have := Nat.div_mul_le_self file_buffer.length 100
      nlinarith
    refine ⟨rfl, by omega, ?_⟩
    unfold MIN_WINDOW_SIZE
    omega
  · intro h1000
    have hmap : (window_loop E file_buffer 0 (driver_init heap)).log.map
        (fun r => (r.start, r.window_size)) =
        ((window_loop E file_buffer 0 (driver_init heap)).log.map WindowReport.geometry).map
          (fun g => (g.1, g.2.1)) := by
      rw [List.map_map]; rfl
    rw [hmap, hg, h1000]
    rfl

/-- Witness of C10: an input of 1000 letters `a`. -/
theorem C10_witness :
    100 ≤ (List.replicate 1000 0x61).length ∧
    (window_loop asciiLibc (List.replicate 1000 0x61) 0 (driver_init 0)).log.map
      (fun r => (r.start, r.window_size)) =
        [(0, 500), (100, 500), (200, 500), (300, 500), (400, 500), (500, 500), (600, 400),
         (700, 300), (800, 200), (900, 100)] :=
  ⟨by rw [List.length_replicate]; omega,
   (C10_window_starts asciiLibc (List.replicate 1000 0x61) 0
     (by rw [List.length_replicate]; omega)).2.2.2 (List.length_replicate 1000 0x61)⟩

/-! ## The run of `main` -/

theorem window_body_tally (E : Libc) (buf : List Nat) (i : Nat) (st st1 : DriverState)
    (h : window_body E buf i st = some st1) :
    100 ≤ buf.length - i ∧
    ((st1.eng_chars_from_segments = st.eng_chars_from_segments + 100 ∧
        st1.fre_chars_from_segments = st.fre_chars_from_segments) ∨
      (st1.eng_chars_from_segments = st.eng_chars_from_segments ∧
        st1.fre_chars_from_segments = st.fre_chars_from_segments + 100) ∨
      (st1.eng_chars_from_segments = st.eng_chars_from_segments ∧
        st1.fre_chars_from_segments = st.fre_chars_from_segments)) := by
  by_cases hlt : buf.length - i < 100
  · rw [window_body_none E buf i st hlt] at h
    exact absurd h (by simp)
  · refine ⟨by omega, ?_⟩
    unfold window_body at h
    simp only [WINDOW_SIZE, STEP_SIZE, OVERLAP_SIZE, MIN_WINDOW_SIZE] at h
    have h2 : i + (500 - 400) ≤ buf.length := by omega
    have h3 : ¬ min 500 (buf.length - i) < 100 := by omega
    have h4 : (if i + 500 ≤ buf.length then 500 else buf.length - i) =
        min 500 (buf.length - i) := by
      split_ifs <;> omega
    rw [h4, if_neg h3, if_pos h2, if_neg (by norm_num)] at h
    split_ifs at h <;> (cases h; simp)

theorem driver_reach_bound (E : Libc) (buf : List Nat) (heap : Nat) (i : Nat)
    (st : DriverState) (h : DriverReach E buf heap i st) :
    st.eng_chars_from_segments + st.fre_chars_from_segments ≤ i ∧ i ≤ buf.length := by
  induction h with
  | entry => simp [driver_init]
  | iterate _ _ hb ih =>
    obtain ⟨h100, ht⟩ := window_body_tally E buf _ _ _ hb
    simp only [STEP_SIZE, WINDOW_SIZE, OVERLAP_SIZE]
    omega

theorem driver_reach_window_loop (E : Libc) (buf : List Nat) (heap : Nat) (n : Nat) :
    ∀ (i : Nat) (st : DriverState), buf.length - i ≤ n → DriverReach E buf heap i st →
      ∃ j, DriverReach E buf heap j (window_loop E buf i st) := by
  induction n with
  | zero =>
    intro i st h hr
    rw [window_loop_stop E buf i st (by omega)]
    exact ⟨i, hr⟩
  | succ n ih =>
    intro i st h hr
    by_cases hlt : buf.length - i < 100
    · rw [window_loop_stop E buf i st hlt]
      exact ⟨i, hr⟩
    · obtain ⟨st1, rep, hb, -, -⟩ := window_body_some E buf i st (by omega)
      have hstep : window_loop E buf i st = window_loop E buf (i + 100) st1 := by
        rw [window_loop, hb, if_pos (by omega)]
        rfl
      rw [hstep]
      exact ih (i + 100) st1 (by omega) (DriverReach.iterate hr (by omega) hb)

theorem main_some_of_ge (E : Libc) (buf : List Nat) (heap : Nat)
    (h : 100 ≤ buf.length) :
    main E (some buf) heap =
      { exit_status := EXIT_SUCCESS
        eng_chars_from_segments :=
          (window_loop E buf 0 (driver_init heap)).eng_chars_from_segments
        fre_chars_from_segments :=
          (window_loop E buf 0 (driver_init heap)).fre_chars_from_segments
        log := (window_loop E buf 0 (driver_init heap)).log
        final_analysis_data := some (extract_frequencies_from_buffer E buf
          (window_loop E buf 0 (driver_init heap)).heap).1
        final_report := some (perform_final_analysis
          (extract_frequencies_from_buffer E buf
            (window_loop E buf 0 (driver_init heap)).heap).1
          (window_loop E buf 0 (driver_init heap)).eng_chars_from_segments
          (window_loop E buf 0 (driver_init heap)).fre_chars_from_segments)
        heap := (extract_frequencies_from_buffer E buf
          (window_loop E buf 0 (driver_init heap)).heap).2 } := by
  unfold main
  simp only [MIN_WINDOW_SIZE]
  rw [if_neg (by omega)]
  rfl

theorem main_some_of_lt (E : Libc) (buf : List Nat) (heap : Nat)
    (h : buf.length < 100) :
    main E (some buf) heap = main E none heap := by
  unfold main
  simp only [MIN_WINDOW_SIZE]
  rw [if_pos h]

/-- C11: for every input (of any length `N`, in particular `N >= 100`), in every state the
window loop of the driver reaches, and in the result of the run, the two tallies satisfy
`eng_chars_from_segments + fre_chars_from_segments <= N`. -/
theorem C11_tallies_bounded (E : Libc) (file_buffer : List Nat) (heap : Nat) :
    (∀ (i : Nat) (st : DriverState), DriverReach E file_buffer heap i st →
      st.eng_chars_from_segments + st.fre_chars_from_segments ≤ file_buffer.length) ∧
    (main E (some file_buffer) heap).eng_chars_from_segments +
      (main E (some file_buffer) heap).fre_chars_from_segments ≤ file_buffer.length := by
  have hall : ∀ (i : Nat) (st : DriverState), DriverReach E file_buffer heap i st →
      st.eng_chars_from_segments + st.fre_chars_from_segments ≤ file_buffer.length := by
    intro i st hr
    have := driver_reach_bound E file_buffer heap i st hr
    omega
  refine ⟨hall, ?_⟩
  by_cases h : file_buffer.length < 100
  · rw [main_some_of_lt E file_buffer heap h]
    simp [main]
  · rw [main_some_of_ge E file_buffer heap (by omega)]
    obtain ⟨j, hj⟩ := driver_reach_window_loop E file_buffer heap file_buffer.length 0
      (driver_init heap) (by omega) DriverReach.entry
    exact hall j _ hj

/-- C15: when `read_file_to_buffer` yields no buffer or one of length `N < 100`, the run
returns `EXIT_FAILURE` with no window processed, no whole-document extraction, no final
report, both tallies 0 and no allocation requested; when it yields a buffer with
`N >= 100`, the run processes `N / 100 >= 1` windows, performs the final analysis and
returns `EXIT_SUCCESS`. -/
theorem C15_input_too_short (E : Libc) (file : Option (List Nat)) (heap : Nat) :
    ((file = none ∨ ∃ buf, file = some buf ∧ buf.length < MIN_WINDOW_SIZE) →
      (main E file heap).exit_status = EXIT_FAILURE ∧
      (main E file heap).log = [] ∧
      (main E file heap).final_analysis_data.isNone = true ∧
      (main E file heap).final_report.isNone = true ∧
      (main E file heap).eng_chars_from_segments = 0 ∧
      (main E file heap).fre_chars_from_segments = 0 ∧
      (main E file heap).heap = heap) ∧
    (∀ buf, file = some buf → MIN_WINDOW_SIZE ≤ buf.length →
      (main E file heap).exit_status = EXIT_SUCCESS ∧
      (main E file heap).log.length = buf.length / 100 ∧
      1 ≤ (main E file heap).log.length ∧
      (main E file heap).final_analysis_data.isSome = true ∧
      (main E file heap).final_report.isSome = true) := by
  refine ⟨?_, ?_⟩
  · rintro (h | ⟨buf, h, hlt⟩)
    · subst h
      simp [main]
    · subst h
      rw [main_some_of_lt E buf heap (by simpa [MIN_WINDOW_SIZE] using hlt)]
      simp [main]
  · intro buf h hge
    subst h
    have hge1 : 100 ≤ buf.length := by simpa [MIN_WINDOW_SIZE] using hge
    rw [main_some_of_ge E buf heap hge1]
    have hlen : (window_loop E buf 0 (driver_init heap)).log.length = buf.length / 100 := by
      have := congrArg List.length (window_loop_geometry_init E buf heap)
      simpa using this
    refine ⟨rfl, hlen, ?_, rfl, rfl⟩
    show 1 ≤ (window_loop E buf 0 (driver_init heap)).log.length
    rw [hlen]
    omega

theorem letter_observed_freq (E : Libc) (wc : Nat) (d : FrequencyData) (k : Nat) :
    (process_letter_frequency E wc d).observed_freq k =
      d.observed_freq k + if bin_hit E k wc then 1 else 0 := by
  unfold process_letter_frequency bin_hit
  dsimp only
  by_cases ha : E.iswalpha wc = true
  · rw [if_pos ha, ha, Bool.true_and]
    rcases map_letter_to_index_range E wc with h1 | ⟨h1, h2⟩
    · have hk2 : ¬ map_letter_to_index E wc = (k : Int) := by omega
      rw [if_neg (by simpa using h1)]
      simp only [beq_iff_eq, hk2, if_false, add_zero]
    · have hne : map_letter_to_index E wc ≠ -1 := by omega
      rw [if_pos hne]
      simp only [store, beq_iff_eq]
      by_cases hk : k = (map_letter_to_index E wc).toNat
      · have hk2 : map_letter_to_index E wc = (k : Int) := by omega
        rw [if_pos hk, if_pos hk2, ← hk]
      · have hk2 : ¬ map_letter_to_index E wc = (k : Int) := by omega
        rw [if_neg hk, if_neg hk2, add_zero]
  · rw [if_neg ha]
    simp only [Bool.not_eq_true] at ha
    simp [ha]

theorem scan_loop_observed_freq (E : Libc) (l : List Nat) (i : Nat) (st : ScanState)
    (k : Nat) :
    (scan_loop E l i st).data.observed_freq k =
      st.data.observed_freq k + (l.countP (bin_hit E k) : ℕ) := by
  induction l generalizing i st with
  | nil => simp [scan_loop]
  | cons c cs ih =>
    rw [scan_loop, ih, scan_step_observed_freq, letter_observed_freq, List.countP_cons]
    push_cast
    split_ifs <;> ring

theorem extract_observed_freq_count (E : Libc) (span : List Nat) (heap : Nat) (k : Nat) :
    (extract_frequencies_from_buffer E span heap).1.observed_freq k =
      (span.countP (bin_hit E k) : ℕ) := by
  rw [extract_observed_freq, scan_loop_observed_freq]
  simp [scan_init, FrequencyData.zero]

theorem pair_count_eq_zero (t : Nat → Nat → Bool) (l : List Nat)
    (h : ∀ c ∈ l, ∀ q, t q c = false) (p : Nat) : pair_count t p l = 0 := by
  induction l generalizing p with
  | nil => rfl
  | cons c cs ih =>
    rw [pair_count, h c (List.mem_cons_self _ _) p,
      ih (fun x hx => h x (List.mem_cons_of_mem _ hx))]
    rfl

/-- A span without alphabetic code point, scanned with an allocator that never fails,
yields no letter, an all-zero histogram, no bigram and an empty bigram map. -/
theorem extract_no_alpha (E : Libc) (hE : AllocOk E) (span : List Nat) (heap : Nat)
    (h : ∀ c ∈ span, E.iswalpha c = false) :
    (extract_frequencies_from_buffer E span heap).1.total_letters = 0 ∧
    (∀ k, (extract_frequencies_from_buffer E span heap).1.observed_freq k = 0) ∧
    (extract_frequencies_from_buffer E span heap).1.bigram_map.total_bigrams = 0 ∧
    (∀ k, bigram_count (extract_frequencies_from_buffer E span heap).1.bigram_map k = 0) := by
  refine ⟨?_, fun k => ?_, ?_, fun k => ?_⟩
  · rw [extract_total_letters_count]
    have : span.countP (counted_letter E) = 0 := by
      rw [List.countP_eq_zero]
      intro c hc
      simp [counted_letter, h c hc]
    rw [this]; rfl
  · rw [extract_observed_freq_count]
    have : span.countP (bin_hit E k) = 0 := by
      rw [List.countP_eq_zero]
      intro c hc
      simp [bin_hit, h c hc]
    rw [this]; rfl
  · rw [extract_total_bigrams E hE,
      pair_count_eq_zero _ span (fun c hc q => by simp [both_alpha, h c hc])]
    rfl
  · rw [extract_bigram_map,
      (scan_loop_bigram E hE span 0 (scan_init heap) (fun _ => E.iswalpha_nul)).2,
      pair_count_eq_zero _ span (fun c hc q => by simp [packs_to, h c hc])]
    simp [scan_init, FrequencyData.zero, bigram_count, bigram_chain_lookup]

/-- Scores of a `FrequencyData` without letters and without bigrams: both monograph sums
are 0 and both bigram scores are the sentinel. -/
theorem scores_of_empty (d : FrequencyData) (h1 : d.total_letters = 0)
    (h2 : ∀ k, d.observed_freq k = 0) (h3 : d.bigram_map.total_bigrams = 0) :
    chi1_final d = 99999 ∧ chi2_final d = 99999 := by
  rw [chi1_final_eq, chi2_final_eq]
  unfold spec_combined spec_mono_sum spec_bigram_score
  simp [h1, h2, h3]

theorem window_body_skip (E : Libc) (buf : List Nat) (i : Nat) (st : DriverState)
    (h : 100 ≤ buf.length - i)
    (herr : (extract_frequencies_from_buffer E
      ((buf.drop i).take (min 500 (buf.length - i))) st.heap).1.error_code ≠ 0) :
    ∃ (st1 : DriverState) (rep : WindowReport),
      window_body E buf i st = some st1 ∧
      st1.eng_chars_from_segments = st.eng_chars_from_segments ∧
      st1.fre_chars_from_segments = st.fre_chars_from_segments ∧
      st1.log = st.log ++ [rep] ∧ rep.lang_id = none ∧ rep.error_code ≠ 0 := by
  unfold window_body
  simp only [WINDOW_SIZE, STEP_SIZE, OVERLAP_SIZE, MIN_WINDOW_SIZE]
  have h2 : i + (500 - 400) ≤ buf.length := by omega
  have h3 : ¬ min 500 (buf.length - i) < 100 := by omega
  have h4 : (if i + 500 ≤ buf.length then 500 else buf.length - i) =
      min 500 (buf.length - i) := by
    split_ifs <;> omega
  rw [h4, if_neg h3, if_pos h2, if_neg (by norm_num), if_neg herr]
  exact ⟨_, _, rfl, rfl, rfl, rfl, rfl, herr⟩

theorem extract_error_of_no_alpha (E : Libc) (hE : AllocOk E) (span : List Nat) (heap : Nat)
    (h : ∀ c ∈ span, E.iswalpha c = false) :
    (extract_frequencies_from_buffer E span heap).1.error_code = 1 := by
  rw [extract_error_code, (extract_no_alpha E hE span heap h).1]
  norm_num

/-- C12 (behaviour of the code on a document without letters): on an input of 100 digits
`1` the only window is skipped (no verdict, both tallies stay 0), but the whole-document
span, which has 0 counted letters and `error_code = 1`, is still scored by
`perform_final_analysis`: both combined scores are 99999 and FRENCH is announced as the
dominant language. -/
theorem C12_final_analysis_without_letters :
    (main asciiLibc (some (List.replicate 100 0x31)) 0).eng_chars_from_segments = 0 ∧
    (main asciiLibc (some (List.replicate 100 0x31)) 0).fre_chars_from_segments = 0 ∧
    (main asciiLibc (some (List.replicate 100 0x31)) 0).log.map (fun r => r.lang_id) =
      [none] ∧
    ∃ (d : FrequencyData) (rep : FinalReport),
      (main asciiLibc (some (List.replicate 100 0x31)) 0).final_analysis_data = some d ∧
      (main asciiLibc (some (List.replicate 100 0x31)) 0).final_report = some rep ∧
      d.total_letters = 0 ∧ d.error_code = 1 ∧
      rep.chi1_final = 99999 ∧ rep.chi2_final = 99999 ∧ rep.dominant = LANG_FRE := by
  have hE : AllocOk asciiLibc := fun _ => rfl
  have hlen : (List.replicate 100 0x31).length = 100 := List.length_replicate _ _
  have hna : ∀ c ∈ List.replicate 100 0x31, asciiLibc.iswalpha c = false := by
    intro c hc
    rw [List.eq_of_mem_replicate hc]
    rfl
  have hwin : ∀ c ∈ ((List.replicate 100 0x31).drop 0).take
      (min 500 ((List.replicate 100 0x31).length - 0)), asciiLibc.iswalpha c = false := by
    intro c hc
    exact hna c (List.mem_of_mem_drop (List.mem_of_mem_take hc))
  obtain ⟨st1, rep, hb, he, hf, hlog, hlang, -⟩ :=
    window_body_skip asciiLibc (List.replicate 100 0x31) 0 (driver_init 0)
      (by rw [hlen]) (by rw [extract_error_of_no_alpha asciiLibc hE _ _ hwin]; decide)
  have hloop : window_loop asciiLibc (List.replicate 100 0x31) 0 (driver_init 0) = st1 := by
    rw [window_loop, hb, if_pos (by rw [hlen]; omega)]
    exact window_loop_stop asciiLibc _ _ st1 (by rw [hlen]; decide)
  rw [main_some_of_ge asciiLibc _ 0 (by rw [hlen]), hloop]
  obtain ⟨h1, h2, h3, -⟩ := extract_no_alpha asciiLibc hE (List.replicate 100 0x31)
    st1.heap hna
  obtain ⟨hs1, hs2⟩ := scores_of_empty _ h1 h2 h3
  refine ⟨by rw [he]; rfl, by rw [hf]; rfl, by rw [hlog]; simp [driver_init, hlang], _, _,
    rfl, rfl, h1, extract_error_of_no_alpha asciiLibc hE _ _ hna, hs1, hs2, ?_⟩
  show (if chi1_final _ < chi2_final _ then LANG_ENG else LANG_FRE) = LANG_FRE
  rw [hs1, hs2, if_neg (lt_irrefl _)]

/-! ## The sentinel, the lookup and the reference tables -/

theorem bigram_chain_lookup_eq_find (key : Nat) (chain : List BigramNode) :
    bigram_chain_lookup key chain =
      match chain.find? (fun n => n.key == key) with
      | some n => n.count
      | none => 0 := by
  induction chain with
  | nil => rfl
  | cons n rest ih =>
    unfold bigram_chain_lookup
    by_cases h : n.key = key
    · simp [h]
    · simp [h, ih]

/-- C16: for every bigram map and every reference entry, the observed count that
`calculate_bigram_chi` uses in its chi-squared term is the count of the first node of the
key's bucket chain that holds the key, and 0 when no node of that chain holds it (empty
bucket or only other keys); the lookup is a total function. -/
theorem C16_lookup_defaults_to_zero (map : BigramMap) (r : BigramRef) (total chi : ℚ) :
    (∃ observed : ℚ,
      bigram_chi_step map total chi r =
        chi + (observed - r.freq / 100 * total) * (observed - r.freq / 100 * total) /
          (r.freq / 100 * total + EPS) ∧
      observed = bigram_count map r.key ∧
      observed =
        match (map.table (hash_key r.key)).find? (fun n => n.key == r.key) with
        | some n => n.count
        | none => 0) ∧
    ((∀ n ∈ map.table (hash_key r.key), n.key ≠ r.key) → bigram_count map r.key = 0) ∧
    (map.table (hash_key r.key) = [] → bigram_count map r.key = 0) ∧
    (∀ n ∈ map.table (hash_key r.key), n.key = r.key →
      (∀ m ∈ map.table (hash_key r.key), m.key = r.key → m = n) →
      bigram_count map r.key = n.count) := by
  have hfind := bigram_chain_lookup_eq_find r.key (map.table (hash_key r.key))
  refine ⟨⟨bigram_count map r.key, rfl, rfl, hfind⟩, ?_, ?_, ?_⟩
  · intro hno
    unfold bigram_count
    rw [hfind]
    have : (map.table (hash_key r.key)).find? (fun n => n.key == r.key) = none := by
      rw [List.find?_eq_none]
      intro n hn
      simpa using hno n hn
    rw [this]
  · intro hnil
    unfold bigram_count
    rw [hnil]
    rfl
  · intro n hn hkey huniq
    unfold bigram_count
    rw [hfind]
    cases hf : (map.table (hash_key r.key)).find? (fun n => n.key == r.key) with
    | none =>
      rw [List.find?_eq_none] at hf
      exact absurd hkey (by simpa using hf n hn)
    | some m =>
      have hm1 : m ∈ map.table (hash_key r.key) := List.mem_of_find?_eq_some hf
      have hm2 : m.key = r.key := by simpa using List.find?_some hf
      rw [huniq m hm1 hm2]

/-- C18 (what the tables hold): both tables have 20 entries; the English keys are pairwise
distinct, the French keys are not: entries 7 and 12 both hold the key of `on`, so the French
table has only 19 distinct bigrams. -/
theorem C18_french_table_repeats_on :
    ENGLISH_BIGRAM_FREQ.length = 20 ∧ (ENGLISH_BIGRAM_FREQ.map (fun r => r.key)).Nodup ∧
    FRENCH_BIGRAM_FREQ.length = 20 ∧ ¬ (FRENCH_BIGRAM_FREQ.map (fun r => r.key)).Nodup ∧
    (FRENCH_BIGRAM_FREQ.map (fun r => r.key)).getD 7 0 = MAKE_BIGRAM_KEY 'o' 'n' ∧
    (FRENCH_BIGRAM_FREQ.map (fun r => r.key)).getD 12 0 = MAKE_BIGRAM_KEY 'o' 'n' ∧
    (FRENCH_BIGRAM_FREQ.map (fun r => r.key)).dedup.length = 19 := by
  refine ⟨rfl, by decide, rfl, by decide, by decide, by decide, by decide⟩

/-! ## The bin of a letter -/

theorem accented_loop_spec (lower : Nat) (l : List Nat) (i : Nat) :
    (lower ∉ l → accented_loop lower l i = -1) ∧
    (∀ j, j < l.length → l.getD j 0 = lower → (∀ j1, j1 < j → l.getD j1 0 ≠ lower) →
      accented_loop lower l i = 26 + (i : Int) + j) := by
  induction l generalizing i with
  | nil => exact ⟨fun _ => rfl, fun j hj => absurd hj (by simp)⟩
  | cons c cs ih =>
    refine ⟨?_, ?_⟩
    · intro hmem
      rw [List.mem_cons, not_or] at hmem
      unfold accented_loop
      rw [if_neg hmem.1]
      exact (ih (i + 1)).1 hmem.2
    · intro j hj hget hfirst
      unfold accented_loop
      cases j with
      | zero =>
        have : c = lower := by simpa using hget
        rw [if_pos this.symm]
        simp
      | succ k =>
        have hc : ¬ lower = c := by
          have := hfirst 0 (by omega)
          simpa [eq_comm] using this
        rw [if_neg hc]
        have hk := (ih (i + 1)).2 k (by simpa using hj) (by simpa using hget)
          (fun j1 hj1 => by simpa using hfirst (j1 + 1) (by omega))
        rw [hk]
        push_cast
        ring

theorem accented_chars_nodup : ACCENTED_CHARS.Nodup := by decide

theorem accented_chars_not_ascii : ∀ c ∈ ACCENTED_CHARS, ¬ (0x61 ≤ c ∧ c ≤ 0x7A) := by decide

theorem map_letter_to_index_accented (E : Libc) (wc : Nat) (j : Nat) (hj : j < 14)
    (h : E.towlower wc = ACCENTED_CHARS.getD j 0) :
    map_letter_to_index E wc = 26 + (j : Int) := by
  have hlen : ACCENTED_CHARS.length = 14 := rfl
  have hmem : ACCENTED_CHARS.getD j 0 ∈ ACCENTED_CHARS :=
    getD_mem_of_lt ACCENTED_CHARS j (by rw [hlen]; exact hj)
  unfold map_letter_to_index
  dsimp only
  rw [if_neg (by rw [h]; exact accented_chars_not_ascii _ hmem)]
  have hfirst : ∀ j1, j1 < j → ACCENTED_CHARS.getD j1 0 ≠ E.towlower wc := by
    intro j1 hj1 heq
    rw [h] at heq
    have h1 : j1 < ACCENTED_CHARS.length := by rw [hlen]; omega
    have h2 : j < ACCENTED_CHARS.length := by rw [hlen]; exact hj
    rw [List.getD_eq_getElem _ 0 h1, List.getD_eq_getElem _ 0 h2] at heq
    have := (List.Nodup.getElem_inj_iff accented_chars_nodup).mp heq
    omega
  have := (accented_loop_spec (E.towlower wc) ACCENTED_CHARS 0).2 j (by rw [hlen]; exact hj)
    h.symm hfirst
  rw [this]
  simp

theorem map_letter_to_index_letter (E : Libc) (wc : Nat)
    (h : map_letter_to_index E wc ≠ -1) :
    E.towlower wc = bin_letter (map_letter_to_index E wc).toNat := by
  by_cases hr : 0x61 ≤ E.towlower wc ∧ E.towlower wc ≤ 0x7A
  · have : map_letter_to_index E wc = ((E.towlower wc - 0x61 : Nat) : Int) := by
      unfold map_letter_to_index
      dsimp only
      rw [if_pos hr]
    rw [this, Int.toNat_ofNat]
    unfold bin_letter
    rw [if_pos (by omega)]
    omega
  · by_cases hmem : E.towlower wc ∈ ACCENTED_CHARS
    · obtain ⟨j, hj, hget⟩ := List.getElem_of_mem hmem
      have hlen : ACCENTED_CHARS.length = 14 := rfl
      have hget2 : E.towlower wc = ACCENTED_CHARS.getD j 0 := by
        rw [List.getD_eq_getElem _ 0 hj, hget]
      rw [map_letter_to_index_accented E wc j (by omega) hget2]
      have : (26 + (j : Int)).toNat = 26 + j := by omega
      rw [this]
      unfold bin_letter
      rw [if_neg (by omega)]
      simpa using hget2
    · exfalso
      apply h
      unfold map_letter_to_index
      dsimp only
      rw [if_neg hr]
      exact (accented_loop_spec (E.towlower wc) ACCENTED_CHARS 0).1 hmem

/-- C19: for every code point `wc` with lower-case form `l`, `map_letter_to_index wc` is
`l - 'a'` when `l` is in `a..z`, `26 + j` when `l` is the `j`-th of the 14 accented
letters, and `-1` otherwise; the result is `-1` or an index in `0..39`; two code points
mapped to the same bin have the same lower-case form (distinct tracked letters get distinct
bins); and `process_letter_frequency` leaves the data unchanged on a code point mapped to
`-1`. -/
theorem C19_map_letter_to_index (E : Libc) (wc : Nat) :
    (0x61 ≤ E.towlower wc ∧ E.towlower wc ≤ 0x7A →
      map_letter_to_index E wc = ((E.towlower wc - 0x61 : Nat) : Int) ∧
      map_letter_to_index E wc < 26) ∧
    (∀ j, j < 14 → E.towlower wc = ACCENTED_CHARS.getD j 0 →
      map_letter_to_index E wc = 26 + (j : Int)) ∧
    (¬ (0x61 ≤ E.towlower wc ∧ E.towlower wc ≤ 0x7A) → E.towlower wc ∉ ACCENTED_CHARS →
      map_letter_to_index E wc = -1) ∧
    (map_letter_to_index E wc = -1 ∨
      (0 ≤ map_letter_to_index E wc ∧ map_letter_to_index E wc < 40)) ∧
    (∀ wc2, map_letter_to_index E wc ≠ -1 →
      map_letter_to_index E wc2 = map_letter_to_index E wc →
      E.towlower wc2 = E.towlower wc) ∧
    (map_letter_to_index E wc = -1 → ∀ d, process_letter_frequency E wc d = d) := by
  refine ⟨?_, fun j hj h => map_letter_to_index_accented E wc j hj h, ?_,
    map_letter_to_index_range E wc, ?_, ?_⟩
  · intro hr
    have : map_letter_to_index E wc = ((E.towlower wc - 0x61 : Nat) : Int) := by
      unfold map_letter_to_index
      dsimp only
      rw [if_pos hr]
    refine ⟨this, ?_⟩
    rw [this]
    omega
  · intro hr hmem
    unfold map_letter_to_index
    dsimp only
    rw [if_neg hr]
    exact (accented_loop_spec (E.towlower wc) ACCENTED_CHARS 0).1 hmem
  · intro wc2 hne heq
    rw [map_letter_to_index_letter E wc hne,
      map_letter_to_index_letter E wc2 (by rw [heq]; exact hne), heq]
  · intro h d
    unfold process_letter_frequency
    dsimp only
    split_ifs with h1 h2
    · exact absurd h h2
    · rfl
    · rfl

/-! ## Denominators and signs of the scores -/

theorem english_freq_nonneg : ∀ x ∈ ENGLISH_FREQ, 0 ≤ x := by
  unfold ENGLISH_FREQ EPS
  simp only [List.forall_mem_cons]
  norm_num

theorem french_freq_nonneg : ∀ x ∈ FRENCH_FREQ, 0 ≤ x := by
  unfold FRENCH_FREQ
  simp only [List.forall_mem_cons]
  norm_num

theorem english_bigram_freq_nonneg : ∀ r ∈ ENGLISH_BIGRAM_FREQ, 0 ≤ r.freq := by
  unfold ENGLISH_BIGRAM_FREQ
  simp only [List.forall_mem_cons]
  norm_num

theorem french_bigram_freq_nonneg : ∀ r ∈ FRENCH_BIGRAM_FREQ, 0 ≤ r.freq := by
  unfold FRENCH_BIGRAM_FREQ
  simp only [List.forall_mem_cons]
  norm_num

theorem getD_nonneg (l : List ℚ) (h : ∀ x ∈ l, 0 ≤ x) (i : Nat) : 0 ≤ l.getD i 0 := by
  by_cases hi : i < l.length
  · rw [List.getD_eq_getElem l 0 hi]
    exact h _ (List.getElem_mem hi)
  · rw [List.getD_eq_default l 0 (by omega)]

theorem spec_mono_sum_nonneg (ref : List ℚ) (href : ∀ x ∈ ref, 0 ≤ x) (data : FrequencyData)
    (h1 : 0 ≤ data.total_letters) : 0 ≤ spec_mono_sum ref data := by
  unfold spec_mono_sum
  apply Finset.sum_nonneg
  intro i _
  have := getD_nonneg ref href i
  exact div_nonneg (sq_nonneg _) (by positivity)

theorem spec_bigram_score_nonneg (refs : List BigramRef) (href : ∀ r ∈ refs, 0 ≤ r.freq)
    (data : FrequencyData) (h2 : 0 ≤ data.bigram_map.total_bigrams) :
    0 ≤ spec_bigram_score refs data := by
  unfold spec_bigram_score spec_bigram_sum
  split_ifs
  · norm_num
  · apply mul_nonneg (by norm_num)
    apply List.sum_nonneg
    intro x hx
    rw [List.mem_map] at hx
    obtain ⟨r, hr, rfl⟩ := hx
    have := href r hr
    exact div_nonneg (sq_nonneg _) (by positivity)

/-- C20: for every `FrequencyData` with `total_letters >= 0` and `total_bigrams >= 0`,
every denominator `expected + EPS` of the monograph terms (40 bins, both languages) and of
the bigram terms (both reference tables) is at least `EPS = 1e-6 > 0`, and the monograph
scores, the bigram scores and the combined scores of both languages are non-negative. -/
theorem C20_denominators_positive (data : FrequencyData) (h1 : 0 ≤ data.total_letters)
    (h2 : 0 ≤ data.bigram_map.total_bigrams) :
    0 < EPS ∧
    (∀ i, i < TOTAL_BINS →
      EPS ≤ ENGLISH_FREQ.getD i 0 * (data.total_letters / 100) + EPS ∧
      EPS ≤ FRENCH_FREQ.getD i 0 * (data.total_letters / 100) + EPS) ∧
    (∀ r ∈ ENGLISH_BIGRAM_FREQ, EPS ≤ r.freq / 100 * data.bigram_map.total_bigrams + EPS) ∧
    (∀ r ∈ FRENCH_BIGRAM_FREQ, EPS ≤ r.freq / 100 * data.bigram_map.total_bigrams + EPS) ∧
    0 ≤ (mono_loop data).1 ∧ 0 ≤ (mono_loop data).2 ∧
    0 ≤ calculate_bigram_chi data.bigram_map ENGLISH_BIGRAM_FREQ ∧
    0 ≤ calculate_bigram_chi data.bigram_map FRENCH_BIGRAM_FREQ ∧
    0 ≤ chi1_final data ∧ 0 ≤ chi2_final data := by
  have hm1 : 0 ≤ (mono_loop data).1 := by
    unfold mono_loop TOTAL_BINS
    rw [mono_foldl]
    exact spec_mono_sum_nonneg ENGLISH_FREQ english_freq_nonneg data h1
  have hm2 : 0 ≤ (mono_loop data).2 := by
    unfold mono_loop TOTAL_BINS
    rw [mono_foldl]
    exact spec_mono_sum_nonneg FRENCH_FREQ french_freq_nonneg data h1
  have hb1 : 0 ≤ calculate_bigram_chi data.bigram_map ENGLISH_BIGRAM_FREQ := by
    rw [calculate_bigram_chi_eq]
    exact spec_bigram_score_nonneg _ english_bigram_freq_nonneg data h2
  have hb2 : 0 ≤ calculate_bigram_chi data.bigram_map FRENCH_BIGRAM_FREQ := by
    rw [calculate_bigram_chi_eq]
    exact spec_bigram_score_nonneg _ french_bigram_freq_nonneg data h2
  refine ⟨by unfold EPS; norm_num, ?_, ?_, ?_, hm1, hm2, hb1, hb2,
    add_nonneg hm1 hb1, add_nonneg hm2 hb2⟩
  · intro i _
    have he := getD_nonneg ENGLISH_FREQ english_freq_nonneg i
    have hf := getD_nonneg FRENCH_FREQ french_freq_nonneg i
    constructor
    · have : 0 ≤ ENGLISH_FREQ.getD i 0 * (data.total_letters / 100) := by positivity
      linarith
    · have : 0 ≤ FRENCH_FREQ.getD i 0 * (data.total_letters / 100) := by positivity
      linarith
  · intro r hr
    have := english_bigram_freq_nonneg r hr
    have : 0 ≤ r.freq / 100 * data.bigram_map.total_bigrams := by positivity
    linarith
  · intro r hr
    have := french_bigram_freq_nonneg r hr
    have : 0 ≤ r.freq / 100 * data.bigram_map.total_bigrams := by positivity
    linarith

/-- Witness of C20: the all-zero `FrequencyData`. -/
theorem C20_witness :
    0 ≤ FrequencyData.zero.total_letters ∧ 0 ≤ FrequencyData.zero.bigram_map.total_bigrams ∧
    0 < EPS ∧ 0 ≤ chi1_final FrequencyData.zero ∧ 0 ≤ chi2_final FrequencyData.zero :=
  ⟨le_refl _, le_refl _,
   (C20_denominators_positive FrequencyData.zero (le_refl _) (le_refl _)).1,
   (C20_denominators_positive FrequencyData.zero (le_refl _) (le_refl _)).2.2.2.2.2.2.2.2.1,
   (C20_denominators_positive FrequencyData.zero (le_refl _) (le_refl _)).2.2.2.2.2.2.2.2.2⟩

/-! ## The bigram map under an arbitrary allocator -/

/-- Effect of `process_bigram_count` with any allocator: either nothing is counted, or the
pair passes the alphabetic test and its key and the total are incremented by one. -/
theorem bigram_step_any (E : Libc) (p c : Nat) (d : FrequencyData) (h : Nat) :
    ∃ b : Bool, (b = true → both_alpha E p c = true) ∧
      (process_bigram_count E p c d h).1.bigram_map.total_bigrams =
        d.bigram_map.total_bigrams + (if b then 1 else 0) ∧
      ∀ k, bigram_count (process_bigram_count E p c d h).1.bigram_map k =
        bigram_count d.bigram_map k +
          (if b && (bigram_key (E.towlower p) (E.towlower c) == k) then 1 else 0) := by
  unfold process_bigram_count both_alpha
  dsimp only
  by_cases hp : E.iswalpha p = true <;> by_cases hc : E.iswalpha c = true
  · simp only [hp, hc, Bool.not_true, Bool.or_self, Bool.false_eq_true, if_false,
      Bool.and_self]
    cases hi : bigram_chain_increment (bigram_key (E.towlower p) (E.towlower c))
        (d.bigram_map.table (hash_key (bigram_key (E.towlower p) (E.towlower c)))) with
    | some chain =>
      refine ⟨true, by simp, by simp, fun k => ?_⟩
      simp only [Bool.true_and, beq_iff_eq]
      exact lookup_store_found _ _ chain hi k
    | none =>
      by_cases hm : E.malloc_ok h = true
      · simp only [hm, if_true]
        refine ⟨true, by simp, by simp, fun k => ?_⟩
        simp only [Bool.true_and, beq_iff_eq]
        exact lookup_store_inserted _ _ hi k
      · simp only [hm, if_false]
        exact ⟨false, by simp, by simp, fun k => by simp⟩
  · exact ⟨false, by simp, by simp [hp, hc], fun k => by simp [hp, hc]⟩
  · exact ⟨false, by simp, by simp [hp, hc], fun k => by simp [hp, hc]⟩
  · exact ⟨false, by simp, by simp [hp, hc], fun k => by simp [hp, hc]⟩

theorem scan_step_bigram_any (E : Libc) (i : Nat) (st : ScanState) (wc : Nat) :
    ∃ b : Bool, (b = true → both_alpha E st.wc_prev wc = true) ∧
      (scan_step E i st wc).data.bigram_map.total_bigrams =
        st.data.bigram_map.total_bigrams + (if b then 1 else 0) ∧
      ∀ k, bigram_count (scan_step E i st wc).data.bigram_map k =
        bigram_count st.data.bigram_map k +
          (if b && (bigram_key (E.towlower st.wc_prev) (E.towlower wc) == k) then 1 else 0) := by
  obtain ⟨d2, hd2, hstep⟩ := scan_step_bigram_map E i st wc
  rw [hstep]
  by_cases hi : i > 0
  · rw [if_pos hi, ← hd2]
    exact bigram_step_any E st.wc_prev wc d2 st.heap
  · rw [if_neg hi]
    exact ⟨false, by simp, by simp, fun k => by simp⟩

theorem bigram_events_congr_head (E : Libc) (p q : Nat)
    (h : E.iswalpha p = false ∧ E.iswalpha q = false ∨ p = q) (l : List Nat) :
    bigram_events E p l = bigram_events E q l := by
  rcases h with ⟨hp, hq⟩ | rfl
  · cases l with
    | nil => rfl
    | cons c cs => simp [bigram_events, both_alpha, hp, hq]
  · rfl

/-- The bigram map after a scan with any allocator: the counted observations form a
sublist of the observations offered, the total is their number and every count is the
number of counted observations of its key. -/
theorem scan_loop_bigram_any (E : Libc) (l : List Nat) (i : Nat) (st : ScanState) :
    ∃ counted : List Nat, counted.Sublist (bigram_events E st.wc_prev l) ∧
      (scan_loop E l i st).data.bigram_map.total_bigrams =
        st.data.bigram_map.total_bigrams + (counted.length : ℕ) ∧
      ∀ k, bigram_count (scan_loop E l i st).data.bigram_map k =
        bigram_count st.data.bigram_map k + (counted.count k : ℕ) := by
  induction l generalizing i st with
  | nil => exact ⟨[], List.Sublist.refl _, by simp [scan_loop], fun k => by simp [scan_loop]⟩
  | cons c cs ih =>
    obtain ⟨b, hb, ht, hk⟩ := scan_step_bigram_any E i st c
    obtain ⟨counted, hsub, ht2, hk2⟩ := ih (i + 1) (scan_step E i st c)
    have hev : bigram_events E (scan_step E i st c).wc_prev cs = bigram_events E c cs := by
      apply bigram_events_congr_head
      rw [scan_step_wc_prev]
      by_cases hc : E.iswalpha c = true
      · right; rw [if_pos hc]
      · left
        rw [if_neg hc]
        exact ⟨E.iswalpha_nul, by simpa using hc⟩
    rw [hev] at hsub
    refine ⟨(if b then [bigram_key (E.towlower st.wc_prev) (E.towlower c)] else []) ++ counted,
      ?_, ?_, fun k => ?_⟩
    · unfold bigram_events
      apply List.Sublist.append _ hsub
      cases b with
      | false => exact List.nil_sublist _
      | true => rw [hb rfl]
    · rw [scan_loop, ht2, ht]
      cases b
      · simp
      · simp only [if_true, List.singleton_append, List.length_cons]
        push_cast
        ring
    · rw [scan_loop, hk2 k, hk k]
      cases b
      · simp
      · by_cases hkey : bigram_key (E.towlower st.wc_prev) (E.towlower c) = k
        · simp [hkey]; ring
        · simp [hkey, List.count_cons_of_ne (Ne.symm hkey)]

theorem extract_bigram_any (E : Libc) (span : List Nat) (heap : Nat) :
    ∃ counted : List Nat, counted.Sublist (bigram_events E 0 span) ∧
      (extract_frequencies_from_buffer E span heap).1.bigram_map.total_bigrams =
        (counted.length : ℕ) ∧
      ∀ k, bigram_count (extract_frequencies_from_buffer E span heap).1.bigram_map k =
        (counted.count k : ℕ) := by
  obtain ⟨counted, hsub, ht, hk⟩ :=
    scan_loop_bigram_any E span 0 (scan_init heap)
  refine ⟨counted, hsub, ?_, fun k => ?_⟩
  · rw [extract_bigram_map, ht]
    simp [scan_init, FrequencyData.zero]
  · rw [extract_bigram_map, hk k]
    simp [scan_init, FrequencyData.zero, bigram_count, bigram_chain_lookup]

theorem bigram_events_ascii (ok : Nat → Bool) (p : Nat) (l : List Nat) :
    bigram_events (asciiLibcWith ok) p l = bigram_events asciiLibc p l := by
  induction l generalizing p with
  | nil => rfl
  | cons c cs ih =>
    simp only [bigram_events, ih]
    rfl

theorem the5_events (ok : Nat → Bool) : bigram_events (asciiLibcWith ok) 0 span_the5 =
    [7602280, 6815845, 7602280, 6815845, 7602280, 6815845, 7602280, 6815845, 7602280,
     6815845] := by
  rw [bigram_events_ascii]
  decide

theorem the5_words (ok : Nat → Bool) : word_starts (asciiLibcWith ok) span_the5 = 5 := rfl

theorem the5_letters (ok : Nat → Bool) :
    span_the5.countP (counted_letter (asciiLibcWith ok)) = 15 := rfl

theorem the5_bin_t (ok : Nat → Bool) :
    span_the5.countP (bin_hit (asciiLibcWith ok) 19) = 5 := rfl

/-! ## The scenario `the the the the the` -/

theorem the5_mono_english (d : FrequencyData) (htl : d.total_letters = 15)
    (hobs : ∀ k, d.observed_freq k = if k = 4 ∨ k = 7 ∨ k = 19 then 5 else 0) :
    spec_mono_sum ENGLISH_FREQ d < 44 := by
  unfold spec_mono_sum
  simp only [Finset.sum_range_succ, Finset.sum_range_zero]
  simp only [htl, hobs]
  simp only [ENGLISH_FREQ, List.getD_cons_succ, List.getD_cons_zero]
  simp only [EPS]
  norm_num

theorem the5_mono_french (d : FrequencyData) (htl : d.total_letters = 15)
    (hobs : ∀ k, d.observed_freq k = if k = 4 ∨ k = 7 ∨ k = 19 then 5 else 0) :
    245 < spec_mono_sum FRENCH_FREQ d := by
  unfold spec_mono_sum
  simp only [Finset.sum_range_succ, Finset.sum_range_zero]
  simp only [htl, hobs]
  simp only [FRENCH_FREQ, List.getD_cons_succ, List.getD_cons_zero]
  norm_num

theorem key_th : MAKE_BIGRAM_KEY 't' 'h' = 7602280 := by decide

theorem key_he : MAKE_BIGRAM_KEY 'h' 'e' = 6815845 := by decide

theorem key_in : MAKE_BIGRAM_KEY 'i' 'n' = 6881390 := by decide

theorem key_er : MAKE_BIGRAM_KEY 'e' 'r' = 6619250 := by decide

theorem key_an : MAKE_BIGRAM_KEY 'a' 'n' = 6357102 := by decide

theorem key_re : MAKE_BIGRAM_KEY 'r' 'e' = 7471205 := by decide

theorem key_on : MAKE_BIGRAM_KEY 'o' 'n' = 7274606 := by decide

theorem key_at : MAKE_BIGRAM_KEY 'a' 't' = 6357108 := by decide

theorem key_nd : MAKE_BIGRAM_KEY 'n' 'd' = 7209060 := by decide

theorem key_ti : MAKE_BIGRAM_KEY 't' 'i' = 7602281 := by decide

theorem key_es : MAKE_BIGRAM_KEY 'e' 's' = 6619251 := by decide

theorem key_of : MAKE_BIGRAM_KEY 'o' 'f' = 7274598 := by decide

theorem key_en : MAKE_BIGRAM_KEY 'e' 'n' = 6619246 := by decide

theorem key_ed : MAKE_BIGRAM_KEY 'e' 'd' = 6619236 := by decide

theorem key_is : MAKE_BIGRAM_KEY 'i' 's' = 6881395 := by decide

theorem key_to : MAKE_BIGRAM_KEY 't' 'o' = 7602287 := by decide

theorem key_ou : MAKE_BIGRAM_KEY 'o' 'u' = 7274613 := by decide

theorem key_al : MAKE_BIGRAM_KEY 'a' 'l' = 6357100 := by decide

theorem key_ce : MAKE_BIGRAM_KEY 'c' 'e' = 6488165 := by decide

theorem key_st : MAKE_BIGRAM_KEY 's' 't' = 7536756 := by decide

theorem english_table_literal : ENGLISH_BIGRAM_FREQ =
    [⟨7602280, 3.49⟩, ⟨6815845, 3.09⟩, ⟨6881390, 2.43⟩, ⟨6619250, 2.10⟩, ⟨6357102, 2.01⟩,
     ⟨7471205, 1.85⟩, ⟨7274606, 1.71⟩, ⟨6357108, 1.49⟩, ⟨7209060, 1.34⟩, ⟨7602281, 1.25⟩,
     ⟨6619251, 1.20⟩, ⟨7274598, 1.18⟩, ⟨6619246, 1.17⟩, ⟨6619236, 1.16⟩, ⟨6881395, 1.13⟩,
     ⟨7602287, 1.09⟩, ⟨7274613, 1.05⟩, ⟨6357100, 1.04⟩, ⟨6488165, 1.03⟩, ⟨7536756, 1.01⟩] := by
  unfold ENGLISH_BIGRAM_FREQ
  rw [key_th, key_he, key_in, key_er, key_an, key_re, key_on, key_at, key_nd,
    key_ti, key_es, key_of, key_en, key_ed, key_is, key_to, key_ou, key_al, key_ce, key_st]

set_option maxHeartbeats 8000000 in
theorem the5_english_bigram_bound (d : FrequencyData) (a b : ℕ) (ha : a ≤ 5) (hb : b ≤ 5)
    (hpos : 0 < a + b) (hT : d.bigram_map.total_bigrams = ((a + b : ℕ) : ℚ))
    (hcount : ∀ k, bigram_count d.bigram_map k =
      if k = 7602280 then (a : ℚ) else if k = 6815845 then (b : ℚ) else 0) :
    spec_bigram_score ENGLISH_BIGRAM_FREQ d ≤ 31 := by
  unfold spec_bigram_score spec_bigram_sum
  rw [english_table_literal]
  simp only [List.map_cons, List.map_nil, List.sum_cons, List.sum_nil]
  simp only [hT, hcount]
  interval_cases a <;> interval_cases b <;> first | omega | norm_num

theorem length_eq_count_add_count (l : List Nat) (u v : Nat) (huv : u ≠ v)
    (h : ∀ x ∈ l, x = u ∨ x = v) : l.length = l.count u + l.count v := by
  induction l with
  | nil => rfl
  | cons x xs ih =>
    have ih2 := ih (fun y hy => h y (List.mem_cons_of_mem _ hy))
    rcases h x (List.mem_cons_self _ _) with rfl | rfl
    · rw [List.length_cons, List.count_cons_self, List.count_cons_of_ne (Ne.symm huv), ih2]
      omega
    · rw [List.length_cons, List.count_cons_self, List.count_cons_of_ne huv, ih2]
      omega

theorem the5_total_words (ok : Nat → Bool) (heap : Nat) :
    (extract_frequencies_from_buffer (asciiLibcWith ok) span_the5 heap).1.total_words = 5 := by
  rw [extract_total_words, scan_loop_total_words]
  have e : is_word_char (asciiLibcWith ok) = is_word_char asciiLibc := rfl
  have : trans_count (is_word_char (asciiLibcWith ok)) (fun p c => c && !p) false span_the5
      = 5 := by
    rw [e]
    decide
  simp only [this, FrequencyData.zero]
  norm_num

theorem the5_observed_freq (ok : Nat → Bool) (heap : Nat) (k : Nat) :
    (extract_frequencies_from_buffer (asciiLibcWith ok) span_the5 heap).1.observed_freq k =
      if k = 4 ∨ k = 7 ∨ k = 19 then 5 else 0 := by
  rw [extract_observed_freq_count]
  by_cases h4 : k = 4
  · subst h4
    have : span_the5.countP (bin_hit (asciiLibcWith ok) 4) = 5 := rfl
    rw [this]; norm_num
  by_cases h7 : k = 7
  · subst h7
    have : span_the5.countP (bin_hit (asciiLibcWith ok) 7) = 5 := rfl
    rw [this]; norm_num
  by_cases h19 : k = 19
  · subst h19
    have : span_the5.countP (bin_hit (asciiLibcWith ok) 19) = 5 := rfl
    rw [this]; norm_num
  have h0 : span_the5.countP (bin_hit (asciiLibcWith ok) k) = 0 := by
    rw [List.countP_eq_zero]
    intro c hc
    have hall : ∀ x ∈ span_the5, x = 0x74 ∨ x = 0x68 ∨ x = 0x65 ∨ x = 0x20 := by decide
    have hc2 := hall c hc
    have e1 : map_letter_to_index (asciiLibcWith ok) 0x74 = 19 := rfl
    have e2 : map_letter_to_index (asciiLibcWith ok) 0x68 = 7 := rfl
    have e3 : map_letter_to_index (asciiLibcWith ok) 0x65 = 4 := rfl
    have e4 : (asciiLibcWith ok).iswalpha 0x20 = false := rfl
    rcases hc2 with rfl | rfl | rfl | rfl
    · simp only [bin_hit, e1, Bool.and_eq_true, beq_iff_eq, not_and]
      intro _; omega
    · simp only [bin_hit, e2, Bool.and_eq_true, beq_iff_eq, not_and]
      intro _; omega
    · simp only [bin_hit, e3, Bool.and_eq_true, beq_iff_eq, not_and]
      intro _; omega
    · simp [bin_hit, e4]
  rw [h0, if_neg (by omega)]
  rfl

/-- The scores of any data with the letter histogram of `"the the the the the"` whose
bigram map holds `a <= 5` observations of `th`, `b <= 5` of `he` and nothing else. -/
theorem the5_scores (d : FrequencyData) (htl : d.total_letters = 15)
    (hobs : ∀ k, d.observed_freq k = if k = 4 ∨ k = 7 ∨ k = 19 then 5 else 0)
    (a b : ℕ) (ha : a ≤ 5) (hb : b ≤ 5)
    (hT : d.bigram_map.total_bigrams = ((a + b : ℕ) : ℚ))
    (hcount : ∀ k, bigram_count d.bigram_map k =
      if k = 7602280 then (a : ℚ) else if k = 6815845 then (b : ℚ) else 0) :
    chi1_final d < chi2_final d := by
  have hE := the5_mono_english d htl hobs
  have hF := the5_mono_french d htl hobs
  rw [chi1_final_eq, chi2_final_eq]
  unfold spec_combined
  by_cases hpos : 0 < a + b
  · have hSE := the5_english_bigram_bound d a b ha hb hpos hT hcount
    have hSF := spec_bigram_score_nonneg FRENCH_BIGRAM_FREQ french_bigram_freq_nonneg d
      (by rw [hT]; positivity)
    linarith
  · have h0 : d.bigram_map.total_bigrams = 0 := by
      have : a + b = 0 := by omega
      rw [hT, this]; rfl
    have h1 : spec_bigram_score ENGLISH_BIGRAM_FREQ d = 99999 := by
      unfold spec_bigram_score
      rw [if_pos (by rw [h0]; norm_num)]
    have h2 : spec_bigram_score FRENCH_BIGRAM_FREQ d = 99999 := by
      unfold spec_bigram_score
      rw [if_pos (by rw [h0]; norm_num)]
    rw [h1, h2]
    linarith

/-- C14: in the `"C"` locale, whatever the allocator does, extracting the span
`"the the the the the"` yields `total_words = 5`, `total_letters = 15`, the bins of `t`
(19), `h` (7) and `e` (4) equal to 5 and every other bin 0, the English combined score is
strictly lower than the French one and `perform_segment_test` returns `LANG_ENG`. -/
theorem C14_the_the_is_english (ok : Nat → Bool) (heap : Nat) :
    (extract_frequencies_from_buffer (asciiLibcWith ok) span_the5 heap).1.total_words = 5 ∧
    (extract_frequencies_from_buffer (asciiLibcWith ok) span_the5 heap).1.total_letters = 15 ∧
    (extract_frequencies_from_buffer (asciiLibcWith ok) span_the5 heap).1.observed_freq 19
      = 5 ∧
    (extract_frequencies_from_buffer (asciiLibcWith ok) span_the5 heap).1.observed_freq 7
      = 5 ∧
    (extract_frequencies_from_buffer (asciiLibcWith ok) span_the5 heap).1.observed_freq 4
      = 5 ∧
    (∀ k, k ≠ 19 → k ≠ 7 → k ≠ 4 →
      (extract_frequencies_from_buffer (asciiLibcWith ok) span_the5 heap).1.observed_freq k
        = 0) ∧
    chi1_final (extract_frequencies_from_buffer (asciiLibcWith ok) span_the5 heap).1 <
      chi2_final (extract_frequencies_from_buffer (asciiLibcWith ok) span_the5 heap).1 ∧
    perform_segment_test (extract_frequencies_from_buffer (asciiLibcWith ok) span_the5 heap).1
      = LANG_ENG := by
  have htl : (extract_frequencies_from_buffer (asciiLibcWith ok) span_the5
      heap).1.total_letters = 15 := by
    rw [extract_total_letters_count]
    have : span_the5.countP (counted_letter (asciiLibcWith ok)) = 15 := rfl
    rw [this]; norm_num
  have hobs := the5_observed_freq ok heap
  obtain ⟨counted, hsub, hT, hk⟩ := extract_bigram_any (asciiLibcWith ok) span_the5 heap
  rw [the5_events] at hsub
  have ha : counted.count 7602280 ≤ 5 := le_trans (hsub.count_le _) (by decide)
  have hb : counted.count 6815845 ≤ 5 := le_trans (hsub.count_le _) (by decide)
  have hmem : ∀ x ∈ counted, x = 7602280 ∨ x = 6815845 := by
    intro x hx
    have hall : ∀ y ∈ [7602280, 6815845, 7602280, 6815845, 7602280, 6815845, 7602280,
        6815845, 7602280, 6815845], y = 7602280 ∨ y = 6815845 := by decide
    exact hall x (hsub.subset hx)
  have hlen := length_eq_count_add_count counted 7602280 6815845 (by decide) hmem
  have hcount : ∀ k, bigram_count (extract_frequencies_from_buffer (asciiLibcWith ok)
      span_the5 heap).1.bigram_map k =
      if k = 7602280 then (counted.count 7602280 : ℚ)
      else if k = 6815845 then (counted.count 6815845 : ℚ) else 0 := by
    intro k
    rw [hk k]
    split_ifs with h1 h2
    · rw [h1]
    · rw [h2]
    · have : counted.count k = 0 := by
        rw [List.count_eq_zero]
        intro hmemk
        rcases hmem k hmemk with h | h
        · exact h1 h
        · exact h2 h
      rw [this]; rfl
  have hlt := the5_scores _ htl hobs _ _ ha hb (by rw [hT, hlen]) hcount
  refine ⟨the5_total_words ok heap, htl, ?_, ?_, ?_, ?_, hlt, ?_⟩
  · rw [hobs 19]; norm_num
  · rw [hobs 7]; norm_num
  · rw [hobs 4]; norm_num
  · intro k h19 h7 h4
    rw [hobs k, if_neg (by omega)]
  · unfold perform_segment_test
    rw [if_neg (by rw [htl]; norm_num), if_pos hlt]

/-! ## The reported proportions -/

theorem round_half_even_ge_floor (y : ℚ) : ⌊y⌋ ≤ round_half_even y := by
  unfold round_half_even
  split_ifs <;> omega

theorem round_half_even_le_floor_succ (y : ℚ) : round_half_even y ≤ ⌊y⌋ + 1 := by
  unfold round_half_even
  split_ifs <;> omega

theorem round_half_even_le (y : ℚ) (n : ℤ) (h : y ≤ n) : round_half_even y ≤ n := by
  have hf : ⌊y⌋ ≤ n := by
    have := Int.floor_le y
    exact_mod_cast le_trans this h
  rcases lt_or_eq_of_le hf with hlt | heq
  · have := round_half_even_le_floor_succ y
    omega
  · have hfrac : y - ⌊y⌋ < 1 / 2 := by
      rw [heq]
      linarith
    unfold round_half_even
    rw [if_pos hfrac]
    exact hf

theorem le_round_half_even (y : ℚ) (n : ℤ) (h : (n : ℚ) ≤ y) : n ≤ round_half_even y :=
  le_trans (Int.le_floor.mpr h) (round_half_even_ge_floor y)

theorem round_half_even_error (y : ℚ) : |(round_half_even y : ℚ) - y| ≤ 1 / 2 := by
  have h1 := Int.floor_le y
  have h2 := Int.lt_floor_add_one y
  unfold round_half_even
  rw [abs_le]
  split_ifs with ha hb hc
  · constructor <;> linarith
  · push_cast; constructor <;> linarith
  · push_cast at ha hb ⊢; constructor <;> linarith
  · push_cast at ha hb ⊢; constructor <;> linarith

theorem round_half_even_eq (y : ℚ) (m : ℤ) (h : |y - m| < 1 / 2) : round_half_even y = m := by
  rw [abs_lt] at h
  have h1 := Int.floor_le y
  have h2 := Int.lt_floor_add_one y
  have hlo : m - 1 ≤ ⌊y⌋ := by
    rw [Int.le_floor]; push_cast; linarith
  have hhi : ⌊y⌋ ≤ m := by
    have : (⌊y⌋ : ℚ) < m + 1 := by linarith
    have : ⌊y⌋ < m + 1 := by exact_mod_cast this
    omega
  unfold round_half_even
  rcases eq_or_lt_of_le hhi with heq | hlt
  · rw [if_pos (by rw [heq]; linarith)]
    exact heq
  · have hfl : ⌊y⌋ = m - 1 := by omega
    have hfrac : (1 : ℚ) / 2 < y - ⌊y⌋ := by rw [hfl]; push_cast; linarith
    rw [if_neg (by linarith), if_pos hfrac, hfl]
    ring

theorem log2_bounds (x : ℚ) (hx : 0 < x) :
    (2 : ℚ) ^ Int.log 2 x ≤ x ∧ x < (2 : ℚ) ^ (Int.log 2 x + 1) := by
  have h1 := Int.zpow_log_le_self (b := 2) (r := x) (by norm_num) hx
  have h2 := Int.lt_zpow_succ_log_self (b := 2) (by norm_num) x
  exact ⟨by exact_mod_cast h1, by exact_mod_cast h2⟩

theorem log2_eq (x : ℚ) (n : ℤ) (h1 : (2 : ℚ) ^ n ≤ x) (h2 : x < (2 : ℚ) ^ (n + 1)) :
    Int.log 2 x = n := by
  have hx : 0 < x := lt_of_lt_of_le (by positivity) h1
  have a := (Int.zpow_le_iff_le_log (b := 2) (by norm_num) hx).mp (by exact_mod_cast h1)
  have b := (Int.lt_zpow_iff_log_lt (b := 2) (by norm_num) hx).mp (by exact_mod_cast h2)
  omega

theorem binary64_of_pos (x : ℚ) (hx : 0 < x) :
    binary64 x = (round_half_even (x / 2 ^ ulp_exponent x) : ℚ) * 2 ^ ulp_exponent x := by
  unfold binary64
  rw [if_neg (ne_of_gt hx), if_pos hx]

theorem ulp_exponent_nonpos (x : ℚ) (hx : 0 < x) (h53 : x < 2 ^ 53) : ulp_exponent x ≤ 0 := by
  have hlog : Int.log 2 x < 53 := by
    rw [← Int.lt_zpow_iff_log_lt (b := 2) (by norm_num) hx]
    exact_mod_cast h53
  unfold ulp_exponent
  omega

/-- Rounding to binary64 does not cross an integer: for `0 < x < 2 ^ 53` and a natural
number `n`, `x <= n` gives `binary64 x <= n` and `n <= x` gives `n <= binary64 x`. -/
theorem binary64_sandwich (x : ℚ) (hx : 0 < x) (h53 : x < 2 ^ 53) (n : ℕ) :
    (x ≤ n → binary64 x ≤ n) ∧ ((n : ℚ) ≤ x → (n : ℚ) ≤ binary64 x) := by
  have he := ulp_exponent_nonpos x hx h53
  obtain ⟨k, hk⟩ : ∃ k : ℕ, ulp_exponent x = -(k : ℤ) := ⟨(-ulp_exponent x).toNat, by omega⟩
  have hpow : (2 : ℚ) ^ ulp_exponent x = 1 / 2 ^ k := by
    rw [hk, zpow_neg, zpow_natCast, one_div]
  have hpos : (0 : ℚ) < 2 ^ k := by positivity
  have hy : x / 2 ^ ulp_exponent x = x * 2 ^ k := by
    rw [hpow]; field_simp
  rw [binary64_of_pos x hx, hy, hpow]
  constructor
  · intro hle
    have h1 : x * 2 ^ k ≤ ((n * 2 ^ k : ℤ) : ℚ) := by
      push_cast
      exact mul_le_mul_of_nonneg_right hle (le_of_lt hpos)
    have h2 := round_half_even_le _ _ h1
    have h3 : (round_half_even (x * 2 ^ k) : ℚ) ≤ (n : ℚ) * 2 ^ k := by exact_mod_cast h2
    rw [mul_one_div, div_le_iff₀ hpos]
    exact h3
  · intro hle
    have h1 : ((n * 2 ^ k : ℤ) : ℚ) ≤ x * 2 ^ k := by
      push_cast
      exact mul_le_mul_of_nonneg_right hle (le_of_lt hpos)
    have h2 := le_round_half_even _ _ h1
    have h3 : (n : ℚ) * 2 ^ k ≤ (round_half_even (x * 2 ^ k) : ℚ) := by exact_mod_cast h2
    rw [mul_one_div, le_div_iff₀ hpos]
    exact h3

/-- Every natural number below `2 ^ 53` is a binary64 number. -/
theorem binary64_natCast (n : ℕ) (h : n < 2 ^ 53) : binary64 (n : ℚ) = n := by
  rcases Nat.eq_zero_or_pos n with h0 | hpos
  · subst h0
    simp [binary64]
  · have hx : (0 : ℚ) < n := by exact_mod_cast hpos
    have h53 : (n : ℚ) < 2 ^ 53 := by exact_mod_cast h
    obtain ⟨h1, h2⟩ := binary64_sandwich (n : ℚ) hx h53 n
    exact le_antisymm (h1 le_rfl) (h2 le_rfl)

/-- The relative error of rounding a positive rational to binary64 is at most `2 ^ -53`. -/
theorem binary64_error (x : ℚ) (hx : 0 < x) : |binary64 x - x| ≤ x / 2 ^ 53 := by
  have hpos : (0 : ℚ) < 2 ^ ulp_exponent x := by positivity
  have herr := round_half_even_error (x / 2 ^ ulp_exponent x)
  have hlog := (log2_bounds x hx).1
  have hsplit : (2 : ℚ) ^ Int.log 2 x = 2 ^ ulp_exponent x * 2 ^ 52 := by
    unfold ulp_exponent
    rw [zpow_sub₀ (by norm_num : (2 : ℚ) ≠ 0)]
    have : ((2 : ℚ) ^ (52 : ℤ)) = 2 ^ 52 := by norm_cast
    rw [this]
    field_simp
  rw [binary64_of_pos x hx]
  have hrew : (round_half_even (x / 2 ^ ulp_exponent x) : ℚ) * 2 ^ ulp_exponent x - x =
      ((round_half_even (x / 2 ^ ulp_exponent x) : ℚ) - x / 2 ^ ulp_exponent x) *
        2 ^ ulp_exponent x := by
    field_simp
  rw [hrew, abs_mul, abs_of_pos hpos]
  have h1 : |(round_half_even (x / 2 ^ ulp_exponent x) : ℚ) - x / 2 ^ ulp_exponent x| *
      2 ^ ulp_exponent x ≤ 1 / 2 * 2 ^ ulp_exponent x :=
    mul_le_mul_of_nonneg_right herr (le_of_lt hpos)
  have h2 : (1 : ℚ) / 2 * 2 ^ ulp_exponent x ≤ x / 2 ^ 53 := by
    rw [le_div_iff₀ (by positivity)]
    rw [hsplit] at hlog
    nlinarith
  exact le_trans h1 h2

theorem binary64_nonneg (x : ℚ) (hx : 0 ≤ x) : 0 ≤ binary64 x := by
  rcases eq_or_lt_of_le hx with h0 | hpos
  · rw [← h0]; simp [binary64]
  · rw [binary64_of_pos x hpos]
    have hp : (0 : ℚ) < 2 ^ ulp_exponent x := by positivity
    have : (0 : ℤ) ≤ round_half_even (x / 2 ^ ulp_exponent x) :=
      le_round_half_even _ 0 (by push_cast; positivity)
    have : (0 : ℚ) ≤ (round_half_even (x / 2 ^ ulp_exponent x) : ℚ) := by exact_mod_cast this
    positivity

theorem binary64_zero : binary64 0 = 0 := by simp [binary64]

theorem binary64_error_nonneg (x : ℚ) (hx : 0 ≤ x) : |binary64 x - x| ≤ x / 2 ^ 53 := by
  rcases eq_or_lt_of_le hx with h0 | hpos
  · rw [← h0, binary64_zero]; simp
  · exact binary64_error x hpos

theorem binary64_le_natCast (x : ℚ) (hx : 0 ≤ x) (n : ℕ) (hn : n < 2 ^ 53) (h : x ≤ n) :
    binary64 x ≤ n := by
  rcases eq_or_lt_of_le hx with h0 | hpos
  · rw [← h0, binary64_zero]; exact Nat.cast_nonneg n
  · have h53 : x < 2 ^ 53 := lt_of_le_of_lt h (by exact_mod_cast hn)
    exact (binary64_sandwich x hpos h53 n).1 h

/-- Range and error of `binary64 (binary64 x * 100)` for a ratio `0 <= x <= 1`. -/
theorem percent_binary64 (x : ℚ) (h0 : 0 ≤ x) (h1 : x ≤ 1) :
    0 ≤ binary64 (binary64 x * 100) ∧ binary64 (binary64 x * 100) ≤ 100 ∧
    |binary64 (binary64 x * 100) - x * 100| ≤ 300 * x / 2 ^ 53 := by
  have hq0 := binary64_nonneg x h0
  have hq1 : binary64 x ≤ ((1 : ℕ) : ℚ) :=
    binary64_le_natCast x h0 1 (by norm_num) (by simpa using h1)
  have hz0 : 0 ≤ binary64 x * 100 := by positivity
  have hz1 : binary64 x * 100 ≤ ((100 : ℕ) : ℚ) := by push_cast at hq1 ⊢; linarith
  have hp1 := binary64_le_natCast _ hz0 100 (by norm_num) hz1
  have e1 := binary64_error_nonneg x h0
  have e2 := binary64_error_nonneg _ hz0
  rw [abs_le] at e1 e2
  have hu : (0 : ℚ) < 2 ^ 53 := by positivity
  have hxu : 0 ≤ x / 2 ^ 53 := by positivity
  have hxu1 : x / 2 ^ 53 ≤ x := div_le_self h0 (by norm_num)
  have hqu : binary64 x * 100 / 2 ^ 53 ≤ 200 * x / 2 ^ 53 := by
    apply div_le_div_of_nonneg_right _ (le_of_lt hu)
    linarith
  refine ⟨binary64_nonneg _ hz0, by simpa using hp1, ?_⟩
  rw [abs_le]
  have h300 : 300 * x / 2 ^ 53 = 200 * x / 2 ^ 53 + 100 * (x / 2 ^ 53) := by ring
  constructor <;> linarith

theorem binary64_eval (x : ℚ) (n m : ℤ) (h1 : (2 : ℚ) ^ n ≤ x) (h2 : x < (2 : ℚ) ^ (n + 1))
    (hm : |x / 2 ^ (n - 52) - m| < 1 / 2) : binary64 x = m * 2 ^ (n - 52) := by
  have hx : 0 < x := lt_of_lt_of_le (by positivity) h1
  rw [binary64_of_pos x hx]
  unfold ulp_exponent
  rw [log2_eq x n h1 h2, round_half_even_eq _ m hm]

theorem prob_binary64_eq (eng fre : ℕ) (hpos : 0 < eng + fre) (h53 : eng + fre < 2 ^ 53) :
    prob_english_binary64 eng fre =
        binary64 (binary64 ((eng : ℚ) / ((eng + fre : ℕ) : ℚ)) * 100) ∧
    prob_french_binary64 eng fre =
        binary64 (binary64 ((fre : ℚ) / ((eng + fre : ℕ) : ℚ)) * 100) := by
  have ht := binary64_natCast (eng + fre) h53
  have hT : (0 : ℚ) < ((eng + fre : ℕ) : ℚ) := by exact_mod_cast hpos
  unfold prob_english_binary64 prob_french_binary64
  dsimp only
  rw [ht, if_pos hT, if_pos hT, binary64_natCast eng (by omega),
    binary64_natCast fre (by omega)]
  exact ⟨rfl, rfl⟩

theorem prob_binary64_zero :
    prob_english_binary64 0 0 = 0 ∧ prob_french_binary64 0 0 = 0 := by
  unfold prob_english_binary64 prob_french_binary64
  simp [binary64_zero]

/-- The two proportions for `eng = 100`, `fre = 200` in binary64 arithmetic. -/
theorem prob_binary64_100_200 :
    prob_english_binary64 100 200 = 4691249611844266 / 2 ^ 47 ∧
    prob_french_binary64 100 200 = 4691249611844266 / 2 ^ 46 := by
  obtain ⟨he, hf⟩ := prob_binary64_eq 100 200 (by norm_num) (by norm_num)
  have q1 : binary64 ((100 : ℕ) / ((100 + 200 : ℕ) : ℚ)) = 6004799503160661 / 2 ^ 54 := by
    rw [binary64_eval _ (-2) 6004799503160661 (by norm_num) (by norm_num)
      (by norm_num [abs_lt])]
    norm_num
  have q2 : binary64 ((200 : ℕ) / ((100 + 200 : ℕ) : ℚ)) = 6004799503160661 / 2 ^ 53 := by
    rw [binary64_eval _ (-1) 6004799503160661 (by norm_num) (by norm_num)
      (by norm_num [abs_lt])]
    norm_num
  constructor
  · rw [he, q1, binary64_eval _ 5 4691249611844266 (by norm_num) (by norm_num)
      (by norm_num [abs_lt])]
    norm_num
  · rw [hf, q2, binary64_eval _ 6 4691249611844266 (by norm_num) (by norm_num)
      (by norm_num [abs_lt])]
    norm_num

/-- C17 as stated fails in double arithmetic: for `eng = 100` and `fre = 200` the two
reported proportions are the binary64 numbers `4691249611844266 / 2 ^ 47`
(33.33333333333333) and `4691249611844266 / 2 ^ 46` (66.66666666666666), whose sum is
`100 - 2 ^ -46`, not 100. -/
theorem C17_counterexample :
    prob_english_binary64 100 200 + prob_french_binary64 100 200 = 100 - 1 / 2 ^ 46 ∧
    prob_english_binary64 100 200 + prob_french_binary64 100 200 ≠ 100 := by
  obtain ⟨he, hf⟩ := prob_binary64_100_200
  rw [he, hf]
  constructor <;> norm_num

/-- C17 (amended): for all tallies `eng` and `fre` with `eng + fre < 2 ^ 53`: when
`eng + fre > 0` the reported proportions are `eng / (eng + fre) * 100` and
`fre / (eng + fre) * 100`; in exact arithmetic each lies in `[0, 100]` and they sum to
exactly 100; as computed in double arithmetic each lies in `[0, 100]` and their sum is
within `300 * 2 ^ -53` of 100; when both tallies are zero both proportions are 0, in either
arithmetic. -/
theorem C17_reported_proportions (data : FrequencyData) (eng fre : ℕ)
    (h53 : eng + fre < 2 ^ 53) :
    (0 < eng + fre →
      (perform_final_analysis data eng fre).prob_english =
          (eng : ℚ) / ((eng : ℚ) + fre) * 100 ∧
      (perform_final_analysis data eng fre).prob_french =
          (fre : ℚ) / ((eng : ℚ) + fre) * 100 ∧
      0 ≤ (perform_final_analysis data eng fre).prob_english ∧
      (perform_final_analysis data eng fre).prob_english ≤ 100 ∧
      0 ≤ (perform_final_analysis data eng fre).prob_french ∧
      (perform_final_analysis data eng fre).prob_french ≤ 100 ∧
      (perform_final_analysis data eng fre).prob_english +
          (perform_final_analysis data eng fre).prob_french = 100 ∧
      0 ≤ prob_english_binary64 eng fre ∧ prob_english_binary64 eng fre ≤ 100 ∧
      0 ≤ prob_french_binary64 eng fre ∧ prob_french_binary64 eng fre ≤ 100 ∧
      |prob_english_binary64 eng fre + prob_french_binary64 eng fre - 100| ≤
        300 / 2 ^ 53) ∧
    (eng = 0 → fre = 0 →
      (perform_final_analysis data eng fre).prob_english = 0 ∧
      (perform_final_analysis data eng fre).prob_french = 0 ∧
      prob_english_binary64 eng fre = 0 ∧ prob_french_binary64 eng fre = 0) := by
  constructor
  · intro hpos
    have hT : (0 : ℚ) < (eng : ℚ) + fre := by exact_mod_cast hpos
    have hTc : ((eng + fre : ℕ) : ℚ) = (eng : ℚ) + fre := by push_cast; rfl
    have hE0 : (0 : ℚ) ≤ eng := Nat.cast_nonneg eng
    have hF0 : (0 : ℚ) ≤ fre := Nat.cast_nonneg fre
    have ha0 : 0 ≤ (eng : ℚ) / ((eng : ℚ) + fre) := by positivity
    have hb0 : 0 ≤ (fre : ℚ) / ((eng : ℚ) + fre) := by positivity
    have ha1 : (eng : ℚ) / ((eng : ℚ) + fre) ≤ 1 := by
      rw [div_le_one hT]; linarith
    have hb1 : (fre : ℚ) / ((eng : ℚ) + fre) ≤ 1 := by
      rw [div_le_one hT]; linarith
    have hsum : (eng : ℚ) / ((eng : ℚ) + fre) + (fre : ℚ) / ((eng : ℚ) + fre) = 1 := by
      field_simp
    have hpe : (perform_final_analysis data eng fre).prob_english =
        (eng : ℚ) / ((eng : ℚ) + fre) * 100 := by
      unfold perform_final_analysis
      dsimp only
      rw [hTc, if_pos hT]
    have hpf : (perform_final_analysis data eng fre).prob_french =
        (fre : ℚ) / ((eng : ℚ) + fre) * 100 := by
      unfold perform_final_analysis
      dsimp only
      rw [hTc, if_pos hT]
    obtain ⟨be, bf⟩ := prob_binary64_eq eng fre hpos h53
    rw [hTc] at be bf
    obtain ⟨e1, e2, e3⟩ := percent_binary64 _ ha0 ha1
    obtain ⟨f1, f2, f3⟩ := percent_binary64 _ hb0 hb1
    rw [hpe, hpf, be, bf]
    refine ⟨rfl, rfl, by positivity, by linarith, by positivity, by linarith, ?_, e1, e2,
      f1, f2, ?_⟩
    · rw [← add_mul, hsum]; norm_num
    · rw [abs_le] at e3 f3 ⊢
      have h300 : (300 : ℚ) / 2 ^ 53 =
          300 * ((eng : ℚ) / ((eng : ℚ) + fre)) / 2 ^ 53 +
            300 * ((fre : ℚ) / ((eng : ℚ) + fre)) / 2 ^ 53 := by
        rw [← add_div, ← mul_add, hsum, mul_one]
      have h100 : (100 : ℚ) = (eng : ℚ) / ((eng : ℚ) + fre) * 100 +
          (fre : ℚ) / ((eng : ℚ) + fre) * 100 := by
        rw [← add_mul, hsum]; norm_num
      constructor <;> linarith
  · intro he hf
    subst he hf
    refine ⟨?_, ?_, prob_binary64_zero.1, prob_binary64_zero.2⟩
    · unfold perform_final_analysis
      simp
    · unfold perform_final_analysis
      simp

/-- Witness of C17: the tallies `eng = 100`, `fre = 200`. -/
theorem C17_witness :
    100 + 200 < 2 ^ 53 ∧
    (perform_final_analysis FrequencyData.zero 100 200).prob_english +
        (perform_final_analysis FrequencyData.zero 100 200).prob_french = 100 ∧
    |prob_english_binary64 100 200 + prob_french_binary64 100 200 - 100| ≤ 300 / 2 ^ 53 :=
  ⟨by norm_num,
   ((C17_reported_proportions FrequencyData.zero 100 200 (by norm_num)).1
      (by norm_num)).2.2.2.2.2.2.1,
   ((C17_reported_proportions FrequencyData.zero 100 200 (by norm_num)).1
      (by norm_num)).2.2.2.2.2.2.2.2.2.2.2⟩

/-! ## Key packing, attribution length and the two scoring routines -/

theorem make_bigram_key_eq (c1 c2 : Char) :
    MAKE_BIGRAM_KEY c1 c2 = bigram_key c1.toNat c2.toNat := rfl

/-- C21: for all code points `c1` and `c2` below 65536, the 32-bit key built by
`process_bigram_count` is `c1 * 65536 + c2`; the pair is recovered from it
(`key >> 16 = c1`, `key & 0xFFFF = c2`), so the packing is injective on such pairs; and
`MAKE_BIGRAM_KEY` builds the keys of the reference tables with the same packing. The last
part runs `process_bigram_count` on an empty map: the node it inserts for a pair folding to
`(c1, c2)` carries the key `c1 * 65536 + c2` and sits in the bucket of that key. -/
theorem C21_key_packing (c1 c2 : Nat) (h1 : c1 < 65536) (h2 : c2 < 65536) :
    bigram_key c1 c2 = c1 * 65536 + c2 ∧
    bigram_key c1 c2 < 2 ^ 32 ∧
    bigram_key c1 c2 >>> 16 = c1 ∧
    bigram_key c1 c2 &&& 0xFFFF = c2 ∧
    (∀ d1 d2 : Nat, d1 < 65536 → d2 < 65536 →
      bigram_key d1 d2 = bigram_key c1 c2 → d1 = c1 ∧ d2 = c2) ∧
    (∀ a b : Char, MAKE_BIGRAM_KEY a b = bigram_key a.toNat b.toNat) ∧
    (∀ (E : Libc) (wc_prev wc_curr heap : Nat),
      E.iswalpha wc_prev = true → E.iswalpha wc_curr = true →
      E.towlower wc_prev = c1 → E.towlower wc_curr = c2 → E.malloc_ok heap = true →
      (process_bigram_count E wc_prev wc_curr FrequencyData.zero heap).1.bigram_map.table
          ((c1 * 65536 + c2) % 1024) = [{ key := c1 * 65536 + c2, count := 1 }]) := by
  have hk : bigram_key c1 c2 = c1 * 65536 + c2 := by
    rw [bigram_key_of_lt c1 c2 h1 h2]; ring
  refine ⟨hk, by rw [hk]; omega, ?_, ?_, ?_, make_bigram_key_eq, ?_⟩
  rotate_right
  · intro E p c heap hp hc hlp hlc hm
    unfold process_bigram_count
    simp only [hp, hc, hlp, hlc, hm, hk, Bool.not_true, Bool.or_self, Bool.false_eq_true,
      if_false, if_true, FrequencyData.zero, bigram_chain_increment, store, hash_key,
      HASH_TABLE_SIZE]
  · rw [hk, Nat.shiftRight_eq_div_pow]
    omega
  · have : (0xFFFF : Nat) = 2 ^ 16 - 1 := by norm_num
    rw [hk, this, Nat.and_pow_two_sub_one_eq_mod]
    omega
  · intro d1 d2 hd1 hd2 h
    exact (bigram_key_inj d1 d2 c1 c2 hd1 hd2 h1 h2).mp h

/-- Witness of C21: the pair `(t, h)`. -/
theorem C21_witness :
    0x74 < 65536 ∧ 0x68 < 65536 ∧ bigram_key 0x74 0x68 = 0x74 * 65536 + 0x68 ∧
    bigram_key 0x74 0x68 >>> 16 = 0x74 ∧ bigram_key 0x74 0x68 &&& 0xFFFF = 0x68 :=
  ⟨by decide, by decide, (C21_key_packing 0x74 0x68 (by decide) (by decide)).1,
   (C21_key_packing 0x74 0x68 (by decide) (by decide)).2.2.1,
   (C21_key_packing 0x74 0x68 (by decide) (by decide)).2.2.2.1⟩

theorem window_body_eq_none_iff (E : Libc) (buf : List Nat) (i : Nat) (st : DriverState) :
    window_body E buf i st = none ↔
      (if i + WINDOW_SIZE ≤ buf.length then WINDOW_SIZE else buf.length - i) <
        MIN_WINDOW_SIZE := by
  have hcws : ((if i + WINDOW_SIZE ≤ buf.length then WINDOW_SIZE else buf.length - i) <
      MIN_WINDOW_SIZE) ↔ buf.length - i < 100 := by
    simp only [WINDOW_SIZE, MIN_WINDOW_SIZE]
    split_ifs <;> omega
  rw [hcws]
  constructor
  · intro h
    by_contra hge
    obtain ⟨st1, rep, hb, -, -⟩ := window_body_some E buf i st (by omega)
    rw [hb] at h
    exact absurd h (by simp)
  · exact window_body_none E buf i st

/-- C22: for every input and every window the driver loop processes, the attribution
length `count_to_add` is exactly `STEP_SIZE`; whenever the window is not shorter than
`MIN_WINDOW_SIZE` the clipped value `file_length - i` is not taken and `count_to_add < 1`
is false, so the loop body leaves the loop only through the `MIN_WINDOW_SIZE` break. -/
theorem C22_attribution_is_step_size (E : Libc) (file_buffer : List Nat) (heap : Nat) :
    STEP_SIZE = 100 ∧
    (∀ r ∈ (window_loop E file_buffer 0 (driver_init heap)).log,
      r.count_to_add = STEP_SIZE) ∧
    (∀ i : Nat,
      ¬ (if i + WINDOW_SIZE ≤ file_buffer.length then WINDOW_SIZE
          else file_buffer.length - i) < MIN_WINDOW_SIZE →
      i + STEP_SIZE ≤ file_buffer.length ∧
      (if i + STEP_SIZE ≤ file_buffer.length then STEP_SIZE else file_buffer.length - i) =
        STEP_SIZE ∧
      ¬ (if i + STEP_SIZE ≤ file_buffer.length then STEP_SIZE
          else file_buffer.length - i) < 1) ∧
    (∀ (i : Nat) (st : DriverState),
      window_body E file_buffer i st = none ↔
        (if i + WINDOW_SIZE ≤ file_buffer.length then WINDOW_SIZE
          else file_buffer.length - i) < MIN_WINDOW_SIZE) := by
  refine ⟨rfl, ?_, ?_, window_body_eq_none_iff E file_buffer⟩
  · intro r hr
    have hmem : r.geometry ∈
        (window_loop E file_buffer 0 (driver_init heap)).log.map WindowReport.geometry :=
      List.mem_map_of_mem _ hr
    rw [window_loop_geometry_init, List.mem_map] at hmem
    obtain ⟨k, -, hkeq⟩ := hmem
    simp only [WindowReport.geometry, Prod.mk.injEq] at hkeq
    exact hkeq.2.2.symm
  · intro i h
    simp only [WINDOW_SIZE, MIN_WINDOW_SIZE, STEP_SIZE, OVERLAP_SIZE] at h ⊢
    have h100 : i + (500 - 400) ≤ file_buffer.length := by
      split_ifs at h <;> omega
    rw [if_pos h100]
    exact ⟨h100, rfl, by norm_num⟩

/-- C23: for every `FrequencyData` with `total_letters >= 5`, the six scores that
`perform_final_analysis` reports are those `perform_segment_test` computes (monograph,
bigram and combined score of each language), and `perform_final_analysis` announces ENGLISH
exactly when `perform_segment_test` returns `LANG_ENG`, FRENCH exactly when it returns
`LANG_FRE`. -/
theorem C23_final_analysis_agrees (data : FrequencyData) (eng_chars fre_chars : Nat)
    (h5 : 5 ≤ data.total_letters) :
    (perform_final_analysis data eng_chars fre_chars).chi1_mono = (mono_loop data).1 ∧
    (perform_final_analysis data eng_chars fre_chars).chi2_mono = (mono_loop data).2 ∧
    (perform_final_analysis data eng_chars fre_chars).chi1_bigram =
      calculate_bigram_chi data.bigram_map ENGLISH_BIGRAM_FREQ ∧
    (perform_final_analysis data eng_chars fre_chars).chi2_bigram =
      calculate_bigram_chi data.bigram_map FRENCH_BIGRAM_FREQ ∧
    (perform_final_analysis data eng_chars fre_chars).chi1_final = chi1_final data ∧
    (perform_final_analysis data eng_chars fre_chars).chi2_final = chi2_final data ∧
    ((perform_final_analysis data eng_chars fre_chars).dominant = LANG_ENG ↔
      perform_segment_test data = LANG_ENG) ∧
    ((perform_final_analysis data eng_chars fre_chars).dominant = LANG_FRE ↔
      perform_segment_test data = LANG_FRE) ∧
    (perform_final_analysis data eng_chars fre_chars).dominant = perform_segment_test data := by
  have hnot : ¬ data.total_letters < 5 := not_lt.mpr h5
  have hdom : (perform_final_analysis data eng_chars fre_chars).dominant =
      perform_segment_test data := by
    unfold perform_segment_test
    rw [if_neg hnot]
    rfl
  exact ⟨rfl, rfl, rfl, rfl, rfl, rfl, by rw [hdom], by rw [hdom], hdom⟩

/-- Witness of C23 on the data extracted from `"a b c d e"`. -/
theorem C23_witness :
    5 ≤ (extract_frequencies_from_buffer asciiLibc span_abcde 0).1.total_letters ∧
    (perform_final_analysis (extract_frequencies_from_buffer asciiLibc span_abcde 0).1
        0 0).dominant =
      perform_segment_test (extract_frequencies_from_buffer asciiLibc span_abcde 0).1 :=
  ⟨le_of_eq five_letters_extract.1.symm,
   (C23_final_analysis_agrees _ 0 0 (le_of_eq five_letters_extract.1.symm)).2.2.2.2.2.2.2.2⟩

/-! ## Structural invariants of the two hash maps -/

theorem sum_range_store {M : Type} [AddCommMonoid M] (f : Nat → M) (index : Nat) (v : M)
    (N : Nat) (h : index < N) :
    ((List.range N).map (store f index v)).sum + f index = ((List.range N).map f).sum + v := by
  induction N with
  | zero => omega
  | succ N ih =>
    rw [List.range_succ, List.map_append, List.map_append, List.sum_append, List.sum_append]
    simp only [List.map_cons, List.map_nil, List.sum_cons, List.sum_nil, add_zero]
    by_cases hN : index = N
    · subst hN
      have hsame : (List.range index).map (store f index v) = (List.range index).map f := by
        apply List.map_congr_left
        intro j hj
        have : j ≠ index := fun e => by
          rw [e] at hj
          exact absurd (List.mem_range.mp hj) (lt_irrefl _)
        simp [store, this]
      rw [hsame]
      simp only [store, if_true]
      rw [add_assoc, add_comm v, add_assoc]
    · have hlt : index < N := by omega
      have hNi : ¬ N = index := fun e => hN e.symm
      have := ih hlt
      simp only [store, hNi, if_false] at this ⊢
      rw [add_assoc, add_comm (f N), ← add_assoc, this, add_assoc, add_comm v, ← add_assoc]

theorem sum_range_store_add {M : Type} [AddCancelCommMonoid M] (f : Nat → M) (index : Nat)
    (d : M) (N : Nat) (h : index < N) :
    ((List.range N).map (store f index (f index + d))).sum = ((List.range N).map f).sum + d := by
  have h1 := sum_range_store f index (f index + d) N h
  have h2 : ((List.range N).map (store f index (f index + d))).sum + f index =
      ((List.range N).map f).sum + d + f index := by
    rw [h1, add_assoc, add_comm d]
  exact add_right_cancel h2

theorem store_comp {α β : Type} (g : α → β) (a : Nat → α) (index : Nat) (v : α) :
    (fun j => g (store a index v j)) = store (fun j => g (a j)) index (g v) := by
  funext j
  unfold store
  split_ifs <;> rfl

theorem hash_key_lt (k : Nat) : hash_key k < HASH_TABLE_SIZE :=
  Nat.mod_lt _ (by decide)

theorem hash_key_u32 (c : Nat) : hash_key (u32 c) = c % 1024 := by
  unfold hash_key u32 HASH_TABLE_SIZE
  omega

theorem bigram_chain_increment_shape (key : Nat) (chain chain1 : List BigramNode)
    (h : bigram_chain_increment key chain = some chain1) :
    chain1.map BigramNode.key = chain.map BigramNode.key ∧
    chain1.length = chain.length ∧
    (chain1.map BigramNode.count).sum = (chain.map BigramNode.count).sum + 1 ∧
    ((∀ n ∈ chain, 1 ≤ n.count) → ∀ n ∈ chain1, 1 ≤ n.count) := by
  induction chain generalizing chain1 with
  | nil => simp [bigram_chain_increment] at h
  | cons n rest ih =>
    unfold bigram_chain_increment at h
    split_ifs at h with hn
    · cases h
      refine ⟨by simp, by simp, by simp only [List.map_cons, List.sum_cons]; ring, ?_⟩
      intro hall m hm
      rcases List.mem_cons.mp hm with e | e
      · subst e
        have := hall n (List.mem_cons_self _ _)
        show (1 : ℚ) ≤ n.count + 1
        linarith
      · exact hall m (List.mem_cons_of_mem _ e)
    · cases hr : bigram_chain_increment key rest with
      | none => simp [hr] at h
      | some r =>
        simp only [hr, Option.map_some', Option.some.injEq] at h
        subst h
        obtain ⟨a1, a2, a3, a4⟩ := ih r hr
        refine ⟨by simp [a1], by simp [a2], by simp only [List.map_cons, List.sum_cons, a3]; ring,
          ?_⟩
        intro hall m hm
        rcases List.mem_cons.mp hm with e | e
        · subst e
          exact hall m (List.mem_cons_self _ _)
        · exact a4 (fun x hx => hall x (List.mem_cons_of_mem _ hx)) m e

theorem bigram_chain_increment_absent (key : Nat) (chain : List BigramNode)
    (h : bigram_chain_increment key chain = none) :
    key ∉ chain.map BigramNode.key := by
  induction chain with
  | nil => simp
  | cons n rest ih =>
    unfold bigram_chain_increment at h
    split_ifs at h with hn
    cases hr : bigram_chain_increment key rest with
    | none =>
      rw [List.map_cons, List.mem_cons, not_or]
      exact ⟨fun e => hn e.symm, ih hr⟩
    | some r => simp [hr] at h

theorem char_chain_increment_shape (c : Nat) (chain chain1 : List CharMapNode)
    (h : char_chain_increment c chain = some chain1) :
    chain1.map CharMapNode.character = chain.map CharMapNode.character ∧
    chain1.length = chain.length ∧
    ((∀ n ∈ chain, 1 ≤ n.count) → ∀ n ∈ chain1, 1 ≤ n.count) := by
  induction chain generalizing chain1 with
  | nil => simp [char_chain_increment] at h
  | cons n rest ih =>
    unfold char_chain_increment at h
    split_ifs at h with hn
    · cases h
      refine ⟨by simp, by simp, ?_⟩
      intro hall m hm
      rcases List.mem_cons.mp hm with e | e
      · subst e
        have := hall n (List.mem_cons_self _ _)
        show (1 : ℚ) ≤ n.count + 1
        linarith
      · exact hall m (List.mem_cons_of_mem _ e)
    · cases hr : char_chain_increment c rest with
      | none => simp [hr] at h
      | some r =>
        simp only [hr, Option.map_some', Option.some.injEq] at h
        subst h
        obtain ⟨a1, a2, a4⟩ := ih r hr
        refine ⟨by simp [a1], by simp [a2], ?_⟩
        intro hall m hm
        rcases List.mem_cons.mp hm with e | e
        · subst e
          exact hall m (List.mem_cons_self _ _)
        · exact a4 (fun x hx => hall x (List.mem_cons_of_mem _ hx)) m e

theorem char_chain_increment_absent (c : Nat) (chain : List CharMapNode)
    (h : char_chain_increment c chain = none) :
    c ∉ chain.map CharMapNode.character := by
  induction chain with
  | nil => simp
  | cons n rest ih =>
    unfold char_chain_increment at h
    split_ifs at h with hn
    cases hr : char_chain_increment c rest with
    | none =>
      rw [List.map_cons, List.mem_cons, not_or]
      exact ⟨fun e => hn e.symm, ih hr⟩
    | some r => simp [hr] at h

theorem bigram_inv_zero : BigramInv FrequencyData.zero.bigram_map := by
  refine ⟨?_, ?_, ?_, ?_, ?_⟩ <;> simp [FrequencyData.zero]

theorem char_inv_zero : CharInv FrequencyData.zero.all_char_map := by
  refine ⟨?_, ?_, ?_, ?_⟩ <;> simp [FrequencyData.zero]

/-- Replacing the chain of bucket `hash_key key` by the chain in which the node of `key` has
been incremented keeps the invariant. -/
theorem bigram_inv_found (m : BigramMap) (hm : BigramInv m) (key : Nat)
    (chain : List BigramNode)
    (hi : bigram_chain_increment key (m.table (hash_key key)) = some chain) :
    BigramInv { m with table := store m.table (hash_key key) chain
                       total_bigrams := m.total_bigrams + 1 } := by
  obtain ⟨b1, b2, b3, b4, b5⟩ := hm
  obtain ⟨s1, s2, s3, s4⟩ := bigram_chain_increment_shape key _ chain hi
  have hmem : ∀ n ∈ chain, ∃ n0 ∈ m.table (hash_key key), n0.key = n.key := by
    intro n hn
    have : n.key ∈ chain.map BigramNode.key := List.mem_map_of_mem _ hn
    rw [s1, List.mem_map] at this
    exact this
  refine ⟨?_, ?_, ?_, ?_, ?_⟩
  · intro j n hn
    dsimp only [store] at hn
    split_ifs at hn with hj
    · obtain ⟨n0, hn0, e⟩ := hmem n hn
      rw [← e, hj]
      exact b1 _ n0 hn0
    · exact b1 j n hn
  · intro j
    dsimp only [store]
    split_ifs with hj
    · rw [s1]; exact b2 _
    · exact b2 j
  · intro j n hn
    dsimp only [store] at hn
    split_ifs at hn with hj
    · exact s4 (b3 _) n hn
    · exact b3 j n hn
  · dsimp only
    have hsum : ((List.range HASH_TABLE_SIZE).map
        (store (fun j => (m.table j).length) (hash_key key)
          ((m.table (hash_key key)).length + 0))).sum =
        ((List.range HASH_TABLE_SIZE).map (fun j => (m.table j).length)).sum + 0 :=
      sum_range_store_add (fun j => (m.table j).length) (hash_key key) 0 HASH_TABLE_SIZE
        (hash_key_lt key)
    rw [add_zero, add_zero] at hsum
    rw [b4, store_comp List.length, s2, hsum]
  · dsimp only
    have e : (fun j => ((store m.table (hash_key key) chain j).map BigramNode.count).sum) =
        store (fun j => ((m.table j).map BigramNode.count).sum) (hash_key key)
          (chain.map BigramNode.count).sum :=
      store_comp (fun c : List BigramNode => (c.map BigramNode.count).sum) m.table _ chain
    rw [b5, e, s3]
    exact (sum_range_store_add (fun j => ((m.table j).map BigramNode.count).sum) (hash_key key)
      1 HASH_TABLE_SIZE (hash_key_lt key)).symm

/-- Pushing a fresh node of `key` on the chain of bucket `hash_key key`, when the chain holds
no node of `key`, keeps the invariant. -/
theorem bigram_inv_inserted (m : BigramMap) (hm : BigramInv m) (key : Nat)
    (hi : bigram_chain_increment key (m.table (hash_key key)) = none) :
    BigramInv { table := store m.table (hash_key key)
                  ({ key := key, count := 1 } :: m.table (hash_key key))
                total_unique_bigrams := m.total_unique_bigrams + 1
                total_bigrams := m.total_bigrams + 1 } := by
  obtain ⟨b1, b2, b3, b4, b5⟩ := hm
  have habs := bigram_chain_increment_absent key _ hi
  refine ⟨?_, ?_, ?_, ?_, ?_⟩
  · intro j n hn
    dsimp only [store] at hn
    split_ifs at hn with hj
    · rcases List.mem_cons.mp hn with e | e
      · rw [e]; exact hj
      · rw [hj]; exact b1 _ n e
    · exact b1 j n hn
  · intro j
    dsimp only [store]
    split_ifs with hj
    · rw [List.map_cons, List.nodup_cons]
      exact ⟨habs, b2 _⟩
    · exact b2 j
  · intro j n hn
    dsimp only [store] at hn
    split_ifs at hn with hj
    · rcases List.mem_cons.mp hn with e | e
      · rw [e]
      · exact b3 _ n e
    · exact b3 j n hn
  · dsimp only
    have h2 : ((List.range HASH_TABLE_SIZE).map
        (store (fun j => (m.table j).length) (hash_key key)
          ((m.table (hash_key key)).length + 1))).sum =
        ((List.range HASH_TABLE_SIZE).map (fun j => (m.table j).length)).sum + 1 :=
      sum_range_store_add (fun j => (m.table j).length) (hash_key key) 1 HASH_TABLE_SIZE
        (hash_key_lt key)
    rw [b4, store_comp List.length, List.length_cons, h2]
    push_cast
    rfl
  · dsimp only
    have e : (fun j => ((store m.table (hash_key key)
          (({ key := key, count := 1 } : BigramNode) :: m.table (hash_key key)) j).map
            BigramNode.count).sum) =
        store (fun j => ((m.table j).map BigramNode.count).sum) (hash_key key)
          ((({ key := key, count := 1 } : BigramNode) :: m.table (hash_key key)).map
            BigramNode.count).sum :=
      store_comp (fun c : List BigramNode => (c.map BigramNode.count).sum) m.table _ _
    have hv : ((({ key := key, count := 1 } : BigramNode) :: m.table (hash_key key)).map
        BigramNode.count).sum = ((m.table (hash_key key)).map BigramNode.count).sum + 1 := by
      rw [List.map_cons, List.sum_cons]
      exact add_comm _ _
    rw [b5, e, hv]
    exact (sum_range_store_add (fun j => ((m.table j).map BigramNode.count).sum) (hash_key key)
      1 HASH_TABLE_SIZE (hash_key_lt key)).symm

theorem process_bigram_count_inv (E : Libc) (p c : Nat) (d : FrequencyData) (h : Nat)
    (hd : BigramInv d.bigram_map) :
    BigramInv (process_bigram_count E p c d h).1.bigram_map := by
  unfold process_bigram_count
  dsimp only
  by_cases ha : (!E.iswalpha p || !E.iswalpha c) = true
  · rw [if_pos ha]
    exact hd
  · rw [if_neg ha]
    cases hi : bigram_chain_increment (bigram_key (E.towlower p) (E.towlower c))
        (d.bigram_map.table (hash_key (bigram_key (E.towlower p) (E.towlower c)))) with
    | some chain => exact bigram_inv_found _ hd _ chain hi
    | none =>
      dsimp only
      by_cases hm : E.malloc_ok h = true
      · rw [if_pos hm]
        exact bigram_inv_inserted _ hd _ hi
      · rw [if_neg hm]
        exact hd

theorem char_inv_found (m : CharMap) (hm : CharInv m) (c : Nat) (chain : List CharMapNode)
    (hi : char_chain_increment c (m.table (hash_key (u32 c))) = some chain) :
    CharInv { m with table := store m.table (hash_key (u32 c)) chain } := by
  obtain ⟨b1, b2, b3, b4⟩ := hm
  obtain ⟨s1, s2, s4⟩ := char_chain_increment_shape c _ chain hi
  have hmem : ∀ n ∈ chain, ∃ n0 ∈ m.table (hash_key (u32 c)), n0.character = n.character := by
    intro n hn
    have : n.character ∈ chain.map CharMapNode.character := List.mem_map_of_mem _ hn
    rw [s1, List.mem_map] at this
    exact this
  refine ⟨?_, ?_, ?_, ?_⟩
  · intro j n hn
    dsimp only [store] at hn
    split_ifs at hn with hj
    · obtain ⟨n0, hn0, e⟩ := hmem n hn
      rw [← e, hj]
      exact b1 _ n0 hn0
    · exact b1 j n hn
  · intro j
    dsimp only [store]
    split_ifs with hj
    · rw [s1]; exact b2 _
    · exact b2 j
  · intro j n hn
    dsimp only [store] at hn
    split_ifs at hn with hj
    · exact s4 (b3 _) n hn
    · exact b3 j n hn
  · dsimp only
    have hsum : ((List.range HASH_TABLE_SIZE).map
        (store (fun j => (m.table j).length) (hash_key (u32 c))
          ((m.table (hash_key (u32 c))).length + 0))).sum =
        ((List.range HASH_TABLE_SIZE).map (fun j => (m.table j).length)).sum + 0 :=
      sum_range_store_add (fun j => (m.table j).length) (hash_key (u32 c)) 0 HASH_TABLE_SIZE
        (hash_key_lt _)
    rw [add_zero, add_zero] at hsum
    rw [b4, store_comp List.length, s2, hsum]

theorem char_inv_inserted (m : CharMap) (hm : CharInv m) (c : Nat)
    (hi : char_chain_increment c (m.table (hash_key (u32 c))) = none) :
    CharInv { table := store m.table (hash_key (u32 c))
                ({ character := c, count := 1 } :: m.table (hash_key (u32 c)))
              total_unique_chars := m.total_unique_chars + 1 } := by
  obtain ⟨b1, b2, b3, b4⟩ := hm
  have habs := char_chain_increment_absent c _ hi
  refine ⟨?_, ?_, ?_, ?_⟩
  · intro j n hn
    dsimp only [store] at hn
    split_ifs at hn with hj
    · rcases List.mem_cons.mp hn with e | e
      · rw [e]; exact hj
      · rw [hj]; exact b1 _ n e
    · exact b1 j n hn
  · intro j
    dsimp only [store]
    split_ifs with hj
    · rw [List.map_cons, List.nodup_cons]
      exact ⟨habs, b2 _⟩
    · exact b2 j
  · intro j n hn
    dsimp only [store] at hn
    split_ifs at hn with hj
    · rcases List.mem_cons.mp hn with e | e
      · rw [e]
      · exact b3 _ n e
    · exact b3 j n hn
  · dsimp only
    have h2 : ((List.range HASH_TABLE_SIZE).map
        (store (fun j => (m.table j).length) (hash_key (u32 c))
          ((m.table (hash_key (u32 c))).length + 1))).sum =
        ((List.range HASH_TABLE_SIZE).map (fun j => (m.table j).length)).sum + 1 :=
      sum_range_store_add (fun j => (m.table j).length) (hash_key (u32 c)) 1 HASH_TABLE_SIZE
        (hash_key_lt _)
    rw [b4, store_comp List.length, List.length_cons, h2]
    push_cast
    rfl

theorem process_all_character_count_inv (E : Libc) (wc : Nat) (d : FrequencyData) (h : Nat)
    (hd : CharInv d.all_char_map) :
    CharInv (process_all_character_count E wc d h).1.all_char_map := by
  unfold process_all_character_count
  dsimp only
  cases hi : char_chain_increment (if E.iswalpha wc = true then E.towlower wc else wc)
      (d.all_char_map.table (hash_key (u32 (if E.iswalpha wc = true then E.towlower wc else wc))))
    with
  | some chain => exact char_inv_found _ hd _ chain hi
  | none =>
    dsimp only
    by_cases hm : E.malloc_ok h = true
    · rw [if_pos hm]
      exact char_inv_inserted _ hd _ hi
    · rw [if_neg hm]
      exact hd

theorem scan_step_inv (E : Libc) (i : Nat) (st : ScanState) (wc : Nat)
    (hb : BigramInv st.data.bigram_map) (hc : CharInv st.data.all_char_map) :
    BigramInv (scan_step E i st wc).data.bigram_map ∧
    CharInv (scan_step E i st wc).data.all_char_map := by
  constructor
  · obtain ⟨d2, hd2, hstep⟩ := scan_step_bigram_map E i st wc
    rw [hstep]
    split_ifs
    · exact process_bigram_count_inv E _ _ d2 _ (hd2 ▸ hb)
    · exact hb
  · obtain ⟨d3, h3, hd3, hstep⟩ := scan_step_all_char_map E i st wc
    rw [hstep]
    split_ifs
    · exact hc
    · exact process_all_character_count_inv E _ d3 _ (hd3 ▸ hc)

theorem scan_loop_inv (E : Libc) (l : List Nat) (i : Nat) (st : ScanState)
    (hb : BigramInv st.data.bigram_map) (hc : CharInv st.data.all_char_map) :
    BigramInv (scan_loop E l i st).data.bigram_map ∧
    CharInv (scan_loop E l i st).data.all_char_map := by
  induction l generalizing i st with
  | nil => exact ⟨hb, hc⟩
  | cons c cs ih =>
    rw [scan_loop]
    obtain ⟨h1, h2⟩ := scan_step_inv E i st c hb hc
    exact ih (i + 1) _ h1 h2

theorem extract_inv (E : Libc) (span : List Nat) (heap : Nat) :
    BigramInv (extract_frequencies_from_buffer E span heap).1.bigram_map ∧
    CharInv (extract_frequencies_from_buffer E span heap).1.all_char_map := by
  rw [extract_bigram_map, extract_all_char_map]
  exact scan_loop_inv E span 0 (scan_init heap) bigram_inv_zero char_inv_zero

theorem length_flatMap_range {α : Type} (f : Nat → List α) (l : List Nat) :
    (l.flatMap f).length = (l.map (fun j => (f j).length)).sum := by
  induction l with
  | nil => rfl
  | cons a l ih => simp [List.flatMap_cons, ih]

theorem sum_map_flatMap {α : Type} (f : Nat → List α) (g : α → ℚ) (l : List Nat) :
    ((l.flatMap f).map g).sum = (l.map (fun j => ((f j).map g).sum)).sum := by
  induction l with
  | nil => rfl
  | cons a l ih => simp [List.flatMap_cons, ih]

theorem nodup_keys_flatMap {α : Type} (f : Nat → List α) (key : α → Nat) (hash : Nat → Nat)
    (hbucket : ∀ j, ∀ n ∈ f j, j = hash (key n))
    (hchain : ∀ j, ((f j).map key).Nodup) (l : List Nat) (hl : l.Nodup) :
    ((l.flatMap f).map key).Nodup := by
  induction l with
  | nil => simp
  | cons a l ih =>
    rw [List.nodup_cons] at hl
    rw [List.flatMap_cons, List.map_append]
    refine List.Nodup.append (hchain a) (ih hl.2) ?_
    intro k hk1 hk2
    rw [List.mem_map] at hk1 hk2
    obtain ⟨n1, hn1, e1⟩ := hk1
    obtain ⟨n2, hn2, e2⟩ := hk2
    rw [List.mem_flatMap] at hn2
    obtain ⟨j, hj, hn2j⟩ := hn2
    have ha : a = hash k := e1 ▸ hbucket a n1 hn1
    have hj2 : j = hash k := e2 ▸ hbucket j n2 hn2j
    exact hl.1 (ha.trans hj2.symm ▸ hj)

/-- C24: after extracting any span, whatever the allocator does (so in particular when node
allocation never fails), both counting maps satisfy: every node lies in bucket
`key mod 1024`, no key is held by two nodes, every node count is at least 1,
`total_unique_chars` and `total_unique_bigrams` are the numbers of nodes of the respective
map, and `bigram_map.total_bigrams` is the sum of the counts of all bigram nodes. -/
theorem C24_hash_map_invariants (E : Libc) (span : List Nat) (heap : Nat) :
    (∀ j, ∀ n ∈ (extract_frequencies_from_buffer E span heap).1.bigram_map.table j,
      j = n.key % 1024) ∧
    (∀ j, ∀ n ∈ (extract_frequencies_from_buffer E span heap).1.all_char_map.table j,
      j = n.character % 1024) ∧
    ((bigram_nodes (extract_frequencies_from_buffer E span heap).1.bigram_map).map
      BigramNode.key).Nodup ∧
    ((char_nodes (extract_frequencies_from_buffer E span heap).1.all_char_map).map
      CharMapNode.character).Nodup ∧
    (∀ n ∈ bigram_nodes (extract_frequencies_from_buffer E span heap).1.bigram_map,
      1 ≤ n.count) ∧
    (∀ n ∈ char_nodes (extract_frequencies_from_buffer E span heap).1.all_char_map,
      1 ≤ n.count) ∧
    (extract_frequencies_from_buffer E span heap).1.all_char_map.total_unique_chars =
      (char_nodes (extract_frequencies_from_buffer E span heap).1.all_char_map).length ∧
    (extract_frequencies_from_buffer E span heap).1.bigram_map.total_unique_bigrams =
      (bigram_nodes (extract_frequencies_from_buffer E span heap).1.bigram_map).length ∧
    (extract_frequencies_from_buffer E span heap).1.bigram_map.total_bigrams =
      ((bigram_nodes (extract_frequencies_from_buffer E span heap).1.bigram_map).map
        BigramNode.count).sum := by
  obtain ⟨⟨b1, b2, b3, b4, b5⟩, ⟨c1, c2, c3, c4⟩⟩ := extract_inv E span heap
  refine ⟨?_, ?_, ?_, ?_, ?_, ?_, ?_, ?_, ?_⟩
  · intro j n hn
    exact b1 j n hn
  · intro j n hn
    rw [← hash_key_u32]
    exact c1 j n hn
  · exact nodup_keys_flatMap _ BigramNode.key hash_key b1 b2 _ (List.nodup_range _)
  · exact nodup_keys_flatMap _ CharMapNode.character (fun c => hash_key (u32 c)) c1 c2 _
      (List.nodup_range _)
  · intro n hn
    unfold bigram_nodes at hn
    rw [List.mem_flatMap] at hn
    obtain ⟨j, -, hj⟩ := hn
    exact b3 j n hj
  · intro n hn
    unfold char_nodes at hn
    rw [List.mem_flatMap] at hn
    obtain ⟨j, -, hj⟩ := hn
    exact c3 j n hj
  · rw [c4, char_nodes, length_flatMap_range]
  · rw [b4, bigram_nodes, length_flatMap_range]
  · rw [b5, bigram_nodes, sum_map_flatMap]

/-! ## Extraction of a concatenation -/

theorem pair_count_both_alpha_head (E : Libc) (q : Nat) (t : List Nat) :
    pair_count (both_alpha E) q t =
      pair_count (both_alpha E) 0 t +
        (if E.iswalpha q = true ∧ begins_alpha E t = true then 1 else 0) := by
  cases t with
  | nil => simp [pair_count, begins_alpha]
  | cons c cs =>
    simp only [pair_count, both_alpha, E.iswalpha_nul, begins_alpha, List.head?_cons,
      Bool.false_and, Bool.and_eq_true]
    simp only [Bool.false_eq_true, if_false]
    omega

theorem iswalpha_last_eq_ends_alpha (E : Libc) (s : List Nat) :
    E.iswalpha ((0 :: s).getLast (by simp)) = ends_alpha E s := by
  cases s with
  | nil => simp [ends_alpha, E.iswalpha_nul]
  | cons c cs =>
    rw [List.getLast_cons (List.cons_ne_nil c cs), ends_alpha,
      List.getLast?_eq_getLast (c :: cs) (List.cons_ne_nil c cs)]

/-- C25 (amended): for all spans `s` and `t`, each letter-histogram bin and `total_letters`
of the extraction of `s ++ t` are the sums of the corresponding values of the extractions
of `s` and of `t`; and if node allocation never fails, the bigram total of `s ++ t` is the
sum of the two bigram totals plus one when `s` ends and `t` begins with an alphabetic code
point, plus zero otherwise. -/
theorem C25_extraction_of_concatenation (E : Libc) (s t : List Nat) (h hs ht : Nat) :
    (∀ k, (extract_frequencies_from_buffer E (s ++ t) h).1.observed_freq k =
      (extract_frequencies_from_buffer E s hs).1.observed_freq k +
        (extract_frequencies_from_buffer E t ht).1.observed_freq k) ∧
    (extract_frequencies_from_buffer E (s ++ t) h).1.total_letters =
      (extract_frequencies_from_buffer E s hs).1.total_letters +
        (extract_frequencies_from_buffer E t ht).1.total_letters ∧
    (AllocOk E →
      (extract_frequencies_from_buffer E (s ++ t) h).1.bigram_map.total_bigrams =
        (extract_frequencies_from_buffer E s hs).1.bigram_map.total_bigrams +
          (extract_frequencies_from_buffer E t ht).1.bigram_map.total_bigrams +
          (if ends_alpha E s = true ∧ begins_alpha E t = true then 1 else 0)) := by
  refine ⟨?_, ?_, ?_⟩
  · intro k
    rw [extract_observed_freq_count, extract_observed_freq_count, extract_observed_freq_count,
      List.countP_append]
    push_cast
    rfl
  · rw [extract_total_letters_count, extract_total_letters_count, extract_total_letters_count,
      List.countP_append]
    push_cast
    rfl
  · intro hE
    have hq := pair_count_both_alpha_head E ((0 :: s).getLast (by simp)) t
    rw [iswalpha_last_eq_ends_alpha] at hq
    rw [extract_total_bigrams E hE, extract_total_bigrams E hE, extract_total_bigrams E hE,
      pair_count_append (both_alpha E) 0 s t, hq]
    split_ifs <;> push_cast <;> ring

/-- Witness of C25 (amended): `"ab"` followed by `"cd"` in the `"C"` locale. -/
theorem C25_witness :
    AllocOk asciiLibc ∧
    (extract_frequencies_from_buffer asciiLibc ([0x61, 0x62] ++ [0x63, 0x64]) 0).1.bigram_map.total_bigrams =
      (extract_frequencies_from_buffer asciiLibc [0x61, 0x62] 0).1.bigram_map.total_bigrams +
        (extract_frequencies_from_buffer asciiLibc [0x63, 0x64] 0).1.bigram_map.total_bigrams +
        (if ends_alpha asciiLibc [0x61, 0x62] = true ∧ begins_alpha asciiLibc [0x63, 0x64] = true
          then 1 else 0) :=
  ⟨fun _ => rfl,
   (C25_extraction_of_concatenation asciiLibc [0x61, 0x62] [0x63, 0x64] 0 0 0).2.2
     (fun _ => rfl)⟩

/-- C25 as stated fails when node allocation fails: with an allocator that is out of memory,
`"a"` ends and `"a"` begins with a letter, yet the bigram total of `"aa"` is 0, not
`0 + 0 + 1`. -/
theorem C25_counterexample :
    ends_alpha noMemLibc [0x61] = true ∧ begins_alpha noMemLibc [0x61] = true ∧
    (extract_frequencies_from_buffer noMemLibc ([0x61] ++ [0x61]) 0).1.bigram_map.total_bigrams = 0 ∧
    (extract_frequencies_from_buffer noMemLibc [0x61] 0).1.bigram_map.total_bigrams = 0 ∧
    (extract_frequencies_from_buffer noMemLibc ([0x61] ++ [0x61]) 0).1.bigram_map.total_bigrams ≠
      (extract_frequencies_from_buffer noMemLibc [0x61] 0).1.bigram_map.total_bigrams +
        (extract_frequencies_from_buffer noMemLibc [0x61] 0).1.bigram_map.total_bigrams + 1 := by
  refine ⟨rfl, rfl, ?_, ?_, ?_⟩ <;>
  norm_num [extract_frequencies_from_buffer, scan_loop, scan_step, process_bigram_count,
    process_letter_frequency, process_all_character_count, noMemLibc, asciiLibc,
    FrequencyData.zero, bigram_chain_increment, char_chain_increment, map_letter_to_index,
    store, hash_key, u32, HASH_TABLE_SIZE]

/-! ## Scores in binary64 arithmetic -/

theorem round_half_even_mono (a b : ℚ) (h : a ≤ b) : round_half_even a ≤ round_half_even b := by
  have hf : ⌊a⌋ ≤ ⌊b⌋ := Int.floor_mono h
  rcases lt_or_eq_of_le hf with hlt | heq
  · have h1 := round_half_even_le_floor_succ a
    have h2 := round_half_even_ge_floor b
    omega
  · unfold round_half_even
    rw [heq]
    have hab : a - ⌊b⌋ ≤ b - ⌊b⌋ := by linarith
    split_ifs <;> first | omega | (exfalso; linarith)

theorem binary64_neg (x : ℚ) : binary64 (-x) = -binary64 x := by
  rcases lt_trichotomy x 0 with h | h | h
  · have h1 : ¬ -x = 0 := by linarith
    have h2 : (0 : ℚ) < -x := by linarith
    have h3 : ¬ x = 0 := by linarith
    have h4 : ¬ (0 : ℚ) < x := by linarith
    unfold binary64
    rw [if_neg h1, if_pos h2, if_neg h3, if_neg h4, neg_neg]
  · rw [h]; simp [binary64]
  · have h1 : ¬ -x = 0 := by linarith
    have h2 : ¬ (0 : ℚ) < -x := by linarith
    have h3 : ¬ x = 0 := by linarith
    unfold binary64
    rw [if_neg h1, if_neg h2, if_neg h3, if_pos h, neg_neg]

theorem binary64_pos_bounds (x : ℚ) (hx : 0 < x) :
    (2 : ℚ) ^ Int.log 2 x ≤ binary64 x ∧ binary64 x ≤ (2 : ℚ) ^ (Int.log 2 x + 1) := by
  obtain ⟨h1, h2⟩ := log2_bounds x hx
  have hu : (0 : ℚ) < 2 ^ ulp_exponent x := by positivity
  have e1 : (2 : ℚ) ^ Int.log 2 x = 2 ^ (52 : ℕ) * 2 ^ ulp_exponent x := by
    unfold ulp_exponent
    rw [← zpow_natCast, ← zpow_add₀ (by norm_num : (2 : ℚ) ≠ 0)]
    congr 1
    push_cast
    ring
  have e2 : (2 : ℚ) ^ (Int.log 2 x + 1) = 2 ^ (53 : ℕ) * 2 ^ ulp_exponent x := by
    unfold ulp_exponent
    rw [← zpow_natCast, ← zpow_add₀ (by norm_num : (2 : ℚ) ≠ 0)]
    congr 1
    push_cast
    ring
  rw [binary64_of_pos x hx]
  constructor
  · rw [e1]
    apply mul_le_mul_of_nonneg_right _ (le_of_lt hu)
    have : ((2 ^ 52 : ℤ) : ℚ) ≤ x / 2 ^ ulp_exponent x := by
      rw [le_div_iff₀ hu]
      have e3 : ((2 ^ 52 : ℤ) : ℚ) * 2 ^ ulp_exponent x = 2 ^ Int.log 2 x := by
        rw [e1]; norm_num
      rw [e3]
      exact h1
    have h3 := le_round_half_even _ _ this
    exact_mod_cast h3
  · rw [e2]
    apply mul_le_mul_of_nonneg_right _ (le_of_lt hu)
    have : x / 2 ^ ulp_exponent x ≤ ((2 ^ 53 : ℤ) : ℚ) := by
      rw [div_le_iff₀ hu]
      have e3 : ((2 ^ 53 : ℤ) : ℚ) * 2 ^ ulp_exponent x = 2 ^ (Int.log 2 x + 1) := by
        rw [e2]; norm_num
      rw [e3]
      exact le_of_lt h2
    have h3 := round_half_even_le _ _ this
    exact_mod_cast h3

theorem binary64_mono_pos (x y : ℚ) (hx : 0 < x) (h : x ≤ y) : binary64 x ≤ binary64 y := by
  have hy : 0 < y := lt_of_lt_of_le hx h
  have hlog : Int.log 2 x ≤ Int.log 2 y := Int.log_mono_right hx h
  rcases lt_or_eq_of_le hlog with hlt | heq
  · have h1 := (binary64_pos_bounds x hx).2
    have h2 := (binary64_pos_bounds y hy).1
    have h3 : (2 : ℚ) ^ (Int.log 2 x + 1) ≤ 2 ^ Int.log 2 y :=
      zpow_le_zpow_right₀ (by norm_num) (by omega)
    linarith
  · have hu : ulp_exponent x = ulp_exponent y := by unfold ulp_exponent; rw [heq]
    have hpos : (0 : ℚ) < 2 ^ ulp_exponent y := by positivity
    rw [binary64_of_pos x hx, binary64_of_pos y hy, hu]
    apply mul_le_mul_of_nonneg_right _ (le_of_lt hpos)
    have : x / 2 ^ ulp_exponent y ≤ y / 2 ^ ulp_exponent y :=
      div_le_div_of_nonneg_right h (le_of_lt hpos)
    exact_mod_cast round_half_even_mono _ _ this

/-- Rounding to binary64 is monotone. -/
theorem binary64_mono (x y : ℚ) (h : x ≤ y) : binary64 x ≤ binary64 y := by
  rcases lt_or_le 0 x with hx | hx
  · exact binary64_mono_pos x y hx h
  · rcases le_or_lt 0 y with hy | hy
    · have h1 : 0 ≤ binary64 (-x) := binary64_nonneg _ (by linarith)
      rw [binary64_neg] at h1
      have h2 := binary64_nonneg y hy
      linarith
    · have h1 := binary64_mono_pos (-y) (-x) (by linarith) (by linarith)
      rw [binary64_neg, binary64_neg] at h1
      linarith

theorem lt_of_binary64_lt (x y : ℚ) (h : binary64 x < binary64 y) : x < y := by
  by_contra hn
  exact absurd (binary64_mono y x (not_lt.mp hn)) (not_le.mpr h)

theorem mono_foldl_binary64 (data : FrequencyData) (n : Nat) :
    (List.range n).foldl (mono_step_binary64 data (binary64 (data.total_letters / 100)))
        (0, 0) =
      ((List.range n).foldl (fun chi i =>
          binary64 (chi + chi_term_binary64 (data.observed_freq i)
            (binary64 (binary64 (ENGLISH_FREQ.getD i 0) *
              binary64 (data.total_letters / 100))))) 0,
       (List.range n).foldl (fun chi i =>
          binary64 (chi + chi_term_binary64 (data.observed_freq i)
            (binary64 (binary64 (FRENCH_FREQ.getD i 0) *
              binary64 (data.total_letters / 100))))) 0) := by
  induction n with
  | zero => rfl
  | succ n ih =>
    rw [List.range_succ, List.foldl_append, List.foldl_append, List.foldl_append, ih]
    rfl

theorem mono_loop_binary64_eq (data : FrequencyData) :
    (mono_loop_binary64 data).1 = spec_mono_sum_binary64 ENGLISH_FREQ data ∧
    (mono_loop_binary64 data).2 = spec_mono_sum_binary64 FRENCH_FREQ data := by
  unfold mono_loop_binary64 spec_mono_sum_binary64 TOTAL_BINS
  rw [mono_foldl_binary64]
  exact ⟨rfl, rfl⟩

theorem calculate_bigram_chi_binary64_eq (refs : List BigramRef) (data : FrequencyData) :
    calculate_bigram_chi_binary64 data.bigram_map refs =
      spec_bigram_score_binary64 refs data := rfl

theorem chi_final_binary64_eq (data : FrequencyData) :
    chi1_final_binary64 data =
      spec_combined_binary64 ENGLISH_FREQ ENGLISH_BIGRAM_FREQ data ∧
    chi2_final_binary64 data =
      spec_combined_binary64 FRENCH_FREQ FRENCH_BIGRAM_FREQ data := by
  unfold chi1_final_binary64 chi2_final_binary64 spec_combined_binary64
  rw [(mono_loop_binary64_eq data).1, (mono_loop_binary64_eq data).2,
    calculate_bigram_chi_binary64_eq, calculate_bigram_chi_binary64_eq]
  exact ⟨rfl, rfl⟩

theorem round_half_even_tie (y : ℚ) (m : ℤ) (he : m % 2 = 0)
    (h : y = m + 1 / 2 ∨ y = m - 1 / 2) : round_half_even y = m := by
  rcases h with h | h
  · have hf : ⌊y⌋ = m := by
      rw [Int.floor_eq_iff, h]
      constructor <;> linarith
    unfold round_half_even
    rw [hf, h]
    have e : (m : ℚ) + 1 / 2 - m = 1 / 2 := by ring
    rw [e, if_neg (lt_irrefl _), if_neg (lt_irrefl _), if_pos he]
  · have hf : ⌊y⌋ = m - 1 := by
      rw [Int.floor_eq_iff, h]
      push_cast
      constructor <;> linarith
    have ho : ¬ (m - 1) % 2 = 0 := by omega
    unfold round_half_even
    rw [hf, h]
    have e : (m : ℚ) - 1 / 2 - ((m - 1 : ℤ) : ℚ) = 1 / 2 := by push_cast; ring
    rw [e, if_neg (lt_irrefl _), if_neg (lt_irrefl _), if_neg ho]
    ring

/-- Certificate for one rounding: `x` lies in the binade of `2 ^ n` and `m` is the integer
nearest to `x / 2 ^ (n - 52)`. -/
theorem binary64_cert (x r : ℚ) (n m : ℤ) (h1 : (2 : ℚ) ^ n ≤ x) (h2 : x < (2 : ℚ) ^ (n + 1))
    (hm : |x / 2 ^ (n - 52) - m| < 1 / 2) (hr : (m : ℚ) * 2 ^ (n - 52) = r) :
    binary64 x = r := by
  rw [binary64_eval x n m h1 h2 hm, hr]

/-- Certificate for one rounding of a negative number. -/
theorem binary64_cert_neg (x r : ℚ) (n m : ℤ) (h1 : (2 : ℚ) ^ n ≤ -x)
    (h2 : -x < (2 : ℚ) ^ (n + 1)) (hm : |-x / 2 ^ (n - 52) - m| < 1 / 2)
    (hr : -((m : ℚ) * 2 ^ (n - 52)) = r) : binary64 x = r := by
  have h := binary64_eval (-x) n m h1 h2 hm
  rw [binary64_neg] at h
  rw [← hr, ← h, neg_neg]

/-- Certificate for one rounding at a tie: `x / 2 ^ (n - 52)` lies halfway between two
integers and `m` is the even one. -/
theorem binary64_cert_tie (x r : ℚ) (n m : ℤ) (h1 : (2 : ℚ) ^ n ≤ x)
    (h2 : x < (2 : ℚ) ^ (n + 1)) (he : m % 2 = 0)
    (hm : x / 2 ^ (n - 52) = m + 1 / 2 ∨ x / 2 ^ (n - 52) = m - 1 / 2)
    (hr : (m : ℚ) * 2 ^ (n - 52) = r) : binary64 x = r := by
  have hx : 0 < x := lt_of_lt_of_le (by positivity) h1
  rw [binary64_of_pos x hx]
  unfold ulp_exponent
  rw [log2_eq x n h1 h2, round_half_even_tie _ m he hm, hr]

/-- Certificate for one rounding of a negative number at a tie. -/
theorem binary64_cert_neg_tie (x r : ℚ) (n m : ℤ) (h1 : (2 : ℚ) ^ n ≤ -x)
    (h2 : -x < (2 : ℚ) ^ (n + 1)) (he : m % 2 = 0)
    (hm : -x / 2 ^ (n - 52) = m + 1 / 2 ∨ -x / 2 ^ (n - 52) = m - 1 / 2)
    (hr : -((m : ℚ) * 2 ^ (n - 52)) = r) : binary64 x = r := by
  have h := binary64_cert_tie (-x) _ n m h1 h2 he hm rfl
  rw [binary64_neg] at h
  rw [← hr, ← h, neg_neg]

/-! ## Rounding certificates for the monograph scores of `span_tie` -/

/-- The English chi-squared terms of the bins 0, 1, 2, 3, 4, 5, 6, 7, 8, 9 of `tie_hist` in binary64 arithmetic, each
with the roundings of its table entry, expected count, difference, square, denominator
and quotient. -/
theorem tie_terms_en_0 :
    (chi_term_binary64 2 (binary64 (binary64 (8.167 : ℚ) * (3602879701896397 / 9007199254740992))) = (1106173393799437 / 2251799813685248)) ∧
    (chi_term_binary64 3 (binary64 (binary64 (1.492 : ℚ) * (3602879701896397 / 9007199254740992))) = (5447786460811613 / 562949953421312)) ∧
    (chi_term_binary64 1 (binary64 (binary64 (2.782 : ℚ) * (3602879701896397 / 9007199254740992))) = (6591290247392295 / 576460752303423488)) ∧
    (chi_term_binary64 1 (binary64 (binary64 (4.253 : ℚ) * (3602879701896397 / 9007199254740992))) = (5206524919674957 / 18014398509481984)) ∧
    (chi_term_binary64 1 (binary64 (binary64 (12.702 : ℚ) * (3602879701896397 / 9007199254740992))) = (7380541298284607 / 2251799813685248)) ∧
    (chi_term_binary64 2 (binary64 (binary64 (2.228 : ℚ) * (3602879701896397 / 9007199254740992))) = (3106422679428847 / 2251799813685248)) ∧
    (chi_term_binary64 1 (binary64 (binary64 (2.015 : ℚ) * (3602879701896397 / 9007199254740992))) = (3364709980771059 / 72057594037927936)) ∧
    (chi_term_binary64 0 (binary64 (binary64 (6.094 : ℚ) * (3602879701896397 / 9007199254740992))) = (5488984974040271 / 2251799813685248)) ∧
    (chi_term_binary64 2 (binary64 (binary64 (6.966 : ℚ) * (3602879701896397 / 9007199254740992))) = (7996375021147685 / 36028797018963968)) ∧
    (chi_term_binary64 3 (binary64 (binary64 (0.153 : ℚ) * (3602879701896397 / 9007199254740992))) = (4965138287332973 / 35184372088832)) := by
  refine ⟨?_, ?_, ?_, ?_, ?_, ?_, ?_, ?_, ?_, ?_⟩
  · have c1 : binary64 ((8.167 : ℚ)) = (4597612269591855 / 562949953421312) :=
      binary64_cert _ _ (3) 4597612269591855 (by norm_num) (by norm_num) (by norm_num [abs_lt]) (by norm_num)
    have c2 : binary64 ((4597612269591855 / 562949953421312) * (3602879701896397 / 9007199254740992)) = (919522453918371 / 281474976710656) :=
      binary64_cert _ _ (1) 7356179631346968 (by norm_num) (by norm_num) (by norm_num [abs_lt]) (by norm_num)
    have c3 : binary64 (2 - (919522453918371 / 281474976710656)) = (-(356572500497059 / 281474976710656)) :=
      binary64_cert_neg _ _ (0) 5705160007952944 (by norm_num) (by norm_num) (by norm_num [abs_lt]) (by norm_num)
    have c4 : binary64 ((-(356572500497059 / 281474976710656)) * (-(356572500497059 / 281474976710656))) = (7227296698074789 / 4503599627370496) :=
      binary64_cert _ _ (0) 7227296698074789 (by norm_num) (by norm_num) (by norm_num [abs_lt]) (by norm_num)
    have c5 : binary64 (1 / 1000000) = (4722366482869645 / 4722366482869645213696) :=
      binary64_cert _ _ (-20) 4722366482869645 (by norm_num) (by norm_num) (by norm_num [abs_lt]) (by norm_num)
    have c6 : binary64 ((919522453918371 / 281474976710656) + (4722366482869645 / 4722366482869645213696)) = (3678090941573391 / 1125899906842624) :=
      binary64_cert _ _ (1) 7356181883146782 (by norm_num) (by norm_num) (by norm_num [abs_lt]) (by norm_num)
    have c7 : binary64 ((7227296698074789 / 4503599627370496) / (3678090941573391 / 1125899906842624)) = (1106173393799437 / 2251799813685248) :=
      binary64_cert _ _ (-2) 8849387150395496 (by norm_num) (by norm_num) (by norm_num [abs_lt]) (by norm_num)
    unfold chi_term_binary64
    rw [c1, c2, c3, c4, c5, c6, c7]
  · have c1 : binary64 ((1.492 : ℚ)) = (1679842661009195 / 1125899906842624) :=
      binary64_cert _ _ (0) 6719370644036780 (by norm_num) (by norm_num) (by norm_num [abs_lt]) (by norm_num)
    have c2 : binary64 ((1679842661009195 / 1125899906842624) * (3602879701896397 / 9007199254740992)) = (335968532201839 / 562949953421312) :=
      binary64_cert _ _ (-1) 5375496515229424 (by norm_num) (by norm_num) (by norm_num [abs_lt]) (by norm_num)
    have c3 : binary64 (3 - (335968532201839 / 562949953421312)) = (1352881328062097 / 562949953421312) :=
      binary64_cert _ _ (1) 5411525312248388 (by norm_num) (by norm_num) (by norm_num [abs_lt]) (by norm_num)
    have c4 : binary64 ((1352881328062097 / 562949953421312) * (1352881328062097 / 562949953421312)) = (6502488815197663 / 1125899906842624) :=
      binary64_cert _ _ (2) 6502488815197663 (by norm_num) (by norm_num) (by norm_num [abs_lt]) (by norm_num)
    have c5 : binary64 (1 / 1000000) = (4722366482869645 / 4722366482869645213696) :=
      binary64_cert _ _ (-20) 4722366482869645 (by norm_num) (by norm_num) (by norm_num [abs_lt]) (by norm_num)
    have c6 : binary64 ((335968532201839 / 562949953421312) + (4722366482869645 / 4722366482869645213696)) = (5375505522428679 / 9007199254740992) :=
      binary64_cert _ _ (-1) 5375505522428679 (by norm_num) (by norm_num) (by norm_num [abs_lt]) (by norm_num)
    have c7 : binary64 ((6502488815197663 / 1125899906842624) / (5375505522428679 / 9007199254740992)) = (5447786460811613 / 562949953421312) :=
      binary64_cert _ _ (3) 5447786460811613 (by norm_num) (by norm_num) (by norm_num [abs_lt]) (by norm_num)
    unfold chi_term_binary64
    rw [c1, c2, c3, c4, c5, c6, c7]
  · have c1 : binary64 ((2.782 : ℚ)) = (783063385209045 / 281474976710656) :=
      binary64_cert _ _ (1) 6264507081672360 (by norm_num) (by norm_num) (by norm_num [abs_lt]) (by norm_num)
    have c2 : binary64 ((783063385209045 / 281474976710656) * (3602879701896397 / 9007199254740992)) = (156612677041809 / 140737488355328) :=
      binary64_cert _ _ (0) 5011605665337888 (by norm_num) (by norm_num) (by norm_num [abs_lt]) (by norm_num)
    have c3 : binary64 (1 - (156612677041809 / 140737488355328)) = (-(15875188686481 / 140737488355328)) :=
      binary64_cert_neg _ _ (-4) 8128096607478272 (by norm_num) (by norm_num) (by norm_num [abs_lt]) (by norm_num)
    have c4 : binary64 ((-(15875188686481 / 140737488355328)) * (-(15875188686481 / 140737488355328))) = (7334794378588393 / 576460752303423488) :=
      binary64_cert _ _ (-7) 7334794378588393 (by norm_num) (by norm_num) (by norm_num [abs_lt]) (by norm_num)
    have c5 : binary64 (1 / 1000000) = (4722366482869645 / 4722366482869645213696) :=
      binary64_cert _ _ (-20) 4722366482869645 (by norm_num) (by norm_num) (by norm_num [abs_lt]) (by norm_num)
    have c6 : binary64 ((156612677041809 / 140737488355328) + (4722366482869645 / 4722366482869645213696)) = (5011610168937515 / 4503599627370496) :=
      binary64_cert _ _ (0) 5011610168937515 (by norm_num) (by norm_num) (by norm_num [abs_lt]) (by norm_num)
    have c7 : binary64 ((7334794378588393 / 576460752303423488) / (5011610168937515 / 4503599627370496)) = (6591290247392295 / 576460752303423488) :=
      binary64_cert _ _ (-7) 6591290247392295 (by norm_num) (by norm_num) (by norm_num [abs_lt]) (by norm_num)
    unfold chi_term_binary64
    rw [c1, c2, c3, c4, c5, c6, c7]
  · have c1 : binary64 ((4.253 : ℚ)) = (299278268987605 / 70368744177664) :=
      binary64_cert _ _ (2) 4788452303801680 (by norm_num) (by norm_num) (by norm_num [abs_lt]) (by norm_num)
    have c2 : binary64 ((299278268987605 / 70368744177664) * (3602879701896397 / 9007199254740992)) = (59855653797521 / 35184372088832) :=
      binary64_cert _ _ (0) 7661523686082688 (by norm_num) (by norm_num) (by norm_num [abs_lt]) (by norm_num)
    have c3 : binary64 (1 - (59855653797521 / 35184372088832)) = (-(24671281708689 / 35184372088832)) :=
      binary64_cert_neg _ _ (-1) 6315848117424384 (by norm_num) (by norm_num) (by norm_num [abs_lt]) (by norm_num)
    have c4 : binary64 ((-(24671281708689 / 35184372088832)) * (-(24671281708689 / 35184372088832))) = (8857345399875957 / 18014398509481984) :=
      binary64_cert _ _ (-2) 8857345399875957 (by norm_num) (by norm_num) (by norm_num [abs_lt]) (by norm_num)
    have c5 : binary64 (1 / 1000000) = (4722366482869645 / 4722366482869645213696) :=
      binary64_cert _ _ (-20) 4722366482869645 (by norm_num) (by norm_num) (by norm_num [abs_lt]) (by norm_num)
    have c6 : binary64 ((59855653797521 / 35184372088832) + (4722366482869645 / 4722366482869645213696)) = (7661528189682315 / 4503599627370496) :=
      binary64_cert _ _ (0) 7661528189682315 (by norm_num) (by norm_num) (by norm_num [abs_lt]) (by norm_num)
    have c7 : binary64 ((8857345399875957 / 18014398509481984) / (7661528189682315 / 4503599627370496)) = (5206524919674957 / 18014398509481984) :=
      binary64_cert _ _ (-2) 5206524919674957 (by norm_num) (by norm_num) (by norm_num [abs_lt]) (by norm_num)
    unfold chi_term_binary64
    rw [c1, c2, c3, c4, c5, c6, c7]
  · have c1 : binary64 ((12.702 : ℚ)) = (7150590308357505 / 562949953421312) :=
      binary64_cert _ _ (3) 7150590308357505 (by norm_num) (by norm_num) (by norm_num [abs_lt]) (by norm_num)
    have c2 : binary64 ((7150590308357505 / 562949953421312) * (3602879701896397 / 9007199254740992)) = (1430118061671501 / 281474976710656) :=
      binary64_cert _ _ (2) 5720472246686004 (by norm_num) (by norm_num) (by norm_num [abs_lt]) (by norm_num)
    have c3 : binary64 (1 - (1430118061671501 / 281474976710656)) = (-(1148643084960845 / 281474976710656)) :=
      binary64_cert_neg _ _ (2) 4594572339843380 (by norm_num) (by norm_num) (by norm_num [abs_lt]) (by norm_num)
    have c4 : binary64 ((-(1148643084960845 / 281474976710656)) * (-(1148643084960845 / 281474976710656))) = (585922837638527 / 35184372088832) :=
      binary64_cert _ _ (4) 4687382701108216 (by norm_num) (by norm_num) (by norm_num [abs_lt]) (by norm_num)
    have c5 : binary64 (1 / 1000000) = (4722366482869645 / 4722366482869645213696) :=
      binary64_cert _ _ (-20) 4722366482869645 (by norm_num) (by norm_num) (by norm_num [abs_lt]) (by norm_num)
    have c6 : binary64 ((1430118061671501 / 281474976710656) + (4722366482869645 / 4722366482869645213696)) = (5720473372585911 / 1125899906842624) :=
      binary64_cert _ _ (2) 5720473372585911 (by norm_num) (by norm_num) (by norm_num [abs_lt]) (by norm_num)
    have c7 : binary64 ((585922837638527 / 35184372088832) / (5720473372585911 / 1125899906842624)) = (7380541298284607 / 2251799813685248) :=
      binary64_cert _ _ (1) 7380541298284607 (by norm_num) (by norm_num) (by norm_num [abs_lt]) (by norm_num)
    unfold chi_term_binary64
    rw [c1, c2, c3, c4, c5, c6, c7]
  · have c1 : binary64 ((2.228 : ℚ)) = (5017009984890733 / 2251799813685248) :=
      binary64_cert _ _ (1) 5017009984890733 (by norm_num) (by norm_num) (by norm_num [abs_lt]) (by norm_num)
    have c2 : binary64 ((5017009984890733 / 2251799813685248) * (3602879701896397 / 9007199254740992)) = (8027215975825173 / 9007199254740992) :=
      binary64_cert _ _ (-1) 8027215975825173 (by norm_num) (by norm_num) (by norm_num [abs_lt]) (by norm_num)
    have c3 : binary64 (2 - (8027215975825173 / 9007199254740992)) = (2496795633414203 / 2251799813685248) :=
      binary64_cert_tie _ _ (0) 4993591266828406 (by norm_num) (by norm_num) (by decide) (Or.inr (by norm_num)) (by norm_num)
    have c4 : binary64 ((2496795633414203 / 2251799813685248) * (2496795633414203 / 2251799813685248)) = (5536893996659337 / 4503599627370496) :=
      binary64_cert _ _ (0) 5536893996659337 (by norm_num) (by norm_num) (by norm_num [abs_lt]) (by norm_num)
    have c5 : binary64 (1 / 1000000) = (4722366482869645 / 4722366482869645213696) :=
      binary64_cert _ _ (-20) 4722366482869645 (by norm_num) (by norm_num) (by norm_num [abs_lt]) (by norm_num)
    have c6 : binary64 ((8027215975825173 / 9007199254740992) + (4722366482869645 / 4722366482869645213696)) = (2006806245756107 / 2251799813685248) :=
      binary64_cert _ _ (-1) 8027224983024428 (by norm_num) (by norm_num) (by norm_num [abs_lt]) (by norm_num)
    have c7 : binary64 ((5536893996659337 / 4503599627370496) / (2006806245756107 / 2251799813685248)) = (3106422679428847 / 2251799813685248) :=
      binary64_cert _ _ (0) 6212845358857694 (by norm_num) (by norm_num) (by norm_num [abs_lt]) (by norm_num)
    unfold chi_term_binary64
    rw [c1, c2, c3, c4, c5, c6, c7]
  · have c1 : binary64 ((2.015 : ℚ)) = (4537376624575775 / 2251799813685248) :=
      binary64_cert _ _ (1) 4537376624575775 (by norm_num) (by norm_num) (by norm_num [abs_lt]) (by norm_num)
    have c2 : binary64 ((4537376624575775 / 2251799813685248) * (3602879701896397 / 9007199254740992)) = (907475324915155 / 1125899906842624) :=
      binary64_cert _ _ (-1) 7259802599321240 (by norm_num) (by norm_num) (by norm_num [abs_lt]) (by norm_num)
    have c3 : binary64 (1 - (907475324915155 / 1125899906842624)) = (218424581927469 / 1125899906842624) :=
      binary64_cert _ _ (-3) 6989586621679008 (by norm_num) (by norm_num) (by norm_num [abs_lt]) (by norm_num)
    have c4 : binary64 ((218424581927469 / 1125899906842624) * (218424581927469 / 1125899906842624)) = (5423919218422909 / 144115188075855872) :=
      binary64_cert _ _ (-5) 5423919218422909 (by norm_num) (by norm_num) (by norm_num [abs_lt]) (by norm_num)
    have c5 : binary64 (1 / 1000000) = (4722366482869645 / 4722366482869645213696) :=
      binary64_cert _ _ (-20) 4722366482869645 (by norm_num) (by norm_num) (by norm_num [abs_lt]) (by norm_num)
    have c6 : binary64 ((907475324915155 / 1125899906842624) + (4722366482869645 / 4722366482869645213696)) = (7259811606520495 / 9007199254740992) :=
      binary64_cert _ _ (-1) 7259811606520495 (by norm_num) (by norm_num) (by norm_num [abs_lt]) (by norm_num)
    have c7 : binary64 ((5423919218422909 / 144115188075855872) / (7259811606520495 / 9007199254740992)) = (3364709980771059 / 72057594037927936) :=
      binary64_cert _ _ (-5) 6729419961542118 (by norm_num) (by norm_num) (by norm_num [abs_lt]) (by norm_num)
    unfold chi_term_binary64
    rw [c1, c2, c3, c4, c5, c6, c7]
  · have c1 : binary64 ((6.094 : ℚ)) = (6861234032298951 / 1125899906842624) :=
      binary64_cert _ _ (2) 6861234032298951 (by norm_num) (by norm_num) (by norm_num [abs_lt]) (by norm_num)
    have c2 : binary64 ((6861234032298951 / 1125899906842624) * (3602879701896397 / 9007199254740992)) = (5488987225839161 / 2251799813685248) :=
      binary64_cert _ _ (1) 5488987225839161 (by norm_num) (by norm_num) (by norm_num [abs_lt]) (by norm_num)
    have c3 : binary64 (0 - (5488987225839161 / 2251799813685248)) = (-(5488987225839161 / 2251799813685248)) :=
      binary64_cert_neg _ _ (1) 5488987225839161 (by norm_num) (by norm_num) (by norm_num [abs_lt]) (by norm_num)
    have c4 : binary64 ((-(5488987225839161 / 2251799813685248)) * (-(5488987225839161 / 2251799813685248))) = (3344988815426385 / 562949953421312) :=
      binary64_cert _ _ (2) 6689977630852770 (by norm_num) (by norm_num) (by norm_num [abs_lt]) (by norm_num)
    have c5 : binary64 (1 / 1000000) = (4722366482869645 / 4722366482869645213696) :=
      binary64_cert _ _ (-20) 4722366482869645 (by norm_num) (by norm_num) (by norm_num [abs_lt]) (by norm_num)
    have c6 : binary64 ((5488987225839161 / 2251799813685248) + (4722366482869645 / 4722366482869645213696)) = (5488989477638975 / 2251799813685248) :=
      binary64_cert _ _ (1) 5488989477638975 (by norm_num) (by norm_num) (by norm_num [abs_lt]) (by norm_num)
    have c7 : binary64 ((3344988815426385 / 562949953421312) / (5488989477638975 / 2251799813685248)) = (5488984974040271 / 2251799813685248) :=
      binary64_cert _ _ (1) 5488984974040271 (by norm_num) (by norm_num) (by norm_num [abs_lt]) (by norm_num)
    unfold chi_term_binary64
    rw [c1, c2, c3, c4, c5, c6, c7]
  · have c1 : binary64 ((6.966 : ℚ)) = (7843018751065719 / 1125899906842624) :=
      binary64_cert _ _ (2) 7843018751065719 (by norm_num) (by norm_num) (by norm_num [abs_lt]) (by norm_num)
    have c2 : binary64 ((7843018751065719 / 1125899906842624) * (3602879701896397 / 9007199254740992)) = (196075468776643 / 70368744177664) :=
      binary64_cert _ _ (1) 6274415000852576 (by norm_num) (by norm_num) (by norm_num [abs_lt]) (by norm_num)
    have c3 : binary64 (2 - (196075468776643 / 70368744177664)) = (-(55337980421315 / 70368744177664)) :=
      binary64_cert_neg _ _ (-1) 7083261493928320 (by norm_num) (by norm_num) (by norm_num [abs_lt]) (by norm_num)
    have c4 : binary64 ((-(55337980421315 / 70368744177664)) * (-(55337980421315 / 70368744177664))) = (2785138419412617 / 4503599627370496) :=
      binary64_cert _ _ (-1) 5570276838825234 (by norm_num) (by norm_num) (by norm_num [abs_lt]) (by norm_num)
    have c5 : binary64 (1 / 1000000) = (4722366482869645 / 4722366482869645213696) :=
      binary64_cert _ _ (-20) 4722366482869645 (by norm_num) (by norm_num) (by norm_num [abs_lt]) (by norm_num)
    have c6 : binary64 ((196075468776643 / 70368744177664) + (4722366482869645 / 4722366482869645213696)) = (3137208626326195 / 1125899906842624) :=
      binary64_cert _ _ (1) 6274417252652390 (by norm_num) (by norm_num) (by norm_num [abs_lt]) (by norm_num)
    have c7 : binary64 ((2785138419412617 / 4503599627370496) / (3137208626326195 / 1125899906842624)) = (7996375021147685 / 36028797018963968) :=
      binary64_cert _ _ (-3) 7996375021147685 (by norm_num) (by norm_num) (by norm_num [abs_lt]) (by norm_num)
    unfold chi_term_binary64
    rw [c1, c2, c3, c4, c5, c6, c7]
  · have c1 : binary64 ((0.153 : ℚ)) = (5512405943901487 / 36028797018963968) :=
      binary64_cert _ _ (-3) 5512405943901487 (by norm_num) (by norm_num) (by norm_num [abs_lt]) (by norm_num)
    have c2 : binary64 ((5512405943901487 / 36028797018963968) * (3602879701896397 / 9007199254740992)) = (2204962377560595 / 36028797018963968) :=
      binary64_cert _ _ (-5) 8819849510242380 (by norm_num) (by norm_num) (by norm_num [abs_lt]) (by norm_num)
    have c3 : binary64 (3 - (2204962377560595 / 36028797018963968)) = (6617589292458207 / 2251799813685248) :=
      binary64_cert _ _ (1) 6617589292458207 (by norm_num) (by norm_num) (by norm_num [abs_lt]) (by norm_num)
    have c4 : binary64 ((6617589292458207 / 2251799813685248) * (6617589292458207 / 2251799813685248)) = (4861942853169045 / 562949953421312) :=
      binary64_cert _ _ (3) 4861942853169045 (by norm_num) (by norm_num) (by norm_num [abs_lt]) (by norm_num)
    have c5 : binary64 (1 / 1000000) = (4722366482869645 / 4722366482869645213696) :=
      binary64_cert _ _ (-20) 4722366482869645 (by norm_num) (by norm_num) (by norm_num [abs_lt]) (by norm_num)
    have c6 : binary64 ((2204962377560595 / 36028797018963968) + (4722366482869645 / 4722366482869645213696)) = (1102499203178807 / 18014398509481984) :=
      binary64_cert _ _ (-5) 8819993625430456 (by norm_num) (by norm_num) (by norm_num [abs_lt]) (by norm_num)
    have c7 : binary64 ((4861942853169045 / 562949953421312) / (1102499203178807 / 18014398509481984)) = (4965138287332973 / 35184372088832) :=
      binary64_cert _ _ (7) 4965138287332973 (by norm_num) (by norm_num) (by norm_num [abs_lt]) (by norm_num)
    unfold chi_term_binary64
    rw [c1, c2, c3, c4, c5, c6, c7]

/-- The English chi-squared terms of the bins 10, 11, 12, 13, 14, 15, 16, 17, 18, 19 of `tie_hist` in binary64 arithmetic, each
with the roundings of its table entry, expected count, difference, square, denominator
and quotient. -/
theorem tie_terms_en_1 :
    (chi_term_binary64 1 (binary64 (binary64 (0.772 : ℚ) * (3602879701896397 / 9007199254740992))) = (6967685430932809 / 4503599627370496)) ∧
    (chi_term_binary64 3 (binary64 (binary64 (4.025 : ℚ) * (3602879701896397 / 9007199254740992))) = (1351148980659411 / 1125899906842624)) ∧
    (chi_term_binary64 0 (binary64 (binary64 (2.406 : ℚ) * (3602879701896397 / 9007199254740992))) = (8668519555572837 / 9007199254740992)) ∧
    (chi_term_binary64 4 (binary64 (binary64 (6.749 : ℚ) * (3602879701896397 / 9007199254740992))) = (2821071645196657 / 4503599627370496)) ∧
    (chi_term_binary64 1 (binary64 (binary64 (7.507 : ℚ) * (3602879701896397 / 9007199254740992))) = (6016007765259707 / 4503599627370496)) ∧
    (chi_term_binary64 1 (binary64 (binary64 (1.929 : ℚ) * (3602879701896397 / 9007199254740992))) = (152240147548539 / 2251799813685248)) ∧
    (chi_term_binary64 1 (binary64 (binary64 (0.095 : ℚ) * (3602879701896397 / 9007199254740992))) = (6854801935396865 / 281474976710656)) ∧
    (chi_term_binary64 2 (binary64 (binary64 (5.987 : ℚ) * (3602879701896397 / 9007199254740992))) = (4689911141766467 / 72057594037927936)) ∧
    (chi_term_binary64 2 (binary64 (binary64 (6.327 : ℚ) * (3602879701896397 / 9007199254740992))) = (501376074261131 / 4503599627370496)) ∧
    (chi_term_binary64 1 (binary64 (binary64 (9.056 : ℚ) * (3602879701896397 / 9007199254740992))) = (4274950853283457 / 2251799813685248)) := by
  refine ⟨?_, ?_, ?_, ?_, ?_, ?_, ?_, ?_, ?_, ?_⟩
  · have c1 : binary64 ((0.772 : ℚ)) = (3476778912330023 / 4503599627370496) :=
      binary64_cert _ _ (-1) 6953557824660046 (by norm_num) (by norm_num) (by norm_num [abs_lt]) (by norm_num)
    have c2 : binary64 ((3476778912330023 / 4503599627370496) * (3602879701896397 / 9007199254740992)) = (5562846259728037 / 18014398509481984) :=
      binary64_cert _ _ (-2) 5562846259728037 (by norm_num) (by norm_num) (by norm_num [abs_lt]) (by norm_num)
    have c3 : binary64 (1 - (5562846259728037 / 18014398509481984)) = (3112888062438487 / 4503599627370496) :=
      binary64_cert_tie _ _ (-1) 6225776124876974 (by norm_num) (by norm_num) (by decide) (Or.inr (by norm_num)) (by norm_num)
    have c4 : binary64 ((3112888062438487 / 4503599627370496) * (3112888062438487 / 4503599627370496)) = (8606512915029929 / 18014398509481984) :=
      binary64_cert _ _ (-2) 8606512915029929 (by norm_num) (by norm_num) (by norm_num [abs_lt]) (by norm_num)
    have c5 : binary64 (1 / 1000000) = (4722366482869645 / 4722366482869645213696) :=
      binary64_cert _ _ (-20) 4722366482869645 (by norm_num) (by norm_num) (by norm_num [abs_lt]) (by norm_num)
    have c6 : binary64 ((5562846259728037 / 18014398509481984) + (4722366482869645 / 4722366482869645213696)) = (2781432137063273 / 9007199254740992) :=
      binary64_cert _ _ (-2) 5562864274126546 (by norm_num) (by norm_num) (by norm_num [abs_lt]) (by norm_num)
    have c7 : binary64 ((8606512915029929 / 18014398509481984) / (2781432137063273 / 9007199254740992)) = (6967685430932809 / 4503599627370496) :=
      binary64_cert _ _ (0) 6967685430932809 (by norm_num) (by norm_num) (by norm_num [abs_lt]) (by norm_num)
    unfold chi_term_binary64
    rw [c1, c2, c3, c4, c5, c6, c7]
  · have c1 : binary64 ((4.025 : ℚ)) = (2265873562520781 / 562949953421312) :=
      binary64_cert _ _ (2) 4531747125041562 (by norm_num) (by norm_num) (by norm_num [abs_lt]) (by norm_num)
    have c2 : binary64 ((2265873562520781 / 562949953421312) * (3602879701896397 / 9007199254740992)) = (1812698850016625 / 1125899906842624) :=
      binary64_cert _ _ (0) 7250795400066500 (by norm_num) (by norm_num) (by norm_num [abs_lt]) (by norm_num)
    have c3 : binary64 (3 - (1812698850016625 / 1125899906842624)) = (1565000870511247 / 1125899906842624) :=
      binary64_cert _ _ (0) 6260003482044988 (by norm_num) (by norm_num) (by norm_num [abs_lt]) (by norm_num)
    have c4 : binary64 ((1565000870511247 / 1125899906842624) * (1565000870511247 / 1125899906842624)) = (8701404840042531 / 4503599627370496) :=
      binary64_cert _ _ (0) 8701404840042531 (by norm_num) (by norm_num) (by norm_num [abs_lt]) (by norm_num)
    have c5 : binary64 (1 / 1000000) = (4722366482869645 / 4722366482869645213696) :=
      binary64_cert _ _ (-20) 4722366482869645 (by norm_num) (by norm_num) (by norm_num [abs_lt]) (by norm_num)
    have c6 : binary64 ((1812698850016625 / 1125899906842624) + (4722366482869645 / 4722366482869645213696)) = (7250799903666127 / 4503599627370496) :=
      binary64_cert _ _ (0) 7250799903666127 (by norm_num) (by norm_num) (by norm_num [abs_lt]) (by norm_num)
    have c7 : binary64 ((8701404840042531 / 4503599627370496) / (7250799903666127 / 4503599627370496)) = (1351148980659411 / 1125899906842624) :=
      binary64_cert _ _ (0) 5404595922637644 (by norm_num) (by norm_num) (by norm_num [abs_lt]) (by norm_num)
    unfold chi_term_binary64
    rw [c1, c2, c3, c4, c5, c6, c7]
  · have c1 : binary64 ((2.406 : ℚ)) = (5417830351726707 / 2251799813685248) :=
      binary64_cert _ _ (1) 5417830351726707 (by norm_num) (by norm_num) (by norm_num [abs_lt]) (by norm_num)
    have c2 : binary64 ((5417830351726707 / 2251799813685248) * (3602879701896397 / 9007199254740992)) = (2167132140690683 / 2251799813685248) :=
      binary64_cert _ _ (-1) 8668528562762732 (by norm_num) (by norm_num) (by norm_num [abs_lt]) (by norm_num)
    have c3 : binary64 (0 - (2167132140690683 / 2251799813685248)) = (-(2167132140690683 / 2251799813685248)) :=
      binary64_cert_neg _ _ (-1) 8668528562762732 (by norm_num) (by norm_num) (by norm_num [abs_lt]) (by norm_num)
    have c4 : binary64 ((-(2167132140690683 / 2251799813685248)) * (-(2167132140690683 / 2251799813685248))) = (8342591888802855 / 9007199254740992) :=
      binary64_cert _ _ (-1) 8342591888802855 (by norm_num) (by norm_num) (by norm_num [abs_lt]) (by norm_num)
    have c5 : binary64 (1 / 1000000) = (4722366482869645 / 4722366482869645213696) :=
      binary64_cert _ _ (-20) 4722366482869645 (by norm_num) (by norm_num) (by norm_num [abs_lt]) (by norm_num)
    have c6 : binary64 ((2167132140690683 / 2251799813685248) + (4722366482869645 / 4722366482869645213696)) = (8668537569961987 / 9007199254740992) :=
      binary64_cert _ _ (-1) 8668537569961987 (by norm_num) (by norm_num) (by norm_num [abs_lt]) (by norm_num)
    have c7 : binary64 ((8342591888802855 / 9007199254740992) / (8668537569961987 / 9007199254740992)) = (8668519555572837 / 9007199254740992) :=
      binary64_cert _ _ (-1) 8668519555572837 (by norm_num) (by norm_num) (by norm_num [abs_lt]) (by norm_num)
    unfold chi_term_binary64
    rw [c1, c2, c3, c4, c5, c6, c7]
  · have c1 : binary64 ((6.749 : ℚ)) = (7598698471280869 / 1125899906842624) :=
      binary64_cert _ _ (2) 7598698471280869 (by norm_num) (by norm_num) (by norm_num [abs_lt]) (by norm_num)
    have c2 : binary64 ((7598698471280869 / 1125899906842624) * (3602879701896397 / 9007199254740992)) = (759869847128087 / 281474976710656) :=
      binary64_cert _ _ (1) 6078958777024696 (by norm_num) (by norm_num) (by norm_num [abs_lt]) (by norm_num)
    have c3 : binary64 (4 - (759869847128087 / 281474976710656)) = (366030059714537 / 281474976710656) :=
      binary64_cert _ _ (0) 5856480955432592 (by norm_num) (by norm_num) (by norm_num [abs_lt]) (by norm_num)
    have c4 : binary64 ((366030059714537 / 281474976710656) * (366030059714537 / 281474976710656)) = (7615767834444541 / 4503599627370496) :=
      binary64_cert _ _ (0) 7615767834444541 (by norm_num) (by norm_num) (by norm_num [abs_lt]) (by norm_num)
    have c5 : binary64 (1 / 1000000) = (4722366482869645 / 4722366482869645213696) :=
      binary64_cert _ _ (-20) 4722366482869645 (by norm_num) (by norm_num) (by norm_num [abs_lt]) (by norm_num)
    have c6 : binary64 ((759869847128087 / 281474976710656) + (4722366482869645 / 4722366482869645213696)) = (3039480514412255 / 1125899906842624) :=
      binary64_cert _ _ (1) 6078961028824510 (by norm_num) (by norm_num) (by norm_num [abs_lt]) (by norm_num)
    have c7 : binary64 ((7615767834444541 / 4503599627370496) / (3039480514412255 / 1125899906842624)) = (2821071645196657 / 4503599627370496) :=
      binary64_cert _ _ (-1) 5642143290393314 (by norm_num) (by norm_num) (by norm_num [abs_lt]) (by norm_num)
    unfold chi_term_binary64
    rw [c1, c2, c3, c4, c5, c6, c7]
  · have c1 : binary64 ((7.507 : ℚ)) = (4226065300333789 / 562949953421312) :=
      binary64_cert _ _ (2) 8452130600667578 (by norm_num) (by norm_num) (by norm_num [abs_lt]) (by norm_num)
    have c2 : binary64 ((4226065300333789 / 562949953421312) * (3602879701896397 / 9007199254740992)) = (6761704480534063 / 2251799813685248) :=
      binary64_cert _ _ (1) 6761704480534063 (by norm_num) (by norm_num) (by norm_num [abs_lt]) (by norm_num)
    have c3 : binary64 (1 - (6761704480534063 / 2251799813685248)) = (-(4509904666848815 / 2251799813685248)) :=
      binary64_cert_neg _ _ (1) 4509904666848815 (by norm_num) (by norm_num) (by norm_num [abs_lt]) (by norm_num)
    have c4 : binary64 ((-(4509904666848815 / 2251799813685248)) * (-(4509904666848815 / 2251799813685248))) = (1129054633345601 / 281474976710656) :=
      binary64_cert _ _ (2) 4516218533382404 (by norm_num) (by norm_num) (by norm_num [abs_lt]) (by norm_num)
    have c5 : binary64 (1 / 1000000) = (4722366482869645 / 4722366482869645213696) :=
      binary64_cert _ _ (-20) 4722366482869645 (by norm_num) (by norm_num) (by norm_num [abs_lt]) (by norm_num)
    have c6 : binary64 ((6761704480534063 / 2251799813685248) + (4722366482869645 / 4722366482869645213696)) = (6761706732333877 / 2251799813685248) :=
      binary64_cert _ _ (1) 6761706732333877 (by norm_num) (by norm_num) (by norm_num [abs_lt]) (by norm_num)
    have c7 : binary64 ((1129054633345601 / 281474976710656) / (6761706732333877 / 2251799813685248)) = (6016007765259707 / 4503599627370496) :=
      binary64_cert _ _ (0) 6016007765259707 (by norm_num) (by norm_num) (by norm_num [abs_lt]) (by norm_num)
    unfold chi_term_binary64
    rw [c1, c2, c3, c4, c5, c6, c7]
  · have c1 : binary64 ((1.929 : ℚ)) = (8687443681197687 / 4503599627370496) :=
      binary64_cert _ _ (0) 8687443681197687 (by norm_num) (by norm_num) (by norm_num [abs_lt]) (by norm_num)
    have c2 : binary64 ((8687443681197687 / 4503599627370496) * (3602879701896397 / 9007199254740992)) = (3474977472479075 / 4503599627370496) :=
      binary64_cert _ _ (-1) 6949954944958150 (by norm_num) (by norm_num) (by norm_num [abs_lt]) (by norm_num)
    have c3 : binary64 (1 - (3474977472479075 / 4503599627370496)) = (1028622154891421 / 4503599627370496) :=
      binary64_cert _ _ (-3) 8228977239131368 (by norm_num) (by norm_num) (by norm_num [abs_lt]) (by norm_num)
    have c4 : binary64 ((1028622154891421 / 4503599627370496) * (1028622154891421 / 4503599627370496)) = (469874600354401 / 9007199254740992) :=
      binary64_cert _ _ (-5) 7517993605670416 (by norm_num) (by norm_num) (by norm_num [abs_lt]) (by norm_num)
    have c5 : binary64 (1 / 1000000) = (4722366482869645 / 4722366482869645213696) :=
      binary64_cert _ _ (-20) 4722366482869645 (by norm_num) (by norm_num) (by norm_num [abs_lt]) (by norm_num)
    have c6 : binary64 ((3474977472479075 / 4503599627370496) + (4722366482869645 / 4722366482869645213696)) = (6949963952157405 / 9007199254740992) :=
      binary64_cert _ _ (-1) 6949963952157405 (by norm_num) (by norm_num) (by norm_num [abs_lt]) (by norm_num)
    have c7 : binary64 ((469874600354401 / 9007199254740992) / (6949963952157405 / 9007199254740992)) = (152240147548539 / 2251799813685248) :=
      binary64_cert _ _ (-4) 4871684721553248 (by norm_num) (by norm_num) (by norm_num [abs_lt]) (by norm_num)
    unfold chi_term_binary64
    rw [c1, c2, c3, c4, c5, c6, c7]
  · have c1 : binary64 ((0.095 : ℚ)) = (3422735716801577 / 36028797018963968) :=
      binary64_cert _ _ (-4) 6845471433603154 (by norm_num) (by norm_num) (by norm_num [abs_lt]) (by norm_num)
    have c2 : binary64 ((3422735716801577 / 36028797018963968) * (3602879701896397 / 9007199254740992)) = (1369094286720631 / 36028797018963968) :=
      binary64_cert _ _ (-5) 5476377146882524 (by norm_num) (by norm_num) (by norm_num [abs_lt]) (by norm_num)
    have c3 : binary64 (1 - (1369094286720631 / 36028797018963968)) = (4332462841530417 / 4503599627370496) :=
      binary64_cert _ _ (-1) 8664925683060834 (by norm_num) (by norm_num) (by norm_num [abs_lt]) (by norm_num)
    have c4 : binary64 ((4332462841530417 / 4503599627370496) * (4332462841530417 / 4503599627370496)) = (4167829253552261 / 4503599627370496) :=
      binary64_cert _ _ (-1) 8335658507104522 (by norm_num) (by norm_num) (by norm_num [abs_lt]) (by norm_num)
    have c5 : binary64 (1 / 1000000) = (4722366482869645 / 4722366482869645213696) :=
      binary64_cert _ _ (-20) 4722366482869645 (by norm_num) (by norm_num) (by norm_num [abs_lt]) (by norm_num)
    have c6 : binary64 ((1369094286720631 / 36028797018963968) + (4722366482869645 / 4722366482869645213696)) = (684565157758825 / 18014398509481984) :=
      binary64_cert _ _ (-5) 5476521262070600 (by norm_num) (by norm_num) (by norm_num [abs_lt]) (by norm_num)
    have c7 : binary64 ((4167829253552261 / 4503599627370496) / (684565157758825 / 18014398509481984)) = (6854801935396865 / 281474976710656) :=
      binary64_cert _ _ (4) 6854801935396865 (by norm_num) (by norm_num) (by norm_num [abs_lt]) (by norm_num)
    unfold chi_term_binary64
    rw [c1, c2, c3, c4, c5, c6, c7]
  · have c1 : binary64 ((5.987 : ℚ)) = (3370381371133395 / 562949953421312) :=
      binary64_cert _ _ (2) 6740762742266790 (by norm_num) (by norm_num) (by norm_num [abs_lt]) (by norm_num)
    have c2 : binary64 ((3370381371133395 / 562949953421312) * (3602879701896397 / 9007199254740992)) = (674076274226679 / 281474976710656) :=
      binary64_cert _ _ (1) 5392610193813432 (by norm_num) (by norm_num) (by norm_num [abs_lt]) (by norm_num)
    have c3 : binary64 (2 - (674076274226679 / 281474976710656)) = (-(111126320805367 / 281474976710656)) :=
      binary64_cert_neg _ _ (-2) 7112084531543488 (by norm_num) (by norm_num) (by norm_num [abs_lt]) (by norm_num)
    have c4 : binary64 ((-(111126320805367 / 281474976710656)) * (-(111126320805367 / 281474976710656))) = (5615701946106739 / 36028797018963968) :=
      binary64_cert _ _ (-3) 5615701946106739 (by norm_num) (by norm_num) (by norm_num [abs_lt]) (by norm_num)
    have c5 : binary64 (1 / 1000000) = (4722366482869645 / 4722366482869645213696) :=
      binary64_cert _ _ (-20) 4722366482869645 (by norm_num) (by norm_num) (by norm_num [abs_lt]) (by norm_num)
    have c6 : binary64 ((674076274226679 / 281474976710656) + (4722366482869645 / 4722366482869645213696)) = (2696306222806623 / 1125899906842624) :=
      binary64_cert _ _ (1) 5392612445613246 (by norm_num) (by norm_num) (by norm_num [abs_lt]) (by norm_num)
    have c7 : binary64 ((5615701946106739 / 36028797018963968) / (2696306222806623 / 1125899906842624)) = (4689911141766467 / 72057594037927936) :=
      binary64_cert _ _ (-4) 4689911141766467 (by norm_num) (by norm_num) (by norm_num [abs_lt]) (by norm_num)
    unfold chi_term_binary64
    rw [c1, c2, c3, c4, c5, c6, c7]
  · have c1 : binary64 ((6.327 : ℚ)) = (3561784355296641 / 562949953421312) :=
      binary64_cert _ _ (2) 7123568710593282 (by norm_num) (by norm_num) (by norm_num [abs_lt]) (by norm_num)
    have c2 : binary64 ((3561784355296641 / 562949953421312) * (3602879701896397 / 9007199254740992)) = (2849427484237313 / 1125899906842624) :=
      binary64_cert _ _ (1) 5698854968474626 (by norm_num) (by norm_num) (by norm_num [abs_lt]) (by norm_num)
    have c3 : binary64 (2 - (2849427484237313 / 1125899906842624)) = (-(597627670552065 / 1125899906842624)) :=
      binary64_cert_neg _ _ (-1) 4781021364416520 (by norm_num) (by norm_num) (by norm_num [abs_lt]) (by norm_num)
    have c4 : binary64 ((-(597627670552065 / 1125899906842624)) * (-(597627670552065 / 1125899906842624))) = (5075532280464579 / 18014398509481984) :=
      binary64_cert _ _ (-2) 5075532280464579 (by norm_num) (by norm_num) (by norm_num [abs_lt]) (by norm_num)
    have c5 : binary64 (1 / 1000000) = (4722366482869645 / 4722366482869645213696) :=
      binary64_cert _ _ (-20) 4722366482869645 (by norm_num) (by norm_num) (by norm_num [abs_lt]) (by norm_num)
    have c6 : binary64 ((2849427484237313 / 1125899906842624) + (4722366482869645 / 4722366482869645213696)) = (712357152534305 / 281474976710656) :=
      binary64_cert _ _ (1) 5698857220274440 (by norm_num) (by norm_num) (by norm_num [abs_lt]) (by norm_num)
    have c7 : binary64 ((5075532280464579 / 18014398509481984) / (712357152534305 / 281474976710656)) = (501376074261131 / 4503599627370496) :=
      binary64_cert _ _ (-4) 8022017188178096 (by norm_num) (by norm_num) (by norm_num [abs_lt]) (by norm_num)
    unfold chi_term_binary64
    rw [c1, c2, c3, c4, c5, c6, c7]
  · have c1 : binary64 ((9.056 : ℚ)) = (5098074778183401 / 562949953421312) :=
      binary64_cert _ _ (3) 5098074778183401 (by norm_num) (by norm_num) (by norm_num [abs_lt]) (by norm_num)
    have c2 : binary64 ((5098074778183401 / 562949953421312) * (3602879701896397 / 9007199254740992)) = (4078459822546721 / 1125899906842624) :=
      binary64_cert _ _ (1) 8156919645093442 (by norm_num) (by norm_num) (by norm_num [abs_lt]) (by norm_num)
    have c3 : binary64 (1 - (4078459822546721 / 1125899906842624)) = (-(2952559915704097 / 1125899906842624)) :=
      binary64_cert_neg _ _ (1) 5905119831408194 (by norm_num) (by norm_num) (by norm_num [abs_lt]) (by norm_num)
    have c4 : binary64 ((-(2952559915704097 / 1125899906842624)) * (-(2952559915704097 / 1125899906842624))) = (967849140367803 / 140737488355328) :=
      binary64_cert _ _ (2) 7742793122942424 (by norm_num) (by norm_num) (by norm_num [abs_lt]) (by norm_num)
    have c5 : binary64 (1 / 1000000) = (4722366482869645 / 4722366482869645213696) :=
      binary64_cert _ _ (-20) 4722366482869645 (by norm_num) (by norm_num) (by norm_num [abs_lt]) (by norm_num)
    have c6 : binary64 ((4078459822546721 / 1125899906842624) + (4722366482869645 / 4722366482869645213696)) = (1019615237111657 / 281474976710656) :=
      binary64_cert _ _ (1) 8156921896893256 (by norm_num) (by norm_num) (by norm_num [abs_lt]) (by norm_num)
    have c7 : binary64 ((967849140367803 / 140737488355328) / (1019615237111657 / 281474976710656)) = (4274950853283457 / 2251799813685248) :=
      binary64_cert _ _ (0) 8549901706566914 (by norm_num) (by norm_num) (by norm_num [abs_lt]) (by norm_num)
    unfold chi_term_binary64
    rw [c1, c2, c3, c4, c5, c6, c7]

/-- The English chi-squared terms of the bins 20, 21, 22, 23, 24, 25, 26 of `tie_hist` in binary64 arithmetic, each
with the roundings of its table entry, expected count, difference, square, denominator
and quotient. -/
theorem tie_terms_en_2 :
    (chi_term_binary64 0 (binary64 (binary64 (2.758 : ℚ) * (3602879701896397 / 9007199254740992))) = (2484183302659793 / 2251799813685248)) ∧
    (chi_term_binary64 1 (binary64 (binary64 (0.978 : ℚ) * (3602879701896397 / 9007199254740992))) = (4266866998483017 / 4503599627370496)) ∧
    (chi_term_binary64 2 (binary64 (binary64 (2.360 : ℚ) * (3602879701896397 / 9007199254740992))) = (5320043171635863 / 4503599627370496)) ∧
    (chi_term_binary64 2 (binary64 (binary64 (0.150 : ℚ) * (3602879701896397 / 9007199254740992))) = (4413923194397697 / 70368744177664)) ∧
    (chi_term_binary64 1 (binary64 (binary64 (1.974 : ℚ) * (3602879701896397 / 9007199254740992))) = (4039834172051501 / 72057594037927936)) ∧
    (chi_term_binary64 2 (binary64 (binary64 (0.074 : ℚ) * (3602879701896397 / 9007199254740992))) = (1153698235190193 / 8796093022208)) ∧
    (chi_term_binary64 0 (binary64 (binary64 EPS * (3602879701896397 / 9007199254740992))) = (8635184425818779 / 75557863725914323419136)) := by
  refine ⟨?_, ?_, ?_, ?_, ?_, ?_, ?_⟩
  · have c1 : binary64 ((2.758 : ℚ)) = (3105231943071957 / 1125899906842624) :=
      binary64_cert _ _ (1) 6210463886143914 (by norm_num) (by norm_num) (by norm_num [abs_lt]) (by norm_num)
    have c2 : binary64 ((3105231943071957 / 1125899906842624) * (3602879701896397 / 9007199254740992)) = (4968371108915131 / 4503599627370496) :=
      binary64_cert _ _ (0) 4968371108915131 (by norm_num) (by norm_num) (by norm_num [abs_lt]) (by norm_num)
    have c3 : binary64 (0 - (4968371108915131 / 4503599627370496)) = (-(4968371108915131 / 4503599627370496)) :=
      binary64_cert_neg _ _ (0) 4968371108915131 (by norm_num) (by norm_num) (by norm_num [abs_lt]) (by norm_num)
    have c4 : binary64 ((-(4968371108915131 / 4503599627370496)) * (-(4968371108915131 / 4503599627370496))) = (1370276751838793 / 1125899906842624) :=
      binary64_cert _ _ (0) 5481107007355172 (by norm_num) (by norm_num) (by norm_num [abs_lt]) (by norm_num)
    have c5 : binary64 (1 / 1000000) = (4722366482869645 / 4722366482869645213696) :=
      binary64_cert _ _ (-20) 4722366482869645 (by norm_num) (by norm_num) (by norm_num [abs_lt]) (by norm_num)
    have c6 : binary64 ((4968371108915131 / 4503599627370496) + (4722366482869645 / 4722366482869645213696)) = (2484187806257379 / 2251799813685248) :=
      binary64_cert _ _ (0) 4968375612514758 (by norm_num) (by norm_num) (by norm_num [abs_lt]) (by norm_num)
    have c7 : binary64 ((1370276751838793 / 1125899906842624) / (2484187806257379 / 2251799813685248)) = (2484183302659793 / 2251799813685248) :=
      binary64_cert _ _ (0) 4968366605319586 (by norm_num) (by norm_num) (by norm_num [abs_lt]) (by norm_num)
    unfold chi_term_binary64
    rw [c1, c2, c3, c4, c5, c6, c7]
  · have c1 : binary64 ((0.978 : ℚ)) = (4404520435568345 / 4503599627370496) :=
      binary64_cert _ _ (-1) 8809040871136690 (by norm_num) (by norm_num) (by norm_num [abs_lt]) (by norm_num)
    have c2 : binary64 ((4404520435568345 / 4503599627370496) * (3602879701896397 / 9007199254740992)) = (880904087113669 / 2251799813685248) :=
      binary64_cert _ _ (-2) 7047232696909352 (by norm_num) (by norm_num) (by norm_num [abs_lt]) (by norm_num)
    have c3 : binary64 (1 - (880904087113669 / 2251799813685248)) = (1370895726571579 / 2251799813685248) :=
      binary64_cert _ _ (-1) 5483582906286316 (by norm_num) (by norm_num) (by norm_num [abs_lt]) (by norm_num)
    have c4 : binary64 ((1370895726571579 / 2251799813685248) * (1370895726571579 / 2251799813685248)) = (3338405273347109 / 9007199254740992) :=
      binary64_cert _ _ (-2) 6676810546694218 (by norm_num) (by norm_num) (by norm_num [abs_lt]) (by norm_num)
    have c5 : binary64 (1 / 1000000) = (4722366482869645 / 4722366482869645213696) :=
      binary64_cert _ _ (-20) 4722366482869645 (by norm_num) (by norm_num) (by norm_num [abs_lt]) (by norm_num)
    have c6 : binary64 ((880904087113669 / 2251799813685248) + (4722366482869645 / 4722366482869645213696)) = (7047250711307861 / 18014398509481984) :=
      binary64_cert _ _ (-2) 7047250711307861 (by norm_num) (by norm_num) (by norm_num [abs_lt]) (by norm_num)
    have c7 : binary64 ((3338405273347109 / 9007199254740992) / (7047250711307861 / 18014398509481984)) = (4266866998483017 / 4503599627370496) :=
      binary64_cert _ _ (-1) 8533733996966034 (by norm_num) (by norm_num) (by norm_num [abs_lt]) (by norm_num)
    unfold chi_term_binary64
    rw [c1, c2, c3, c4, c5, c6, c7]
  · have c1 : binary64 ((2.360 : ℚ)) = (5314247560297185 / 2251799813685248) :=
      binary64_cert _ _ (1) 5314247560297185 (by norm_num) (by norm_num) (by norm_num [abs_lt]) (by norm_num)
    have c2 : binary64 ((5314247560297185 / 2251799813685248) * (3602879701896397 / 9007199254740992)) = (1062849512059437 / 1125899906842624) :=
      binary64_cert _ _ (-1) 8502796096475496 (by norm_num) (by norm_num) (by norm_num [abs_lt]) (by norm_num)
    have c3 : binary64 (2 - (1062849512059437 / 1125899906842624)) = (1188950301625811 / 1125899906842624) :=
      binary64_cert _ _ (0) 4755801206503244 (by norm_num) (by norm_num) (by norm_num [abs_lt]) (by norm_num)
    have c4 : binary64 ((1188950301625811 / 1125899906842624) * (1188950301625811 / 1125899906842624)) = (2511063037033713 / 2251799813685248) :=
      binary64_cert _ _ (0) 5022126074067426 (by norm_num) (by norm_num) (by norm_num [abs_lt]) (by norm_num)
    have c5 : binary64 (1 / 1000000) = (4722366482869645 / 4722366482869645213696) :=
      binary64_cert _ _ (-20) 4722366482869645 (by norm_num) (by norm_num) (by norm_num [abs_lt]) (by norm_num)
    have c6 : binary64 ((1062849512059437 / 1125899906842624) + (4722366482869645 / 4722366482869645213696)) = (8502805103674751 / 9007199254740992) :=
      binary64_cert _ _ (-1) 8502805103674751 (by norm_num) (by norm_num) (by norm_num [abs_lt]) (by norm_num)
    have c7 : binary64 ((2511063037033713 / 2251799813685248) / (8502805103674751 / 9007199254740992)) = (5320043171635863 / 4503599627370496) :=
      binary64_cert _ _ (0) 5320043171635863 (by norm_num) (by norm_num) (by norm_num [abs_lt]) (by norm_num)
    unfold chi_term_binary64
    rw [c1, c2, c3, c4, c5, c6, c7]
  · have c1 : binary64 ((0.150 : ℚ)) = (5404319552844595 / 36028797018963968) :=
      binary64_cert _ _ (-3) 5404319552844595 (by norm_num) (by norm_num) (by norm_num [abs_lt]) (by norm_num)
    have c2 : binary64 ((5404319552844595 / 36028797018963968) * (3602879701896397 / 9007199254740992)) = (1080863910568919 / 18014398509481984) :=
      binary64_cert _ _ (-5) 8646911284551352 (by norm_num) (by norm_num) (by norm_num [abs_lt]) (by norm_num)
    have c3 : binary64 (2 - (1080863910568919 / 18014398509481984)) = (4368491638549381 / 2251799813685248) :=
      binary64_cert _ _ (0) 8736983277098762 (by norm_num) (by norm_num) (by norm_num [abs_lt]) (by norm_num)
    have c4 : binary64 ((4368491638549381 / 2251799813685248) * (4368491638549381 / 2251799813685248)) = (8474873778785799 / 2251799813685248) :=
      binary64_cert _ _ (1) 8474873778785799 (by norm_num) (by norm_num) (by norm_num [abs_lt]) (by norm_num)
    have c5 : binary64 (1 / 1000000) = (4722366482869645 / 4722366482869645213696) :=
      binary64_cert _ _ (-20) 4722366482869645 (by norm_num) (by norm_num) (by norm_num [abs_lt]) (by norm_num)
    have c6 : binary64 ((1080863910568919 / 18014398509481984) + (4722366482869645 / 4722366482869645213696)) = (2161763849934857 / 36028797018963968) :=
      binary64_cert _ _ (-5) 8647055399739428 (by norm_num) (by norm_num) (by norm_num [abs_lt]) (by norm_num)
    have c7 : binary64 ((8474873778785799 / 2251799813685248) / (2161763849934857 / 36028797018963968)) = (4413923194397697 / 70368744177664) :=
      binary64_cert _ _ (5) 8827846388795394 (by norm_num) (by norm_num) (by norm_num [abs_lt]) (by norm_num)
    unfold chi_term_binary64
    rw [c1, c2, c3, c4, c5, c6, c7]
  · have c1 : binary64 ((1.974 : ℚ)) = (8890105664429359 / 4503599627370496) :=
      binary64_cert _ _ (0) 8890105664429359 (by norm_num) (by norm_num) (by norm_num [abs_lt]) (by norm_num)
    have c2 : binary64 ((8890105664429359 / 4503599627370496) * (3602879701896397 / 9007199254740992)) = (111126320805367 / 140737488355328) :=
      binary64_cert _ _ (-1) 7112084531543488 (by norm_num) (by norm_num) (by norm_num [abs_lt]) (by norm_num)
    have c3 : binary64 (1 - (111126320805367 / 140737488355328)) = (29611167549961 / 140737488355328) :=
      binary64_cert _ _ (-3) 7580458892790016 (by norm_num) (by norm_num) (by norm_num [abs_lt]) (by norm_num)
    have c4 : binary64 ((29611167549961 / 140737488355328) * (29611167549961 / 140737488355328)) = (6379714204172075 / 144115188075855872) :=
      binary64_cert _ _ (-5) 6379714204172075 (by norm_num) (by norm_num) (by norm_num [abs_lt]) (by norm_num)
    have c5 : binary64 (1 / 1000000) = (4722366482869645 / 4722366482869645213696) :=
      binary64_cert _ _ (-20) 4722366482869645 (by norm_num) (by norm_num) (by norm_num [abs_lt]) (by norm_num)
    have c6 : binary64 ((111126320805367 / 140737488355328) + (4722366482869645 / 4722366482869645213696)) = (7112093538742743 / 9007199254740992) :=
      binary64_cert _ _ (-1) 7112093538742743 (by norm_num) (by norm_num) (by norm_num [abs_lt]) (by norm_num)
    have c7 : binary64 ((6379714204172075 / 144115188075855872) / (7112093538742743 / 9007199254740992)) = (4039834172051501 / 72057594037927936) :=
      binary64_cert _ _ (-5) 8079668344103002 (by norm_num) (by norm_num) (by norm_num [abs_lt]) (by norm_num)
    unfold chi_term_binary64
    rw [c1, c2, c3, c4, c5, c6, c7]
  · have c1 : binary64 ((0.074 : ℚ)) = (5332261958806667 / 72057594037927936) :=
      binary64_cert _ _ (-4) 5332261958806667 (by norm_num) (by norm_num) (by norm_num [abs_lt]) (by norm_num)
    have c2 : binary64 ((5332261958806667 / 72057594037927936) * (3602879701896397 / 9007199254740992)) = (2132904783522667 / 72057594037927936) :=
      binary64_cert _ _ (-6) 8531619134090668 (by norm_num) (by norm_num) (by norm_num [abs_lt]) (by norm_num)
    have c3 : binary64 (2 - (2132904783522667 / 72057594037927936)) = (8873892705770825 / 4503599627370496) :=
      binary64_cert _ _ (0) 8873892705770825 (by norm_num) (by norm_num) (by norm_num [abs_lt]) (by norm_num)
    have c4 : binary64 ((8873892705770825 / 4503599627370496) * (8873892705770825 / 4503599627370496)) = (1092819886715677 / 281474976710656) :=
      binary64_cert _ _ (1) 8742559093725416 (by norm_num) (by norm_num) (by norm_num [abs_lt]) (by norm_num)
    have c5 : binary64 (1 / 1000000) = (4722366482869645 / 4722366482869645213696) :=
      binary64_cert _ _ (-20) 4722366482869645 (by norm_num) (by norm_num) (by norm_num [abs_lt]) (by norm_num)
    have c6 : binary64 ((2132904783522667 / 72057594037927936) + (4722366482869645 / 4722366482869645213696)) = (2132976841116705 / 72057594037927936) :=
      binary64_cert _ _ (-6) 8531907364466820 (by norm_num) (by norm_num) (by norm_num [abs_lt]) (by norm_num)
    have c7 : binary64 ((1092819886715677 / 281474976710656) / (2132976841116705 / 72057594037927936)) = (1153698235190193 / 8796093022208) :=
      binary64_cert _ _ (7) 4614792940760772 (by norm_num) (by norm_num) (by norm_num [abs_lt]) (by norm_num)
    unfold chi_term_binary64
    rw [c1, c2, c3, c4, c5, c6, c7]
  · have c1 : binary64 (EPS) = (4722366482869645 / 4722366482869645213696) :=
      binary64_cert _ _ (-20) 4722366482869645 (by norm_num [EPS]) (by norm_num [EPS]) (by norm_num [abs_lt, EPS]) (by norm_num [EPS])
    have c2 : binary64 ((4722366482869645 / 4722366482869645213696) * (3602879701896397 / 9007199254740992)) = (944473296573929 / 2361183241434822606848) :=
      binary64_cert _ _ (-22) 7555786372591432 (by norm_num) (by norm_num) (by norm_num [abs_lt]) (by norm_num)
    have c3 : binary64 (0 - (944473296573929 / 2361183241434822606848)) = (-(944473296573929 / 2361183241434822606848)) :=
      binary64_cert_neg _ _ (-22) 7555786372591432 (by norm_num) (by norm_num) (by norm_num [abs_lt]) (by norm_num)
    have c4 : binary64 ((-(944473296573929 / 2361183241434822606848)) * (-(944473296573929 / 2361183241434822606848))) = (3169126500570573 / 19807040628566084398385987584) :=
      binary64_cert _ _ (-43) 6338253001141146 (by norm_num) (by norm_num) (by norm_num [abs_lt]) (by norm_num)
    have c5 : binary64 (1 / 1000000) = (4722366482869645 / 4722366482869645213696) :=
      binary64_cert _ _ (-20) 4722366482869645 (by norm_num) (by norm_num) (by norm_num [abs_lt]) (by norm_num)
    have c6 : binary64 ((944473296573929 / 2361183241434822606848) + (4722366482869645 / 4722366482869645213696)) = (6611313076017503 / 4722366482869645213696) :=
      binary64_cert _ _ (-20) 6611313076017503 (by norm_num) (by norm_num) (by norm_num [abs_lt]) (by norm_num)
    have c7 : binary64 ((3169126500570573 / 19807040628566084398385987584) / (6611313076017503 / 4722366482869645213696)) = (8635184425818779 / 75557863725914323419136) :=
      binary64_cert _ _ (-24) 8635184425818779 (by norm_num) (by norm_num) (by norm_num [abs_lt]) (by norm_num)
    unfold chi_term_binary64
    rw [c1, c2, c3, c4, c5, c6, c7]

/-- The running English monograph sum over the bins 0 to 19 of `tie_hist`, each addition
rounded to binary64. -/
theorem tie_sums_en_0 :
    (binary64 (0 + (1106173393799437 / 2251799813685248)) = (1106173393799437 / 2251799813685248)) ∧
    (binary64 ((1106173393799437 / 2251799813685248) + (5447786460811613 / 562949953421312)) = (178885306539421 / 17592186044416)) ∧
    (binary64 ((178885306539421 / 17592186044416) + (6591290247392295 / 576460752303423488)) = (5730766616143691 / 562949953421312)) ∧
    (binary64 ((5730766616143691 / 562949953421312) + (5206524919674957 / 18014398509481984)) = (5893470519883533 / 562949953421312)) ∧
    (binary64 ((5893470519883533 / 562949953421312) + (7380541298284607 / 2251799813685248)) = (7738605844454685 / 562949953421312)) ∧
    (binary64 ((7738605844454685 / 562949953421312) + (3106422679428847 / 2251799813685248)) = (8515211514311897 / 562949953421312)) ∧
    (binary64 ((8515211514311897 / 562949953421312) + (3364709980771059 / 72057594037927936)) = (8541498311036671 / 562949953421312)) ∧
    (binary64 ((8541498311036671 / 562949953421312) + (5488984974040271 / 2251799813685248)) = (4956872277273369 / 281474976710656)) ∧
    (binary64 ((4956872277273369 / 281474976710656) + (7996375021147685 / 36028797018963968)) = (5019343957126085 / 281474976710656)) ∧
    (binary64 ((5019343957126085 / 281474976710656) + (4965138287332973 / 35184372088832)) = (2796278140986867 / 17592186044416)) ∧
    (binary64 ((2796278140986867 / 17592186044416) + (6967685430932809 / 4503599627370496)) = (5646991324402897 / 35184372088832)) ∧
    (binary64 ((5646991324402897 / 35184372088832) + (1351148980659411 / 1125899906842624)) = (711151841256063 / 4398046511104)) ∧
    (binary64 ((711151841256063 / 4398046511104) + (8668519555572837 / 9007199254740992)) = (1430769033640615 / 8796093022208)) ∧
    (binary64 ((1430769033640615 / 8796093022208) + (2821071645196657 / 4503599627370496)) = (5745115756790559 / 35184372088832)) ∧
    (binary64 ((5745115756790559 / 35184372088832) + (6016007765259707 / 4503599627370496)) = (2896057908728325 / 17592186044416)) ∧
    (binary64 ((2896057908728325 / 17592186044416) + (152240147548539 / 2251799813685248)) = (362155910610131 / 2199023255552)) ∧
    (binary64 ((362155910610131 / 2199023255552) + (6854801935396865 / 281474976710656)) = (415709050730419 / 2199023255552)) ∧
    (binary64 ((415709050730419 / 2199023255552) + (4689911141766467 / 72057594037927936)) = (6653634807361395 / 35184372088832)) ∧
    (binary64 ((6653634807361395 / 35184372088832) + (501376074261131 / 4503599627370496)) = (832193975992695 / 4398046511104)) ∧
    (binary64 ((832193975992695 / 4398046511104) + (4274950853283457 / 2251799813685248)) = (3362173957512057 / 17592186044416)) := by
  refine ⟨?_, ?_, ?_, ?_, ?_, ?_, ?_, ?_, ?_, ?_, ?_, ?_, ?_, ?_, ?_, ?_, ?_, ?_, ?_, ?_⟩
  · exact binary64_cert _ _ (-2) 8849387150395496 (by norm_num) (by norm_num) (by norm_num [abs_lt]) (by norm_num)
  · exact binary64_cert _ _ (3) 5724329809261472 (by norm_num) (by norm_num) (by norm_num [abs_lt]) (by norm_num)
  · exact binary64_cert _ _ (3) 5730766616143691 (by norm_num) (by norm_num) (by norm_num [abs_lt]) (by norm_num)
  · exact binary64_cert _ _ (3) 5893470519883533 (by norm_num) (by norm_num) (by norm_num [abs_lt]) (by norm_num)
  · exact binary64_cert _ _ (3) 7738605844454685 (by norm_num) (by norm_num) (by norm_num [abs_lt]) (by norm_num)
  · exact binary64_cert _ _ (3) 8515211514311897 (by norm_num) (by norm_num) (by norm_num [abs_lt]) (by norm_num)
  · exact binary64_cert _ _ (3) 8541498311036671 (by norm_num) (by norm_num) (by norm_num [abs_lt]) (by norm_num)
  · exact binary64_cert _ _ (4) 4956872277273369 (by norm_num) (by norm_num) (by norm_num [abs_lt]) (by norm_num)
  · exact binary64_cert _ _ (4) 5019343957126085 (by norm_num) (by norm_num) (by norm_num [abs_lt]) (by norm_num)
  · exact binary64_cert _ _ (7) 5592556281973734 (by norm_num) (by norm_num) (by norm_num [abs_lt]) (by norm_num)
  · exact binary64_cert _ _ (7) 5646991324402897 (by norm_num) (by norm_num) (by norm_num [abs_lt]) (by norm_num)
  · exact binary64_cert _ _ (7) 5689214730048504 (by norm_num) (by norm_num) (by norm_num [abs_lt]) (by norm_num)
  · exact binary64_cert _ _ (7) 5723076134562460 (by norm_num) (by norm_num) (by norm_num [abs_lt]) (by norm_num)
  · exact binary64_cert _ _ (7) 5745115756790559 (by norm_num) (by norm_num) (by norm_num [abs_lt]) (by norm_num)
  · exact binary64_cert _ _ (7) 5792115817456650 (by norm_num) (by norm_num) (by norm_num [abs_lt]) (by norm_num)
  · exact binary64_cert _ _ (7) 5794494569762096 (by norm_num) (by norm_num) (by norm_num [abs_lt]) (by norm_num)
  · exact binary64_cert _ _ (7) 6651344811686704 (by norm_num) (by norm_num) (by norm_num [abs_lt]) (by norm_num)
  · exact binary64_cert _ _ (7) 6653634807361395 (by norm_num) (by norm_num) (by norm_num [abs_lt]) (by norm_num)
  · exact binary64_cert _ _ (7) 6657551807941560 (by norm_num) (by norm_num) (by norm_num [abs_lt]) (by norm_num)
  · exact binary64_cert _ _ (7) 6724347915024114 (by norm_num) (by norm_num) (by norm_num [abs_lt]) (by norm_num)

/-- The running English monograph sum over the bins 20 to 39 of `tie_hist`, each addition
rounded to binary64. -/
theorem tie_sums_en_1 :
    (binary64 ((3362173957512057 / 17592186044416) + (2484183302659793 / 2251799813685248)) = (6763163279128173 / 35184372088832)) ∧
    (binary64 ((6763163279128173 / 35184372088832) + (4266866998483017 / 4503599627370496)) = (3398249088776911 / 17592186044416)) ∧
    (binary64 ((3398249088776911 / 17592186044416) + (5320043171635863 / 4503599627370496)) = (6838061014832227 / 35184372088832)) ∧
    (binary64 ((6838061014832227 / 35184372088832) + (4413923194397697 / 70368744177664)) = (2261255653007769 / 8796093022208)) ∧
    (binary64 ((2261255653007769 / 8796093022208) + (4039834172051501 / 72057594037927936)) = (4523497593655199 / 17592186044416)) ∧
    (binary64 ((4523497593655199 / 17592186044416) + (1153698235190193 / 8796093022208)) = (6830894064035585 / 17592186044416)) ∧
    (binary64 ((6830894064035585 / 17592186044416) + (8635184425818779 / 75557863725914323419136)) = (6830894066046121 / 17592186044416)) ∧
    (binary64 ((6830894066046121 / 17592186044416) + (8635184425818779 / 75557863725914323419136)) = (6830894068056657 / 17592186044416)) ∧
    (binary64 ((6830894068056657 / 17592186044416) + (8635184425818779 / 75557863725914323419136)) = (6830894070067193 / 17592186044416)) ∧
    (binary64 ((6830894070067193 / 17592186044416) + (8635184425818779 / 75557863725914323419136)) = (6830894072077729 / 17592186044416)) ∧
    (binary64 ((6830894072077729 / 17592186044416) + (8635184425818779 / 75557863725914323419136)) = (6830894074088265 / 17592186044416)) ∧
    (binary64 ((6830894074088265 / 17592186044416) + (8635184425818779 / 75557863725914323419136)) = (6830894076098801 / 17592186044416)) ∧
    (binary64 ((6830894076098801 / 17592186044416) + (8635184425818779 / 75557863725914323419136)) = (6830894078109337 / 17592186044416)) ∧
    (binary64 ((6830894078109337 / 17592186044416) + (8635184425818779 / 75557863725914323419136)) = (6830894080119873 / 17592186044416)) ∧
    (binary64 ((6830894080119873 / 17592186044416) + (8635184425818779 / 75557863725914323419136)) = (6830894082130409 / 17592186044416)) ∧
    (binary64 ((6830894082130409 / 17592186044416) + (8635184425818779 / 75557863725914323419136)) = (6830894084140945 / 17592186044416)) ∧
    (binary64 ((6830894084140945 / 17592186044416) + (8635184425818779 / 75557863725914323419136)) = (6830894086151481 / 17592186044416)) ∧
    (binary64 ((6830894086151481 / 17592186044416) + (8635184425818779 / 75557863725914323419136)) = (6830894088162017 / 17592186044416)) ∧
    (binary64 ((6830894088162017 / 17592186044416) + (8635184425818779 / 75557863725914323419136)) = (6830894090172553 / 17592186044416)) ∧
    (binary64 ((6830894090172553 / 17592186044416) + (8635184425818779 / 75557863725914323419136)) = (6830894092183089 / 17592186044416)) := by
  refine ⟨?_, ?_, ?_, ?_, ?_, ?_, ?_, ?_, ?_, ?_, ?_, ?_, ?_, ?_, ?_, ?_, ?_, ?_, ?_, ?_⟩
  · exact binary64_cert _ _ (7) 6763163279128173 (by norm_num) (by norm_num) (by norm_num [abs_lt]) (by norm_num)
  · exact binary64_cert _ _ (7) 6796498177553822 (by norm_num) (by norm_num) (by norm_num [abs_lt]) (by norm_num)
  · exact binary64_cert _ _ (7) 6838061014832227 (by norm_num) (by norm_num) (by norm_num [abs_lt]) (by norm_num)
  · exact binary64_cert _ _ (8) 4522511306015538 (by norm_num) (by norm_num) (by norm_num [abs_lt]) (by norm_num)
  · exact binary64_cert _ _ (8) 4523497593655199 (by norm_num) (by norm_num) (by norm_num [abs_lt]) (by norm_num)
  · exact binary64_cert _ _ (8) 6830894064035585 (by norm_num) (by norm_num) (by norm_num [abs_lt]) (by norm_num)
  · exact binary64_cert _ _ (8) 6830894066046121 (by norm_num) (by norm_num) (by norm_num [abs_lt]) (by norm_num)
  · exact binary64_cert _ _ (8) 6830894068056657 (by norm_num) (by norm_num) (by norm_num [abs_lt]) (by norm_num)
  · exact binary64_cert _ _ (8) 6830894070067193 (by norm_num) (by norm_num) (by norm_num [abs_lt]) (by norm_num)
  · exact binary64_cert _ _ (8) 6830894072077729 (by norm_num) (by norm_num) (by norm_num [abs_lt]) (by norm_num)
  · exact binary64_cert _ _ (8) 6830894074088265 (by norm_num) (by norm_num) (by norm_num [abs_lt]) (by norm_num)
  · exact binary64_cert _ _ (8) 6830894076098801 (by norm_num) (by norm_num) (by norm_num [abs_lt]) (by norm_num)
  · exact binary64_cert _ _ (8) 6830894078109337 (by norm_num) (by norm_num) (by norm_num [abs_lt]) (by norm_num)
  · exact binary64_cert _ _ (8) 6830894080119873 (by norm_num) (by norm_num) (by norm_num [abs_lt]) (by norm_num)
  · exact binary64_cert _ _ (8) 6830894082130409 (by norm_num) (by norm_num) (by norm_num [abs_lt]) (by norm_num)
  · exact binary64_cert _ _ (8) 6830894084140945 (by norm_num) (by norm_num) (by norm_num [abs_lt]) (by norm_num)
  · exact binary64_cert _ _ (8) 6830894086151481 (by norm_num) (by norm_num) (by norm_num [abs_lt]) (by norm_num)
  · exact binary64_cert _ _ (8) 6830894088162017 (by norm_num) (by norm_num) (by norm_num [abs_lt]) (by norm_num)
  · exact binary64_cert _ _ (8) 6830894090172553 (by norm_num) (by norm_num) (by norm_num [abs_lt]) (by norm_num)
  · exact binary64_cert _ _ (8) 6830894092183089 (by norm_num) (by norm_num) (by norm_num [abs_lt]) (by norm_num)

/-- The English monograph score of data with 40 letters and the histogram `tie_hist`, as
computed in binary64 arithmetic. -/
theorem tie_mono_en (d : FrequencyData) (htl : d.total_letters = 40)
    (hobs : ∀ k, k < 40 → d.observed_freq k = ((tie_hist.getD k 0 : ℕ) : ℚ)) :
    spec_mono_sum_binary64 ENGLISH_FREQ d = (6830894092183089 / 17592186044416) := by
  have hp : binary64 ((40 : ℚ) / 100) = (3602879701896397 / 9007199254740992) :=
    binary64_cert _ _ (-2) 7205759403792794 (by norm_num) (by norm_num) (by norm_num [abs_lt]) (by norm_num)
  have hr : List.range 40 = [0, 1, 2, 3, 4, 5, 6, 7, 8, 9, 10, 11, 12, 13, 14, 15, 16, 17, 18, 19,
      20, 21, 22, 23, 24, 25, 26, 27, 28, 29, 30, 31, 32, 33, 34, 35, 36, 37, 38, 39] := by
    decide
  obtain ⟨t0, t1, t2, t3, t4, t5, t6, t7, t8, t9⟩ := tie_terms_en_0
  obtain ⟨t10, t11, t12, t13, t14, t15, t16, t17, t18, t19⟩ := tie_terms_en_1
  obtain ⟨t20, t21, t22, t23, t24, t25, t26⟩ := tie_terms_en_2
  obtain ⟨a0, a1, a2, a3, a4, a5, a6, a7, a8, a9, a10, a11, a12, a13, a14, a15, a16, a17, a18, a19⟩ := tie_sums_en_0
  obtain ⟨a20, a21, a22, a23, a24, a25, a26, a27, a28, a29, a30, a31, a32, a33, a34, a35, a36, a37, a38, a39⟩ := tie_sums_en_1
  unfold spec_mono_sum_binary64
  rw [hr, htl, hp]
  simp only [List.foldl_cons, List.foldl_nil]
  rw [hobs 0 (by norm_num), hobs 1 (by norm_num), hobs 2 (by norm_num), hobs 3 (by norm_num),
    hobs 4 (by norm_num), hobs 5 (by norm_num), hobs 6 (by norm_num), hobs 7 (by norm_num),
    hobs 8 (by norm_num), hobs 9 (by norm_num), hobs 10 (by norm_num), hobs 11 (by norm_num),
    hobs 12 (by norm_num), hobs 13 (by norm_num), hobs 14 (by norm_num), hobs 15 (by norm_num),
    hobs 16 (by norm_num), hobs 17 (by norm_num), hobs 18 (by norm_num), hobs 19 (by norm_num),
    hobs 20 (by norm_num), hobs 21 (by norm_num), hobs 22 (by norm_num), hobs 23 (by norm_num),
    hobs 24 (by norm_num), hobs 25 (by norm_num), hobs 26 (by norm_num), hobs 27 (by norm_num),
    hobs 28 (by norm_num), hobs 29 (by norm_num), hobs 30 (by norm_num), hobs 31 (by norm_num),
    hobs 32 (by norm_num), hobs 33 (by norm_num), hobs 34 (by norm_num), hobs 35 (by norm_num),
    hobs 36 (by norm_num), hobs 37 (by norm_num), hobs 38 (by norm_num), hobs 39 (by norm_num)]
  simp only [tie_hist, ENGLISH_FREQ, List.getD_cons_succ, List.getD_cons_zero, Nat.cast_ofNat,
    Nat.cast_zero, Nat.cast_one]
  rw [t0, t1, t2, t3, t4, t5, t6, t7, t8, t9, t10, t11,
    t12, t13, t14, t15, t16, t17, t18, t19, t20, t21, t22, t23,
    t24, t25, t26]
  rw [a0, a1, a2, a3, a4, a5, a6, a7, a8, a9, a10, a11,
    a12, a13, a14, a15, a16, a17, a18, a19, a20, a21, a22, a23,
    a24, a25, a26, a27, a28, a29, a30, a31, a32, a33, a34, a35,
    a36, a37, a38, a39]

/-- The French chi-squared terms of the bins 0, 1, 2, 3, 4, 5, 6, 7, 8, 9 of `tie_hist` in binary64 arithmetic, each
with the roundings of its table entry, expected count, difference, square, denominator
and quotient. -/
theorem tie_terms_fr_0 :
    (chi_term_binary64 2 (binary64 (binary64 (7.636 : ℚ) * (3602879701896397 / 9007199254740992))) = (6556989785456019 / 18014398509481984)) ∧
    (chi_term_binary64 3 (binary64 (binary64 (0.901 : ℚ) * (3602879701896397 / 9007199254740992))) = (5441642968714767 / 281474976710656)) ∧
    (chi_term_binary64 1 (binary64 (binary64 (3.260 : ℚ) * (3602879701896397 / 9007199254740992))) = (2553400883361727 / 36028797018963968)) ∧
    (chi_term_binary64 1 (binary64 (binary64 (3.669 : ℚ) * (3602879701896397 / 9007199254740992))) = (335483206150939 / 2251799813685248)) ∧
    (chi_term_binary64 1 (binary64 (binary64 (14.715 : ℚ) * (3602879701896397 / 9007199254740992))) = (570816331250503 / 140737488355328)) ∧
    (chi_term_binary64 2 (binary64 (binary64 (1.066 : ℚ) * (3602879701896397 / 9007199254740992))) = (6538381581155121 / 1125899906842624)) ∧
    (chi_term_binary64 1 (binary64 (binary64 (0.866 : ℚ) * (3602879701896397 / 9007199254740992))) = (5553985281426147 / 4503599627370496)) ∧
    (chi_term_binary64 0 (binary64 (binary64 (0.737 : ℚ) * (3602879701896397 / 9007199254740992))) = (5310626666257887 / 18014398509481984)) ∧
    (chi_term_binary64 2 (binary64 (binary64 (7.529 : ℚ) * (3602879701896397 / 9007199254740992))) = (382577999467007 / 1125899906842624)) ∧
    (chi_term_binary64 3 (binary64 (binary64 (0.545 : ℚ) * (3602879701896397 / 9007199254740992))) = (4996496203346689 / 140737488355328)) := by
  refine ⟨?_, ?_, ?_, ?_, ?_, ?_, ?_, ?_, ?_, ?_⟩
  · have c1 : binary64 ((7.636 : ℚ)) = (8597371688650277 / 1125899906842624) :=
      binary64_cert _ _ (2) 8597371688650277 (by norm_num) (by norm_num) (by norm_num [abs_lt]) (by norm_num)
    have c2 : binary64 ((8597371688650277 / 1125899906842624) * (3602879701896397 / 9007199254740992)) = (3438948675460111 / 1125899906842624) :=
      binary64_cert _ _ (1) 6877897350920222 (by norm_num) (by norm_num) (by norm_num [abs_lt]) (by norm_num)
    have c3 : binary64 (2 - (3438948675460111 / 1125899906842624)) = (-(1187148861774863 / 1125899906842624)) :=
      binary64_cert_neg _ _ (0) 4748595447099452 (by norm_num) (by norm_num) (by norm_num [abs_lt]) (by norm_num)
    have c4 : binary64 ((-(1187148861774863 / 1125899906842624)) * (-(1187148861774863 / 1125899906842624))) = (5006919039421663 / 4503599627370496) :=
      binary64_cert _ _ (0) 5006919039421663 (by norm_num) (by norm_num) (by norm_num [abs_lt]) (by norm_num)
    have c5 : binary64 (1 / 1000000) = (4722366482869645 / 4722366482869645213696) :=
      binary64_cert _ _ (-20) 4722366482869645 (by norm_num) (by norm_num) (by norm_num [abs_lt]) (by norm_num)
    have c6 : binary64 ((3438948675460111 / 1125899906842624) + (4722366482869645 / 4722366482869645213696)) = (1719474900680009 / 562949953421312) :=
      binary64_cert _ _ (1) 6877899602720036 (by norm_num) (by norm_num) (by norm_num [abs_lt]) (by norm_num)
    have c7 : binary64 ((5006919039421663 / 4503599627370496) / (1719474900680009 / 562949953421312)) = (6556989785456019 / 18014398509481984) :=
      binary64_cert _ _ (-2) 6556989785456019 (by norm_num) (by norm_num) (by norm_num [abs_lt]) (by norm_num)
    unfold chi_term_binary64
    rw [c1, c2, c3, c4, c5, c6, c7]
  · have c1 : binary64 ((0.901 : ℚ)) = (4057743264260817 / 4503599627370496) :=
      binary64_cert _ _ (-1) 8115486528521634 (by norm_num) (by norm_num) (by norm_num [abs_lt]) (by norm_num)
    have c2 : binary64 ((4057743264260817 / 4503599627370496) * (3602879701896397 / 9007199254740992)) = (1623097305704327 / 4503599627370496) :=
      binary64_cert _ _ (-2) 6492389222817308 (by norm_num) (by norm_num) (by norm_num [abs_lt]) (by norm_num)
    have c3 : binary64 (3 - (1623097305704327 / 4503599627370496)) = (1485962697050895 / 562949953421312) :=
      binary64_cert_tie _ _ (1) 5943850788203580 (by norm_num) (by norm_num) (by decide) (Or.inl (by norm_num)) (by norm_num)
    have c4 : binary64 ((1485962697050895 / 562949953421312) * (1485962697050895 / 562949953421312)) = (1961173567567771 / 281474976710656) :=
      binary64_cert _ _ (2) 7844694270271084 (by norm_num) (by norm_num) (by norm_num [abs_lt]) (by norm_num)
    have c5 : binary64 (1 / 1000000) = (4722366482869645 / 4722366482869645213696) :=
      binary64_cert _ _ (-20) 4722366482869645 (by norm_num) (by norm_num) (by norm_num [abs_lt]) (by norm_num)
    have c6 : binary64 ((1623097305704327 / 4503599627370496) + (4722366482869645 / 4722366482869645213696)) = (6492407237215817 / 18014398509481984) :=
      binary64_cert _ _ (-2) 6492407237215817 (by norm_num) (by norm_num) (by norm_num [abs_lt]) (by norm_num)
    have c7 : binary64 ((1961173567567771 / 281474976710656) / (6492407237215817 / 18014398509481984)) = (5441642968714767 / 281474976710656) :=
      binary64_cert _ _ (4) 5441642968714767 (by norm_num) (by norm_num) (by norm_num [abs_lt]) (by norm_num)
    unfold chi_term_binary64
    rw [c1, c2, c3, c4, c5, c6, c7]
  · have c1 : binary64 ((3.260 : ℚ)) = (1835216848153477 / 562949953421312) :=
      binary64_cert _ _ (1) 7340867392613908 (by norm_num) (by norm_num) (by norm_num [abs_lt]) (by norm_num)
    have c2 : binary64 ((1835216848153477 / 562949953421312) * (3602879701896397 / 9007199254740992)) = (5872693914091127 / 4503599627370496) :=
      binary64_cert _ _ (0) 5872693914091127 (by norm_num) (by norm_num) (by norm_num [abs_lt]) (by norm_num)
    have c3 : binary64 (1 - (5872693914091127 / 4503599627370496)) = (-(1369094286720631 / 4503599627370496)) :=
      binary64_cert_neg _ _ (-2) 5476377146882524 (by norm_num) (by norm_num) (by norm_num [abs_lt]) (by norm_num)
    have c4 : binary64 ((-(1369094286720631 / 4503599627370496)) * (-(1369094286720631 / 4503599627370496))) = (3329637305304575 / 36028797018963968) :=
      binary64_cert _ _ (-4) 6659274610609150 (by norm_num) (by norm_num) (by norm_num [abs_lt]) (by norm_num)
    have c5 : binary64 (1 / 1000000) = (4722366482869645 / 4722366482869645213696) :=
      binary64_cert _ _ (-20) 4722366482869645 (by norm_num) (by norm_num) (by norm_num [abs_lt]) (by norm_num)
    have c6 : binary64 ((5872693914091127 / 4503599627370496) + (4722366482869645 / 4722366482869645213696)) = (2936349208845377 / 2251799813685248) :=
      binary64_cert _ _ (0) 5872698417690754 (by norm_num) (by norm_num) (by norm_num [abs_lt]) (by norm_num)
    have c7 : binary64 ((3329637305304575 / 36028797018963968) / (2936349208845377 / 2251799813685248)) = (2553400883361727 / 36028797018963968) :=
      binary64_cert _ _ (-4) 5106801766723454 (by norm_num) (by norm_num) (by norm_num [abs_lt]) (by norm_num)
    unfold chi_term_binary64
    rw [c1, c2, c3, c4, c5, c6, c7]
  · have c1 : binary64 ((3.669 : ℚ)) = (8261853516411175 / 2251799813685248) :=
      binary64_cert _ _ (1) 8261853516411175 (by norm_num) (by norm_num) (by norm_num [abs_lt]) (by norm_num)
    have c2 : binary64 ((8261853516411175 / 2251799813685248) * (3602879701896397 / 9007199254740992)) = (1652370703282235 / 1125899906842624) :=
      binary64_cert _ _ (0) 6609482813128940 (by norm_num) (by norm_num) (by norm_num [abs_lt]) (by norm_num)
    have c3 : binary64 (1 - (1652370703282235 / 1125899906842624)) = (-(526470796439611 / 1125899906842624)) :=
      binary64_cert_neg _ _ (-2) 8423532743033776 (by norm_num) (by norm_num) (by norm_num [abs_lt]) (by norm_num)
    have c4 : binary64 ((-(526470796439611 / 1125899906842624)) * (-(526470796439611 / 1125899906842624))) = (1969421955321297 / 9007199254740992) :=
      binary64_cert _ _ (-3) 7877687821285188 (by norm_num) (by norm_num) (by norm_num [abs_lt]) (by norm_num)
    have c5 : binary64 (1 / 1000000) = (4722366482869645 / 4722366482869645213696) :=
      binary64_cert _ _ (-20) 4722366482869645 (by norm_num) (by norm_num) (by norm_num [abs_lt]) (by norm_num)
    have c6 : binary64 ((1652370703282235 / 1125899906842624) + (4722366482869645 / 4722366482869645213696)) = (6609487316728567 / 4503599627370496) :=
      binary64_cert _ _ (0) 6609487316728567 (by norm_num) (by norm_num) (by norm_num [abs_lt]) (by norm_num)
    have c7 : binary64 ((1969421955321297 / 9007199254740992) / (6609487316728567 / 4503599627370496)) = (335483206150939 / 2251799813685248) :=
      binary64_cert _ _ (-3) 5367731298415024 (by norm_num) (by norm_num) (by norm_num [abs_lt]) (by norm_num)
    unfold chi_term_binary64
    rw [c1, c2, c3, c4, c5, c6, c7]
  · have c1 : binary64 ((14.715 : ℚ)) = (4141904282297303 / 281474976710656) :=
      binary64_cert _ _ (3) 8283808564594606 (by norm_num) (by norm_num) (by norm_num [abs_lt]) (by norm_num)
    have c2 : binary64 ((4141904282297303 / 281474976710656) * (3602879701896397 / 9007199254740992)) = (6627046851675685 / 1125899906842624) :=
      binary64_cert _ _ (2) 6627046851675685 (by norm_num) (by norm_num) (by norm_num [abs_lt]) (by norm_num)
    have c3 : binary64 (1 - (6627046851675685 / 1125899906842624)) = (-(5501146944833061 / 1125899906842624)) :=
      binary64_cert_neg _ _ (2) 5501146944833061 (by norm_num) (by norm_num) (by norm_num [abs_lt]) (by norm_num)
    have c4 : binary64 ((-(5501146944833061 / 1125899906842624)) * (-(5501146944833061 / 1125899906842624))) = (419978187069599 / 17592186044416) :=
      binary64_cert _ _ (4) 6719650993113584 (by norm_num) (by norm_num) (by norm_num [abs_lt]) (by norm_num)
    have c5 : binary64 (1 / 1000000) = (4722366482869645 / 4722366482869645213696) :=
      binary64_cert _ _ (-20) 4722366482869645 (by norm_num) (by norm_num) (by norm_num [abs_lt]) (by norm_num)
    have c6 : binary64 ((6627046851675685 / 1125899906842624) + (4722366482869645 / 4722366482869645213696)) = (828380997196949 / 140737488355328) :=
      binary64_cert _ _ (2) 6627047977575592 (by norm_num) (by norm_num) (by norm_num [abs_lt]) (by norm_num)
    have c7 : binary64 ((419978187069599 / 17592186044416) / (828380997196949 / 140737488355328)) = (570816331250503 / 140737488355328) :=
      binary64_cert _ _ (2) 4566530650004024 (by norm_num) (by norm_num) (by norm_num [abs_lt]) (by norm_num)
    unfold chi_term_binary64
    rw [c1, c2, c3, c4, c5, c6, c7]
  · have c1 : binary64 ((1.066 : ℚ)) = (4800837202776949 / 4503599627370496) :=
      binary64_cert _ _ (0) 4800837202776949 (by norm_num) (by norm_num) (by norm_num [abs_lt]) (by norm_num)
    have c2 : binary64 ((4800837202776949 / 4503599627370496) * (3602879701896397 / 9007199254740992)) = (7681339524443119 / 18014398509481984) :=
      binary64_cert _ _ (-2) 7681339524443119 (by norm_num) (by norm_num) (by norm_num [abs_lt]) (by norm_num)
    have c3 : binary64 (2 - (7681339524443119 / 18014398509481984)) = (1771716093407553 / 1125899906842624) :=
      binary64_cert _ _ (0) 7086864373630212 (by norm_num) (by norm_num) (by norm_num [abs_lt]) (by norm_num)
    have c4 : binary64 ((1771716093407553 / 1125899906842624) * (1771716093407553 / 1125899906842624)) = (2787972444586125 / 1125899906842624) :=
      binary64_cert _ _ (1) 5575944889172250 (by norm_num) (by norm_num) (by norm_num [abs_lt]) (by norm_num)
    have c5 : binary64 (1 / 1000000) = (4722366482869645 / 4722366482869645213696) :=
      binary64_cert _ _ (-20) 4722366482869645 (by norm_num) (by norm_num) (by norm_num [abs_lt]) (by norm_num)
    have c6 : binary64 ((7681339524443119 / 18014398509481984) + (4722366482869645 / 4722366482869645213696)) = (1920339384710407 / 4503599627370496) :=
      binary64_cert _ _ (-2) 7681357538841628 (by norm_num) (by norm_num) (by norm_num [abs_lt]) (by norm_num)
    have c7 : binary64 ((2787972444586125 / 1125899906842624) / (1920339384710407 / 4503599627370496)) = (6538381581155121 / 1125899906842624) :=
      binary64_cert _ _ (2) 6538381581155121 (by norm_num) (by norm_num) (by norm_num [abs_lt]) (by norm_num)
    unfold chi_term_binary64
    rw [c1, c2, c3, c4, c5, c6, c7]
  · have c1 : binary64 ((0.866 : ℚ)) = (7800234554605699 / 9007199254740992) :=
      binary64_cert _ _ (-1) 7800234554605699 (by norm_num) (by norm_num) (by norm_num [abs_lt]) (by norm_num)
    have c2 : binary64 ((7800234554605699 / 9007199254740992) * (3602879701896397 / 9007199254740992)) = (390011727730285 / 1125899906842624) :=
      binary64_cert _ _ (-2) 6240187643684560 (by norm_num) (by norm_num) (by norm_num [abs_lt]) (by norm_num)
    have c3 : binary64 (1 - (390011727730285 / 1125899906842624)) = (735888179112339 / 1125899906842624) :=
      binary64_cert _ _ (-1) 5887105432898712 (by norm_num) (by norm_num) (by norm_num [abs_lt]) (by norm_num)
    have c4 : binary64 ((735888179112339 / 1125899906842624) * (735888179112339 / 1125899906842624)) = (1923906055471299 / 4503599627370496) :=
      binary64_cert _ _ (-2) 7695624221885196 (by norm_num) (by norm_num) (by norm_num [abs_lt]) (by norm_num)
    have c5 : binary64 (1 / 1000000) = (4722366482869645 / 4722366482869645213696) :=
      binary64_cert _ _ (-20) 4722366482869645 (by norm_num) (by norm_num) (by norm_num [abs_lt]) (by norm_num)
    have c6 : binary64 ((390011727730285 / 1125899906842624) + (4722366482869645 / 4722366482869645213696)) = (6240205658083069 / 18014398509481984) :=
      binary64_cert _ _ (-2) 6240205658083069 (by norm_num) (by norm_num) (by norm_num [abs_lt]) (by norm_num)
    have c7 : binary64 ((1923906055471299 / 4503599627370496) / (6240205658083069 / 18014398509481984)) = (5553985281426147 / 4503599627370496) :=
      binary64_cert _ _ (0) 5553985281426147 (by norm_num) (by norm_num) (by norm_num [abs_lt]) (by norm_num)
    unfold chi_term_binary64
    rw [c1, c2, c3, c4, c5, c6, c7]
  · have c1 : binary64 ((0.737 : ℚ)) = (6638305850744111 / 9007199254740992) :=
      binary64_cert _ _ (-1) 6638305850744111 (by norm_num) (by norm_num) (by norm_num [abs_lt]) (by norm_num)
    have c2 : binary64 ((6638305850744111 / 9007199254740992) * (3602879701896397 / 9007199254740992)) = (5310644680595289 / 18014398509481984) :=
      binary64_cert _ _ (-2) 5310644680595289 (by norm_num) (by norm_num) (by norm_num [abs_lt]) (by norm_num)
    have c3 : binary64 (0 - (5310644680595289 / 18014398509481984)) = (-(5310644680595289 / 18014398509481984)) :=
      binary64_cert_neg _ _ (-2) 5310644680595289 (by norm_num) (by norm_num) (by norm_num [abs_lt]) (by norm_num)
    have c4 : binary64 ((-(5310644680595289 / 18014398509481984)) * (-(5310644680595289 / 18014398509481984))) = (6262312207357965 / 72057594037927936) :=
      binary64_cert _ _ (-4) 6262312207357965 (by norm_num) (by norm_num) (by norm_num [abs_lt]) (by norm_num)
    have c5 : binary64 (1 / 1000000) = (4722366482869645 / 4722366482869645213696) :=
      binary64_cert _ _ (-20) 4722366482869645 (by norm_num) (by norm_num) (by norm_num [abs_lt]) (by norm_num)
    have c6 : binary64 ((5310644680595289 / 18014398509481984) + (4722366482869645 / 4722366482869645213696)) = (2655331347496899 / 9007199254740992) :=
      binary64_cert _ _ (-2) 5310662694993798 (by norm_num) (by norm_num) (by norm_num [abs_lt]) (by norm_num)
    have c7 : binary64 ((6262312207357965 / 72057594037927936) / (2655331347496899 / 9007199254740992)) = (5310626666257887 / 18014398509481984) :=
      binary64_cert _ _ (-2) 5310626666257887 (by norm_num) (by norm_num) (by norm_num [abs_lt]) (by norm_num)
    unfold chi_term_binary64
    rw [c1, c2, c3, c4, c5, c6, c7]
  · have c1 : binary64 ((7.529 : ℚ)) = (2119225099654529 / 281474976710656) :=
      binary64_cert _ _ (2) 8476900398618116 (by norm_num) (by norm_num) (by norm_num [abs_lt]) (by norm_num)
    have c2 : binary64 ((2119225099654529 / 281474976710656) * (3602879701896397 / 9007199254740992)) = (6781520318894493 / 2251799813685248) :=
      binary64_cert _ _ (1) 6781520318894493 (by norm_num) (by norm_num) (by norm_num [abs_lt]) (by norm_num)
    have c3 : binary64 (2 - (6781520318894493 / 2251799813685248)) = (-(2277920691523997 / 2251799813685248)) :=
      binary64_cert_neg _ _ (0) 4555841383047994 (by norm_num) (by norm_num) (by norm_num [abs_lt]) (by norm_num)
    have c4 : binary64 ((-(2277920691523997 / 2251799813685248)) * (-(2277920691523997 / 2251799813685248))) = (4608689143091351 / 4503599627370496) :=
      binary64_cert _ _ (0) 4608689143091351 (by norm_num) (by norm_num) (by norm_num [abs_lt]) (by norm_num)
    have c5 : binary64 (1 / 1000000) = (4722366482869645 / 4722366482869645213696) :=
      binary64_cert _ _ (-20) 4722366482869645 (by norm_num) (by norm_num) (by norm_num [abs_lt]) (by norm_num)
    have c6 : binary64 ((6781520318894493 / 2251799813685248) + (4722366482869645 / 4722366482869645213696)) = (6781522570694307 / 2251799813685248) :=
      binary64_cert _ _ (1) 6781522570694307 (by norm_num) (by norm_num) (by norm_num [abs_lt]) (by norm_num)
    have c7 : binary64 ((4608689143091351 / 4503599627370496) / (6781522570694307 / 2251799813685248)) = (382577999467007 / 1125899906842624) :=
      binary64_cert _ _ (-2) 6121247991472112 (by norm_num) (by norm_num) (by norm_num [abs_lt]) (by norm_num)
    unfold chi_term_binary64
    rw [c1, c2, c3, c4, c5, c6, c7]
  · have c1 : binary64 ((0.545 : ℚ)) = (4908923593833841 / 9007199254740992) :=
      binary64_cert _ _ (-1) 4908923593833841 (by norm_num) (by norm_num) (by norm_num [abs_lt]) (by norm_num)
    have c2 : binary64 ((4908923593833841 / 9007199254740992) * (3602879701896397 / 9007199254740992)) = (3927138875067073 / 18014398509481984) :=
      binary64_cert _ _ (-3) 7854277750134146 (by norm_num) (by norm_num) (by norm_num [abs_lt]) (by norm_num)
    have c3 : binary64 (3 - (3927138875067073 / 18014398509481984)) = (783063385209045 / 281474976710656) :=
      binary64_cert _ _ (1) 6264507081672360 (by norm_num) (by norm_num) (by norm_num [abs_lt]) (by norm_num)
    have c4 : binary64 ((783063385209045 / 281474976710656) * (783063385209045 / 281474976710656)) = (8713929350606253 / 1125899906842624) :=
      binary64_cert _ _ (2) 8713929350606253 (by norm_num) (by norm_num) (by norm_num [abs_lt]) (by norm_num)
    have c5 : binary64 (1 / 1000000) = (4722366482869645 / 4722366482869645213696) :=
      binary64_cert _ _ (-20) 4722366482869645 (by norm_num) (by norm_num) (by norm_num [abs_lt]) (by norm_num)
    have c6 : binary64 ((3927138875067073 / 18014398509481984) + (4722366482869645 / 4722366482869645213696)) = (7854313778931165 / 36028797018963968) :=
      binary64_cert _ _ (-3) 7854313778931165 (by norm_num) (by norm_num) (by norm_num [abs_lt]) (by norm_num)
    have c7 : binary64 ((8713929350606253 / 1125899906842624) / (7854313778931165 / 36028797018963968)) = (4996496203346689 / 140737488355328) :=
      binary64_cert _ _ (5) 4996496203346689 (by norm_num) (by norm_num) (by norm_num [abs_lt]) (by norm_num)
    unfold chi_term_binary64
    rw [c1, c2, c3, c4, c5, c6, c7]

/-- The French chi-squared terms of the bins 10, 11, 12, 13, 14, 15, 16, 17, 18, 19 of `tie_hist` in binary64 arithmetic, each
with the roundings of its table entry, expected count, difference, square, denominator
and quotient. -/
theorem tie_terms_fr_1 :
    (chi_term_binary64 1 (binary64 (binary64 (0.049 : ℚ) * (3602879701896397 / 9007199254740992))) = (3450707732394411 / 70368744177664)) ∧
    (chi_term_binary64 3 (binary64 (binary64 (5.456 : ℚ) * (3602879701896397 / 9007199254740992))) = (5517813017945725 / 18014398509481984)) ∧
    (chi_term_binary64 0 (binary64 (binary64 (2.804 : ℚ) * (3602879701896397 / 9007199254740992))) = (157851026201973 / 140737488355328)) ∧
    (chi_term_binary64 4 (binary64 (binary64 (7.095 : ℚ) * (3602879701896397 / 9007199254740992))) = (2142690709150295 / 4503599627370496)) ∧
    (chi_term_binary64 1 (binary64 (binary64 (5.378 : ℚ) * (3602879701896397 / 9007199254740992))) = (5548943987430731 / 9007199254740992)) ∧
    (chi_term_binary64 1 (binary64 (binary64 (3.021 : ℚ) * (3602879701896397 / 9007199254740992))) = (5179574762549643 / 144115188075855872)) ∧
    (chi_term_binary64 1 (binary64 (binary64 (1.362 : ℚ) * (3602879701896397 / 9007199254740992))) = (1712877818015281 / 4503599627370496)) ∧
    (chi_term_binary64 2 (binary64 (binary64 (6.692 : ℚ) * (3602879701896397 / 9007199254740992))) = (770662787027495 / 4503599627370496)) ∧
    (chi_term_binary64 2 (binary64 (binary64 (8.140 : ℚ) * (3602879701896397 / 9007199254740992))) = (8727995527966415 / 18014398509481984)) ∧
    (chi_term_binary64 1 (binary64 (binary64 (7.244 : ℚ) * (3602879701896397 / 9007199254740992))) = (5596680760028633 / 4503599627370496)) := by
  refine ⟨?_, ?_, ?_, ?_, ?_, ?_, ?_, ?_, ?_, ?_⟩
  · have c1 : binary64 ((0.049 : ℚ)) = (3530822107858469 / 72057594037927936) :=
      binary64_cert _ _ (-5) 7061644215716938 (by norm_num) (by norm_num) (by norm_num [abs_lt]) (by norm_num)
    have c2 : binary64 ((3530822107858469 / 72057594037927936) * (3602879701896397 / 9007199254740992)) = (5649315372573551 / 288230376151711744) :=
      binary64_cert _ _ (-6) 5649315372573551 (by norm_num) (by norm_num) (by norm_num [abs_lt]) (by norm_num)
    have c3 : binary64 (1 - (5649315372573551 / 288230376151711744)) = (8830658149348069 / 9007199254740992) :=
      binary64_cert _ _ (-1) 8830658149348069 (by norm_num) (by norm_num) (by norm_num [abs_lt]) (by norm_num)
    have c4 : binary64 ((8830658149348069 / 9007199254740992) * (8830658149348069 / 9007199254740992)) = (8657577249620847 / 9007199254740992) :=
      binary64_cert _ _ (-1) 8657577249620847 (by norm_num) (by norm_num) (by norm_num [abs_lt]) (by norm_num)
    have c5 : binary64 (1 / 1000000) = (4722366482869645 / 4722366482869645213696) :=
      binary64_cert _ _ (-20) 4722366482869645 (by norm_num) (by norm_num) (by norm_num [abs_lt]) (by norm_num)
    have c6 : binary64 ((5649315372573551 / 288230376151711744) + (4722366482869645 / 4722366482869645213696)) = (5649603602949703 / 288230376151711744) :=
      binary64_cert _ _ (-6) 5649603602949703 (by norm_num) (by norm_num) (by norm_num [abs_lt]) (by norm_num)
    have c7 : binary64 ((8657577249620847 / 9007199254740992) / (5649603602949703 / 288230376151711744)) = (3450707732394411 / 70368744177664) :=
      binary64_cert _ _ (5) 6901415464788822 (by norm_num) (by norm_num) (by norm_num [abs_lt]) (by norm_num)
    unfold chi_term_binary64
    rw [c1, c2, c3, c4, c5, c6, c7]
  · have c1 : binary64 ((5.456 : ℚ)) = (6142909891733357 / 1125899906842624) :=
      binary64_cert _ _ (2) 6142909891733357 (by norm_num) (by norm_num) (by norm_num [abs_lt]) (by norm_num)
    have c2 : binary64 ((6142909891733357 / 1125899906842624) * (3602879701896397 / 9007199254740992)) = (2457163956693343 / 1125899906842624) :=
      binary64_cert _ _ (1) 4914327913386686 (by norm_num) (by norm_num) (by norm_num [abs_lt]) (by norm_num)
    have c3 : binary64 (3 - (2457163956693343 / 1125899906842624)) = (920535763834529 / 1125899906842624) :=
      binary64_cert _ _ (-1) 7364286110676232 (by norm_num) (by norm_num) (by norm_num [abs_lt]) (by norm_num)
    have c4 : binary64 ((920535763834529 / 1125899906842624) * (920535763834529 / 1125899906842624)) = (6021040324088885 / 9007199254740992) :=
      binary64_cert _ _ (-1) 6021040324088885 (by norm_num) (by norm_num) (by norm_num [abs_lt]) (by norm_num)
    have c5 : binary64 (1 / 1000000) = (4722366482869645 / 4722366482869645213696) :=
      binary64_cert _ _ (-20) 4722366482869645 (by norm_num) (by norm_num) (by norm_num [abs_lt]) (by norm_num)
    have c6 : binary64 ((2457163956693343 / 1125899906842624) + (4722366482869645 / 4722366482869645213696)) = (1228582541296625 / 562949953421312) :=
      binary64_cert _ _ (1) 4914330165186500 (by norm_num) (by norm_num) (by norm_num [abs_lt]) (by norm_num)
    have c7 : binary64 ((6021040324088885 / 9007199254740992) / (1228582541296625 / 562949953421312)) = (5517813017945725 / 18014398509481984) :=
      binary64_cert _ _ (-2) 5517813017945725 (by norm_num) (by norm_num) (by norm_num [abs_lt]) (by norm_num)
    unfold chi_term_binary64
    rw [c1, c2, c3, c4, c5, c6, c7]
  · have c1 : binary64 ((2.804 : ℚ)) = (6314046677573435 / 2251799813685248) :=
      binary64_cert _ _ (1) 6314046677573435 (by norm_num) (by norm_num) (by norm_num [abs_lt]) (by norm_num)
    have c2 : binary64 ((6314046677573435 / 2251799813685248) * (3602879701896397 / 9007199254740992)) = (1262809335514687 / 1125899906842624) :=
      binary64_cert _ _ (0) 5051237342058748 (by norm_num) (by norm_num) (by norm_num [abs_lt]) (by norm_num)
    have c3 : binary64 (0 - (1262809335514687 / 1125899906842624)) = (-(1262809335514687 / 1125899906842624)) :=
      binary64_cert_neg _ _ (0) 5051237342058748 (by norm_num) (by norm_num) (by norm_num [abs_lt]) (by norm_num)
    have c4 : binary64 ((-(1262809335514687 / 1125899906842624)) * (-(1262809335514687 / 1125899906842624))) = (5665467802853091 / 4503599627370496) :=
      binary64_cert _ _ (0) 5665467802853091 (by norm_num) (by norm_num) (by norm_num [abs_lt]) (by norm_num)
    have c5 : binary64 (1 / 1000000) = (4722366482869645 / 4722366482869645213696) :=
      binary64_cert _ _ (-20) 4722366482869645 (by norm_num) (by norm_num) (by norm_num [abs_lt]) (by norm_num)
    have c6 : binary64 ((1262809335514687 / 1125899906842624) + (4722366482869645 / 4722366482869645213696)) = (5051241845658375 / 4503599627370496) :=
      binary64_cert _ _ (0) 5051241845658375 (by norm_num) (by norm_num) (by norm_num [abs_lt]) (by norm_num)
    have c7 : binary64 ((5665467802853091 / 4503599627370496) / (5051241845658375 / 4503599627370496)) = (157851026201973 / 140737488355328) :=
      binary64_cert _ _ (0) 5051232838463136 (by norm_num) (by norm_num) (by norm_num [abs_lt]) (by norm_num)
    unfold chi_term_binary64
    rw [c1, c2, c3, c4, c5, c6, c7]
  · have c1 : binary64 ((7.095 : ℚ)) = (7988259839048417 / 1125899906842624) :=
      binary64_cert _ _ (2) 7988259839048417 (by norm_num) (by norm_num) (by norm_num [abs_lt]) (by norm_num)
    have c2 : binary64 ((7988259839048417 / 1125899906842624) * (3602879701896397 / 9007199254740992)) = (3195303935619367 / 1125899906842624) :=
      binary64_cert _ _ (1) 6390607871238734 (by norm_num) (by norm_num) (by norm_num [abs_lt]) (by norm_num)
    have c3 : binary64 (4 - (3195303935619367 / 1125899906842624)) = (1308295691751129 / 1125899906842624) :=
      binary64_cert _ _ (0) 5233182767004516 (by norm_num) (by norm_num) (by norm_num [abs_lt]) (by norm_num)
    have c4 : binary64 ((1308295691751129 / 1125899906842624) * (1308295691751129 / 1125899906842624)) = (6080958375259247 / 4503599627370496) :=
      binary64_cert _ _ (0) 6080958375259247 (by norm_num) (by norm_num) (by norm_num [abs_lt]) (by norm_num)
    have c5 : binary64 (1 / 1000000) = (4722366482869645 / 4722366482869645213696) :=
      binary64_cert _ _ (-20) 4722366482869645 (by norm_num) (by norm_num) (by norm_num [abs_lt]) (by norm_num)
    have c6 : binary64 ((3195303935619367 / 1125899906842624) + (4722366482869645 / 4722366482869645213696)) = (1597652530759637 / 562949953421312) :=
      binary64_cert _ _ (1) 6390610123038548 (by norm_num) (by norm_num) (by norm_num [abs_lt]) (by norm_num)
    have c7 : binary64 ((6080958375259247 / 4503599627370496) / (1597652530759637 / 562949953421312)) = (2142690709150295 / 4503599627370496) :=
      binary64_cert _ _ (-2) 8570762836601180 (by norm_num) (by norm_num) (by norm_num [abs_lt]) (by norm_num)
    unfold chi_term_binary64
    rw [c1, c2, c3, c4, c5, c6, c7]
  · have c1 : binary64 ((5.378 : ℚ)) = (378443106187477 / 70368744177664) :=
      binary64_cert _ _ (2) 6055089698999632 (by norm_num) (by norm_num) (by norm_num [abs_lt]) (by norm_num)
    have c2 : binary64 ((378443106187477 / 70368744177664) * (3602879701896397 / 9007199254740992)) = (2422035879599853 / 1125899906842624) :=
      binary64_cert _ _ (1) 4844071759199706 (by norm_num) (by norm_num) (by norm_num [abs_lt]) (by norm_num)
    have c3 : binary64 (1 - (2422035879599853 / 1125899906842624)) = (-(1296135972757229 / 1125899906842624)) :=
      binary64_cert_neg _ _ (0) 5184543891028916 (by norm_num) (by norm_num) (by norm_num [abs_lt]) (by norm_num)
    have c4 : binary64 ((-(1296135972757229 / 1125899906842624)) * (-(1296135972757229 / 1125899906842624))) = (5968446927352489 / 4503599627370496) :=
      binary64_cert _ _ (0) 5968446927352489 (by norm_num) (by norm_num) (by norm_num [abs_lt]) (by norm_num)
    have c5 : binary64 (1 / 1000000) = (4722366482869645 / 4722366482869645213696) :=
      binary64_cert _ _ (-20) 4722366482869645 (by norm_num) (by norm_num) (by norm_num [abs_lt]) (by norm_num)
    have c6 : binary64 ((2422035879599853 / 1125899906842624) + (4722366482869645 / 4722366482869645213696)) = (151377312843735 / 70368744177664) :=
      binary64_cert _ _ (1) 4844074010999520 (by norm_num) (by norm_num) (by norm_num [abs_lt]) (by norm_num)
    have c7 : binary64 ((5968446927352489 / 4503599627370496) / (151377312843735 / 70368744177664)) = (5548943987430731 / 9007199254740992) :=
      binary64_cert _ _ (-1) 5548943987430731 (by norm_num) (by norm_num) (by norm_num [abs_lt]) (by norm_num)
    unfold chi_term_binary64
    rw [c1, c2, c3, c4, c5, c6, c7]
  · have c1 : binary64 ((3.021 : ℚ)) = (3401343618571567 / 1125899906842624) :=
      binary64_cert _ _ (1) 6802687237143134 (by norm_num) (by norm_num) (by norm_num [abs_lt]) (by norm_num)
    have c2 : binary64 ((3401343618571567 / 1125899906842624) * (3602879701896397 / 9007199254740992)) = (1360537447428627 / 1125899906842624) :=
      binary64_cert _ _ (0) 5442149789714508 (by norm_num) (by norm_num) (by norm_num [abs_lt]) (by norm_num)
    have c3 : binary64 (1 - (1360537447428627 / 1125899906842624)) = (-(234637540586003 / 1125899906842624)) :=
      binary64_cert_neg _ _ (-3) 7508401298752096 (by norm_num) (by norm_num) (by norm_num [abs_lt]) (by norm_num)
    have c4 : binary64 ((-(234637540586003 / 1125899906842624)) * (-(234637540586003 / 1125899906842624))) = (6259003322639751 / 144115188075855872) :=
      binary64_cert _ _ (-5) 6259003322639751 (by norm_num) (by norm_num) (by norm_num [abs_lt]) (by norm_num)
    have c5 : binary64 (1 / 1000000) = (4722366482869645 / 4722366482869645213696) :=
      binary64_cert _ _ (-20) 4722366482869645 (by norm_num) (by norm_num) (by norm_num [abs_lt]) (by norm_num)
    have c6 : binary64 ((1360537447428627 / 1125899906842624) + (4722366482869645 / 4722366482869645213696)) = (5442154293314135 / 4503599627370496) :=
      binary64_cert _ _ (0) 5442154293314135 (by norm_num) (by norm_num) (by norm_num [abs_lt]) (by norm_num)
    have c7 : binary64 ((6259003322639751 / 144115188075855872) / (5442154293314135 / 4503599627370496)) = (5179574762549643 / 144115188075855872) :=
      binary64_cert _ _ (-5) 5179574762549643 (by norm_num) (by norm_num) (by norm_num [abs_lt]) (by norm_num)
    unfold chi_term_binary64
    rw [c1, c2, c3, c4, c5, c6, c7]
  · have c1 : binary64 ((1.362 : ℚ)) = (766737836559827 / 562949953421312) :=
      binary64_cert _ _ (0) 6133902692478616 (by norm_num) (by norm_num) (by norm_num [abs_lt]) (by norm_num)
    have c2 : binary64 ((766737836559827 / 562949953421312) * (3602879701896397 / 9007199254740992)) = (4907122153982893 / 9007199254740992) :=
      binary64_cert _ _ (-1) 4907122153982893 (by norm_num) (by norm_num) (by norm_num [abs_lt]) (by norm_num)
    have c3 : binary64 (1 - (4907122153982893 / 9007199254740992)) = (4100077100758099 / 9007199254740992) :=
      binary64_cert _ _ (-2) 8200154201516198 (by norm_num) (by norm_num) (by norm_num [abs_lt]) (by norm_num)
    have c4 : binary64 ((4100077100758099 / 9007199254740992) * (4100077100758099 / 9007199254740992)) = (3732710192530173 / 18014398509481984) :=
      binary64_cert _ _ (-3) 7465420385060346 (by norm_num) (by norm_num) (by norm_num [abs_lt]) (by norm_num)
    have c5 : binary64 (1 / 1000000) = (4722366482869645 / 4722366482869645213696) :=
      binary64_cert _ _ (-20) 4722366482869645 (by norm_num) (by norm_num) (by norm_num [abs_lt]) (by norm_num)
    have c6 : binary64 ((4907122153982893 / 9007199254740992) + (4722366482869645 / 4722366482869645213696)) = (1226782790295537 / 2251799813685248) :=
      binary64_cert _ _ (-1) 4907131161182148 (by norm_num) (by norm_num) (by norm_num [abs_lt]) (by norm_num)
    have c7 : binary64 ((3732710192530173 / 18014398509481984) / (1226782790295537 / 2251799813685248)) = (1712877818015281 / 4503599627370496) :=
      binary64_cert _ _ (-2) 6851511272061124 (by norm_num) (by norm_num) (by norm_num [abs_lt]) (by norm_num)
    unfold chi_term_binary64
    rw [c1, c2, c3, c4, c5, c6, c7]
  · have c1 : binary64 ((6.692 : ℚ)) = (941815272073855 / 140737488355328) :=
      binary64_cert _ _ (2) 7534522176590840 (by norm_num) (by norm_num) (by norm_num [abs_lt]) (by norm_num)
    have c2 : binary64 ((941815272073855 / 140737488355328) * (3602879701896397 / 9007199254740992)) = (188363054414771 / 70368744177664) :=
      binary64_cert _ _ (1) 6027617741272672 (by norm_num) (by norm_num) (by norm_num [abs_lt]) (by norm_num)
    have c3 : binary64 (2 - (188363054414771 / 70368744177664)) = (-(47625566059443 / 70368744177664)) :=
      binary64_cert_neg _ _ (-1) 6096072455608704 (by norm_num) (by norm_num) (by norm_num [abs_lt]) (by norm_num)
    have c4 : binary64 ((-(47625566059443 / 70368744177664)) * (-(47625566059443 / 70368744177664))) = (8251643675911943 / 18014398509481984) :=
      binary64_cert _ _ (-2) 8251643675911943 (by norm_num) (by norm_num) (by norm_num [abs_lt]) (by norm_num)
    have c5 : binary64 (1 / 1000000) = (4722366482869645 / 4722366482869645213696) :=
      binary64_cert _ _ (-20) 4722366482869645 (by norm_num) (by norm_num) (by norm_num [abs_lt]) (by norm_num)
    have c6 : binary64 ((188363054414771 / 70368744177664) + (4722366482869645 / 4722366482869645213696)) = (3013809996536243 / 1125899906842624) :=
      binary64_cert _ _ (1) 6027619993072486 (by norm_num) (by norm_num) (by norm_num [abs_lt]) (by norm_num)
    have c7 : binary64 ((8251643675911943 / 18014398509481984) / (3013809996536243 / 1125899906842624)) = (770662787027495 / 4503599627370496) :=
      binary64_cert _ _ (-3) 6165302296219960 (by norm_num) (by norm_num) (by norm_num [abs_lt]) (by norm_num)
    unfold chi_term_binary64
    rw [c1, c2, c3, c4, c5, c6, c7]
  · have c1 : binary64 ((8.140 : ℚ)) = (572801577606185 / 70368744177664) :=
      binary64_cert _ _ (3) 4582412620849480 (by norm_num) (by norm_num) (by norm_num [abs_lt]) (by norm_num)
    have c2 : binary64 ((572801577606185 / 70368744177664) * (3602879701896397 / 9007199254740992)) = (114560315521237 / 35184372088832) :=
      binary64_cert _ _ (1) 7331860193359168 (by norm_num) (by norm_num) (by norm_num [abs_lt]) (by norm_num)
    have c3 : binary64 (2 - (114560315521237 / 35184372088832)) = (-(44191571343573 / 35184372088832)) :=
      binary64_cert_neg _ _ (0) 5656521131977344 (by norm_num) (by norm_num) (by norm_num [abs_lt]) (by norm_num)
    have c4 : binary64 ((-(44191571343573 / 35184372088832)) * (-(44191571343573 / 35184372088832))) = (7104590541763545 / 4503599627370496) :=
      binary64_cert _ _ (0) 7104590541763545 (by norm_num) (by norm_num) (by norm_num [abs_lt]) (by norm_num)
    have c5 : binary64 (1 / 1000000) = (4722366482869645 / 4722366482869645213696) :=
      binary64_cert _ _ (-20) 4722366482869645 (by norm_num) (by norm_num) (by norm_num [abs_lt]) (by norm_num)
    have c6 : binary64 ((114560315521237 / 35184372088832) + (4722366482869645 / 4722366482869645213696)) = (3665931222579491 / 1125899906842624) :=
      binary64_cert _ _ (1) 7331862445158982 (by norm_num) (by norm_num) (by norm_num [abs_lt]) (by norm_num)
    have c7 : binary64 ((7104590541763545 / 4503599627370496) / (3665931222579491 / 1125899906842624)) = (8727995527966415 / 18014398509481984) :=
      binary64_cert _ _ (-2) 8727995527966415 (by norm_num) (by norm_num) (by norm_num [abs_lt]) (by norm_num)
    unfold chi_term_binary64
    rw [c1, c2, c3, c4, c5, c6, c7]
  · have c1 : binary64 ((7.244 : ℚ)) = (254875591411499 / 35184372088832) :=
      binary64_cert _ _ (2) 8156018925167968 (by norm_num) (by norm_num) (by norm_num [abs_lt]) (by norm_num)
    have c2 : binary64 ((254875591411499 / 35184372088832) * (3602879701896397 / 9007199254740992)) = (6524815140134375 / 2251799813685248) :=
      binary64_cert _ _ (1) 6524815140134375 (by norm_num) (by norm_num) (by norm_num [abs_lt]) (by norm_num)
    have c3 : binary64 (1 - (6524815140134375 / 2251799813685248)) = (-(4273015326449127 / 2251799813685248)) :=
      binary64_cert_neg _ _ (0) 8546030652898254 (by norm_num) (by norm_num) (by norm_num [abs_lt]) (by norm_num)
    have c4 : binary64 ((-(4273015326449127 / 2251799813685248)) * (-(4273015326449127 / 2251799813685248))) = (1013559235433733 / 281474976710656) :=
      binary64_cert _ _ (1) 8108473883469864 (by norm_num) (by norm_num) (by norm_num [abs_lt]) (by norm_num)
    have c5 : binary64 (1 / 1000000) = (4722366482869645 / 4722366482869645213696) :=
      binary64_cert _ _ (-20) 4722366482869645 (by norm_num) (by norm_num) (by norm_num [abs_lt]) (by norm_num)
    have c6 : binary64 ((6524815140134375 / 2251799813685248) + (4722366482869645 / 4722366482869645213696)) = (6524817391934189 / 2251799813685248) :=
      binary64_cert _ _ (1) 6524817391934189 (by norm_num) (by norm_num) (by norm_num [abs_lt]) (by norm_num)
    have c7 : binary64 ((1013559235433733 / 281474976710656) / (6524817391934189 / 2251799813685248)) = (5596680760028633 / 4503599627370496) :=
      binary64_cert _ _ (0) 5596680760028633 (by norm_num) (by norm_num) (by norm_num [abs_lt]) (by norm_num)
    unfold chi_term_binary64
    rw [c1, c2, c3, c4, c5, c6, c7]

/-- The French chi-squared terms of the bins 20, 21, 22, 23, 24, 25, 26, 27, 28, 29 of `tie_hist` in binary64 arithmetic, each
with the roundings of its table entry, expected count, difference, square, denominator
and quotient. -/
theorem tie_terms_fr_2 :
    (chi_term_binary64 0 (binary64 (binary64 (5.484 : ℚ) * (3602879701896397 / 9007199254740992))) = (1234886454875293 / 562949953421312)) ∧
    (chi_term_binary64 1 (binary64 (binary64 (1.087 : ℚ) * (3602879701896397 / 9007199254740992))) = (3308823081610017 / 4503599627370496)) ∧
    (chi_term_binary64 2 (binary64 (binary64 (0.063 : ℚ) * (3602879701896397 / 9007199254740992))) = (5444754062633429 / 35184372088832)) ∧
    (chi_term_binary64 2 (binary64 (binary64 (0.417 : ℚ) * (3602879701896397 / 9007199254740992))) = (5671015561880999 / 281474976710656)) ∧
    (chi_term_binary64 1 (binary64 (binary64 (0.230 : ℚ) * (3602879701896397 / 9007199254740992))) = (5044857886300677 / 562949953421312)) ∧
    (chi_term_binary64 2 (binary64 (binary64 (0.121 : ℚ) * (3602879701896397 / 9007199254740992))) = (692176894184059 / 8796093022208)) ∧
    (chi_term_binary64 0 (binary64 (binary64 (0.057 : ℚ) * (3602879701896397 / 9007199254740992))) = (6571364358524005 / 288230376151711744)) ∧
    (chi_term_binary64 0 (binary64 (binary64 (0.536 : ℚ) * (3602879701896397 / 9007199254740992))) = (7724538052236901 / 36028797018963968)) ∧
    (chi_term_binary64 0 (binary64 (binary64 (0.854 : ℚ) * (3602879701896397 / 9007199254740992))) = (769212564561659 / 2251799813685248)) ∧
    (chi_term_binary64 0 (binary64 (binary64 (0.165 : ℚ) * (3602879701896397 / 9007199254740992))) = (4755729150000971 / 72057594037927936)) := by
  refine ⟨?_, ?_, ?_, ?_, ?_, ?_, ?_, ?_, ?_, ?_⟩
  · have c1 : binary64 ((5.484 : ℚ)) = (3087217544562475 / 562949953421312) :=
      binary64_cert _ _ (2) 6174435089124950 (by norm_num) (by norm_num) (by norm_num [abs_lt]) (by norm_num)
    have c2 : binary64 ((3087217544562475 / 562949953421312) * (3602879701896397 / 9007199254740992)) = (617443508912495 / 281474976710656) :=
      binary64_cert _ _ (1) 4939548071299960 (by norm_num) (by norm_num) (by norm_num [abs_lt]) (by norm_num)
    have c3 : binary64 (0 - (617443508912495 / 281474976710656)) = (-(617443508912495 / 281474976710656)) :=
      binary64_cert_neg _ _ (1) 4939548071299960 (by norm_num) (by norm_num) (by norm_num [abs_lt]) (by norm_num)
    have c4 : binary64 ((-(617443508912495 / 281474976710656)) * (-(617443508912495 / 281474976710656))) = (1354424081150449 / 281474976710656) :=
      binary64_cert _ _ (2) 5417696324601796 (by norm_num) (by norm_num) (by norm_num [abs_lt]) (by norm_num)
    have c5 : binary64 (1 / 1000000) = (4722366482869645 / 4722366482869645213696) :=
      binary64_cert _ _ (-20) 4722366482869645 (by norm_num) (by norm_num) (by norm_num [abs_lt]) (by norm_num)
    have c6 : binary64 ((617443508912495 / 281474976710656) + (4722366482869645 / 4722366482869645213696)) = (2469775161549887 / 1125899906842624) :=
      binary64_cert _ _ (1) 4939550323099774 (by norm_num) (by norm_num) (by norm_num [abs_lt]) (by norm_num)
    have c7 : binary64 ((1354424081150449 / 281474976710656) / (2469775161549887 / 1125899906842624)) = (1234886454875293 / 562949953421312) :=
      binary64_cert _ _ (1) 4939545819501172 (by norm_num) (by norm_num) (by norm_num [abs_lt]) (by norm_num)
    unfold chi_term_binary64
    rw [c1, c2, c3, c4, c5, c6, c7]
  · have c1 : binary64 ((1.087 : ℚ)) = (4895412794951729 / 4503599627370496) :=
      binary64_cert _ _ (0) 4895412794951729 (by norm_num) (by norm_num) (by norm_num [abs_lt]) (by norm_num)
    have c2 : binary64 ((4895412794951729 / 4503599627370496) * (3602879701896397 / 9007199254740992)) = (7832660471922767 / 18014398509481984) :=
      binary64_cert _ _ (-2) 7832660471922767 (by norm_num) (by norm_num) (by norm_num [abs_lt]) (by norm_num)
    have c3 : binary64 (1 - (7832660471922767 / 18014398509481984)) = (636358627347451 / 1125899906842624) :=
      binary64_cert_tie _ _ (-1) 5090869018779608 (by norm_num) (by norm_num) (by decide) (Or.inl (by norm_num)) (by norm_num)
    have c4 : binary64 ((636358627347451 / 1125899906842624) * (636358627347451 / 1125899906842624)) = (1438679584707117 / 4503599627370496) :=
      binary64_cert _ _ (-2) 5754718338828468 (by norm_num) (by norm_num) (by norm_num [abs_lt]) (by norm_num)
    have c5 : binary64 (1 / 1000000) = (4722366482869645 / 4722366482869645213696) :=
      binary64_cert _ _ (-20) 4722366482869645 (by norm_num) (by norm_num) (by norm_num [abs_lt]) (by norm_num)
    have c6 : binary64 ((7832660471922767 / 18014398509481984) + (4722366482869645 / 4722366482869645213696)) = (1958169621580319 / 4503599627370496) :=
      binary64_cert _ _ (-2) 7832678486321276 (by norm_num) (by norm_num) (by norm_num [abs_lt]) (by norm_num)
    have c7 : binary64 ((1438679584707117 / 4503599627370496) / (1958169621580319 / 4503599627370496)) = (3308823081610017 / 4503599627370496) :=
      binary64_cert _ _ (-1) 6617646163220034 (by norm_num) (by norm_num) (by norm_num [abs_lt]) (by norm_num)
    unfold chi_term_binary64
    rw [c1, c2, c3, c4, c5, c6, c7]
  · have c1 : binary64 ((0.063 : ℚ)) = (1134907106097365 / 18014398509481984) :=
      binary64_cert _ _ (-4) 4539628424389460 (by norm_num) (by norm_num) (by norm_num [abs_lt]) (by norm_num)
    have c2 : binary64 ((1134907106097365 / 18014398509481984) * (3602879701896397 / 9007199254740992)) = (226981421219473 / 9007199254740992) :=
      binary64_cert _ _ (-6) 7263405479023136 (by norm_num) (by norm_num) (by norm_num [abs_lt]) (by norm_num)
    have c3 : binary64 (2 - (226981421219473 / 9007199254740992)) = (1111713568016407 / 562949953421312) :=
      binary64_cert_tie _ _ (0) 8893708544131256 (by norm_num) (by norm_num) (by decide) (Or.inr (by norm_num)) (by norm_num)
    have c4 : binary64 ((1111713568016407 / 562949953421312) * (1111713568016407 / 562949953421312)) = (8781647816475203 / 2251799813685248) :=
      binary64_cert _ _ (1) 8781647816475203 (by norm_num) (by norm_num) (by norm_num [abs_lt]) (by norm_num)
    have c5 : binary64 (1 / 1000000) = (4722366482869645 / 4722366482869645213696) :=
      binary64_cert _ _ (-20) 4722366482869645 (by norm_num) (by norm_num) (by norm_num [abs_lt]) (by norm_num)
    have c6 : binary64 ((226981421219473 / 9007199254740992) + (4722366482869645 / 4722366482869645213696)) = (907961713674911 / 36028797018963968) :=
      binary64_cert _ _ (-6) 7263693709399288 (by norm_num) (by norm_num) (by norm_num [abs_lt]) (by norm_num)
    have c7 : binary64 ((8781647816475203 / 2251799813685248) / (907961713674911 / 36028797018963968)) = (5444754062633429 / 35184372088832) :=
      binary64_cert _ _ (7) 5444754062633429 (by norm_num) (by norm_num) (by norm_num [abs_lt]) (by norm_num)
    unfold chi_term_binary64
    rw [c1, c2, c3, c4, c5, c6, c7]
  · have c1 : binary64 ((0.417 : ℚ)) = (7512004178453987 / 18014398509481984) :=
      binary64_cert _ _ (-2) 7512004178453987 (by norm_num) (by norm_num) (by norm_num [abs_lt]) (by norm_num)
    have c2 : binary64 ((7512004178453987 / 18014398509481984) * (3602879701896397 / 9007199254740992)) = (3004801671381595 / 18014398509481984) :=
      binary64_cert _ _ (-3) 6009603342763190 (by norm_num) (by norm_num) (by norm_num [abs_lt]) (by norm_num)
    have c3 : binary64 (2 - (3004801671381595 / 18014398509481984)) = (8255998836895593 / 4503599627370496) :=
      binary64_cert _ _ (0) 8255998836895593 (by norm_num) (by norm_num) (by norm_num [abs_lt]) (by norm_num)
    have c4 : binary64 ((8255998836895593 / 4503599627370496) * (8255998836895593 / 4503599627370496)) = (1891862133474625 / 562949953421312) :=
      binary64_cert _ _ (1) 7567448533898500 (by norm_num) (by norm_num) (by norm_num [abs_lt]) (by norm_num)
    have c5 : binary64 (1 / 1000000) = (4722366482869645 / 4722366482869645213696) :=
      binary64_cert _ _ (-20) 4722366482869645 (by norm_num) (by norm_num) (by norm_num [abs_lt]) (by norm_num)
    have c6 : binary64 ((3004801671381595 / 18014398509481984) + (4722366482869645 / 4722366482869645213696)) = (6009639371560209 / 36028797018963968) :=
      binary64_cert _ _ (-3) 6009639371560209 (by norm_num) (by norm_num) (by norm_num [abs_lt]) (by norm_num)
    have c7 : binary64 ((1891862133474625 / 562949953421312) / (6009639371560209 / 36028797018963968)) = (5671015561880999 / 281474976710656) :=
      binary64_cert _ _ (4) 5671015561880999 (by norm_num) (by norm_num) (by norm_num [abs_lt]) (by norm_num)
    unfold chi_term_binary64
    rw [c1, c2, c3, c4, c5, c6, c7]
  · have c1 : binary64 ((0.230 : ℚ)) = (8286623314361713 / 36028797018963968) :=
      binary64_cert _ _ (-3) 8286623314361713 (by norm_num) (by norm_num) (by norm_num [abs_lt]) (by norm_num)
    have c2 : binary64 ((8286623314361713 / 36028797018963968) * (3602879701896397 / 9007199254740992)) = (6629298651489371 / 72057594037927936) :=
      binary64_cert _ _ (-4) 6629298651489371 (by norm_num) (by norm_num) (by norm_num [abs_lt]) (by norm_num)
    have c3 : binary64 (1 - (6629298651489371 / 72057594037927936)) = (8178536923304821 / 9007199254740992) :=
      binary64_cert _ _ (-1) 8178536923304821 (by norm_num) (by norm_num) (by norm_num [abs_lt]) (by norm_num)
    have c4 : binary64 ((8178536923304821 / 9007199254740992) * (8178536923304821 / 9007199254740992)) = (3713055763180389 / 4503599627370496) :=
      binary64_cert _ _ (-1) 7426111526360778 (by norm_num) (by norm_num) (by norm_num [abs_lt]) (by norm_num)
    have c5 : binary64 (1 / 1000000) = (4722366482869645 / 4722366482869645213696) :=
      binary64_cert _ _ (-20) 4722366482869645 (by norm_num) (by norm_num) (by norm_num [abs_lt]) (by norm_num)
    have c6 : binary64 ((6629298651489371 / 72057594037927936) + (4722366482869645 / 4722366482869645213696)) = (6629370709083409 / 72057594037927936) :=
      binary64_cert _ _ (-4) 6629370709083409 (by norm_num) (by norm_num) (by norm_num [abs_lt]) (by norm_num)
    have c7 : binary64 ((3713055763180389 / 4503599627370496) / (6629370709083409 / 72057594037927936)) = (5044857886300677 / 562949953421312) :=
      binary64_cert _ _ (3) 5044857886300677 (by norm_num) (by norm_num) (by norm_num [abs_lt]) (by norm_num)
    unfold chi_term_binary64
    rw [c1, c2, c3, c4, c5, c6, c7]
  · have c1 : binary64 ((0.121 : ℚ)) = (272467777455915 / 2251799813685248) :=
      binary64_cert _ _ (-4) 8718968878589280 (by norm_num) (by norm_num) (by norm_num [abs_lt]) (by norm_num)
    have c2 : binary64 ((272467777455915 / 2251799813685248) * (3602879701896397 / 9007199254740992)) = (54493555491183 / 1125899906842624) :=
      binary64_cert _ _ (-5) 6975175102871424 (by norm_num) (by norm_num) (by norm_num [abs_lt]) (by norm_num)
    have c3 : binary64 (2 - (54493555491183 / 1125899906842624)) = (2197306258194065 / 1125899906842624) :=
      binary64_cert _ _ (0) 8789225032776260 (by norm_num) (by norm_num) (by norm_num [abs_lt]) (by norm_num)
    have c4 : binary64 ((2197306258194065 / 1125899906842624) * (2197306258194065 / 1125899906842624)) = (8576525786983075 / 2251799813685248) :=
      binary64_cert _ _ (1) 8576525786983075 (by norm_num) (by norm_num) (by norm_num [abs_lt]) (by norm_num)
    have c5 : binary64 (1 / 1000000) = (4722366482869645 / 4722366482869645213696) :=
      binary64_cert _ _ (-20) 4722366482869645 (by norm_num) (by norm_num) (by norm_num [abs_lt]) (by norm_num)
    have c6 : binary64 ((54493555491183 / 1125899906842624) + (4722366482869645 / 4722366482869645213696)) = (1743829804514875 / 36028797018963968) :=
      binary64_cert _ _ (-5) 6975319218059500 (by norm_num) (by norm_num) (by norm_num [abs_lt]) (by norm_num)
    have c7 : binary64 ((8576525786983075 / 2251799813685248) / (1743829804514875 / 36028797018963968)) = (692176894184059 / 8796093022208) :=
      binary64_cert _ _ (6) 5537415153472472 (by norm_num) (by norm_num) (by norm_num [abs_lt]) (by norm_num)
    unfold chi_term_binary64
    rw [c1, c2, c3, c4, c5, c6, c7]
  · have c1 : binary64 ((0.057 : ℚ)) = (8214565720323785 / 144115188075855872) :=
      binary64_cert _ _ (-5) 8214565720323785 (by norm_num) (by norm_num) (by norm_num [abs_lt]) (by norm_num)
    have c2 : binary64 ((8214565720323785 / 144115188075855872) * (3602879701896397 / 9007199254740992)) = (1642913144064757 / 72057594037927936) :=
      binary64_cert _ _ (-6) 6571652576259028 (by norm_num) (by norm_num) (by norm_num [abs_lt]) (by norm_num)
    have c3 : binary64 (0 - (1642913144064757 / 72057594037927936)) = (-(1642913144064757 / 72057594037927936)) :=
      binary64_cert_neg _ _ (-6) 6571652576259028 (by norm_num) (by norm_num) (by norm_num [abs_lt]) (by norm_num)
    have c4 : binary64 ((-(1642913144064757 / 72057594037927936)) * (-(1642913144064757 / 72057594037927936))) = (4794677719638587 / 9223372036854775808) :=
      binary64_cert _ _ (-11) 4794677719638587 (by norm_num) (by norm_num) (by norm_num [abs_lt]) (by norm_num)
    have c5 : binary64 (1 / 1000000) = (4722366482869645 / 4722366482869645213696) :=
      binary64_cert _ _ (-20) 4722366482869645 (by norm_num) (by norm_num) (by norm_num [abs_lt]) (by norm_num)
    have c6 : binary64 ((1642913144064757 / 72057594037927936) + (4722366482869645 / 4722366482869645213696)) = (1642985201658795 / 72057594037927936) :=
      binary64_cert _ _ (-6) 6571940806635180 (by norm_num) (by norm_num) (by norm_num [abs_lt]) (by norm_num)
    have c7 : binary64 ((4794677719638587 / 9223372036854775808) / (1642985201658795 / 72057594037927936)) = (6571364358524005 / 288230376151711744) :=
      binary64_cert _ _ (-6) 6571364358524005 (by norm_num) (by norm_num) (by norm_num [abs_lt]) (by norm_num)
    unfold chi_term_binary64
    rw [c1, c2, c3, c4, c5, c6, c7]
  · have c1 : binary64 ((0.536 : ℚ)) = (1206964700135293 / 2251799813685248) :=
      binary64_cert _ _ (-1) 4827858800541172 (by norm_num) (by norm_num) (by norm_num [abs_lt]) (by norm_num)
    have c2 : binary64 ((1206964700135293 / 2251799813685248) * (3602879701896397 / 9007199254740992)) = (1931143520216469 / 9007199254740992) :=
      binary64_cert _ _ (-3) 7724574080865876 (by norm_num) (by norm_num) (by norm_num [abs_lt]) (by norm_num)
    have c3 : binary64 (0 - (1931143520216469 / 9007199254740992)) = (-(1931143520216469 / 9007199254740992)) :=
      binary64_cert_neg _ _ (-3) 7724574080865876 (by norm_num) (by norm_num) (by norm_num [abs_lt]) (by norm_num)
    have c4 : binary64 ((-(1931143520216469 / 9007199254740992)) * (-(1931143520216469 / 9007199254740992))) = (414037170734411 / 9007199254740992) :=
      binary64_cert _ _ (-5) 6624594731750576 (by norm_num) (by norm_num) (by norm_num [abs_lt]) (by norm_num)
    have c5 : binary64 (1 / 1000000) = (4722366482869645 / 4722366482869645213696) :=
      binary64_cert _ _ (-20) 4722366482869645 (by norm_num) (by norm_num) (by norm_num [abs_lt]) (by norm_num)
    have c6 : binary64 ((1931143520216469 / 9007199254740992) + (4722366482869645 / 4722366482869645213696)) = (7724610109662895 / 36028797018963968) :=
      binary64_cert _ _ (-3) 7724610109662895 (by norm_num) (by norm_num) (by norm_num [abs_lt]) (by norm_num)
    have c7 : binary64 ((414037170734411 / 9007199254740992) / (7724610109662895 / 36028797018963968)) = (7724538052236901 / 36028797018963968) :=
      binary64_cert _ _ (-3) 7724538052236901 (by norm_num) (by norm_num) (by norm_num [abs_lt]) (by norm_num)
    unfold chi_term_binary64
    rw [c1, c2, c3, c4, c5, c6, c7]
  · have c1 : binary64 ((0.854 : ℚ)) = (7692148163548807 / 9007199254740992) :=
      binary64_cert _ _ (-1) 7692148163548807 (by norm_num) (by norm_num) (by norm_num [abs_lt]) (by norm_num)
    have c2 : binary64 ((7692148163548807 / 9007199254740992) * (3602879701896397 / 9007199254740992)) = (3076859265419523 / 9007199254740992) :=
      binary64_cert _ _ (-2) 6153718530839046 (by norm_num) (by norm_num) (by norm_num [abs_lt]) (by norm_num)
    have c3 : binary64 (0 - (3076859265419523 / 9007199254740992)) = (-(3076859265419523 / 9007199254740992)) :=
      binary64_cert_neg _ _ (-2) 6153718530839046 (by norm_num) (by norm_num) (by norm_num [abs_lt]) (by norm_num)
    have c4 : binary64 ((-(3076859265419523 / 9007199254740992)) * (-(3076859265419523 / 9007199254740992))) = (8408441000538473 / 72057594037927936) :=
      binary64_cert _ _ (-4) 8408441000538473 (by norm_num) (by norm_num) (by norm_num [abs_lt]) (by norm_num)
    have c5 : binary64 (1 / 1000000) = (4722366482869645 / 4722366482869645213696) :=
      binary64_cert _ _ (-20) 4722366482869645 (by norm_num) (by norm_num) (by norm_num [abs_lt]) (by norm_num)
    have c6 : binary64 ((3076859265419523 / 9007199254740992) + (4722366482869645 / 4722366482869645213696)) = (6153736545237555 / 18014398509481984) :=
      binary64_cert _ _ (-2) 6153736545237555 (by norm_num) (by norm_num) (by norm_num [abs_lt]) (by norm_num)
    have c7 : binary64 ((8408441000538473 / 72057594037927936) / (6153736545237555 / 18014398509481984)) = (769212564561659 / 2251799813685248) :=
      binary64_cert _ _ (-2) 6153700516493272 (by norm_num) (by norm_num) (by norm_num [abs_lt]) (by norm_num)
    unfold chi_term_binary64
    rw [c1, c2, c3, c4, c5, c6, c7]
  · have c1 : binary64 ((0.165 : ℚ)) = (5944751508129055 / 36028797018963968) :=
      binary64_cert _ _ (-3) 5944751508129055 (by norm_num) (by norm_num) (by norm_num [abs_lt]) (by norm_num)
    have c2 : binary64 ((5944751508129055 / 36028797018963968) * (3602879701896397 / 9007199254740992)) = (1188950301625811 / 18014398509481984) :=
      binary64_cert _ _ (-4) 4755801206503244 (by norm_num) (by norm_num) (by norm_num [abs_lt]) (by norm_num)
    have c3 : binary64 (0 - (1188950301625811 / 18014398509481984)) = (-(1188950301625811 / 18014398509481984)) :=
      binary64_cert_neg _ _ (-4) 4755801206503244 (by norm_num) (by norm_num) (by norm_num [abs_lt]) (by norm_num)
    have c4 : binary64 ((-(1188950301625811 / 18014398509481984)) * (-(1188950301625811 / 18014398509481984))) = (2511063037033713 / 576460752303423488) :=
      binary64_cert _ _ (-8) 5022126074067426 (by norm_num) (by norm_num) (by norm_num [abs_lt]) (by norm_num)
    have c5 : binary64 (1 / 1000000) = (4722366482869645 / 4722366482869645213696) :=
      binary64_cert _ _ (-20) 4722366482869645 (by norm_num) (by norm_num) (by norm_num [abs_lt]) (by norm_num)
    have c6 : binary64 ((1188950301625811 / 18014398509481984) + (4722366482869645 / 4722366482869645213696)) = (2377936632048641 / 36028797018963968) :=
      binary64_cert _ _ (-4) 4755873264097282 (by norm_num) (by norm_num) (by norm_num [abs_lt]) (by norm_num)
    have c7 : binary64 ((2511063037033713 / 576460752303423488) / (2377936632048641 / 36028797018963968)) = (4755729150000971 / 72057594037927936) :=
      binary64_cert _ _ (-4) 4755729150000971 (by norm_num) (by norm_num) (by norm_num [abs_lt]) (by norm_num)
    unfold chi_term_binary64
    rw [c1, c2, c3, c4, c5, c6, c7]

/-- The French chi-squared terms of the bins 30, 31, 32, 33, 34, 35, 36, 37, 38, 39 of `tie_hist` in binary64 arithmetic, each
with the roundings of its table entry, expected count, difference, square, denominator
and quotient. -/
theorem tie_terms_fr_3 :
    (chi_term_binary64 0 (binary64 (binary64 (1.955 : ℚ) * (3602879701896397 / 9007199254740992))) = (7043620810019719 / 9007199254740992)) ∧
    (chi_term_binary64 0 (binary64 (binary64 (0.271 : ℚ) * (3602879701896397 / 9007199254740992))) = (7810971136782083 / 72057594037927936)) ∧
    (chi_term_binary64 0 (binary64 (binary64 (0.125 : ℚ) * (3602879701896397 / 9007199254740992))) = (7205615291486965 / 144115188075855872)) ∧
    (chi_term_binary64 0 (binary64 (binary64 (0.203 : ℚ) * (3602879701896397 / 9007199254740992))) = (5851004579173109 / 72057594037927936)) ∧
    (chi_term_binary64 0 (binary64 (binary64 (0.053 : ℚ) * (3602879701896397 / 9007199254740992))) = (1527548939408817 / 72057594037927936)) ∧
    (chi_term_binary64 0 (binary64 (binary64 (0.051 : ℚ) * (3602879701896397 / 9007199254740992))) = (5879611457247015 / 288230376151711744)) ∧
    (chi_term_binary64 0 (binary64 (binary64 (0.007 : ℚ) * (3602879701896397 / 9007199254740992))) = (6454055406010483 / 2305843009213693952)) ∧
    (chi_term_binary64 0 (binary64 (binary64 (0.063 : ℚ) * (3602879701896397 / 9007199254740992))) = (1815779315021061 / 72057594037927936)) ∧
    (chi_term_binary64 0 (binary64 (binary64 (0.080 : ℚ) * (3602879701896397 / 9007199254740992))) = (2305770953871385 / 72057594037927936)) ∧
    (chi_term_binary64 0 (binary64 (binary64 (0.060 : ℚ) * (3602879701896397 / 9007199254740992))) = (6917240809274029 / 288230376151711744)) := by
  refine ⟨?_, ?_, ?_, ?_, ?_, ?_, ?_, ?_, ?_, ?_⟩
  · have c1 : binary64 ((1.955 : ℚ)) = (1100567158938665 / 562949953421312) :=
      binary64_cert _ _ (0) 8804537271509320 (by norm_num) (by norm_num) (by norm_num [abs_lt]) (by norm_num)
    have c2 : binary64 ((1100567158938665 / 562949953421312) * (3602879701896397 / 9007199254740992)) = (220113431787733 / 281474976710656) :=
      binary64_cert _ _ (-1) 7043629817207456 (by norm_num) (by norm_num) (by norm_num [abs_lt]) (by norm_num)
    have c3 : binary64 (0 - (220113431787733 / 281474976710656)) = (-(220113431787733 / 281474976710656)) :=
      binary64_cert_neg _ _ (-1) 7043629817207456 (by norm_num) (by norm_num) (by norm_num [abs_lt]) (by norm_num)
    have c4 : binary64 ((-(220113431787733 / 281474976710656)) * (-(220113431787733 / 281474976710656))) = (5508118517056231 / 9007199254740992) :=
      binary64_cert _ _ (-1) 5508118517056231 (by norm_num) (by norm_num) (by norm_num [abs_lt]) (by norm_num)
    have c5 : binary64 (1 / 1000000) = (4722366482869645 / 4722366482869645213696) :=
      binary64_cert _ _ (-20) 4722366482869645 (by norm_num) (by norm_num) (by norm_num [abs_lt]) (by norm_num)
    have c6 : binary64 ((220113431787733 / 281474976710656) + (4722366482869645 / 4722366482869645213696)) = (7043638824406711 / 9007199254740992) :=
      binary64_cert _ _ (-1) 7043638824406711 (by norm_num) (by norm_num) (by norm_num [abs_lt]) (by norm_num)
    have c7 : binary64 ((5508118517056231 / 9007199254740992) / (7043638824406711 / 9007199254740992)) = (7043620810019719 / 9007199254740992) :=
      binary64_cert _ _ (-1) 7043620810019719 (by norm_num) (by norm_num) (by norm_num [abs_lt]) (by norm_num)
    unfold chi_term_binary64
    rw [c1, c2, c3, c4, c5, c6, c7]
  · have c1 : binary64 ((0.271 : ℚ)) = (2440950998034809 / 9007199254740992) :=
      binary64_cert _ _ (-2) 4881901996069618 (by norm_num) (by norm_num) (by norm_num [abs_lt]) (by norm_num)
    have c2 : binary64 ((2440950998034809 / 9007199254740992) * (3602879701896397 / 9007199254740992)) = (7811043193711389 / 72057594037927936) :=
      binary64_cert _ _ (-4) 7811043193711389 (by norm_num) (by norm_num) (by norm_num [abs_lt]) (by norm_num)
    have c3 : binary64 (0 - (7811043193711389 / 72057594037927936)) = (-(7811043193711389 / 72057594037927936)) :=
      binary64_cert_neg _ _ (-4) 7811043193711389 (by norm_num) (by norm_num) (by norm_num [abs_lt]) (by norm_num)
    have c4 : binary64 ((-(7811043193711389 / 72057594037927936)) * (-(7811043193711389 / 72057594037927936))) = (6773736657586517 / 576460752303423488) :=
      binary64_cert _ _ (-7) 6773736657586517 (by norm_num) (by norm_num) (by norm_num [abs_lt]) (by norm_num)
    have c5 : binary64 (1 / 1000000) = (4722366482869645 / 4722366482869645213696) :=
      binary64_cert _ _ (-20) 4722366482869645 (by norm_num) (by norm_num) (by norm_num [abs_lt]) (by norm_num)
    have c6 : binary64 ((7811043193711389 / 72057594037927936) + (4722366482869645 / 4722366482869645213696)) = (7811115251305427 / 72057594037927936) :=
      binary64_cert _ _ (-4) 7811115251305427 (by norm_num) (by norm_num) (by norm_num [abs_lt]) (by norm_num)
    have c7 : binary64 ((6773736657586517 / 576460752303423488) / (7811115251305427 / 72057594037927936)) = (7810971136782083 / 72057594037927936) :=
      binary64_cert _ _ (-4) 7810971136782083 (by norm_num) (by norm_num) (by norm_num [abs_lt]) (by norm_num)
    unfold chi_term_binary64
    rw [c1, c2, c3, c4, c5, c6, c7]
  · have c1 : binary64 ((0.125 : ℚ)) = (1 / 8) :=
      binary64_cert _ _ (-3) 4503599627370496 (by norm_num) (by norm_num) (by norm_num [abs_lt]) (by norm_num)
    have c2 : binary64 ((1 / 8) * (3602879701896397 / 9007199254740992)) = (3602879701896397 / 72057594037927936) :=
      binary64_cert _ _ (-5) 7205759403792794 (by norm_num) (by norm_num) (by norm_num [abs_lt]) (by norm_num)
    have c3 : binary64 (0 - (3602879701896397 / 72057594037927936)) = (-(3602879701896397 / 72057594037927936)) :=
      binary64_cert_neg _ _ (-5) 7205759403792794 (by norm_num) (by norm_num) (by norm_num [abs_lt]) (by norm_num)
    have c4 : binary64 ((-(3602879701896397 / 72057594037927936)) * (-(3602879701896397 / 72057594037927936))) = (1441151880758559 / 576460752303423488) :=
      binary64_cert _ _ (-9) 5764607523034236 (by norm_num) (by norm_num) (by norm_num [abs_lt]) (by norm_num)
    have c5 : binary64 (1 / 1000000) = (4722366482869645 / 4722366482869645213696) :=
      binary64_cert _ _ (-20) 4722366482869645 (by norm_num) (by norm_num) (by norm_num [abs_lt]) (by norm_num)
    have c6 : binary64 ((3602879701896397 / 72057594037927936) + (4722366482869645 / 4722366482869645213696)) = (3602951759490435 / 72057594037927936) :=
      binary64_cert _ _ (-5) 7205903518980870 (by norm_num) (by norm_num) (by norm_num [abs_lt]) (by norm_num)
    have c7 : binary64 ((1441151880758559 / 576460752303423488) / (3602951759490435 / 72057594037927936)) = (7205615291486965 / 144115188075855872) :=
      binary64_cert _ _ (-5) 7205615291486965 (by norm_num) (by norm_num) (by norm_num [abs_lt]) (by norm_num)
    unfold chi_term_binary64
    rw [c1, c2, c3, c4, c5, c6, c7]
  · have c1 : binary64 ((0.203 : ℚ)) = (3656922897424843 / 18014398509481984) :=
      binary64_cert _ _ (-3) 7313845794849686 (by norm_num) (by norm_num) (by norm_num [abs_lt]) (by norm_num)
    have c2 : binary64 ((3656922897424843 / 18014398509481984) * (3602879701896397 / 9007199254740992)) = (5851076635879749 / 72057594037927936) :=
      binary64_cert _ _ (-4) 5851076635879749 (by norm_num) (by norm_num) (by norm_num [abs_lt]) (by norm_num)
    have c3 : binary64 (0 - (5851076635879749 / 72057594037927936)) = (-(5851076635879749 / 72057594037927936)) :=
      binary64_cert_neg _ _ (-4) 5851076635879749 (by norm_num) (by norm_num) (by norm_num [abs_lt]) (by norm_num)
    have c4 : binary64 ((-(5851076635879749 / 72057594037927936)) * (-(5851076635879749 / 72057594037927936))) = (7601718765334971 / 1152921504606846976) :=
      binary64_cert _ _ (-8) 7601718765334971 (by norm_num) (by norm_num) (by norm_num [abs_lt]) (by norm_num)
    have c5 : binary64 (1 / 1000000) = (4722366482869645 / 4722366482869645213696) :=
      binary64_cert _ _ (-20) 4722366482869645 (by norm_num) (by norm_num) (by norm_num [abs_lt]) (by norm_num)
    have c6 : binary64 ((5851076635879749 / 72057594037927936) + (4722366482869645 / 4722366482869645213696)) = (5851148693473787 / 72057594037927936) :=
      binary64_cert _ _ (-4) 5851148693473787 (by norm_num) (by norm_num) (by norm_num [abs_lt]) (by norm_num)
    have c7 : binary64 ((7601718765334971 / 1152921504606846976) / (5851148693473787 / 72057594037927936)) = (5851004579173109 / 72057594037927936) :=
      binary64_cert _ _ (-4) 5851004579173109 (by norm_num) (by norm_num) (by norm_num [abs_lt]) (by norm_num)
    unfold chi_term_binary64
    rw [c1, c2, c3, c4, c5, c6, c7]
  · have c1 : binary64 ((0.053 : ℚ)) = (7638104968020361 / 144115188075855872) :=
      binary64_cert _ _ (-5) 7638104968020361 (by norm_num) (by norm_num) (by norm_num [abs_lt]) (by norm_num)
    have c2 : binary64 ((7638104968020361 / 144115188075855872) * (3602879701896397 / 9007199254740992)) = (6110483974416289 / 288230376151711744) :=
      binary64_cert _ _ (-6) 6110483974416289 (by norm_num) (by norm_num) (by norm_num [abs_lt]) (by norm_num)
    have c3 : binary64 (0 - (6110483974416289 / 288230376151711744)) = (-(6110483974416289 / 288230376151711744)) :=
      binary64_cert_neg _ _ (-6) 6110483974416289 (by norm_num) (by norm_num) (by norm_num [abs_lt]) (by norm_num)
    have c4 : binary64 ((-(6110483974416289 / 288230376151711744)) * (-(6110483974416289 / 288230376151711744))) = (8290704656488021 / 18446744073709551616) :=
      binary64_cert _ _ (-12) 8290704656488021 (by norm_num) (by norm_num) (by norm_num [abs_lt]) (by norm_num)
    have c5 : binary64 (1 / 1000000) = (4722366482869645 / 4722366482869645213696) :=
      binary64_cert _ _ (-20) 4722366482869645 (by norm_num) (by norm_num) (by norm_num [abs_lt]) (by norm_num)
    have c6 : binary64 ((6110483974416289 / 288230376151711744) + (4722366482869645 / 4722366482869645213696)) = (6110772204792441 / 288230376151711744) :=
      binary64_cert _ _ (-6) 6110772204792441 (by norm_num) (by norm_num) (by norm_num [abs_lt]) (by norm_num)
    have c7 : binary64 ((8290704656488021 / 18446744073709551616) / (6110772204792441 / 288230376151711744)) = (1527548939408817 / 72057594037927936) :=
      binary64_cert _ _ (-6) 6110195757635268 (by norm_num) (by norm_num) (by norm_num [abs_lt]) (by norm_num)
    unfold chi_term_binary64
    rw [c1, c2, c3, c4, c5, c6, c7]
  · have c1 : binary64 ((0.051 : ℚ)) = (7349874591868649 / 144115188075855872) :=
      binary64_cert _ _ (-5) 7349874591868649 (by norm_num) (by norm_num) (by norm_num [abs_lt]) (by norm_num)
    have c2 : binary64 ((7349874591868649 / 144115188075855872) * (3602879701896397 / 9007199254740992)) = (734987459186865 / 36028797018963968) :=
      binary64_cert _ _ (-6) 5879899673494920 (by norm_num) (by norm_num) (by norm_num [abs_lt]) (by norm_num)
    have c3 : binary64 (0 - (734987459186865 / 36028797018963968)) = (-(734987459186865 / 36028797018963968)) :=
      binary64_cert_neg _ _ (-6) 5879899673494920 (by norm_num) (by norm_num) (by norm_num [abs_lt]) (by norm_num)
    have c4 : binary64 ((-(734987459186865 / 36028797018963968)) * (-(734987459186865 / 36028797018963968))) = (959599626714371 / 2305843009213693952) :=
      binary64_cert _ _ (-12) 7676797013714968 (by norm_num) (by norm_num) (by norm_num [abs_lt]) (by norm_num)
    have c5 : binary64 (1 / 1000000) = (4722366482869645 / 4722366482869645213696) :=
      binary64_cert _ _ (-20) 4722366482869645 (by norm_num) (by norm_num) (by norm_num [abs_lt]) (by norm_num)
    have c6 : binary64 ((734987459186865 / 36028797018963968) + (4722366482869645 / 4722366482869645213696)) = (183755871995971 / 9007199254740992) :=
      binary64_cert _ _ (-6) 5880187903871072 (by norm_num) (by norm_num) (by norm_num [abs_lt]) (by norm_num)
    have c7 : binary64 ((959599626714371 / 2305843009213693952) / (183755871995971 / 9007199254740992)) = (5879611457247015 / 288230376151711744) :=
      binary64_cert _ _ (-6) 5879611457247015 (by norm_num) (by norm_num) (by norm_num [abs_lt]) (by norm_num)
    unfold chi_term_binary64
    rw [c1, c2, c3, c4, c5, c6, c7]
  · have c1 : binary64 ((0.007 : ℚ)) = (8070450532247929 / 1152921504606846976) :=
      binary64_cert _ _ (-8) 8070450532247929 (by norm_num) (by norm_num) (by norm_num [abs_lt]) (by norm_num)
    have c2 : binary64 ((8070450532247929 / 1152921504606846976) * (3602879701896397 / 9007199254740992)) = (807045053224793 / 288230376151711744) :=
      binary64_cert _ _ (-9) 6456360425798344 (by norm_num) (by norm_num) (by norm_num [abs_lt]) (by norm_num)
    have c3 : binary64 (0 - (807045053224793 / 288230376151711744)) = (-(807045053224793 / 288230376151711744)) :=
      binary64_cert_neg _ _ (-9) 6456360425798344 (by norm_num) (by norm_num) (by norm_num [abs_lt]) (by norm_num)
    have c4 : binary64 ((-(807045053224793 / 288230376151711744)) * (-(807045053224793 / 288230376151711744))) = (2313959576606127 / 295147905179352825856) :=
      binary64_cert _ _ (-17) 4627919153212254 (by norm_num) (by norm_num) (by norm_num [abs_lt]) (by norm_num)
    have c5 : binary64 (1 / 1000000) = (4722366482869645 / 4722366482869645213696) :=
      binary64_cert _ _ (-20) 4722366482869645 (by norm_num) (by norm_num) (by norm_num [abs_lt]) (by norm_num)
    have c6 : binary64 ((807045053224793 / 288230376151711744) + (4722366482869645 / 4722366482869645213696)) = (3229333134403779 / 1152921504606846976) :=
      binary64_cert _ _ (-9) 6458666268807558 (by norm_num) (by norm_num) (by norm_num [abs_lt]) (by norm_num)
    have c7 : binary64 ((2313959576606127 / 295147905179352825856) / (3229333134403779 / 1152921504606846976)) = (6454055406010483 / 2305843009213693952) :=
      binary64_cert _ _ (-9) 6454055406010483 (by norm_num) (by norm_num) (by norm_num [abs_lt]) (by norm_num)
    unfold chi_term_binary64
    rw [c1, c2, c3, c4, c5, c6, c7]
  · have c1 : binary64 ((0.063 : ℚ)) = (1134907106097365 / 18014398509481984) :=
      binary64_cert _ _ (-4) 4539628424389460 (by norm_num) (by norm_num) (by norm_num [abs_lt]) (by norm_num)
    have c2 : binary64 ((1134907106097365 / 18014398509481984) * (3602879701896397 / 9007199254740992)) = (226981421219473 / 9007199254740992) :=
      binary64_cert _ _ (-6) 7263405479023136 (by norm_num) (by norm_num) (by norm_num [abs_lt]) (by norm_num)
    have c3 : binary64 (0 - (226981421219473 / 9007199254740992)) = (-(226981421219473 / 9007199254740992)) :=
      binary64_cert_neg _ _ (-6) 7263405479023136 (by norm_num) (by norm_num) (by norm_num [abs_lt]) (by norm_num)
    have c4 : binary64 ((-(226981421219473 / 9007199254740992)) * (-(226981421219473 / 9007199254740992))) = (5857210178284257 / 9223372036854775808) :=
      binary64_cert _ _ (-11) 5857210178284257 (by norm_num) (by norm_num) (by norm_num [abs_lt]) (by norm_num)
    have c5 : binary64 (1 / 1000000) = (4722366482869645 / 4722366482869645213696) :=
      binary64_cert _ _ (-20) 4722366482869645 (by norm_num) (by norm_num) (by norm_num [abs_lt]) (by norm_num)
    have c6 : binary64 ((226981421219473 / 9007199254740992) + (4722366482869645 / 4722366482869645213696)) = (907961713674911 / 36028797018963968) :=
      binary64_cert _ _ (-6) 7263693709399288 (by norm_num) (by norm_num) (by norm_num [abs_lt]) (by norm_num)
    have c7 : binary64 ((5857210178284257 / 9223372036854775808) / (907961713674911 / 36028797018963968)) = (1815779315021061 / 72057594037927936) :=
      binary64_cert _ _ (-6) 7263117260084244 (by norm_num) (by norm_num) (by norm_num [abs_lt]) (by norm_num)
    unfold chi_term_binary64
    rw [c1, c2, c3, c4, c5, c6, c7]
  · have c1 : binary64 ((0.080 : ℚ)) = (5764607523034235 / 72057594037927936) :=
      binary64_cert _ _ (-4) 5764607523034235 (by norm_num) (by norm_num) (by norm_num [abs_lt]) (by norm_num)
    have c2 : binary64 ((5764607523034235 / 72057594037927936) * (3602879701896397 / 9007199254740992)) = (1152921504606847 / 36028797018963968) :=
      binary64_cert _ _ (-5) 4611686018427388 (by norm_num) (by norm_num) (by norm_num [abs_lt]) (by norm_num)
    have c3 : binary64 (0 - (1152921504606847 / 36028797018963968)) = (-(1152921504606847 / 36028797018963968)) :=
      binary64_cert_neg _ _ (-5) 4611686018427388 (by norm_num) (by norm_num) (by norm_num [abs_lt]) (by norm_num)
    have c4 : binary64 ((-(1152921504606847 / 36028797018963968)) * (-(1152921504606847 / 36028797018963968))) = (4722366482869645 / 4611686018427387904) :=
      binary64_cert _ _ (-10) 4722366482869645 (by norm_num) (by norm_num) (by norm_num [abs_lt]) (by norm_num)
    have c5 : binary64 (1 / 1000000) = (4722366482869645 / 4722366482869645213696) :=
      binary64_cert _ _ (-20) 4722366482869645 (by norm_num) (by norm_num) (by norm_num [abs_lt]) (by norm_num)
    have c6 : binary64 ((1152921504606847 / 36028797018963968) + (4722366482869645 / 4722366482869645213696)) = (576478766701933 / 18014398509481984) :=
      binary64_cert _ _ (-5) 4611830133615464 (by norm_num) (by norm_num) (by norm_num [abs_lt]) (by norm_num)
    have c7 : binary64 ((4722366482869645 / 4611686018427387904) / (576478766701933 / 18014398509481984)) = (2305770953871385 / 72057594037927936) :=
      binary64_cert _ _ (-5) 4611541907742770 (by norm_num) (by norm_num) (by norm_num [abs_lt]) (by norm_num)
    unfold chi_term_binary64
    rw [c1, c2, c3, c4, c5, c6, c7]
  · have c1 : binary64 ((0.060 : ℚ)) = (1080863910568919 / 18014398509481984) :=
      binary64_cert _ _ (-5) 8646911284551352 (by norm_num) (by norm_num) (by norm_num [abs_lt]) (by norm_num)
    have c2 : binary64 ((1080863910568919 / 18014398509481984) * (3602879701896397 / 9007199254740992)) = (3458764513820541 / 144115188075855872) :=
      binary64_cert _ _ (-6) 6917529027641082 (by norm_num) (by norm_num) (by norm_num [abs_lt]) (by norm_num)
    have c3 : binary64 (0 - (3458764513820541 / 144115188075855872)) = (-(3458764513820541 / 144115188075855872)) :=
      binary64_cert_neg _ _ (-6) 6917529027641082 (by norm_num) (by norm_num) (by norm_num [abs_lt]) (by norm_num)
    have c4 : binary64 ((-(3458764513820541 / 144115188075855872)) * (-(3458764513820541 / 144115188075855872))) = (5312662293228351 / 9223372036854775808) :=
      binary64_cert _ _ (-11) 5312662293228351 (by norm_num) (by norm_num) (by norm_num [abs_lt]) (by norm_num)
    have c5 : binary64 (1 / 1000000) = (4722366482869645 / 4722366482869645213696) :=
      binary64_cert _ _ (-20) 4722366482869645 (by norm_num) (by norm_num) (by norm_num [abs_lt]) (by norm_num)
    have c6 : binary64 ((3458764513820541 / 144115188075855872) + (4722366482869645 / 4722366482869645213696)) = (3458908629008617 / 144115188075855872) :=
      binary64_cert _ _ (-6) 6917817258017234 (by norm_num) (by norm_num) (by norm_num [abs_lt]) (by norm_num)
    have c7 : binary64 ((5312662293228351 / 9223372036854775808) / (3458908629008617 / 144115188075855872)) = (6917240809274029 / 288230376151711744) :=
      binary64_cert _ _ (-6) 6917240809274029 (by norm_num) (by norm_num) (by norm_num [abs_lt]) (by norm_num)
    unfold chi_term_binary64
    rw [c1, c2, c3, c4, c5, c6, c7]

/-- The running French monograph sum over the bins 0 to 19 of `tie_hist`, each addition
rounded to binary64. -/
theorem tie_sums_fr_0 :
    (binary64 (0 + (6556989785456019 / 18014398509481984)) = (6556989785456019 / 18014398509481984)) ∧
    (binary64 ((6556989785456019 / 18014398509481984) + (5441642968714767 / 281474976710656)) = (5544095934112517 / 281474976710656)) ∧
    (binary64 ((5544095934112517 / 281474976710656) + (2553400883361727 / 36028797018963968)) = (1391011094628445 / 70368744177664)) ∧
    (binary64 ((1391011094628445 / 70368744177664) + (335483206150939 / 2251799813685248)) = (5605979779282647 / 281474976710656)) ∧
    (binary64 ((5605979779282647 / 281474976710656) + (570816331250503 / 140737488355328)) = (6747612441783653 / 281474976710656)) ∧
    (binary64 ((6747612441783653 / 281474976710656) + (6538381581155121 / 1125899906842624)) = (8382207837072433 / 281474976710656)) ∧
    (binary64 ((8382207837072433 / 281474976710656) + (5553985281426147 / 4503599627370496)) = (8729331917161567 / 281474976710656)) ∧
    (binary64 ((8729331917161567 / 281474976710656) + (5310626666257887 / 18014398509481984)) = (4406155229410923 / 140737488355328)) ∧
    (binary64 ((4406155229410923 / 140737488355328) + (382577999467007 / 1125899906842624)) = (4453977479344299 / 140737488355328)) ∧
    (binary64 ((4453977479344299 / 140737488355328) + (4996496203346689 / 140737488355328)) = (2362618420672747 / 35184372088832)) ∧
    (binary64 ((2362618420672747 / 35184372088832) + (3450707732394411 / 70368744177664)) = (8175944573739905 / 70368744177664)) ∧
    (binary64 ((8175944573739905 / 70368744177664) + (5517813017945725 / 18014398509481984)) = (8197498530841255 / 70368744177664)) ∧
    (binary64 ((8197498530841255 / 70368744177664) + (157851026201973 / 140737488355328)) = (4138212021971121 / 35184372088832)) ∧
    (binary64 ((4138212021971121 / 35184372088832) + (2142690709150295 / 4503599627370496)) = (8309903586272715 / 70368744177664)) ∧
    (binary64 ((8309903586272715 / 70368744177664) + (5548943987430731 / 9007199254740992)) = (4176627355587259 / 35184372088832)) ∧
    (binary64 ((4176627355587259 / 35184372088832) + (5179574762549643 / 144115188075855872)) = (2088945950103511 / 17592186044416)) ∧
    (binary64 ((2088945950103511 / 17592186044416) + (1712877818015281 / 4503599627370496)) = (8382547516320533 / 70368744177664)) ∧
    (binary64 ((8382547516320533 / 70368744177664) + (770662787027495 / 4503599627370496)) = (4197294561183919 / 35184372088832)) ∧
    (binary64 ((4197294561183919 / 35184372088832) + (8727995527966415 / 18014398509481984)) = (8428682854898957 / 70368744177664)) ∧
    (binary64 ((8428682854898957 / 70368744177664) + (5596680760028633 / 4503599627370496)) = (2129032747943601 / 17592186044416)) := by
  refine ⟨?_, ?_, ?_, ?_, ?_, ?_, ?_, ?_, ?_, ?_, ?_, ?_, ?_, ?_, ?_, ?_, ?_, ?_, ?_, ?_⟩
  · exact binary64_cert _ _ (-2) 6556989785456019 (by norm_num) (by norm_num) (by norm_num [abs_lt]) (by norm_num)
  · exact binary64_cert _ _ (4) 5544095934112517 (by norm_num) (by norm_num) (by norm_num [abs_lt]) (by norm_num)
  · exact binary64_cert _ _ (4) 5564044378513780 (by norm_num) (by norm_num) (by norm_num [abs_lt]) (by norm_num)
  · exact binary64_cert _ _ (4) 5605979779282647 (by norm_num) (by norm_num) (by norm_num [abs_lt]) (by norm_num)
  · exact binary64_cert _ _ (4) 6747612441783653 (by norm_num) (by norm_num) (by norm_num [abs_lt]) (by norm_num)
  · exact binary64_cert _ _ (4) 8382207837072433 (by norm_num) (by norm_num) (by norm_num [abs_lt]) (by norm_num)
  · exact binary64_cert _ _ (4) 8729331917161567 (by norm_num) (by norm_num) (by norm_num [abs_lt]) (by norm_num)
  · exact binary64_cert _ _ (4) 8812310458821846 (by norm_num) (by norm_num) (by norm_num [abs_lt]) (by norm_num)
  · exact binary64_cert _ _ (4) 8907954958688598 (by norm_num) (by norm_num) (by norm_num [abs_lt]) (by norm_num)
  · exact binary64_cert _ _ (6) 4725236841345494 (by norm_num) (by norm_num) (by norm_num [abs_lt]) (by norm_num)
  · exact binary64_cert _ _ (6) 8175944573739905 (by norm_num) (by norm_num) (by norm_num [abs_lt]) (by norm_num)
  · exact binary64_cert _ _ (6) 8197498530841255 (by norm_num) (by norm_num) (by norm_num [abs_lt]) (by norm_num)
  · exact binary64_cert_tie _ _ (6) 8276424043942242 (by norm_num) (by norm_num) (by decide) (Or.inr (by norm_num)) (by norm_num)
  · exact binary64_cert _ _ (6) 8309903586272715 (by norm_num) (by norm_num) (by norm_num [abs_lt]) (by norm_num)
  · exact binary64_cert _ _ (6) 8353254711174518 (by norm_num) (by norm_num) (by norm_num [abs_lt]) (by norm_num)
  · exact binary64_cert _ _ (6) 8355783800414044 (by norm_num) (by norm_num) (by norm_num [abs_lt]) (by norm_num)
  · exact binary64_cert _ _ (6) 8382547516320533 (by norm_num) (by norm_num) (by norm_num [abs_lt]) (by norm_num)
  · exact binary64_cert _ _ (6) 8394589122367838 (by norm_num) (by norm_num) (by norm_num [abs_lt]) (by norm_num)
  · exact binary64_cert _ _ (6) 8428682854898957 (by norm_num) (by norm_num) (by norm_num [abs_lt]) (by norm_num)
  · exact binary64_cert _ _ (6) 8516130991774404 (by norm_num) (by norm_num) (by norm_num [abs_lt]) (by norm_num)

/-- The running French monograph sum over the bins 20 to 39 of `tie_hist`, each addition
rounded to binary64. -/
theorem tie_sums_fr_1 :
    (binary64 ((2129032747943601 / 17592186044416) + (1234886454875293 / 562949953421312)) = (1083811474829227 / 8796093022208)) ∧
    (binary64 ((1083811474829227 / 8796093022208) + (3308823081610017 / 4503599627370496)) = (8722192159283973 / 70368744177664)) ∧
    (binary64 ((8722192159283973 / 70368744177664) + (5444754062633429 / 35184372088832)) = (1225731267784427 / 4398046511104)) ∧
    (binary64 ((1225731267784427 / 4398046511104) + (5671015561880999 / 281474976710656)) = (2628681771877635 / 8796093022208)) ∧
    (binary64 ((2628681771877635 / 8796093022208) + (5044857886300677 / 562949953421312)) = (2707507676351083 / 8796093022208)) ∧
    (binary64 ((2707507676351083 / 8796093022208) + (692176894184059 / 8796093022208)) = (1699842285267571 / 4398046511104)) ∧
    (binary64 ((1699842285267571 / 4398046511104) + (6571364358524005 / 288230376151711744)) = (3399885112660341 / 8796093022208)) ∧
    (binary64 ((3399885112660341 / 8796093022208) + (7724538052236901 / 36028797018963968)) = (6803541972416501 / 17592186044416)) ∧
    (binary64 ((6803541972416501 / 17592186044416) + (769212564561659 / 2251799813685248)) = (6809551445577139 / 17592186044416)) ∧
    (binary64 ((6809551445577139 / 17592186044416) + (4755729150000971 / 72057594037927936)) = (6810712512264151 / 17592186044416)) ∧
    (binary64 ((6810712512264151 / 17592186044416) + (7043620810019719 / 9007199254740992)) = (6824469584158721 / 17592186044416)) ∧
    (binary64 ((6824469584158721 / 17592186044416) + (7810971136782083 / 72057594037927936)) = (853297069941739 / 2199023255552)) ∧
    (binary64 ((853297069941739 / 2199023255552) + (7205615291486965 / 144115188075855872)) = (6827256151244299 / 17592186044416)) ∧
    (binary64 ((6827256151244299 / 17592186044416) + (5851004579173109 / 72057594037927936)) = (213396394348723 / 549755813888)) ∧
    (binary64 ((213396394348723 / 549755813888) + (1527548939408817 / 72057594037927936)) = (6829057555911921 / 17592186044416)) ∧
    (binary64 ((6829057555911921 / 17592186044416) + (5879611457247015 / 288230376151711744)) = (6829416418915903 / 17592186044416)) ∧
    (binary64 ((6829416418915903 / 17592186044416) + (6454055406010483 / 2305843009213693952)) = (3414732829725461 / 8796093022208)) ∧
    (binary64 ((3414732829725461 / 8796093022208) + (1815779315021061 / 72057594037927936)) = (6829908964947753 / 17592186044416)) ∧
    (binary64 ((6829908964947753 / 17592186044416) + (2305770953871385 / 72057594037927936)) = (3415235948654769 / 8796093022208)) ∧
    (binary64 ((3415235948654769 / 8796093022208) + (6917240809274029 / 288230376151711744)) = (6830894092183151 / 17592186044416)) := by
  refine ⟨?_, ?_, ?_, ?_, ?_, ?_, ?_, ?_, ?_, ?_, ?_, ?_, ?_, ?_, ?_, ?_, ?_, ?_, ?_, ?_⟩
  · exact binary64_cert _ _ (6) 8670491798633816 (by norm_num) (by norm_num) (by norm_num [abs_lt]) (by norm_num)
  · exact binary64_cert _ _ (6) 8722192159283973 (by norm_num) (by norm_num) (by norm_num [abs_lt]) (by norm_num)
  · exact binary64_cert _ _ (8) 4902925071137708 (by norm_num) (by norm_num) (by norm_num [abs_lt]) (by norm_num)
  · exact binary64_cert _ _ (8) 5257363543755270 (by norm_num) (by norm_num) (by norm_num [abs_lt]) (by norm_num)
  · exact binary64_cert _ _ (8) 5415015352702166 (by norm_num) (by norm_num) (by norm_num [abs_lt]) (by norm_num)
  · exact binary64_cert _ _ (8) 6799369141070284 (by norm_num) (by norm_num) (by norm_num [abs_lt]) (by norm_num)
  · exact binary64_cert _ _ (8) 6799770225320682 (by norm_num) (by norm_num) (by norm_num [abs_lt]) (by norm_num)
  · exact binary64_cert _ _ (8) 6803541972416501 (by norm_num) (by norm_num) (by norm_num [abs_lt]) (by norm_num)
  · exact binary64_cert _ _ (8) 6809551445577139 (by norm_num) (by norm_num) (by norm_num [abs_lt]) (by norm_num)
  · exact binary64_cert _ _ (8) 6810712512264151 (by norm_num) (by norm_num) (by norm_num [abs_lt]) (by norm_num)
  · exact binary64_cert _ _ (8) 6824469584158721 (by norm_num) (by norm_num) (by norm_num [abs_lt]) (by norm_num)
  · exact binary64_cert _ _ (8) 6826376559533912 (by norm_num) (by norm_num) (by norm_num [abs_lt]) (by norm_num)
  · exact binary64_cert _ _ (8) 6827256151244299 (by norm_num) (by norm_num) (by norm_num [abs_lt]) (by norm_num)
  · exact binary64_cert _ _ (8) 6828684619159136 (by norm_num) (by norm_num) (by norm_num [abs_lt]) (by norm_num)
  · exact binary64_cert _ _ (8) 6829057555911921 (by norm_num) (by norm_num) (by norm_num [abs_lt]) (by norm_num)
  · exact binary64_cert _ _ (8) 6829416418915903 (by norm_num) (by norm_num) (by norm_num [abs_lt]) (by norm_num)
  · exact binary64_cert _ _ (8) 6829465659450922 (by norm_num) (by norm_num) (by norm_num [abs_lt]) (by norm_num)
  · exact binary64_cert _ _ (8) 6829908964947753 (by norm_num) (by norm_num) (by norm_num [abs_lt]) (by norm_num)
  · exact binary64_cert _ _ (8) 6830471897309538 (by norm_num) (by norm_num) (by norm_num [abs_lt]) (by norm_num)
  · exact binary64_cert _ _ (8) 6830894092183151 (by norm_num) (by norm_num) (by norm_num [abs_lt]) (by norm_num)

/-- The French monograph score of data with 40 letters and the histogram `tie_hist`, as
computed in binary64 arithmetic. -/
theorem tie_mono_fr (d : FrequencyData) (htl : d.total_letters = 40)
    (hobs : ∀ k, k < 40 → d.observed_freq k = ((tie_hist.getD k 0 : ℕ) : ℚ)) :
    spec_mono_sum_binary64 FRENCH_FREQ d = (6830894092183151 / 17592186044416) := by
  have hp : binary64 ((40 : ℚ) / 100) = (3602879701896397 / 9007199254740992) :=
    binary64_cert _ _ (-2) 7205759403792794 (by norm_num) (by norm_num) (by norm_num [abs_lt]) (by norm_num)
  have hr : List.range 40 = [0, 1, 2, 3, 4, 5, 6, 7, 8, 9, 10, 11, 12, 13, 14, 15, 16, 17, 18, 19,
      20, 21, 22, 23, 24, 25, 26, 27, 28, 29, 30, 31, 32, 33, 34, 35, 36, 37, 38, 39] := by
    decide
  obtain ⟨t0, t1, t2, t3, t4, t5, t6, t7, t8, t9⟩ := tie_terms_fr_0
  obtain ⟨t10, t11, t12, t13, t14, t15, t16, t17, t18, t19⟩ := tie_terms_fr_1
  obtain ⟨t20, t21, t22, t23, t24, t25, t26, t27, t28, t29⟩ := tie_terms_fr_2
  obtain ⟨t30, t31, t32, t33, t34, t35, t36, t37, t38, t39⟩ := tie_terms_fr_3
  obtain ⟨a0, a1, a2, a3, a4, a5, a6, a7, a8, a9, a10, a11, a12, a13, a14, a15, a16, a17, a18, a19⟩ := tie_sums_fr_0
  obtain ⟨a20, a21, a22, a23, a24, a25, a26, a27, a28, a29, a30, a31, a32, a33, a34, a35, a36, a37, a38, a39⟩ := tie_sums_fr_1
  unfold spec_mono_sum_binary64
  rw [hr, htl, hp]
  simp only [List.foldl_cons, List.foldl_nil]
  rw [hobs 0 (by norm_num), hobs 1 (by norm_num), hobs 2 (by norm_num), hobs 3 (by norm_num),
    hobs 4 (by norm_num), hobs 5 (by norm_num), hobs 6 (by norm_num), hobs 7 (by norm_num),
    hobs 8 (by norm_num), hobs 9 (by norm_num), hobs 10 (by norm_num), hobs 11 (by norm_num),
    hobs 12 (by norm_num), hobs 13 (by norm_num), hobs 14 (by norm_num), hobs 15 (by norm_num),
    hobs 16 (by norm_num), hobs 17 (by norm_num), hobs 18 (by norm_num), hobs 19 (by norm_num),
    hobs 20 (by norm_num), hobs 21 (by norm_num), hobs 22 (by norm_num), hobs 23 (by norm_num),
    hobs 24 (by norm_num), hobs 25 (by norm_num), hobs 26 (by norm_num), hobs 27 (by norm_num),
    hobs 28 (by norm_num), hobs 29 (by norm_num), hobs 30 (by norm_num), hobs 31 (by norm_num),
    hobs 32 (by norm_num), hobs 33 (by norm_num), hobs 34 (by norm_num), hobs 35 (by norm_num),
    hobs 36 (by norm_num), hobs 37 (by norm_num), hobs 38 (by norm_num), hobs 39 (by norm_num)]
  simp only [tie_hist, FRENCH_FREQ, List.getD_cons_succ, List.getD_cons_zero, Nat.cast_ofNat,
    Nat.cast_zero, Nat.cast_one]
  rw [t0, t1, t2, t3, t4, t5, t6, t7, t8, t9, t10, t11,
    t12, t13, t14, t15, t16, t17, t18, t19, t20, t21, t22, t23,
    t24, t25, t26, t27, t28, t29, t30, t31, t32, t33, t34, t35,
    t36, t37, t38, t39]
  rw [a0, a1, a2, a3, a4, a5, a6, a7, a8, a9, a10, a11,
    a12, a13, a14, a15, a16, a17, a18, a19, a20, a21, a22, a23,
    a24, a25, a26, a27, a28, a29, a30, a31, a32, a33, a34, a35,
    a36, a37, a38, a39]

theorem tie_final_english :
    binary64 ((6830894092183089 / 17592186044416) + 99999) = (3449281067085427 / 34359738368) :=
  binary64_cert _ _ (16) 6898562134170854 (by norm_num) (by norm_num) (by norm_num [abs_lt]) (by norm_num)

theorem tie_final_french :
    binary64 ((6830894092183151 / 17592186044416) + 99999) = (3449281067085427 / 34359738368) :=
  binary64_cert _ _ (16) 6898562134170854 (by norm_num) (by norm_num) (by norm_num [abs_lt]) (by norm_num)

/-! ## The text `span_tie`: two monograph scores that the sentinel makes equal -/

theorem pair_count_le_of_imp (t u : Nat → Nat → Bool) (h : ∀ p c, t p c = true → u p c = true)
    (p : Nat) (l : List Nat) : pair_count t p l ≤ pair_count u p l := by
  induction l generalizing p with
  | nil => exact le_refl _
  | cons c cs ih =>
    rw [pair_count, pair_count]
    have h1 : (if t p c = true then 1 else 0) ≤ (if u p c = true then 1 else 0) := by
      by_cases ht : t p c = true
      · rw [if_pos ht, if_pos (h p c ht)]
      · rw [if_neg ht]
        exact Nat.zero_le _
    exact Nat.add_le_add h1 (ih c)

/-- What the extractor finds in `span_tie`: 40 letters with the histogram `tie_hist`, no
bigram, and a count of 0 for every bigram key. -/
theorem tie_extract :
    (extract_frequencies_from_buffer asciiLibc span_tie 0).1.total_letters = 40 ∧
    (∀ k, k < 40 → (extract_frequencies_from_buffer asciiLibc span_tie 0).1.observed_freq k =
      ((tie_hist.getD k 0 : ℕ) : ℚ)) ∧
    (extract_frequencies_from_buffer asciiLibc span_tie 0).1.bigram_map.total_bigrams = 0 ∧
    ∀ k, bigram_count (extract_frequencies_from_buffer asciiLibc span_tie 0).1.bigram_map k
      = 0 := by
  have hE : AllocOk asciiLibc := fun _ => rfl
  have hpair : pair_count (both_alpha asciiLibc) 0 span_tie = 0 := by decide
  refine ⟨?_, ?_, ?_, fun k => ?_⟩
  · rw [extract_total_letters_count]
    have : List.countP (counted_letter asciiLibc) span_tie = 40 := by decide
    rw [this]
    norm_num
  · intro k hk
    rw [extract_observed_freq_count]
    have hall : ∀ j, j < 40 → span_tie.countP (bin_hit asciiLibc j) = tie_hist.getD j 0 := by
      decide
    rw [hall k hk]
  · rw [extract_total_bigrams asciiLibc hE, hpair]
    rfl
  · rw [extract_bigram_map,
      (scan_loop_bigram asciiLibc hE _ 0 (scan_init 0) (fun _ => asciiLibc.iswalpha_nul)).2]
    have hle := pair_count_le_of_imp (packs_to asciiLibc k) (both_alpha asciiLibc)
      (fun p c h => by
        unfold packs_to at h
        unfold both_alpha
        simp only [Bool.and_eq_true] at h ⊢
        exact h.1) 0 span_tie
    have h0 : pair_count (packs_to asciiLibc k) 0 span_tie = 0 := by omega
    simp only [scan_init]
    rw [h0]
    simp [FrequencyData.zero, bigram_count, bigram_chain_lookup]

theorem binary64_pos (x : ℚ) (hx : 0 < x) : 0 < binary64 x :=
  lt_of_lt_of_le (by positivity) (binary64_pos_bounds x hx).1

theorem calculate_bigram_chi_binary64_sentinel (map : BigramMap) (h0 : map.total_bigrams = 0)
    (ref_freq : List BigramRef) : calculate_bigram_chi_binary64 map ref_freq = 99999 := by
  unfold calculate_bigram_chi_binary64
  rw [if_pos (by rw [h0]; exact binary64_pos EPS (by unfold EPS; norm_num))]

/-- The scores of `perform_segment_test` on `span_tie` in binary64 arithmetic: the English
monograph score is the lower one, and the two combined scores are the same double. -/
theorem tie_scores :
    (mono_loop_binary64 (extract_frequencies_from_buffer asciiLibc span_tie 0).1).1 =
      6830894092183089 / 17592186044416 ∧
    (mono_loop_binary64 (extract_frequencies_from_buffer asciiLibc span_tie 0).1).2 =
      6830894092183151 / 17592186044416 ∧
    chi1_final_binary64 (extract_frequencies_from_buffer asciiLibc span_tie 0).1 =
      3449281067085427 / 34359738368 ∧
    chi2_final_binary64 (extract_frequencies_from_buffer asciiLibc span_tie 0).1 =
      3449281067085427 / 34359738368 := by
  obtain ⟨htl, hobs, h0, -⟩ := tie_extract
  have m1 := tie_mono_en _ htl hobs
  have m2 := tie_mono_fr _ htl hobs
  rw [← (mono_loop_binary64_eq _).1] at m1
  rw [← (mono_loop_binary64_eq _).2] at m2
  refine ⟨m1, m2, ?_, ?_⟩
  · unfold chi1_final_binary64
    rw [m1, calculate_bigram_chi_binary64_sentinel _ h0]
    exact tie_final_english
  · unfold chi2_final_binary64
    rw [m2, calculate_bigram_chi_binary64_sentinel _ h0]
    exact tie_final_french

theorem tie_verdict_binary64 :
    perform_segment_test_binary64 (extract_frequencies_from_buffer asciiLibc span_tie 0).1 =
      LANG_FRE := by
  obtain ⟨htl, -, -, -⟩ := tie_extract
  obtain ⟨-, -, f1, f2⟩ := tie_scores
  unfold perform_segment_test_binary64
  rw [f1, f2, htl, if_neg (by norm_num), if_neg (lt_irrefl _)]

/-- In exact arithmetic the English monograph sum of `span_tie` is the lower one. -/
theorem tie_mono_exact (d : FrequencyData) (htl : d.total_letters = 40)
    (hobs : ∀ k, k < 40 → d.observed_freq k = ((tie_hist.getD k 0 : ℕ) : ℚ)) :
    spec_mono_sum ENGLISH_FREQ d < spec_mono_sum FRENCH_FREQ d := by
  unfold spec_mono_sum
  simp only [Finset.sum_range_succ, Finset.sum_range_zero]
  rw [htl, hobs 0 (by norm_num), hobs 1 (by norm_num), hobs 2 (by norm_num),
    hobs 3 (by norm_num), hobs 4 (by norm_num), hobs 5 (by norm_num), hobs 6 (by norm_num),
    hobs 7 (by norm_num), hobs 8 (by norm_num), hobs 9 (by norm_num), hobs 10 (by norm_num),
    hobs 11 (by norm_num), hobs 12 (by norm_num), hobs 13 (by norm_num),
    hobs 14 (by norm_num), hobs 15 (by norm_num), hobs 16 (by norm_num),
    hobs 17 (by norm_num), hobs 18 (by norm_num), hobs 19 (by norm_num),
    hobs 20 (by norm_num), hobs 21 (by norm_num), hobs 22 (by norm_num),
    hobs 23 (by norm_num), hobs 24 (by norm_num), hobs 25 (by norm_num),
    hobs 26 (by norm_num), hobs 27 (by norm_num), hobs 28 (by norm_num),
    hobs 29 (by norm_num), hobs 30 (by norm_num), hobs 31 (by norm_num),
    hobs 32 (by norm_num), hobs 33 (by norm_num), hobs 34 (by norm_num),
    hobs 35 (by norm_num), hobs 36 (by norm_num), hobs 37 (by norm_num),
    hobs 38 (by norm_num), hobs 39 (by norm_num)]
  simp only [tie_hist, ENGLISH_FREQ, FRENCH_FREQ, List.getD_cons_succ, List.getD_cons_zero,
    Nat.cast_ofNat, Nat.cast_zero, Nat.cast_one]
  simp only [EPS]
  norm_num

/-- On `span_tie` the two readings of the `double` arithmetic part: with exact rational
sums the English combined score is the lower one and the verdict is English, with binary64
sums the two combined scores are equal and the verdict is French. -/
theorem tie_exact_and_binary64 :
    perform_segment_test (extract_frequencies_from_buffer asciiLibc span_tie 0).1 = LANG_ENG ∧
    perform_segment_test_binary64 (extract_frequencies_from_buffer asciiLibc span_tie 0).1 =
      LANG_FRE := by
  obtain ⟨htl, hobs, h0, hk⟩ := tie_extract
  refine ⟨?_, tie_verdict_binary64⟩
  have hm := tie_mono_exact _ htl hobs
  have hlt : chi1_final (extract_frequencies_from_buffer asciiLibc span_tie 0).1 <
      chi2_final (extract_frequencies_from_buffer asciiLibc span_tie 0).1 := by
    rw [chi1_final_eq, chi2_final_eq]
    unfold spec_combined spec_bigram_score
    rw [h0, if_pos (by norm_num), if_pos (by norm_num)]
    linarith
  unfold perform_segment_test
  rw [htl, if_neg (by norm_num), if_pos hlt]

theorem foldl_binary64_nonneg (f : Nat → ℚ) (hf : ∀ i, 0 ≤ f i) (l : List Nat) (a : ℚ)
    (ha : 0 ≤ a) : 0 ≤ l.foldl (fun chi i => binary64 (chi + f i)) a := by
  induction l generalizing a with
  | nil => exact ha
  | cons i is ih =>
    rw [List.foldl_cons]
    exact ih _ (binary64_nonneg _ (add_nonneg ha (hf i)))

theorem chi_term_binary64_nonneg (observed expected : ℚ) (he : 0 ≤ expected) :
    0 ≤ chi_term_binary64 observed expected := by
  unfold chi_term_binary64
  apply binary64_nonneg
  apply div_nonneg
  · exact binary64_nonneg _ (mul_self_nonneg _)
  · exact binary64_nonneg _ (add_nonneg he (binary64_nonneg _ (by norm_num)))

/-- The monograph scores computed in binary64 arithmetic are not negative. -/
theorem mono_loop_binary64_nonneg (data : FrequencyData) (h : 0 ≤ data.total_letters) :
    0 ≤ (mono_loop_binary64 data).1 ∧ 0 ≤ (mono_loop_binary64 data).2 := by
  have hp : 0 ≤ binary64 (data.total_letters / 100) :=
    binary64_nonneg _ (div_nonneg h (by norm_num))
  have key : ∀ ref : List ℚ, (∀ x ∈ ref, 0 ≤ x) → 0 ≤ spec_mono_sum_binary64 ref data := by
    intro ref href
    unfold spec_mono_sum_binary64
    apply foldl_binary64_nonneg _ _ _ _ (le_refl _)
    intro i
    apply chi_term_binary64_nonneg
    exact binary64_nonneg _ (mul_nonneg (binary64_nonneg _ (getD_nonneg ref href i)) hp)
  rw [(mono_loop_binary64_eq data).1, (mono_loop_binary64_eq data).2]
  exact ⟨key _ english_freq_nonneg, key _ french_freq_nonneg⟩

/-! ## C1 and C13: the decision rule and the sentinel in binary64 arithmetic -/

/-- C1 (amended): for every `FrequencyData` with `total_letters >= 5`,
`perform_segment_test` returns English exactly when the English combined score is strictly
less than the French one and French otherwise (equal scores give French), the scores being
the doubles the code computes, every operation rounded to the nearest binary64 number: each
combined score is the rounded sum of the monograph sum, accumulated bin by bin over the 40
bins, of `(observed - expected)^2 / (expected + 1e-6)` with
`expected = reference_percentage * (total_letters / 100)`, and of the bigram score of that
language, which is 99999 when `total_bigrams < 1e-6` and otherwise 0.20 times the same sum
over its 20 reference bigrams with `expected = (reference_percentage / 100) * total_bigrams`. -/
theorem C1_segment_test_decision (data : FrequencyData) (h5 : 5 ≤ data.total_letters) :
    (perform_segment_test_binary64 data = LANG_ENG ↔
      spec_combined_binary64 ENGLISH_FREQ ENGLISH_BIGRAM_FREQ data <
        spec_combined_binary64 FRENCH_FREQ FRENCH_BIGRAM_FREQ data) ∧
    (perform_segment_test_binary64 data = LANG_FRE ↔
      ¬ spec_combined_binary64 ENGLISH_FREQ ENGLISH_BIGRAM_FREQ data <
        spec_combined_binary64 FRENCH_FREQ FRENCH_BIGRAM_FREQ data) ∧
    chi1_final_binary64 data = spec_combined_binary64 ENGLISH_FREQ ENGLISH_BIGRAM_FREQ data ∧
    chi2_final_binary64 data = spec_combined_binary64 FRENCH_FREQ FRENCH_BIGRAM_FREQ data ∧
    ENGLISH_BIGRAM_FREQ.length = 20 ∧ FRENCH_BIGRAM_FREQ.length = 20 := by
  have hnot : ¬ data.total_letters < 5 := not_lt.mpr h5
  obtain ⟨e1, e2⟩ := chi_final_binary64_eq data
  rw [← e1, ← e2]
  unfold perform_segment_test_binary64 LANG_ENG LANG_FRE LANG_ERROR
  rw [if_neg hnot]
  refine ⟨?_, ?_, rfl, rfl, rfl, rfl⟩
  · split_ifs with h <;> simp [h]
  · split_ifs with h <;> simp [h]

/-- Witness of C1 (amended) on the data extracted from `"a b c d e"`. -/
theorem C1_witness :
    5 ≤ (extract_frequencies_from_buffer asciiLibc span_abcde 0).1.total_letters ∧
    (perform_segment_test_binary64 (extract_frequencies_from_buffer asciiLibc span_abcde 0).1 =
        LANG_ENG ↔
      spec_combined_binary64 ENGLISH_FREQ ENGLISH_BIGRAM_FREQ
          (extract_frequencies_from_buffer asciiLibc span_abcde 0).1 <
        spec_combined_binary64 FRENCH_FREQ FRENCH_BIGRAM_FREQ
          (extract_frequencies_from_buffer asciiLibc span_abcde 0).1) :=
  ⟨le_of_eq five_letters_extract.1.symm,
   (C1_segment_test_decision _ (le_of_eq five_letters_extract.1.symm)).1⟩

/-- C1 as stated fails on `span_tie` (100 characters, 40 letters, no bigram): by the claimed
formula, the monograph sum plus 0.20 times the bigram sum, the English score is strictly
below the French one, and so are the two monograph scores the code computes; but the code's
bigram score is the sentinel 99999 instead of 0.20 times the (zero) bigram sum, the two
combined scores round to the same double, and the code returns French. -/
theorem C1_counterexample :
    5 ≤ (extract_frequencies_from_buffer asciiLibc span_tie 0).1.total_letters ∧
    spec_combined_unguarded ENGLISH_FREQ ENGLISH_BIGRAM_FREQ
        (extract_frequencies_from_buffer asciiLibc span_tie 0).1 <
      spec_combined_unguarded FRENCH_FREQ FRENCH_BIGRAM_FREQ
        (extract_frequencies_from_buffer asciiLibc span_tie 0).1 ∧
    (mono_loop_binary64 (extract_frequencies_from_buffer asciiLibc span_tie 0).1).1 <
      (mono_loop_binary64 (extract_frequencies_from_buffer asciiLibc span_tie 0).1).2 ∧
    (20 / 100) * spec_bigram_sum ENGLISH_BIGRAM_FREQ
        (extract_frequencies_from_buffer asciiLibc span_tie 0).1 = 0 ∧
    calculate_bigram_chi_binary64
        (extract_frequencies_from_buffer asciiLibc span_tie 0).1.bigram_map
        ENGLISH_BIGRAM_FREQ = 99999 ∧
    chi1_final_binary64 (extract_frequencies_from_buffer asciiLibc span_tie 0).1 =
      chi2_final_binary64 (extract_frequencies_from_buffer asciiLibc span_tie 0).1 ∧
    perform_segment_test_binary64 (extract_frequencies_from_buffer asciiLibc span_tie 0).1 =
      LANG_FRE := by
  obtain ⟨htl, hobs, h0, hk⟩ := tie_extract
  obtain ⟨m1, m2, f1, f2⟩ := tie_scores
  have hsum : ∀ refs : List BigramRef,
      spec_bigram_sum refs (extract_frequencies_from_buffer asciiLibc span_tie 0).1 = 0 := by
    intro refs
    unfold spec_bigram_sum
    simp only [h0, hk]
    induction refs with
    | nil => rfl
    | cons r rs ih =>
      rw [List.map_cons, List.sum_cons, ih]
      norm_num
  refine ⟨by rw [htl]; norm_num, ?_, ?_, by rw [hsum]; norm_num,
    calculate_bigram_chi_binary64_sentinel _ h0 _, by rw [f1, f2], tie_verdict_binary64⟩
  · unfold spec_combined_unguarded
    rw [hsum, hsum]
    have := tie_mono_exact _ htl hobs
    linarith
  · rw [m1, m2]
    norm_num

/-- C13 (amended): for every bigram map with `total_bigrams = 0`, `calculate_bigram_chi`
returns exactly 99999 whatever the reference table (in particular for the English and the
French one) and performs no division; for data holding such a map the result of
`perform_segment_test` is a function of `total_letters` and the two monograph scores:
English exactly when `chi1_mono + 99999 < chi2_mono + 99999` as rounded double sums. So
English is returned only if the English monograph score is strictly lower, French is
returned whenever it is not lower, and English is returned whenever it is lower by at least
`2^-35` (French monograph score at most 31072). -/
theorem C13_sentinel_without_bigrams (map : BigramMap) (h0 : map.total_bigrams = 0) :
    (∀ ref_freq : List BigramRef, calculate_bigram_chi_binary64 map ref_freq = 99999) ∧
    calculate_bigram_chi_binary64 map ENGLISH_BIGRAM_FREQ = 99999 ∧
    calculate_bigram_chi_binary64 map FRENCH_BIGRAM_FREQ = 99999 ∧
    (∀ ref_freq : List BigramRef, calculate_bigram_chi map ref_freq = 99999) ∧
    ∀ data : FrequencyData, data.bigram_map = map →
      perform_segment_test_binary64 data =
        (if data.total_letters < 5 then LANG_ERROR
         else if binary64 ((mono_loop_binary64 data).1 + 99999) <
             binary64 ((mono_loop_binary64 data).2 + 99999) then LANG_ENG
         else LANG_FRE) ∧
      (perform_segment_test_binary64 data = LANG_ENG →
        (mono_loop_binary64 data).1 < (mono_loop_binary64 data).2) ∧
      (5 ≤ data.total_letters → (mono_loop_binary64 data).2 ≤ (mono_loop_binary64 data).1 →
        perform_segment_test_binary64 data = LANG_FRE) ∧
      (5 ≤ data.total_letters → (mono_loop_binary64 data).2 ≤ 31072 →
        (mono_loop_binary64 data).1 + 1 / 2 ^ 35 ≤ (mono_loop_binary64 data).2 →
        perform_segment_test_binary64 data = LANG_ENG) := by
  have hall := calculate_bigram_chi_binary64_sentinel map h0
  have hex : ∀ ref_freq : List BigramRef, calculate_bigram_chi map ref_freq = 99999 := by
    intro ref_freq
    unfold calculate_bigram_chi
    rw [if_pos (by rw [h0]; unfold EPS; norm_num)]
  refine ⟨hall, hall _, hall _, hex, ?_⟩
  intro data hd
  have hform : perform_segment_test_binary64 data =
      (if data.total_letters < 5 then LANG_ERROR
       else if binary64 ((mono_loop_binary64 data).1 + 99999) <
           binary64 ((mono_loop_binary64 data).2 + 99999) then LANG_ENG
       else LANG_FRE) := by
    unfold perform_segment_test_binary64 chi1_final_binary64 chi2_final_binary64
    rw [hd, hall, hall]
  refine ⟨hform, ?_, ?_, ?_⟩
  · intro h
    rw [hform] at h
    split_ifs at h with ha hb
    · exact absurd h (by decide)
    · have := lt_of_binary64_lt _ _ hb
      linarith
    · exact absurd h (by decide)
  · intro h5 hle
    rw [hform, if_neg (not_lt.mpr h5),
      if_neg (not_lt.mpr (binary64_mono _ _ (by linarith)))]
  · intro h5 hub hgap
    have hnn := (mono_loop_binary64_nonneg data (by linarith)).1
    have hx : 0 < (mono_loop_binary64 data).1 + 99999 := by linarith
    have hy : 0 < (mono_loop_binary64 data).2 + 99999 := by linarith
    have ex := binary64_error _ hx
    have ey := binary64_error _ hy
    rw [abs_le] at ex ey
    have hbx : ((mono_loop_binary64 data).1 + 99999) / 2 ^ 53 < 1 / 2 ^ 36 := by
      rw [div_lt_iff₀ (by positivity)]
      have h35 : (0 : ℚ) < 1 / 2 ^ 35 := by positivity
      have : (mono_loop_binary64 data).1 + 99999 < 131072 := by linarith
      norm_num
      linarith
    have hby : ((mono_loop_binary64 data).2 + 99999) / 2 ^ 53 < 1 / 2 ^ 36 := by
      rw [div_lt_iff₀ (by positivity)]
      have : (mono_loop_binary64 data).2 + 99999 < 131072 := by linarith
      norm_num
      linarith
    have h36 : (1 : ℚ) / 2 ^ 35 = 1 / 2 ^ 36 + 1 / 2 ^ 36 := by norm_num
    have hlt : binary64 ((mono_loop_binary64 data).1 + 99999) <
        binary64 ((mono_loop_binary64 data).2 + 99999) := by linarith
    rw [hform, if_neg (not_lt.mpr h5), if_pos hlt]

/-- Witness of C13 (amended): the empty bigram map. -/
theorem C13_witness :
    FrequencyData.zero.bigram_map.total_bigrams = 0 ∧
    calculate_bigram_chi_binary64 FrequencyData.zero.bigram_map ENGLISH_BIGRAM_FREQ = 99999 ∧
    calculate_bigram_chi_binary64 FrequencyData.zero.bigram_map FRENCH_BIGRAM_FREQ = 99999 :=
  ⟨rfl, (C13_sentinel_without_bigrams FrequencyData.zero.bigram_map rfl).2.1,
   (C13_sentinel_without_bigrams FrequencyData.zero.bigram_map rfl).2.2.1⟩

/-- C13 as stated fails on `span_tie` (100 characters, 40 letters, no bigram): both bigram
scores are 99999 and the English monograph score is strictly below the French one, yet the
two combined scores are the same double and the verdict is French. -/
theorem C13_counterexample :
    span_tie.length = 100 ∧
    (extract_frequencies_from_buffer asciiLibc span_tie 0).1.bigram_map.total_bigrams = 0 ∧
    (extract_frequencies_from_buffer asciiLibc span_tie 0).1.total_letters = 40 ∧
    calculate_bigram_chi_binary64
        (extract_frequencies_from_buffer asciiLibc span_tie 0).1.bigram_map
        ENGLISH_BIGRAM_FREQ = 99999 ∧
    calculate_bigram_chi_binary64
        (extract_frequencies_from_buffer asciiLibc span_tie 0).1.bigram_map
        FRENCH_BIGRAM_FREQ = 99999 ∧
    (mono_loop_binary64 (extract_frequencies_from_buffer asciiLibc span_tie 0).1).1 <
      (mono_loop_binary64 (extract_frequencies_from_buffer asciiLibc span_tie 0).1).2 ∧
    (mono_loop_binary64 (extract_frequencies_from_buffer asciiLibc span_tie 0).1).2 -
      (mono_loop_binary64 (extract_frequencies_from_buffer asciiLibc span_tie 0).1).1 =
        31 / 2 ^ 43 ∧
    perform_segment_test_binary64 (extract_frequencies_from_buffer asciiLibc span_tie 0).1 =
      LANG_FRE := by
  obtain ⟨htl, -, h0, -⟩ := tie_extract
  obtain ⟨m1, m2, -, -⟩ := tie_scores
  refine ⟨by decide, h0, htl, calculate_bigram_chi_binary64_sentinel _ h0 _,
    calculate_bigram_chi_binary64_sentinel _ h0 _, ?_, ?_, tie_verdict_binary64⟩
  · rw [m1, m2]
    norm_num
  · rw [m1, m2]
    norm_num

end TextAnalyser
